import Mathlib

/-!
# HyperDbg: protected VMCS resources, execution trap and script-engine tokens

A shallow embedding of the "protected hypervisor resources" arbiter of HyperDbg
(`hprdbghv/code/vmm/vmx/ProtectedHv.c`), of the process watch-list, the EPTP state machine
and the EPT-violation handler of the execution trap (`hyperhv/code/hooks/ept-hook/ExecTrap.c`),
and of the character tests, numerals, tokens and token lists of the script engine
(`script-engine/code/common.c`), together with theorems about them.

Conventions of the embedding:

* C integers are natural numbers.  A store to a `UINT32` / `ULONG` variable reduces the
  stored value modulo `2 ^ 32` (`toUINT32`); the complement `~x` that is combined with a
  32-bit operand is the 32-bit complement (`not32`).
* `VOID` functions that touch the VMCS are functions `HvState → Unit × HvState`; an early
  `return` gives back the state it was called with.
* The state records, next to the value of each VMCS field, the list of `vmwrite`s performed,
  so that "the request was ignored" (no write) can be told apart from "the request wrote the
  value that was already there".
* Constants whose declaring headers do not accompany `ProtectedHv.c` are the fields of
  `HvConstants`; queries answered by the event subsystem are the fields of `DebuggerState`.
* The constants of `ExecTrap.c` are the fields of `ExecTrapConstants`.  Its array
  `InterceptionProcessIds` is a function from index to entry.  Routines that `ExecTrap.c`
  calls and that are defined in other files are either modelled (the sorted-array helpers) or
  recorded as calls in the order in which they are made.
* In `common.c` a `char` is an integer, a block of memory is the list of its elements, an access
  outside a block gives `none`, and the counters of tokens and token lists are reduced modulo
  `2 ^ 32`; the sections on `common.c` state these conventions in full.
-/

namespace HyperDbg

/-! ## Machine integers -/

/-- Value kept by a store to a `UINT32` (or `ULONG`) variable. -/
def toUINT32 (n : Nat) : Nat := n % 2 ^ 32

/-- The C expression `~x` when it is combined with a 32-bit unsigned operand. -/
def not32 (x : Nat) : Nat := (2 ^ 32 - 1) ^^^ (x % 2 ^ 32)

/-! ## Constants declared in headers that do not accompany `ProtectedHv.c` -/

/-- Enumerators and macros that `ProtectedHv.c` uses and that are declared in headers which
do not accompany the file.  They are kept abstract: every definition below takes
them as a parameter and every theorem states the facts about them that it relies on. -/
structure HvConstants where
  PASSING_OVER_NONE : Nat
  PASSING_OVER_UD_EXCEPTIONS_FOR_SYSCALL_SYSRET_HOOK : Nat
  PASSING_OVER_EXCEPTION_EVENTS : Nat
  PASSING_OVER_INTERRUPT_EVENTS : Nat
  PASSING_OVER_TSC_EVENTS : Nat
  PASSING_OVER_MOV_TO_HW_DEBUG_REGS_EVENTS : Nat
  PASSING_OVER_MOV_TO_CONTROL_REGS_EVENTS : Nat
  EXCEPTION_VECTOR_DEBUG_BREAKPOINT : Nat
  EXCEPTION_VECTOR_BREAKPOINT : Nat
  EXCEPTION_VECTOR_UNDEFINED_OPCODE : Nat
  EXCEPTION_VECTOR_PAGE_FAULT : Nat
  DEBUGGER_EVENT_EXCEPTIONS_ALL_FIRST_32_ENTRIES : Nat
  PIN_BASED_VM_EXECUTION_CONTROLS_EXTERNAL_INTERRUPT : Nat
  VM_EXIT_ACK_INTR_ON_EXIT : Nat
  CPU_BASED_RDTSC_EXITING : Nat
  CPU_BASED_MOV_DR_EXITING : Nat
  CPU_BASED_CR3_LOAD_EXITING : Nat
  VMX_EXIT_QUALIFICATION_REGISTER_CR0 : Nat
  VMX_EXIT_QUALIFICATION_REGISTER_CR4 : Nat

/-- One concrete choice of the constants, used to run the definitions on concrete inputs:
the exception vectors and VMX control bits are the architectural ones (#DB = 1, #BP = 3,
#UD = 6, #PF = 14; external-interrupt exiting = bit 0 of the pin-based controls,
acknowledge-interrupt-on-exit = bit 15 of the VM-exit controls, RDTSC / CR3-load / MOV-DR
exiting = bits 12 / 15 / 23 of the processor-based controls), the pass-over enumerators are
numbered consecutively from `PASSING_OVER_NONE = 0`. -/
def sdkConstants : HvConstants where
  PASSING_OVER_NONE := 0
  PASSING_OVER_UD_EXCEPTIONS_FOR_SYSCALL_SYSRET_HOOK := 1
  PASSING_OVER_EXCEPTION_EVENTS := 2
  PASSING_OVER_INTERRUPT_EVENTS := 3
  PASSING_OVER_TSC_EVENTS := 4
  PASSING_OVER_MOV_TO_HW_DEBUG_REGS_EVENTS := 5
  PASSING_OVER_MOV_TO_CONTROL_REGS_EVENTS := 6
  EXCEPTION_VECTOR_DEBUG_BREAKPOINT := 1
  EXCEPTION_VECTOR_BREAKPOINT := 3
  EXCEPTION_VECTOR_UNDEFINED_OPCODE := 6
  EXCEPTION_VECTOR_PAGE_FAULT := 14
  DEBUGGER_EVENT_EXCEPTIONS_ALL_FIRST_32_ENTRIES := 0xffffffff
  PIN_BASED_VM_EXECUTION_CONTROLS_EXTERNAL_INTERRUPT := 0x1
  VM_EXIT_ACK_INTR_ON_EXIT := 0x8000
  CPU_BASED_RDTSC_EXITING := 0x1000
  CPU_BASED_MOV_DR_EXITING := 0x800000
  CPU_BASED_CR3_LOAD_EXITING := 0x8000
  VMX_EXIT_QUALIFICATION_REGISTER_CR0 := 0
  VMX_EXIT_QUALIFICATION_REGISTER_CR4 := 4

/-! ## The event subsystem as seen by the arbiter -/

/-- The event lists of `g_Events` whose per-core length `ProtectedHv.c` asks for. -/
inductive EventListHead where
  | SyscallHooksEferSyscallEventsHead
  | SyscallHooksEferSysretEventsHead
  | ExternalInterruptOccurredEventsHead
  | TscInstructionExecutionEventsHead
  | DebugRegistersAccessedEventsHead
  | ControlRegisterModifiedEventsHead
  deriving DecidableEq, Repr

/-- The thread/process tracing features that `ProtectedHv.c` queries. -/
inductive DEBUGGER_THREAD_PROCESS_TRACING where
  | DEBUGGER_THREAD_PROCESS_TRACING_INTERCEPT_CLOCK_INTERRUPTS_FOR_THREAD_CHANGE
  | DEBUGGER_THREAD_PROCESS_TRACING_INTERCEPT_CLOCK_INTERRUPTS_FOR_PROCESS_CHANGE
  | DEBUGGER_THREAD_PROCESS_TRACING_INTERCEPT_CLOCK_DEBUG_REGISTER_INTERCEPTION
  | DEBUGGER_THREAD_PROCESS_TRACING_INTERCEPT_CLOCK_WAITING_FOR_MOV_CR3_VM_EXITS
  deriving DecidableEq, Repr

/-- Answers of the event subsystem and values of the global flags that the arbiter reads.
The arbiter never changes them.  The first argument of the per-core queries is the core
identifier. -/
structure DebuggerState where
  /-- `DebuggerExceptionEventBitmapMask(CoreId)`, a `UINT32`. -/
  DebuggerExceptionEventBitmapMask : Nat → Nat
  /-- `DebuggerEventListCountByCore(&g_Events->Head, CoreId)`. -/
  DebuggerEventListCountByCore : EventListHead → Nat → Nat
  /-- `DebuggerQueryDebuggerStatus()`. -/
  DebuggerQueryDebuggerStatus : Bool
  /-- `KdQueryDebuggerQueryThreadOrProcessTracingDetailsByCoreId(CoreId, TracingType)`. -/
  KdQueryDebuggerQueryThreadOrProcessTracingDetailsByCoreId :
    Nat → DEBUGGER_THREAD_PROCESS_TRACING → Bool
  /-- The global `g_CheckPageFaultsAndMov2Cr3VmexitsWithUserDebugger`. -/
  g_CheckPageFaultsAndMov2Cr3VmexitsWithUserDebugger : Bool
  /-- `EptHookGetCountOfEpthooks(IsEptHook2)`. -/
  EptHookGetCountOfEpthooks : Bool → Nat
  /-- The global `g_TransparentMode`. -/
  g_TransparentMode : Bool

/-- The fields of `VIRTUAL_MACHINE_STATE` that the embedded routines use: the arbiter reads
`CoreId`; the exec-trap routines read `EptPointer` (the `AsUInt` view of the core's EPT pointer)
and write `NotNormalEptp` and `MbecEnabled`.  `VCpu->EptPageTable` is a pointer, so the table it
points to is kept beside the core state, not inside it. -/
structure VIRTUAL_MACHINE_STATE where
  CoreId : Nat
  EptPointer : Nat := 0
  NotNormalEptp : Bool := false
  MbecEnabled : Bool := false
  deriving DecidableEq, Repr

/-! ## The VMCS of the current core -/

/-- The VMCS fields that `ProtectedHv.c` and `ExecTrap.c` read or write. -/
inductive VmcsField where
  | VMCS_CTRL_EXCEPTION_BITMAP
  | VMCS_CTRL_PIN_BASED_VM_EXECUTION_CONTROLS
  | VMCS_CTRL_PRIMARY_VMEXIT_CONTROLS
  | VMCS_CTRL_PROCESSOR_BASED_VM_EXECUTION_CONTROLS
  | VMCS_CTRL_CR0_GUEST_HOST_MASK
  | VMCS_CTRL_CR0_READ_SHADOW
  | VMCS_CTRL_CR4_GUEST_HOST_MASK
  | VMCS_CTRL_CR4_READ_SHADOW
  | VMCS_CTRL_EPT_POINTER
  deriving DecidableEq, Repr

/-- Hardware state of the calling core: the VMCS fields the arbiter touches, the control
registers and the sequence of `vmwrite`s executed so far (oldest first). -/
structure HvState where
  ExceptionBitmap : Nat := 0
  PinBasedVmExecutionControls : Nat := 0
  PrimaryVmexitControls : Nat := 0
  ProcessorBasedVmExecutionControls : Nat := 0
  Cr0GuestHostMask : Nat := 0
  Cr0ReadShadow : Nat := 0
  Cr4GuestHostMask : Nat := 0
  Cr4ReadShadow : Nat := 0
  EptPointer : Nat := 0
  Cr0 : Nat := 0
  Cr4 : Nat := 0
  VmwriteLog : List (VmcsField × Nat) := []
  deriving DecidableEq, Repr

/-- A `VOID` routine acting on the hardware state. -/
abbrev VmxOp := HvState → Unit × HvState

/-- The intrinsic `__vmx_vmread(Field, &Value)`. -/
def __vmx_vmread (Field : VmcsField) (s : HvState) : Nat :=
  match Field with
  | .VMCS_CTRL_EXCEPTION_BITMAP => s.ExceptionBitmap
  | .VMCS_CTRL_PIN_BASED_VM_EXECUTION_CONTROLS => s.PinBasedVmExecutionControls
  | .VMCS_CTRL_PRIMARY_VMEXIT_CONTROLS => s.PrimaryVmexitControls
  | .VMCS_CTRL_PROCESSOR_BASED_VM_EXECUTION_CONTROLS => s.ProcessorBasedVmExecutionControls
  | .VMCS_CTRL_CR0_GUEST_HOST_MASK => s.Cr0GuestHostMask
  | .VMCS_CTRL_CR0_READ_SHADOW => s.Cr0ReadShadow
  | .VMCS_CTRL_CR4_GUEST_HOST_MASK => s.Cr4GuestHostMask
  | .VMCS_CTRL_CR4_READ_SHADOW => s.Cr4ReadShadow
  | .VMCS_CTRL_EPT_POINTER => s.EptPointer

/-- The intrinsic `__vmx_vmwrite(Field, Value)`: stores the value and is recorded in the log. -/
def __vmx_vmwrite (Field : VmcsField) (Value : Nat) (s : HvState) : HvState :=
  let s := { s with VmwriteLog := s.VmwriteLog ++ [(Field, Value)] }
  match Field with
  | .VMCS_CTRL_EXCEPTION_BITMAP => { s with ExceptionBitmap := Value }
  | .VMCS_CTRL_PIN_BASED_VM_EXECUTION_CONTROLS => { s with PinBasedVmExecutionControls := Value }
  | .VMCS_CTRL_PRIMARY_VMEXIT_CONTROLS => { s with PrimaryVmexitControls := Value }
  | .VMCS_CTRL_PROCESSOR_BASED_VM_EXECUTION_CONTROLS =>
      { s with ProcessorBasedVmExecutionControls := Value }
  | .VMCS_CTRL_CR0_GUEST_HOST_MASK => { s with Cr0GuestHostMask := Value }
  | .VMCS_CTRL_CR0_READ_SHADOW => { s with Cr0ReadShadow := Value }
  | .VMCS_CTRL_CR4_GUEST_HOST_MASK => { s with Cr4GuestHostMask := Value }
  | .VMCS_CTRL_CR4_READ_SHADOW => { s with Cr4ReadShadow := Value }
  | .VMCS_CTRL_EPT_POINTER => { s with EptPointer := Value }

/-- The intrinsic `__readcr0()`. -/
def __readcr0 (s : HvState) : Nat := s.Cr0

/-- Modelled from the spec: `HvReadExceptionBitmap` (defined in a file that does not accompany
`ProtectedHv.c`) returns, as a `UINT32`, the exception bitmap currently held by the VMCS. -/
def HvReadExceptionBitmap (s : HvState) : Nat :=
  toUINT32 (__vmx_vmread .VMCS_CTRL_EXCEPTION_BITMAP s)

/-- Modelled from the spec: `HvWriteExceptionBitmap` (defined in a file that does not accompany
`ProtectedHv.c`) takes a `UINT32` and writes it to the VMCS exception-bitmap field. -/
def HvWriteExceptionBitmap (BitmapMask : Nat) : VmxOp := fun s =>
  ((), __vmx_vmwrite .VMCS_CTRL_EXCEPTION_BITMAP (toUINT32 BitmapMask) s)

/-! ## `ProtectedHv.c` -/

/-- `ProtectedHvChangeExceptionBitmapWithIntegrityCheck(VCpu, CurrentMask, PassOver)`. -/
def ProtectedHvChangeExceptionBitmapWithIntegrityCheck (K : HvConstants) (D : DebuggerState)
    (VCpu : VIRTUAL_MACHINE_STATE) (CurrentMask : Nat) (PassOver : Nat) : VmxOp := fun s =>
  -- if (!(PassOver & PASSING_OVER_EXCEPTION_EVENTS))
  let CurrentMask :=
    if PassOver &&& K.PASSING_OVER_EXCEPTION_EVENTS = 0 then
      toUINT32 (CurrentMask ||| D.DebuggerExceptionEventBitmapMask VCpu.CoreId)
    else CurrentMask
  -- if (!(PassOver & PASSING_OVER_UD_EXCEPTIONS_FOR_SYSCALL_SYSRET_HOOK))
  let CurrentMask :=
    if PassOver &&& K.PASSING_OVER_UD_EXCEPTIONS_FOR_SYSCALL_SYSRET_HOOK = 0 then
      if D.DebuggerEventListCountByCore .SyscallHooksEferSyscallEventsHead VCpu.CoreId ≠ 0 ∨
          D.DebuggerEventListCountByCore .SyscallHooksEferSysretEventsHead VCpu.CoreId ≠ 0 then
        toUINT32 (CurrentMask ||| 1 <<< K.EXCEPTION_VECTOR_UNDEFINED_OPCODE)
      else CurrentMask
    else CurrentMask
  -- if (DebuggerQueryDebuggerStatus())
  let CurrentMask :=
    if D.DebuggerQueryDebuggerStatus = true then
      let CurrentMask := toUINT32 (CurrentMask ||| 1 <<< K.EXCEPTION_VECTOR_BREAKPOINT)
      toUINT32 (CurrentMask ||| 1 <<< K.EXCEPTION_VECTOR_DEBUG_BREAKPOINT)
    else CurrentMask
  -- threads tracer
  let CurrentMask :=
    if D.KdQueryDebuggerQueryThreadOrProcessTracingDetailsByCoreId VCpu.CoreId
        .DEBUGGER_THREAD_PROCESS_TRACING_INTERCEPT_CLOCK_DEBUG_REGISTER_INTERCEPTION = true then
      toUINT32 (CurrentMask ||| 1 <<< K.EXCEPTION_VECTOR_DEBUG_BREAKPOINT)
    else CurrentMask
  -- user debugger
  let CurrentMask :=
    if D.g_CheckPageFaultsAndMov2Cr3VmexitsWithUserDebugger = true then
      toUINT32 (CurrentMask ||| 1 <<< K.EXCEPTION_VECTOR_PAGE_FAULT)
    else CurrentMask
  -- EPT hooks
  let CurrentMask :=
    if D.EptHookGetCountOfEpthooks false ≠ 0 then
      toUINT32 (CurrentMask ||| 1 <<< K.EXCEPTION_VECTOR_BREAKPOINT)
    else CurrentMask
  HvWriteExceptionBitmap CurrentMask s

/-- `ProtectedHvSetExceptionBitmap(VCpu, IdtIndex)`. -/
def ProtectedHvSetExceptionBitmap (K : HvConstants) (D : DebuggerState)
    (VCpu : VIRTUAL_MACHINE_STATE) (IdtIndex : Nat) : VmxOp := fun s =>
  let ExceptionBitmap := HvReadExceptionBitmap s
  let ExceptionBitmap :=
    if IdtIndex = K.DEBUGGER_EVENT_EXCEPTIONS_ALL_FIRST_32_ENTRIES then 0xffffffff
    else toUINT32 (ExceptionBitmap ||| 1 <<< IdtIndex)
  ProtectedHvChangeExceptionBitmapWithIntegrityCheck K D VCpu ExceptionBitmap
    K.PASSING_OVER_NONE s

/-- `ProtectedHvUnsetExceptionBitmap(VCpu, IdtIndex)`. -/
def ProtectedHvUnsetExceptionBitmap (K : HvConstants) (D : DebuggerState)
    (VCpu : VIRTUAL_MACHINE_STATE) (IdtIndex : Nat) : VmxOp := fun s =>
  let ExceptionBitmap := HvReadExceptionBitmap s
  let ExceptionBitmap :=
    if IdtIndex = K.DEBUGGER_EVENT_EXCEPTIONS_ALL_FIRST_32_ENTRIES then 0x0
    else toUINT32 (ExceptionBitmap &&& not32 (1 <<< IdtIndex))
  ProtectedHvChangeExceptionBitmapWithIntegrityCheck K D VCpu ExceptionBitmap
    K.PASSING_OVER_NONE s

/-- `ProtectedHvResetExceptionBitmapToClearEvents(VCpu)`. -/
def ProtectedHvResetExceptionBitmapToClearEvents (K : HvConstants) (D : DebuggerState)
    (VCpu : VIRTUAL_MACHINE_STATE) : VmxOp := fun s =>
  let ExceptionBitmap := 0
  ProtectedHvChangeExceptionBitmapWithIntegrityCheck K D VCpu ExceptionBitmap
    K.PASSING_OVER_EXCEPTION_EVENTS s

/-- `ProtectedHvRemoveUndefinedInstructionForDisablingSyscallSysretCommands(VCpu)`. -/
def ProtectedHvRemoveUndefinedInstructionForDisablingSyscallSysretCommands (K : HvConstants)
    (D : DebuggerState) (VCpu : VIRTUAL_MACHINE_STATE) : VmxOp := fun s =>
  let ExceptionBitmap := HvReadExceptionBitmap s
  let ExceptionBitmap :=
    toUINT32 (ExceptionBitmap &&& not32 (1 <<< K.EXCEPTION_VECTOR_UNDEFINED_OPCODE))
  ProtectedHvChangeExceptionBitmapWithIntegrityCheck K D VCpu ExceptionBitmap
    K.PASSING_OVER_UD_EXCEPTIONS_FOR_SYSCALL_SYSRET_HOOK s

/-- `ProtectedHvApplySetExternalInterruptExiting(VCpu, Set, PassOver)`. -/
def ProtectedHvApplySetExternalInterruptExiting (K : HvConstants) (D : DebuggerState)
    (VCpu : VIRTUAL_MACHINE_STATE) (Set : Bool) (PassOver : Nat) : VmxOp := fun s =>
  -- !interrupt events of this core, unless passed over: return
  if Set = false ∧ PassOver &&& K.PASSING_OVER_INTERRUPT_EVENTS = 0 ∧
      D.DebuggerEventListCountByCore .ExternalInterruptOccurredEventsHead VCpu.CoreId ≠ 0 then
    ((), s)
  -- thread or process change interception: return
  else if Set = false ∧
      (D.KdQueryDebuggerQueryThreadOrProcessTracingDetailsByCoreId VCpu.CoreId
          .DEBUGGER_THREAD_PROCESS_TRACING_INTERCEPT_CLOCK_INTERRUPTS_FOR_THREAD_CHANGE = true ∨
        D.KdQueryDebuggerQueryThreadOrProcessTracingDetailsByCoreId VCpu.CoreId
          .DEBUGGER_THREAD_PROCESS_TRACING_INTERCEPT_CLOCK_INTERRUPTS_FOR_PROCESS_CHANGE = true) then
    ((), s)
  else
    let PinBasedControls := toUINT32 (__vmx_vmread .VMCS_CTRL_PIN_BASED_VM_EXECUTION_CONTROLS s)
    let VmExitControls := toUINT32 (__vmx_vmread .VMCS_CTRL_PRIMARY_VMEXIT_CONTROLS s)
    let PinBasedControls :=
      if Set = true then
        toUINT32 (PinBasedControls ||| K.PIN_BASED_VM_EXECUTION_CONTROLS_EXTERNAL_INTERRUPT)
      else
        toUINT32 (PinBasedControls &&& not32 K.PIN_BASED_VM_EXECUTION_CONTROLS_EXTERNAL_INTERRUPT)
    let VmExitControls :=
      if Set = true then toUINT32 (VmExitControls ||| K.VM_EXIT_ACK_INTR_ON_EXIT)
      else toUINT32 (VmExitControls &&& not32 K.VM_EXIT_ACK_INTR_ON_EXIT)
    let s := __vmx_vmwrite .VMCS_CTRL_PIN_BASED_VM_EXECUTION_CONTROLS PinBasedControls s
    let s := __vmx_vmwrite .VMCS_CTRL_PRIMARY_VMEXIT_CONTROLS VmExitControls s
    ((), s)

/-- `ProtectedHvSetExternalInterruptExiting(VCpu, Set)`. -/
def ProtectedHvSetExternalInterruptExiting (K : HvConstants) (D : DebuggerState)
    (VCpu : VIRTUAL_MACHINE_STATE) (Set : Bool) : VmxOp :=
  ProtectedHvApplySetExternalInterruptExiting K D VCpu Set K.PASSING_OVER_NONE

/-- `ProtectedHvExternalInterruptExitingForDisablingInterruptCommands(VCpu)`. -/
def ProtectedHvExternalInterruptExitingForDisablingInterruptCommands (K : HvConstants)
    (D : DebuggerState) (VCpu : VIRTUAL_MACHINE_STATE) : VmxOp :=
  ProtectedHvApplySetExternalInterruptExiting K D VCpu false K.PASSING_OVER_INTERRUPT_EVENTS

/-- `ProtectedHvSetTscVmexit(VCpu, Set, PassOver)`. -/
def ProtectedHvSetTscVmexit (K : HvConstants) (D : DebuggerState)
    (VCpu : VIRTUAL_MACHINE_STATE) (Set : Bool) (PassOver : Nat) : VmxOp := fun s =>
  -- !tsc events of this core, unless passed over: return
  if Set = false ∧ PassOver &&& K.PASSING_OVER_TSC_EVENTS = 0 ∧
      D.DebuggerEventListCountByCore .TscInstructionExecutionEventsHead VCpu.CoreId ≠ 0 then
    ((), s)
  -- transparent mode: return
  else if Set = false ∧ D.g_TransparentMode = true then
    ((), s)
  else
    let CpuBasedVmExecControls :=
      toUINT32 (__vmx_vmread .VMCS_CTRL_PROCESSOR_BASED_VM_EXECUTION_CONTROLS s)
    let CpuBasedVmExecControls :=
      if Set = true then toUINT32 (CpuBasedVmExecControls ||| K.CPU_BASED_RDTSC_EXITING)
      else toUINT32 (CpuBasedVmExecControls &&& not32 K.CPU_BASED_RDTSC_EXITING)
    ((), __vmx_vmwrite .VMCS_CTRL_PROCESSOR_BASED_VM_EXECUTION_CONTROLS CpuBasedVmExecControls s)

/-- `ProtectedHvSetMovDebugRegsVmexit(VCpu, Set, PassOver)`. -/
def ProtectedHvSetMovDebugRegsVmexit (K : HvConstants) (D : DebuggerState)
    (VCpu : VIRTUAL_MACHINE_STATE) (Set : Bool) (PassOver : Nat) : VmxOp := fun s =>
  -- !dr events of this core, unless passed over: return
  if Set = false ∧ PassOver &&& K.PASSING_OVER_MOV_TO_HW_DEBUG_REGS_EVENTS = 0 ∧
      D.DebuggerEventListCountByCore .DebugRegistersAccessedEventsHead VCpu.CoreId ≠ 0 then
    ((), s)
  -- thread switching by debug-register interception: return
  else if Set = false ∧
      D.KdQueryDebuggerQueryThreadOrProcessTracingDetailsByCoreId VCpu.CoreId
        .DEBUGGER_THREAD_PROCESS_TRACING_INTERCEPT_CLOCK_DEBUG_REGISTER_INTERCEPTION = true then
    ((), s)
  else
    let CpuBasedVmExecControls :=
      toUINT32 (__vmx_vmread .VMCS_CTRL_PROCESSOR_BASED_VM_EXECUTION_CONTROLS s)
    let CpuBasedVmExecControls :=
      if Set = true then toUINT32 (CpuBasedVmExecControls ||| K.CPU_BASED_MOV_DR_EXITING)
      else toUINT32 (CpuBasedVmExecControls &&& not32 K.CPU_BASED_MOV_DR_EXITING)
    ((), __vmx_vmwrite .VMCS_CTRL_PROCESSOR_BASED_VM_EXECUTION_CONTROLS CpuBasedVmExecControls s)

/-- `ProtectedHvSetMovToCrVmexit(Set, ControlRegister, MaskRegister)`. -/
def ProtectedHvSetMovToCrVmexit (K : HvConstants) (Set : Bool) (ControlRegister : Nat)
    (MaskRegister : Nat) : VmxOp := fun s =>
  if ControlRegister = K.VMX_EXIT_QUALIFICATION_REGISTER_CR0 then
    if Set = true then
      let s := __vmx_vmwrite .VMCS_CTRL_CR0_GUEST_HOST_MASK MaskRegister s
      let s := __vmx_vmwrite .VMCS_CTRL_CR0_READ_SHADOW (__readcr0 s) s
      ((), s)
    else
      let s := __vmx_vmwrite .VMCS_CTRL_CR0_GUEST_HOST_MASK 0 s
      let s := __vmx_vmwrite .VMCS_CTRL_CR0_READ_SHADOW 0 s
      ((), s)
  else if ControlRegister = K.VMX_EXIT_QUALIFICATION_REGISTER_CR4 then
    if Set = true then
      let s := __vmx_vmwrite .VMCS_CTRL_CR4_GUEST_HOST_MASK MaskRegister s
      let s := __vmx_vmwrite .VMCS_CTRL_CR4_READ_SHADOW (__readcr0 s) s
      ((), s)
    else
      let s := __vmx_vmwrite .VMCS_CTRL_CR4_GUEST_HOST_MASK 0 s
      let s := __vmx_vmwrite .VMCS_CTRL_CR4_READ_SHADOW 0 s
      ((), s)
  else ((), s)

/-- `ProtectedHvSetMovControlRegsVmexit(VCpu, Set, PassOver, ControlRegister, MaskRegister)`. -/
def ProtectedHvSetMovControlRegsVmexit (K : HvConstants) (D : DebuggerState)
    (VCpu : VIRTUAL_MACHINE_STATE) (Set : Bool) (PassOver : Nat) (ControlRegister : Nat)
    (MaskRegister : Nat) : VmxOp := fun s =>
  -- control-register events of this core, unless passed over: return
  if Set = false ∧ PassOver &&& K.PASSING_OVER_MOV_TO_CONTROL_REGS_EVENTS = 0 ∧
      D.DebuggerEventListCountByCore .ControlRegisterModifiedEventsHead VCpu.CoreId ≠ 0 then
    ((), s)
  else ProtectedHvSetMovToCrVmexit K Set ControlRegister MaskRegister s

/-- `ProtectedHvSetMovToCr3Vmexit(VCpu, Set, PassOver)`.  As in the source, `PassOver` is
not consulted. -/
def ProtectedHvSetMovToCr3Vmexit (K : HvConstants) (D : DebuggerState)
    (VCpu : VIRTUAL_MACHINE_STATE) (Set : Bool) (PassOver : Nat) : VmxOp := fun s =>
  -- process switching waits for mov-to-CR3 exits: return
  if Set = false ∧
      D.KdQueryDebuggerQueryThreadOrProcessTracingDetailsByCoreId VCpu.CoreId
        .DEBUGGER_THREAD_PROCESS_TRACING_INTERCEPT_CLOCK_WAITING_FOR_MOV_CR3_VM_EXITS = true then
    ((), s)
  -- the user debugger needs mov-to-CR3 exits: return
  else if Set = false ∧ D.g_CheckPageFaultsAndMov2Cr3VmexitsWithUserDebugger = true then
    ((), s)
  else
    let CpuBasedVmExecControls :=
      toUINT32 (__vmx_vmread .VMCS_CTRL_PROCESSOR_BASED_VM_EXECUTION_CONTROLS s)
    let CpuBasedVmExecControls :=
      if Set = true then toUINT32 (CpuBasedVmExecControls ||| K.CPU_BASED_CR3_LOAD_EXITING)
      else toUINT32 (CpuBasedVmExecControls &&& not32 K.CPU_BASED_CR3_LOAD_EXITING)
    ((), __vmx_vmwrite .VMCS_CTRL_PROCESSOR_BASED_VM_EXECUTION_CONTROLS CpuBasedVmExecControls s)

/-- `ProtectedHvSetRdtscExiting(VCpu, Set)`. -/
def ProtectedHvSetRdtscExiting (K : HvConstants) (D : DebuggerState)
    (VCpu : VIRTUAL_MACHINE_STATE) (Set : Bool) : VmxOp :=
  ProtectedHvSetTscVmexit K D VCpu Set K.PASSING_OVER_NONE

/-- `ProtectedHvDisableRdtscExitingForDisablingTscCommands(VCpu)`. -/
def ProtectedHvDisableRdtscExitingForDisablingTscCommands (K : HvConstants) (D : DebuggerState)
    (VCpu : VIRTUAL_MACHINE_STATE) : VmxOp :=
  ProtectedHvSetTscVmexit K D VCpu false K.PASSING_OVER_TSC_EVENTS

/-- `ProtectedHvSetMovDebugRegsExiting(VCpu, Set)`. -/
def ProtectedHvSetMovDebugRegsExiting (K : HvConstants) (D : DebuggerState)
    (VCpu : VIRTUAL_MACHINE_STATE) (Set : Bool) : VmxOp :=
  ProtectedHvSetMovDebugRegsVmexit K D VCpu Set K.PASSING_OVER_NONE

/-- `ProtectedHvDisableMovDebugRegsExitingForDisablingDrCommands(VCpu)`. -/
def ProtectedHvDisableMovDebugRegsExitingForDisablingDrCommands (K : HvConstants)
    (D : DebuggerState) (VCpu : VIRTUAL_MACHINE_STATE) : VmxOp :=
  ProtectedHvSetMovDebugRegsVmexit K D VCpu false K.PASSING_OVER_MOV_TO_HW_DEBUG_REGS_EVENTS

/-- `ProtectedHvDisableMovControlRegsExitingForDisablingCrCommands(VCpu, ControlRegister,
MaskRegister)`. -/
def ProtectedHvDisableMovControlRegsExitingForDisablingCrCommands (K : HvConstants)
    (D : DebuggerState) (VCpu : VIRTUAL_MACHINE_STATE) (ControlRegister : Nat)
    (MaskRegister : Nat) : VmxOp :=
  ProtectedHvSetMovControlRegsVmexit K D VCpu false K.PASSING_OVER_MOV_TO_CONTROL_REGS_EVENTS
    ControlRegister MaskRegister

/-- `ProtectedHvSetMov2Cr3Exiting(VCpu, Set)`. -/
def ProtectedHvSetMov2Cr3Exiting (K : HvConstants) (D : DebuggerState)
    (VCpu : VIRTUAL_MACHINE_STATE) (Set : Bool) : VmxOp :=
  ProtectedHvSetMovToCr3Vmexit K D VCpu Set K.PASSING_OVER_NONE

/-- `ProtectedHvSetMov2CrExiting(Set, ControlRegister, MaskRegister)`. -/
def ProtectedHvSetMov2CrExiting (K : HvConstants) (Set : Bool) (ControlRegister : Nat)
    (MaskRegister : Nat) : VmxOp :=
  ProtectedHvSetMovToCrVmexit K Set ControlRegister MaskRegister

/-! ## Concrete inputs -/

/-- A debugger with no event, no tracing, no hook and every global flag off. -/
def idleDebugger : DebuggerState where
  DebuggerExceptionEventBitmapMask := fun _ => 0
  DebuggerEventListCountByCore := fun _ _ => 0
  DebuggerQueryDebuggerStatus := false
  KdQueryDebuggerQueryThreadOrProcessTracingDetailsByCoreId := fun _ _ => false
  g_CheckPageFaultsAndMov2Cr3VmexitsWithUserDebugger := false
  EptHookGetCountOfEpthooks := fun _ => 0
  g_TransparentMode := false

/-- A debugger in which core 0 has one event in every list, every tracing feature is active on
core 0, a debugger is attached, transparent mode is on, an EPT hook exists and the user debugger
intercepts page faults and CR3 loads. -/
def busyDebugger : DebuggerState where
  DebuggerExceptionEventBitmapMask := fun _ => 0
  DebuggerEventListCountByCore := fun _ c => if c = 0 then 1 else 0
  DebuggerQueryDebuggerStatus := true
  KdQueryDebuggerQueryThreadOrProcessTracingDetailsByCoreId := fun c _ => decide (c = 0)
  g_CheckPageFaultsAndMov2Cr3VmexitsWithUserDebugger := true
  EptHookGetCountOfEpthooks := fun _ => 1
  g_TransparentMode := true

/-- A hardware state in which external-interrupt, RDTSC, mov-DR and mov-CR3 exiting are on, a
CR0 guest/host mask is installed and some unrelated control bits are set. -/
def armedState : HvState where
  ExceptionBitmap := 0x4a
  PinBasedVmExecutionControls := 0x17
  PrimaryVmexitControls := 0x8200
  ProcessorBasedVmExecutionControls := 0x809004
  Cr0GuestHostMask := 0x10000
  Cr0ReadShadow := 0x80050033
  Cr0 := 0x80050033
  Cr4 := 0x370678

/-- The debugger state `D` in which list `Head` has `Count` events on core `CoreId` and every
other answer is the one given by `D`. -/
def DebuggerState.withEventCount (D : DebuggerState) (Head : EventListHead) (CoreId : Nat)
    (Count : Nat) : DebuggerState :=
  { D with
    DebuggerEventListCountByCore := fun h c =>
      if h = Head ∧ c = CoreId then Count else D.DebuggerEventListCountByCore h c }

/-- The debugger state `D` in which the `!exception` events of core `CoreId` ask for the
bitmap `Mask` and every other answer is the one given by `D`. -/
def DebuggerState.withExceptionEventMask (D : DebuggerState) (CoreId : Nat) (Mask : Nat) :
    DebuggerState :=
  { D with
    DebuggerExceptionEventBitmapMask := fun c =>
      if c = CoreId then Mask else D.DebuggerExceptionEventBitmapMask c }

/-! ## `ExecTrap.c`: the process watch-list

`g_ExecTrapState` holds the array `InterceptionProcessIds` and the count `NumberOfItems`.  The
array is a function from index to entry; only the first `NumberOfItems` entries are in use.  The
routines run under `ExecTrapProcessListLock`; the embedding is sequential, so taking and
releasing the lock are not recorded. -/

/-- Constants used by `ExecTrap.c` whose definitions are in headers outside the embedded
sources. -/
structure ExecTrapConstants where
  MAXIMUM_NUMBER_OF_PROCESSES_FOR_USER_KERNEL_EXEC_THREAD : Nat
  DEBUGGER_EVENT_MODE_TYPE_USER_MODE : Nat
  DEBUGGER_EVENT_MODE_TYPE_KERNEL_MODE : Nat
  deriving DecidableEq, Repr

/-- The global `g_ExecTrapState`: the fields read and written by `ExecTrap.c`. -/
structure ExecTrapState where
  InterceptionProcessIds : Nat → Nat
  NumberOfItems : Nat

/-- The entries in use: the first `NumberOfItems` cells of `InterceptionProcessIds`. -/
def ExecTrapState.entries (g : ExecTrapState) : List Nat :=
  (List.range g.NumberOfItems).map g.InterceptionProcessIds

/-- Modelled from the spec: the shift-right pass of the insertion ("shift-right on correct
position").  Starting at `Idx`, while `Idx > 0` and `ArrayPtr[Idx - 1] > Key` the entry at
`Idx - 1` is copied to `Idx` and `Idx` goes down by one.  Returns the array and the final `Idx`,
the position where the key belongs. -/
def InsertionSortShiftRight (Key : Nat) : Nat → (Nat → Nat) → (Nat → Nat) × Nat
  | 0, ArrayPtr => (ArrayPtr, 0)
  | Idx + 1, ArrayPtr =>
    if ArrayPtr Idx > Key then
      InsertionSortShiftRight Key Idx (Function.update ArrayPtr (Idx + 1) (ArrayPtr Idx))
    else
      (ArrayPtr, Idx + 1)

/-- Modelled from the spec: `InsertionSortInsertItem(ArrayPtr, &NumberOfItems, MaxNumOfItems,
&Index, Key)` (defined in a file that does not accompany `ExecTrap.c`) "insertion-sorts the key
into the sorted sequence (shift-right on correct position)" and "fails when capacity is
exhausted".  Returns the result, the array, the count and the index where the key was stored
(0 when it fails; no caller in `ExecTrap.c` reads the index). -/
def InsertionSortInsertItem (ArrayPtr : Nat → Nat) (NumberOfItems MaxNumOfItems Key : Nat) :
    Bool × (Nat → Nat) × Nat × Nat :=
  if NumberOfItems ≥ MaxNumOfItems then
    (false, ArrayPtr, NumberOfItems, 0)
  else
    let r := InsertionSortShiftRight Key NumberOfItems ArrayPtr
    (true, Function.update r.1 r.2 Key, NumberOfItems + 1, r.2)

/-- Modelled from the spec: the loop of the binary search over `ArrayPtr[Position .. Limit)`.
While `Position < Limit` the middle entry is compared with the key: when it is smaller the
search continues to its right, otherwise at or to its left.  The first argument bounds the number
of iterations; `Limit - Position` iterations always suffice because every iteration shrinks the
interval. -/
def BinarySearchLoop (ArrayPtr : Nat → Nat) (Key : Nat) : Nat → Nat → Nat → Nat
  | 0, Position, _ => Position
  | Fuel + 1, Position, Limit =>
    if Position < Limit then
      let Mid := (Position + Limit) / 2
      if ArrayPtr Mid < Key then
        BinarySearchLoop ArrayPtr Key Fuel (Mid + 1) Limit
      else
        BinarySearchLoop ArrayPtr Key Fuel Position Mid
    else
      Position

/-- Modelled from the spec: `BinarySearchPerformSearchItem(ArrayPtr, NumberOfItems, &ResultIndex,
Key)` (defined in a file that does not accompany `ExecTrap.c`) binary-searches the first
`NumberOfItems` entries for the key.  Returns whether the key was found and, when it was, the
index of the entry (0 when it was not; callers read the index only after a successful search). -/
def BinarySearchPerformSearchItem (ArrayPtr : Nat → Nat) (NumberOfItems Key : Nat) :
    Bool × Nat :=
  let Position := BinarySearchLoop ArrayPtr Key NumberOfItems 0 NumberOfItems
  if Position < NumberOfItems ∧ ArrayPtr Position = Key then (true, Position) else (false, 0)

/-- Modelled from the spec: the shift-left pass of the deletion ("remove by shift-left").  For
`Count` consecutive indices starting at `i` the entry at the index is copied one cell down. -/
def InsertionSortShiftLeft : Nat → Nat → (Nat → Nat) → (Nat → Nat)
  | 0, _, ArrayPtr => ArrayPtr
  | Count + 1, i, ArrayPtr =>
    InsertionSortShiftLeft Count (i + 1) (Function.update ArrayPtr (i - 1) (ArrayPtr i))

/-- Modelled from the spec: `InsertionSortDeleteItem(ArrayPtr, &NumberOfItems, Index)` (defined
in a file that does not accompany `ExecTrap.c`) "removes by shift-left and decrements the
count": the entries at `Index + 1 .. NumberOfItems - 1` move one cell down.  It fails, changing
nothing, when the index is not below the count.  Returns the result, the array and the count. -/
def InsertionSortDeleteItem (ArrayPtr : Nat → Nat) (NumberOfItems Index : Nat) :
    Bool × (Nat → Nat) × Nat :=
  if Index ≥ NumberOfItems then
    (false, ArrayPtr, NumberOfItems)
  else
    (true, InsertionSortShiftLeft (NumberOfItems - (Index + 1)) (Index + 1) ArrayPtr,
      NumberOfItems - 1)

/-- `ExecTrapAddProcessToWatchingList(ProcessId)`: the result and the new `g_ExecTrapState`. -/
def ExecTrapAddProcessToWatchingList (C : ExecTrapConstants) (ProcessId : Nat)
    (g : ExecTrapState) : Bool × ExecTrapState :=
  let r := InsertionSortInsertItem g.InterceptionProcessIds g.NumberOfItems
    C.MAXIMUM_NUMBER_OF_PROCESSES_FOR_USER_KERNEL_EXEC_THREAD ProcessId
  (r.1, { InterceptionProcessIds := r.2.1, NumberOfItems := r.2.2.1 })

/-- `ExecTrapRemoveProcessFromWatchingList(ProcessId)`: the result and the new
`g_ExecTrapState`. -/
def ExecTrapRemoveProcessFromWatchingList (ProcessId : Nat) (g : ExecTrapState) :
    Bool × ExecTrapState :=
  let r := BinarySearchPerformSearchItem g.InterceptionProcessIds g.NumberOfItems ProcessId
  if r.1 = true then
    let d := InsertionSortDeleteItem g.InterceptionProcessIds g.NumberOfItems r.2
    (d.1, { InterceptionProcessIds := d.2.1, NumberOfItems := d.2.2 })
  else
    (r.1, g)

/-- The watch-list before any process is added: a zeroed array and a zero count. -/
def emptyWatchList : ExecTrapState where
  InterceptionProcessIds := fun _ => 0
  NumberOfItems := 0

/-- A call to one of the two routines that change the watch-list. -/
inductive WatchListCall where
  | Add (ProcessId : Nat)
  | Remove (ProcessId : Nat)
  deriving DecidableEq, Repr

/-- The watch-list after one call. -/
def WatchListCall.run (C : ExecTrapConstants) (c : WatchListCall) (g : ExecTrapState) :
    ExecTrapState :=
  match c with
  | .Add ProcessId => (ExecTrapAddProcessToWatchingList C ProcessId g).2
  | .Remove ProcessId => (ExecTrapRemoveProcessFromWatchingList ProcessId g).2

/-- The watch-list after a sequence of calls, made in the order of the list. -/
def runWatchListCalls (C : ExecTrapConstants) : List WatchListCall → ExecTrapState →
    ExecTrapState
  | [], g => g
  | c :: cs, g => runWatchListCalls C cs (c.run C g)

/-- Whether, in a sequence of calls, every `Add` is given a process ID that is not among the
entries in use at the time of the call. -/
def addsOnlyUnlisted (C : ExecTrapConstants) : List WatchListCall → ExecTrapState → Bool
  | [], _ => true
  | .Add ProcessId :: cs, g =>
    decide (ProcessId ∉ g.entries) && addsOnlyUnlisted C cs ((WatchListCall.Add ProcessId).run C g)
  | .Remove ProcessId :: cs, g =>
    addsOnlyUnlisted C cs ((WatchListCall.Remove ProcessId).run C g)

/-- A concrete choice of the constants: a capacity of four processes; user mode is 3 and kernel
mode is 0. -/
def sampleExecTrapConstants : ExecTrapConstants where
  MAXIMUM_NUMBER_OF_PROCESSES_FOR_USER_KERNEL_EXEC_THREAD := 4
  DEBUGGER_EVENT_MODE_TYPE_USER_MODE := 3
  DEBUGGER_EVENT_MODE_TYPE_KERNEL_MODE := 0

/-! ## `ExecTrap.c`: the EPTP state machine of one core

`BOOLEAN` routines return the result and the new state; `VOID` routines return the new state.
Routines that `ExecTrap.c` calls but that are defined outside the embedded sources
(`EptInveptSingleContext`, `HvSuppressRipIncrement`, `DispatchEventMode`, `LogError`,
`HvSetModeBasedExecutionEnableFlag`) are recorded
in the order in which they are called.  What the event dispatcher does to the core after it has
been called is a parameter of the routines that call it. -/

/-- The bit-fields of an EPT entry that the exec-trap routines name, the page-frame number and
the remaining bits of the entry. -/
structure EPT_ENTRY where
  ReadAccess : Bool := false
  WriteAccess : Bool := false
  ExecuteAccess : Bool := false
  UserModeExecute : Bool := false
  PageFrameNumber : Nat := 0
  OtherBits : Nat := 0
  deriving DecidableEq, Repr

/-- The EPT hierarchy `VMM_EPT_PAGE_TABLE` that `VCpu->EptPageTable` points to. -/
structure VMM_EPT_PAGE_TABLE where
  PML4 : Nat → EPT_ENTRY
  PML3 : Nat → EPT_ENTRY
  PML2 : Nat → Nat → EPT_ENTRY

/-- The bit-fields of `VMX_EXIT_QUALIFICATION_EPT_VIOLATION` read by the violation handler. -/
structure VMX_EXIT_QUALIFICATION_EPT_VIOLATION where
  ExecuteAccess : Bool
  EptExecutable : Bool
  EptExecutableForUserMode : Bool
  deriving DecidableEq, Repr

/-- A call from `ExecTrap.c` to a routine defined outside the embedded sources. -/
inductive ExecTrapCall where
  | EptInveptSingleContext (EptPointer : Nat)
  | HvSuppressRipIncrement (CoreId : Nat)
  | DispatchEventMode (CoreId : Nat) (TargetMode : Nat)
  | LogError
  | HvSetModeBasedExecutionEnableFlag (Set : Bool)
  deriving DecidableEq, Repr

/-- What the exec-trap routines running on one core read and write: the global
`g_ExecTrapInitialized`, the core's `VIRTUAL_MACHINE_STATE`, the EPT hierarchy that
`VCpu->EptPageTable` points to, the core's VMCS, the calls made so far to routines defined
elsewhere (oldest first), and the global watch-list `g_ExecTrapState`. -/
structure ExecTrapCore where
  g_ExecTrapInitialized : Bool := false
  VCpu : VIRTUAL_MACHINE_STATE
  EptPageTable : VMM_EPT_PAGE_TABLE
  Vmcs : HvState := {}
  Calls : List ExecTrapCall := []
  g_ExecTrapState : ExecTrapState := emptyWatchList

/-- What the event dispatcher does to the core once `DispatchEventMode(VCpu, TargetMode)` has
been called. -/
abbrev EventDispatcher := Nat → ExecTrapCore → ExecTrapCore

/-- A call of `EptInveptSingleContext(EptPointer)`. -/
def EptInveptSingleContext (EptPointer : Nat) (m : ExecTrapCore) : ExecTrapCore :=
  { m with Calls := m.Calls ++ [.EptInveptSingleContext EptPointer] }

/-- A call of `HvSuppressRipIncrement(VCpu)`. -/
def HvSuppressRipIncrement (m : ExecTrapCore) : ExecTrapCore :=
  { m with Calls := m.Calls ++ [.HvSuppressRipIncrement m.VCpu.CoreId] }

/-- A call of `DispatchEventMode(VCpu, TargetMode)`: the call is recorded, then the dispatcher
acts on the core. -/
def DispatchEventMode (Dispatch : EventDispatcher) (TargetMode : Nat) (m : ExecTrapCore) :
    ExecTrapCore :=
  Dispatch TargetMode { m with Calls := m.Calls ++ [.DispatchEventMode m.VCpu.CoreId TargetMode] }

/-- A call of `LogError(...)`. -/
def LogError (m : ExecTrapCore) : ExecTrapCore :=
  { m with Calls := m.Calls ++ [.LogError] }

/-- The assignment `VCpu->EptPageTable->PML4[0].UserModeExecute = Value`. -/
def setPml4UserModeExecute (Value : Bool) (m : ExecTrapCore) : ExecTrapCore :=
  { m with EptPageTable :=
      { m.EptPageTable with
        PML4 := Function.update m.EptPageTable.PML4 0
          { m.EptPageTable.PML4 0 with UserModeExecute := Value } } }

/-- The assignment `VCpu->EptPageTable->PML4[0].ExecuteAccess = Value`. -/
def setPml4ExecuteAccess (Value : Bool) (m : ExecTrapCore) : ExecTrapCore :=
  { m with EptPageTable :=
      { m.EptPageTable with
        PML4 := Function.update m.EptPageTable.PML4 0
          { m.EptPageTable.PML4 0 with ExecuteAccess := Value } } }

/-- The assignment `VCpu->NotNormalEptp = Value`. -/
def setNotNormalEptp (Value : Bool) (m : ExecTrapCore) : ExecTrapCore :=
  { m with VCpu := { m.VCpu with NotNormalEptp := Value } }

/-- `ExecTrapRestoreToNormalEptp(VCpu)`. -/
def ExecTrapRestoreToNormalEptp (m : ExecTrapCore) : ExecTrapCore :=
  let m := { m with Vmcs := __vmx_vmwrite .VMCS_CTRL_EPT_POINTER m.VCpu.EptPointer m.Vmcs }
  setNotNormalEptp false m

/-- `ExecTrapChangeToUserDisabledMbecEptp(VCpu)`. -/
def ExecTrapChangeToUserDisabledMbecEptp (m : ExecTrapCore) : ExecTrapCore :=
  let m := setPml4UserModeExecute false m
  let m := setPml4ExecuteAccess true m
  let m := EptInveptSingleContext m.VCpu.EptPointer m
  setNotNormalEptp true m

/-- `ExecTrapChangeToKernelDisabledMbecEptp(VCpu)`. -/
def ExecTrapChangeToKernelDisabledMbecEptp (m : ExecTrapCore) : ExecTrapCore :=
  let m := setPml4UserModeExecute true m
  let m := setPml4ExecuteAccess false m
  let m := EptInveptSingleContext m.VCpu.EptPointer m
  setNotNormalEptp true m

/-- `ExecTrapChangeToNormalMbecEptp(VCpu)`. -/
def ExecTrapChangeToNormalMbecEptp (m : ExecTrapCore) : ExecTrapCore :=
  let m := setPml4UserModeExecute true m
  let m := setPml4ExecuteAccess true m
  let m := EptInveptSingleContext m.VCpu.EptPointer m
  setNotNormalEptp false m

/-- `ExecTrapHandleMoveToAdjustedTrapState(VCpu, TargetMode)`. -/
def ExecTrapHandleMoveToAdjustedTrapState (C : ExecTrapConstants) (TargetMode : Nat)
    (m : ExecTrapCore) : ExecTrapCore :=
  if TargetMode = C.DEBUGGER_EVENT_MODE_TYPE_USER_MODE then
    ExecTrapChangeToKernelDisabledMbecEptp m
  else if TargetMode = C.DEBUGGER_EVENT_MODE_TYPE_KERNEL_MODE then
    ExecTrapChangeToUserDisabledMbecEptp m
  else
    LogError m

/-- `ExecTrapHandleEptViolationVmexit(VCpu, ViolationQualification)`. -/
def ExecTrapHandleEptViolationVmexit (C : ExecTrapConstants) (Dispatch : EventDispatcher)
    (ViolationQualification : VMX_EXIT_QUALIFICATION_EPT_VIOLATION) (m : ExecTrapCore) :
    Bool × ExecTrapCore :=
  if m.g_ExecTrapInitialized = false then
    (false, m)
  else if ViolationQualification.EptExecutableForUserMode = false ∧
      ViolationQualification.ExecuteAccess = true then
    let m := HvSuppressRipIncrement m
    let m := DispatchEventMode Dispatch C.DEBUGGER_EVENT_MODE_TYPE_USER_MODE m
    (true, m)
  else if ViolationQualification.EptExecutable = false ∧
      ViolationQualification.ExecuteAccess = true then
    let m := HvSuppressRipIncrement m
    let m := DispatchEventMode Dispatch C.DEBUGGER_EVENT_MODE_TYPE_KERNEL_MODE m
    (true, m)
  else
    (false, m)

/-- The dispatcher that, for the dispatched mode, moves the core to the adjusted trap state. -/
def adjustingDispatcher (C : ExecTrapConstants) : EventDispatcher :=
  fun TargetMode m => ExecTrapHandleMoveToAdjustedTrapState C TargetMode m

/-- A dispatcher that leaves the core as it is. -/
def idleDispatcher : EventDispatcher := fun _ m => m

/-- The core after a sequence of EPT-violation exits, handled in the order of the list. -/
def runEptViolations (C : ExecTrapConstants) (Dispatch : EventDispatcher) :
    List VMX_EXIT_QUALIFICATION_EPT_VIOLATION → ExecTrapCore → ExecTrapCore
  | [], m => m
  | q :: qs, m => runEptViolations C Dispatch qs (ExecTrapHandleEptViolationVmexit C Dispatch q m).2

/-- The target modes of the `DispatchEventMode` calls made so far, oldest first. -/
def ExecTrapCore.dispatchedModes (m : ExecTrapCore) : List Nat :=
  m.Calls.filterMap fun c =>
    match c with
    | .DispatchEventMode _ TargetMode => some TargetMode
    | _ => none

/-- An EPT hierarchy in which every entry grants read, write and both kinds of execute access;
entry `i` of each level has page-frame number `i`. -/
def openEptPageTable : VMM_EPT_PAGE_TABLE where
  PML4 := fun i =>
    { ReadAccess := true, WriteAccess := true, ExecuteAccess := true, UserModeExecute := true,
      PageFrameNumber := i }
  PML3 := fun i =>
    { ReadAccess := true, WriteAccess := true, ExecuteAccess := true, UserModeExecute := true,
      PageFrameNumber := i }
  PML2 := fun _ j =>
    { ReadAccess := true, WriteAccess := true, ExecuteAccess := true, UserModeExecute := true,
      PageFrameNumber := j }

/-- Core 0 with the exec-trap mechanism initialized, EPT pointer `0x10005e`, the open EPT
hierarchy, and no call made yet. -/
def sampleCore : ExecTrapCore where
  g_ExecTrapInitialized := true
  VCpu := { CoreId := 0, EptPointer := 0x10005e }
  EptPageTable := openEptPageTable

/-- An execute access to an address that is executable but not user-mode-executable. -/
def userModeExecuteFault : VMX_EXIT_QUALIFICATION_EPT_VIOLATION where
  ExecuteAccess := true
  EptExecutable := true
  EptExecutableForUserMode := false

/-- An execute access to an address that is user-mode-executable but not executable. -/
def kernelModeExecuteFault : VMX_EXIT_QUALIFICATION_EPT_VIOLATION where
  ExecuteAccess := true
  EptExecutable := false
  EptExecutableForUserMode := true

/-! ## `ExecTrap.c`: the mov-to-CR3 exit -/

/-- A call of `HvSetModeBasedExecutionEnableFlag(Set)`. -/
def HvSetModeBasedExecutionEnableFlag (Set : Bool) (m : ExecTrapCore) : ExecTrapCore :=
  { m with Calls := m.Calls ++ [.HvSetModeBasedExecutionEnableFlag Set] }

/-- The assignment `VCpu->MbecEnabled = Value`. -/
def setMbecEnabled (Value : Bool) (m : ExecTrapCore) : ExecTrapCore :=
  { m with VCpu := { m.VCpu with MbecEnabled := Value } }

/-- `ExecTrapApplyMbecConfiguratinFromKernelSide(VCpu)`; `CurrentProcessId` is the value that
`PsGetCurrentProcessId()` returns. -/
def ExecTrapApplyMbecConfiguratinFromKernelSide (C : ExecTrapConstants)
    (Dispatch : EventDispatcher) (CurrentProcessId : Nat) (m : ExecTrapCore) : ExecTrapCore :=
  let r := BinarySearchPerformSearchItem m.g_ExecTrapState.InterceptionProcessIds
    m.g_ExecTrapState.NumberOfItems CurrentProcessId
  if r.1 = true then
    let m := HvSetModeBasedExecutionEnableFlag true m
    let m := setMbecEnabled true m
    DispatchEventMode Dispatch C.DEBUGGER_EVENT_MODE_TYPE_KERNEL_MODE m
  else if m.VCpu.MbecEnabled = true then
    let m := HvSetModeBasedExecutionEnableFlag false m
    setMbecEnabled false m
  else
    m

/-- `ExecTrapHandleCr3Vmexit(VCpu)`. -/
def ExecTrapHandleCr3Vmexit (C : ExecTrapConstants) (Dispatch : EventDispatcher)
    (CurrentProcessId : Nat) (m : ExecTrapCore) : ExecTrapCore :=
  ExecTrapApplyMbecConfiguratinFromKernelSide C Dispatch CurrentProcessId m

/-- The sample core with the processes 5 and 9 in the watch-list. -/
def watchingCore : ExecTrapCore :=
  { sampleCore with
    g_ExecTrapState :=
      runWatchListCalls sampleExecTrapConstants [.Add 9, .Add 5] emptyWatchList }

/-! ## `ExecTrap.c`: initialization and teardown

`ExecTrapInitialize` and `ExecTrapUninitialize` work on the two global flags and call routines
defined outside the embedded sources (the broadcasts, `ModeBasedExecHookInitialize`,
`ModeBasedExecHookUninitialize`, `LogInfo`).  Each such call is recorded together with the value
that the two flags have at the moment of the call.  The recorded routines do not write the two
flags. -/

/-- A routine called by `ExecTrapInitialize` or `ExecTrapUninitialize` and defined outside the
embedded sources. -/
inductive ExecTrapExternalRoutine where
  | LogInfo
  | ModeBasedExecHookInitialize
  | BroadcastChangeToMbecSupportedEptpOnAllProcessors
  | BroadcastEnableMovToCr3ExitingOnAllProcessors
  | BroadcastDisableMovToCr3ExitingOnAllProcessors
  | BroadcastRestoreToNormalEptpOnAllProcessors
  | ModeBasedExecHookUninitialize
  deriving DecidableEq, Repr

/-- A recorded call: the routine and the value of `g_ExecTrapInitialized` and of
`g_ExecTrapUnInitializationStarted` when it is called. -/
structure ExecTrapExternalCall where
  Routine : ExecTrapExternalRoutine
  g_ExecTrapInitialized : Bool
  g_ExecTrapUnInitializationStarted : Bool
  deriving DecidableEq, Repr

/-- The globals that `ExecTrapInitialize` and `ExecTrapUninitialize` read and write, and the
calls made so far (oldest first).  `ModeBasedExecutionSupport` is
`g_CompatibilityCheck.ModeBasedExecutionSupport`. -/
structure ExecTrapGlobals where
  g_ExecTrapInitialized : Bool := false
  g_ExecTrapUnInitializationStarted : Bool := false
  ModeBasedExecutionSupport : Bool := false
  Calls : List ExecTrapExternalCall := []
  deriving DecidableEq, Repr

/-- A call of one of the routines defined elsewhere. -/
def callExternal (Routine : ExecTrapExternalRoutine) (g : ExecTrapGlobals) : ExecTrapGlobals :=
  { g with Calls := g.Calls ++
      [{ Routine := Routine,
         g_ExecTrapInitialized := g.g_ExecTrapInitialized,
         g_ExecTrapUnInitializationStarted := g.g_ExecTrapUnInitializationStarted }] }

/-- `ExecTrapInitialize()`; `HookInitialized` is the value that `ModeBasedExecHookInitialize()`
returns when it is called. -/
def ExecTrapInitialize (HookInitialized : Bool) (g : ExecTrapGlobals) :
    Bool × ExecTrapGlobals :=
  if g.g_ExecTrapInitialized = true then
    (true, g)
  else if g.ModeBasedExecutionSupport = false then
    let g := callExternal .LogInfo g
    (false, g)
  else
    let g := callExternal .ModeBasedExecHookInitialize g
    if HookInitialized = false then
      (false, g)
    else
      let g := callExternal .BroadcastChangeToMbecSupportedEptpOnAllProcessors g
      let g := { g with g_ExecTrapInitialized := true }
      let g := callExternal .BroadcastEnableMovToCr3ExitingOnAllProcessors g
      (true, g)

/-- `ExecTrapUninitialize()`. -/
def ExecTrapUninitialize (g : ExecTrapGlobals) : ExecTrapGlobals :=
  if g.g_ExecTrapInitialized = false then
    g
  else
    let g := { g with g_ExecTrapUnInitializationStarted := true }
    let g := callExternal .BroadcastDisableMovToCr3ExitingOnAllProcessors g
    let g := callExternal .BroadcastRestoreToNormalEptpOnAllProcessors g
    let g := callExternal ExecTrapExternalRoutine.ModeBasedExecHookUninitialize g
    let g := { g with g_ExecTrapInitialized := false }
    { g with g_ExecTrapUnInitializationStarted := false }

/-- The globals of a machine whose processor supports mode-based execution control, before the
mechanism is initialized. -/
def supportedGlobals : ExecTrapGlobals where
  ModeBasedExecutionSupport := true

/-- The globals of a machine whose processor lacks mode-based execution control. -/
def unsupportedGlobals : ExecTrapGlobals where
  ModeBasedExecutionSupport := false

/-! ## `ExecTrap.c`: the execute-only EPT layout

`ExecTrapEnableExecuteOnlyPages` works on the EPT hierarchy it is given and reads the global
table `PhysicalRamRegions`.  A `for` loop with a fixed bound is a fold over the indices.  The
`while` loop is given as many iterations as its initial `RemainingSize`; a run that has not come
to an end by then is `none`. -/

/-- Sizes of the EPT hierarchy and of the RAM region table; the macros are defined in headers
outside the embedded sources. -/
structure EptConstants where
  VMM_EPT_PML4E_COUNT : Nat
  VMM_EPT_PML3E_COUNT : Nat
  VMM_EPT_PML2E_COUNT : Nat
  MAX_PHYSICAL_RAM_RANGE_COUNT : Nat
  deriving DecidableEq, Repr

/-- The macro `SIZE_2_MB`. -/
def SIZE_2_MB : Nat := 0x200000

/-- The macro `NULL64_ZERO`. -/
def NULL64_ZERO : Nat := 0

/-- An element of the global array `PhysicalRamRegions`; both fields are 64-bit values. -/
structure PhysicalRamRegion where
  RamPhysicalAddress : Nat
  RamSize : Nat
  deriving DecidableEq, Repr

/-- The cast `(INT64)x` of a 64-bit value. -/
def toINT64 (x : Nat) : Int :=
  if x % 2 ^ 64 < 2 ^ 63 then (x % 2 ^ 64 : Nat) else ((x % 2 ^ 64 : Nat) : Int) - 2 ^ 64

/-- The loop `for (size_t i = 0; i < Count; i++) Body(i)`. -/
def forLoop {σ : Type} (Count : Nat) (Body : Nat → σ → σ) (s : σ) : σ :=
  (List.range Count).foldl (fun s i => Body i s) s

/-- The assignment `EptTable->PML4[i].UserModeExecute = TRUE`. -/
def setPml4EntryUserModeExecute (i : Nat) (T : VMM_EPT_PAGE_TABLE) : VMM_EPT_PAGE_TABLE :=
  { T with PML4 := Function.update T.PML4 i { (T.PML4 i) with UserModeExecute := true } }

/-- The assignment `EptTable->PML3[i].UserModeExecute = TRUE`. -/
def setPml3EntryUserModeExecute (i : Nat) (T : VMM_EPT_PAGE_TABLE) : VMM_EPT_PAGE_TABLE :=
  { T with PML3 := Function.update T.PML3 i { (T.PML3 i) with UserModeExecute := true } }

/-- The assignment `EptTable->PML2[i][j].UserModeExecute = TRUE`. -/
def setPml2EntryUserModeExecute (i j : Nat) (T : VMM_EPT_PAGE_TABLE) : VMM_EPT_PAGE_TABLE :=
  let Entry : EPT_ENTRY := { (T.PML2 i j) with UserModeExecute := true }
  { T with PML2 := Function.update T.PML2 i (Function.update (T.PML2 i) j Entry) }

/-- The inner loop `for (size_t j = 0; j < VMM_EPT_PML2E_COUNT; j++)` for the PML2 row `i`. -/
def setPml2RowUserModeExecute (E : EptConstants) (i : Nat) (T : VMM_EPT_PAGE_TABLE) :
    VMM_EPT_PAGE_TABLE :=
  forLoop E.VMM_EPT_PML2E_COUNT (fun j T => setPml2EntryUserModeExecute i j T) T

/-- Modelled from the spec: `EptGetPml2Entry(EptTable, PhysicalAddress)` (defined in a file that
does not accompany `ExecTrap.c`) gives the PML2 entry of the 2 MB granule that holds the address
("every entry is 2-MB granularity").  The entry is returned as its pair of indices: granule
number divided by, and modulo, the number of entries of a PML2 row. -/
def EptGetPml2Entry (E : EptConstants) (PhysicalAddress : Nat) : Nat × Nat :=
  (PhysicalAddress / SIZE_2_MB / E.VMM_EPT_PML2E_COUNT,
   PhysicalAddress / SIZE_2_MB % E.VMM_EPT_PML2E_COUNT)

/-- The assignment `EptEntry->WriteAccess = FALSE` for the PML2 entry with the given indices. -/
def clearPml2EntryWriteAccess (EptEntry : Nat × Nat) (T : VMM_EPT_PAGE_TABLE) :
    VMM_EPT_PAGE_TABLE :=
  let Entry : EPT_ENTRY := { (T.PML2 EptEntry.1 EptEntry.2) with WriteAccess := false }
  { T with
    PML2 := Function.update T.PML2 EptEntry.1 (Function.update (T.PML2 EptEntry.1) EptEntry.2 Entry) }

/-- The loop `while (RemainingSize > 0) { ... }` of `ExecTrapEnableExecuteOnlyPages`.  The first
argument bounds the number of iterations; `none` means that the loop was still running when the
bound was reached. -/
def clearWriteAccessWhile (E : EptConstants) :
    Nat → Int → Nat → VMM_EPT_PAGE_TABLE → Option VMM_EPT_PAGE_TABLE
  | 0, RemainingSize, _, T => if RemainingSize > 0 then none else some T
  | Fuel + 1, RemainingSize, CurrentAddress, T =>
    if RemainingSize > 0 then
      let T := clearPml2EntryWriteAccess (EptGetPml2Entry E CurrentAddress) T
      let CurrentAddress := (CurrentAddress + SIZE_2_MB) % 2 ^ 64
      let RemainingSize := RemainingSize - SIZE_2_MB
      clearWriteAccessWhile E Fuel RemainingSize CurrentAddress T
    else
      some T

/-- The body of the loop over `PhysicalRamRegions` for the region with index `i`. -/
def clearWriteAccessOfRegion (E : EptConstants) (PhysicalRamRegions : Nat → PhysicalRamRegion)
    (i : Nat) (T : VMM_EPT_PAGE_TABLE) : Option VMM_EPT_PAGE_TABLE :=
  if (PhysicalRamRegions i).RamPhysicalAddress ≠ NULL64_ZERO then
    clearWriteAccessWhile E (toINT64 (PhysicalRamRegions i).RamSize).toNat
      (toINT64 (PhysicalRamRegions i).RamSize) (PhysicalRamRegions i).RamPhysicalAddress T
  else
    some T

/-- The loop `for (size_t i = 0; i < MAX_PHYSICAL_RAM_RANGE_COUNT; i++)` over the regions, for
the first `Count` indices. -/
def clearWriteAccessOfRegions (E : EptConstants)
    (PhysicalRamRegions : Nat → PhysicalRamRegion) :
    Nat → VMM_EPT_PAGE_TABLE → Option VMM_EPT_PAGE_TABLE
  | 0, T => some T
  | Count + 1, T =>
    (clearWriteAccessOfRegions E PhysicalRamRegions Count T).bind
      (clearWriteAccessOfRegion E PhysicalRamRegions Count)

/-- `ExecTrapEnableExecuteOnlyPages(EptTable)`: the result and the EPT hierarchy afterwards;
`none` when the routine does not come to an end. -/
def ExecTrapEnableExecuteOnlyPages (E : EptConstants)
    (PhysicalRamRegions : Nat → PhysicalRamRegion) (EptTable : VMM_EPT_PAGE_TABLE) :
    Option (Bool × VMM_EPT_PAGE_TABLE) :=
  let T := forLoop E.VMM_EPT_PML4E_COUNT setPml4EntryUserModeExecute EptTable
  let T := forLoop E.VMM_EPT_PML3E_COUNT setPml3EntryUserModeExecute T
  let T := forLoop E.VMM_EPT_PML3E_COUNT (setPml2RowUserModeExecute E) T
  (clearWriteAccessOfRegions E PhysicalRamRegions E.MAX_PHYSICAL_RAM_RANGE_COUNT T).map
    fun T => (true, T)

/-- The do-while loop of `ExecTrapReadRamPhysicalRegions`, entered with `Count` regions already
stored; `PhysicalMemoryRanges` is the array returned by `MmGetPhysicalMemoryRanges()`, as pairs
of base address and number of bytes.  The first argument bounds the number of iterations. -/
def readRamPhysicalRegionsLoop (E : EptConstants) (PhysicalMemoryRanges : Nat → Nat × Nat) :
    Nat → Nat → (Nat → PhysicalRamRegion) → (Nat → PhysicalRamRegion)
  | 0, _, PhysicalRamRegions => PhysicalRamRegions
  | Fuel + 1, Count, PhysicalRamRegions =>
    let Address := (PhysicalMemoryRanges Count).1
    let Size := (PhysicalMemoryRanges Count).2
    if Address = 0 ∧ Size = 0 then
      PhysicalRamRegions
    else
      let PhysicalRamRegions := Function.update PhysicalRamRegions Count
        { RamPhysicalAddress := Address, RamSize := Size }
      if Count + 1 < E.MAX_PHYSICAL_RAM_RANGE_COUNT then
        readRamPhysicalRegionsLoop E PhysicalMemoryRanges Fuel (Count + 1) PhysicalRamRegions
      else
        PhysicalRamRegions

/-- `ExecTrapReadRamPhysicalRegions()`: the global `PhysicalRamRegions` afterwards.  The loop
runs at most `MAX_PHYSICAL_RAM_RANGE_COUNT` times (once when that constant is 0). -/
def ExecTrapReadRamPhysicalRegions (E : EptConstants) (PhysicalMemoryRanges : Nat → Nat × Nat)
    (PhysicalRamRegions : Nat → PhysicalRamRegion) : Nat → PhysicalRamRegion :=
  readRamPhysicalRegionsLoop E PhysicalMemoryRanges (E.MAX_PHYSICAL_RAM_RANGE_COUNT + 1) 0
    PhysicalRamRegions

/-- A small EPT hierarchy for running the definitions: 2 PML4 entries, 2 PML3 entries, PML2 rows
of 4 entries, and a RAM region table of 3 entries. -/
def smallEptConstants : EptConstants where
  VMM_EPT_PML4E_COUNT := 2
  VMM_EPT_PML3E_COUNT := 2
  VMM_EPT_PML2E_COUNT := 4
  MAX_PHYSICAL_RAM_RANGE_COUNT := 3

/-- An EPT hierarchy in which every entry grants read and write access and supervisor-mode
execute access, and no entry grants user-mode execute access. -/
def freshEptPageTable : VMM_EPT_PAGE_TABLE where
  PML4 := fun _ => { ReadAccess := true, WriteAccess := true, ExecuteAccess := true }
  PML3 := fun _ => { ReadAccess := true, WriteAccess := true, ExecuteAccess := true }
  PML2 := fun _ _ => { ReadAccess := true, WriteAccess := true, ExecuteAccess := true }

/-- The RAM region table with no region stored: every element is zero. -/
def zeroRamRegions : Nat → PhysicalRamRegion :=
  fun _ => { RamPhysicalAddress := 0, RamSize := 0 }

/-- A firmware memory map with the ranges `[0x400000, 0x800000)` (two whole 2 MB granules) and
`[0x100000, 0x300000)` (2 MB starting at 1 MB), followed by the terminating zero element. -/
def sampleMemoryRanges : Nat → Nat × Nat :=
  fun i => if i = 0 then (0x400000, 0x400000) else if i = 1 then (0x100000, 0x200000) else (0, 0)

/-- A firmware memory map whose only range, `[0, 0x400000)`, starts at physical address 0. -/
def zeroBasedMemoryRanges : Nat → Nat × Nat :=
  fun i => if i = 0 then (0, 0x400000) else (0, 0)

/-- The RAM region table that `ExecTrapReadRamPhysicalRegions` builds from
`sampleMemoryRanges`: `[0x400000, 0x800000)` in element 0, `[0x100000, 0x300000)` in element 1
and zeros elsewhere. -/
def sampleRamRegions : Nat → PhysicalRamRegion :=
  fun i =>
    if i = 0 then { RamPhysicalAddress := 0x400000, RamSize := 0x400000 }
    else if i = 1 then { RamPhysicalAddress := 0x100000, RamSize := 0x200000 }
    else { RamPhysicalAddress := 0, RamSize := 0 }

/-! ## `ExecTrap.c`: walking the page tables of a process

`ExecTrapTraverseThroughOsPageTables` reads guest page tables through virtual addresses that
`PhysicalAddressToVirtualAddress` supplies, and asks `EptGetPml1OrPml2Entry` for the EPT leaf of
a physical address.  Both routines are defined outside the embedded sources; what they answer,
and what the page tables hold, is given by a `PageWalkEnvironment`.  The walk changes only the
`ReadAccess` and `WriteAccess` bits of EPT leaves, so the answers are the same throughout the
walk.  The null pointer is the address 0. -/

/-- A `CR3_TYPE` value: the bit-field `Fields.PageFrameNumber` and the remaining bits of
`Flags`. -/
structure CR3_TYPE where
  PageFrameNumber : Nat
  OtherBits : Nat := 0
  deriving DecidableEq, Repr

/-- The bit-fields of a `PAGE_ENTRY` that the walk reads. -/
structure PAGE_ENTRY where
  Present : Bool := false
  LargePage : Bool := false
  PageFrameNumber : Nat := 0
  deriving DecidableEq, Repr

/-- The EPT leaf that `EptGetPml1OrPml2Entry` returns: with `IsLargePage = TRUE` an entry of
`EptTable->PML2`, with `IsLargePage = FALSE` a PML1 entry, named by its address. -/
inductive EptLeaf where
  | Pml2 (i j : Nat)
  | Pml1 (Address : Nat)
  deriving DecidableEq, Repr

/-- What surrounds the walk: the answers of `PhysicalAddressToVirtualAddress` (0 for `NULL`) and
of `EptGetPml1OrPml2Entry` (`none` for `NULL`), and the `PAGE_ENTRY` found at index `i` of the
table at a virtual address. -/
structure PageWalkEnvironment where
  PhysicalAddressToVirtualAddress : Nat → Nat
  EptGetPml1OrPml2Entry : Nat → Option EptLeaf
  PageEntryAt : Nat → Nat → PAGE_ENTRY

/-- What the walk reads and writes: the CR3 register, the EPT hierarchy `EptTable`, the PML1
entries of split pages (by address), and the number of `LogInfo` calls made. -/
structure PageWalkState where
  Cr3 : CR3_TYPE
  EptTable : VMM_EPT_PAGE_TABLE
  Pml1Entries : Nat → EPT_ENTRY
  LogInfoCalls : Nat := 0

/-- The entry that an EPT leaf pointer points to. -/
def PageWalkState.leaf (s : PageWalkState) : EptLeaf → EPT_ENTRY
  | .Pml2 i j => s.EptTable.PML2 i j
  | .Pml1 Address => s.Pml1Entries Address

/-- Modelled from the spec: `SwitchToProcessMemoryLayoutByCr3(TargetCr3)` (defined in a file
that does not accompany `ExecTrap.c`) "switches the current address-space context" to the given
CR3 and returns the CR3 that was current before. -/
def SwitchToProcessMemoryLayoutByCr3 (TargetCr3 : CR3_TYPE) (s : PageWalkState) :
    CR3_TYPE × PageWalkState :=
  (s.Cr3, { s with Cr3 := TargetCr3 })

/-- Modelled from the spec: `SwitchToPreviousProcess(PreviousProcess)` (defined in a file that
does not accompany `ExecTrap.c`) "restores the prior address-space context": the given CR3
becomes the current one. -/
def SwitchToPreviousProcess (PreviousProcess : CR3_TYPE) (s : PageWalkState) : PageWalkState :=
  { s with Cr3 := PreviousProcess }

/-- The two assignments `Entry->ReadAccess = TRUE; Entry->WriteAccess = TRUE` through an EPT
leaf pointer, for a PML2 entry (`IsLargePage`) and for a PML1 entry alike. -/
def setLeafReadWriteAccess (Entry : EptLeaf) (s : PageWalkState) : PageWalkState :=
  match Entry with
  | .Pml2 i j =>
    let New : EPT_ENTRY := { (s.EptTable.PML2 i j) with ReadAccess := true, WriteAccess := true }
    { s with
      EptTable := { s.EptTable with
                    PML2 := Function.update s.EptTable.PML2 i
                      (Function.update (s.EptTable.PML2 i) j New) } }
  | .Pml1 Address =>
    let New : EPT_ENTRY := { (s.Pml1Entries Address) with ReadAccess := true, WriteAccess := true }
    { s with Pml1Entries := Function.update s.Pml1Entries Address New }

/-- The block that follows each `EptGetPml1OrPml2Entry(EptTable, PhysicalAddress, &IsLargePage)`
call: when the entry is not `NULL` read and write access are set on it, otherwise `LogInfo` is
called. -/
def allowReadWriteOfFrame (O : PageWalkEnvironment) (PhysicalAddress : Nat)
    (s : PageWalkState) : PageWalkState :=
  match O.EptGetPml1OrPml2Entry PhysicalAddress with
  | some Entry => setLeafReadWriteAccess Entry s
  | none => { s with LogInfoCalls := s.LogInfoCalls + 1 }

/-- The body of the loop `for (size_t k = 0; k < 512; k++)` over the page directory at
`PdVa`.  The innermost loop, over the page table at `PtVa`, has an empty body. -/
def walkPageDirectoryEntry (O : PageWalkEnvironment) (PdVa k : Nat) (s : PageWalkState) :
    PageWalkState :=
  if PdVa = 0xfffffffffffffe00 then
    s
  else
    let Pde := O.PageEntryAt PdVa k
    if Pde.Present = true then
      let s := allowReadWriteOfFrame O (Pde.PageFrameNumber <<< 12) s
      if Pde.LargePage = true then
        s
      else
        let PtVa := O.PhysicalAddressToVirtualAddress (Pde.PageFrameNumber <<< 12)
        if PtVa ≠ 0 then forLoop 512 (fun _ s => s) s else s
    else
      s

/-- The body of the loop `for (size_t j = 0; j < 512; j++)` over the page-directory-pointer
table at `PdptVa`. -/
def walkPdptEntry (O : PageWalkEnvironment) (PdptVa j : Nat) (s : PageWalkState) :
    PageWalkState :=
  let Pdpte := O.PageEntryAt PdptVa j
  if Pdpte.Present = true then
    let s := allowReadWriteOfFrame O (Pdpte.PageFrameNumber <<< 12) s
    if Pdpte.LargePage = true then
      s
    else
      let PdVa := O.PhysicalAddressToVirtualAddress (Pdpte.PageFrameNumber <<< 12)
      if PdVa ≠ 0 then forLoop 512 (walkPageDirectoryEntry O PdVa) s else s
  else
    s

/-- The body of the loop `for (size_t i = 0; i < 512; i++)` over the PML4 table at `Cr3Va`. -/
def walkPml4Entry (O : PageWalkEnvironment) (Cr3Va i : Nat) (s : PageWalkState) :
    PageWalkState :=
  let Pml4e := O.PageEntryAt Cr3Va i
  if Pml4e.Present = true then
    let s := allowReadWriteOfFrame O (Pml4e.PageFrameNumber <<< 12) s
    let PdptVa := O.PhysicalAddressToVirtualAddress (Pml4e.PageFrameNumber <<< 12)
    if PdptVa ≠ 0 then forLoop 512 (walkPdptEntry O PdptVa) s else s
  else
    s

/-- `ExecTrapTraverseThroughOsPageTables(EptTable, TargetCr3, KernelCr3)`: the result and the
state afterwards. -/
def ExecTrapTraverseThroughOsPageTables (O : PageWalkEnvironment)
    (TargetCr3 KernelCr3 : CR3_TYPE) (s : PageWalkState) : Bool × PageWalkState :=
  let r := SwitchToProcessMemoryLayoutByCr3 KernelCr3 s
  let CurrentProcessCr3 := r.1
  let s := r.2
  let Cr3 := TargetCr3
  let TempCr3 := Cr3.PageFrameNumber <<< 12
  let s := allowReadWriteOfFrame O (Cr3.PageFrameNumber <<< 12) s
  let Cr3Va := O.PhysicalAddressToVirtualAddress TempCr3
  if Cr3Va = 0 then
    let s := SwitchToPreviousProcess CurrentProcessCr3 s
    (false, s)
  else
    let s := forLoop 512 (walkPml4Entry O Cr3Va) s
    let s := SwitchToPreviousProcess CurrentProcessCr3 s
    (true, s)

/-- A guest memory with one chain of page tables: the PML4 table in frame 1, whose entry 0 names
frame 2; the PDPT in frame 2, whose entry 0 names frame 3; the page directory in frame 3, whose
entry 0 names frame 4; the page table in frame 4, whose entry 0 names frame 5.  All other
entries are not present.  A frame at physical address `a` is mapped at the virtual address
`a + 0x100000`, and its EPT leaf is the PML1 entry at address `a`. -/
def chainEnvironment : PageWalkEnvironment where
  PhysicalAddressToVirtualAddress := fun a => a + 0x100000
  EptGetPml1OrPml2Entry := fun a => some (.Pml1 a)
  PageEntryAt := fun Va i =>
    if i = 0 ∧ 0x101000 ≤ Va ∧ Va ≤ 0x104000 then
      { Present := true, PageFrameNumber := (Va - 0x100000) / 0x1000 + 1 }
    else {}

/-- The environment of `chainEnvironment` in which no physical address can be translated to a
virtual address. -/
def unmappedEnvironment : PageWalkEnvironment :=
  { chainEnvironment with PhysicalAddressToVirtualAddress := fun _ => 0 }

/-- A state in which the current CR3 has page-frame number 7 and no EPT leaf grants any
access. -/
def closedWalkState : PageWalkState where
  Cr3 := { PageFrameNumber := 7 }
  EptTable := { PML4 := fun _ => {}, PML3 := fun _ => {}, PML2 := fun _ _ => {} }
  Pml1Entries := fun _ => {}

/-- An EPT leaf has `ReadAccess` and `WriteAccess` set. -/
def PageWalkState.readWrite (s : PageWalkState) (Entry : EptLeaf) : Prop :=
  (s.leaf Entry).ReadAccess = true ∧ (s.leaf Entry).WriteAccess = true

/-- The virtual address at which the walk reads the table that a page-table entry names. -/
def PageWalkEnvironment.tableOf (O : PageWalkEnvironment) (Entry : PAGE_ENTRY) : Nat :=
  O.PhysicalAddressToVirtualAddress (Entry.PageFrameNumber <<< 12)

/-- The EPT leaf of the frame that a page-table entry names. -/
def PageWalkEnvironment.leafOf (O : PageWalkEnvironment) (Entry : PAGE_ENTRY) :
    Option EptLeaf :=
  O.EptGetPml1OrPml2Entry (Entry.PageFrameNumber <<< 12)

/-- Entry `i` of the PML4 table rooted at `TargetCr3`. -/
def PageWalkEnvironment.pml4Entry (O : PageWalkEnvironment) (TargetCr3 : CR3_TYPE) (i : Nat) :
    PAGE_ENTRY :=
  O.PageEntryAt (O.PhysicalAddressToVirtualAddress (TargetCr3.PageFrameNumber <<< 12)) i

/-- Entry `j` of the page-directory-pointer table named by PML4 entry `i`. -/
def PageWalkEnvironment.pdptEntry (O : PageWalkEnvironment) (TargetCr3 : CR3_TYPE)
    (i j : Nat) : PAGE_ENTRY :=
  O.PageEntryAt (O.tableOf (O.pml4Entry TargetCr3 i)) j

/-- Entry `k` of the page directory named by entry `j` of the table named by PML4 entry `i`. -/
def PageWalkEnvironment.pdEntry (O : PageWalkEnvironment) (TargetCr3 : CR3_TYPE)
    (i j k : Nat) : PAGE_ENTRY :=
  O.PageEntryAt (O.tableOf (O.pdptEntry TargetCr3 i j)) k

/-- Entry `l` of the page table named by the page-directory entry `i`, `j`, `k`. -/
def PageWalkEnvironment.ptEntry (O : PageWalkEnvironment) (TargetCr3 : CR3_TYPE)
    (i j k l : Nat) : PAGE_ENTRY :=
  O.PageEntryAt (O.tableOf (O.pdEntry TargetCr3 i j k)) l

/-! ## Comparing the demand sources of one core -/

/-- The debugger states `D` and `D'` give core `CoreId` the same demand sources: the answers
asked per core (the `!exception` event mask, the length of every event list, every tracing flag)
agree for that core, and the answers that are not per core (debugger status, the two global
flags, the EPT-hook counts) agree.  Nothing is required of the answers for other cores. -/
def DebuggerState.agreeOnCore (CoreId : Nat) (D D' : DebuggerState) : Prop :=
  D.DebuggerExceptionEventBitmapMask CoreId = D'.DebuggerExceptionEventBitmapMask CoreId ∧
  (∀ Head : EventListHead,
    D.DebuggerEventListCountByCore Head CoreId = D'.DebuggerEventListCountByCore Head CoreId) ∧
  D.DebuggerQueryDebuggerStatus = D'.DebuggerQueryDebuggerStatus ∧
  (∀ TracingType : DEBUGGER_THREAD_PROCESS_TRACING,
    D.KdQueryDebuggerQueryThreadOrProcessTracingDetailsByCoreId CoreId TracingType
      = D'.KdQueryDebuggerQueryThreadOrProcessTracingDetailsByCoreId CoreId TracingType) ∧
  D.g_CheckPageFaultsAndMov2Cr3VmexitsWithUserDebugger
    = D'.g_CheckPageFaultsAndMov2Cr3VmexitsWithUserDebugger ∧
  (∀ IsEptHook2 : Bool,
    D.EptHookGetCountOfEpthooks IsEptHook2 = D'.EptHookGetCountOfEpthooks IsEptHook2) ∧
  D.g_TransparentMode = D'.g_TransparentMode

/-- The debugger `busyDebugger` seen from core 0, with the other cores changed: every other core
has five events in every list, asks for the whole exception bitmap and has every tracing feature
active. -/
def busyElsewhereDebugger : DebuggerState :=
  { busyDebugger with
    DebuggerExceptionEventBitmapMask := fun c => if c = 0 then 0 else 0xffffffff
    DebuggerEventListCountByCore := fun _ c => if c = 0 then 1 else 5
    KdQueryDebuggerQueryThreadOrProcessTracingDetailsByCoreId := fun _ _ => true }

/-- The debugger `idleDebugger` seen from core 0, with the other cores changed: every other core
has five events in every list, asks for the whole exception bitmap and has every tracing feature
active. -/
def idleHereDebugger : DebuggerState :=
  { idleDebugger with
    DebuggerExceptionEventBitmapMask := fun c => if c = 0 then 0 else 0xffffffff
    DebuggerEventListCountByCore := fun _ c => if c = 0 then 0 else 5
    KdQueryDebuggerQueryThreadOrProcessTracingDetailsByCoreId := fun c _ => decide (c ≠ 0) }

/-! ## `common.c` of the script engine: characters and numerals

A `char` is an integer from -128 to 127 (`char` is signed on the x64 Windows target of the
script engine).  A C string that is passed as an argument is the list of its characters before
the terminating NUL. -/

/-- The value of a character constant such as `'_'`. -/
def charCode (c : Char) : Int := c.toNat

/-- Value kept by a store to a `char` variable. -/
def toCHAR (x : Int) : Int := (x + 128) % 256 - 128

/-- Value kept by a store to an `unsigned long long` variable. -/
def toUINT64 (x : Int) : Nat := (x % 2 ^ 64).toNat

/-- `IsHex(c)`. -/
def IsHex (c : Int) : Int :=
  if (c ≥ charCode '0' ∧ c ≤ charCode '9') ∨ (c ≥ charCode 'a' ∧ c ≤ charCode 'f') ∨
      (c ≥ charCode 'A' ∧ c ≤ charCode 'F') then 1
  else 0

/-- `IsUnderscore(c)`. -/
def IsUnderscore (c : Int) : Int :=
  if c ≥ charCode '_' then 1
  else 0

/-- One turn of the loop of `HexToInt` on the character `c = str[i]`: `Acc <<= 4`, the choice
of `temp` (a `char`), and `Acc += temp`, in which `temp` is converted to `unsigned long long`. -/
def HexToIntStep (Acc : Nat) (c : Int) : Nat :=
  let Acc : Nat := (Acc <<< 4) % 2 ^ 64
  let temp : Int :=
    if c ≥ charCode '0' ∧ c ≤ charCode '9' then toCHAR (c - charCode '0')
    else if c ≥ charCode 'a' ∧ c ≤ charCode 'f' then toCHAR (c - charCode 'a' + 10)
    else toCHAR (c - charCode 'A' + 10)
  toUINT64 ((Acc : Int) + temp)

/-- `HexToInt(str)`: the loop runs over the `strlen(str)` characters of the string, first
character first, starting from `Acc = 0`.  The index `i` of the loop is not part of the state. -/
def HexToInt (str : List Int) : Nat :=
  str.foldl HexToIntStep 0

/-- The value of a hexadecimal digit as the claims about `HexToInt` understand it: `'0'` to
`'9'` are 0 to 9, `'a'` to `'f'` and `'A'` to `'F'` are 10 to 15. -/
def hexDigitValue (c : Int) : Nat :=
  if charCode '0' ≤ c ∧ c ≤ charCode '9' then (c - charCode '0').toNat
  else if charCode 'a' ≤ c ∧ c ≤ charCode 'f' then (c - charCode 'a').toNat + 10
  else if charCode 'A' ≤ c ∧ c ≤ charCode 'F' then (c - charCode 'A').toNat + 10
  else 0

/-- The base-16 value of a string of hexadecimal digits, most significant digit first. -/
def base16Value (s : List Int) : Nat :=
  Nat.ofDigits 16 (s.map hexDigitValue).reverse

/-- A character with an upper-case letter replaced by its lower-case letter. -/
def lowerCase (c : Int) : Int :=
  if charCode 'A' ≤ c ∧ c ≤ charCode 'Z' then c + (charCode 'a' - charCode 'A') else c

/-! ## `common.c` of the script engine: tokens and token lists

The structures `SCRIPT_ENGINE_TOKEN` and `SCRIPT_ENGINE_TOKEN_LIST`, the enumeration
`SCRIPT_ENGINE_TOKEN_TYPE` and the macros `TOKEN_VALUE_MAX_LEN` and `TOKEN_LIST_INIT_SIZE` are
declared in a header that does not accompany `common.c`.  Conventions of this part:

* A block of memory obtained from `malloc` or `calloc` is the list of its elements; the length
  of the list is the number of elements that were allocated.  `free` is not modelled.
* A routine returns `none` when it reads or writes outside a block, which C leaves undefined.
* A pointer to a token is an `Option`: `none` is `NULL`.  A token list holds the tokens that its
  pointers point to.
* Whether an allocation succeeds is a parameter of the routine that allocates.
* The counters `Len`, `MaxLen`, `Pointer` and `Size` are `unsigned int`, like the local `Len`
  from which `NewToken` fills `Len` and `MaxLen`: arithmetic on them is modulo `2 ^ 32`. -/

/-- The macros of the script engine that `common.c` uses and that are declared elsewhere. -/
structure ScriptEngineConstants where
  TOKEN_VALUE_MAX_LEN : Nat
  TOKEN_LIST_INIT_SIZE : Nat

/-- The enumerators of `SCRIPT_ENGINE_TOKEN_TYPE` that `common.c` names (the case labels of
`PrintToken`). -/
inductive SCRIPT_ENGINE_TOKEN_TYPE where
  | GLOBAL_ID
  | GLOBAL_UNRESOLVED_ID
  | LOCAL_ID
  | LOCAL_UNRESOLVED_ID
  | STATE_ID
  | DECIMAL
  | HEX
  | OCTAL
  | BINARY
  | SPECIAL_TOKEN
  | KEYWORD
  | WHITE_SPACE
  | COMMENT
  | REGISTER
  | PSEUDO_REGISTER
  | SEMANTIC_RULE
  | NON_TERMINAL
  | END_OF_STACK
  | STRING
  | WSTRING
  | TEMP
  | UNKNOWN
  | SCRIPT_VARIABLE_TYPE
  | FUNCTION_ID
  | FUNCTION_PARAMETER_ID
  deriving DecidableEq, Repr

/-- The structure `SCRIPT_ENGINE_TOKEN`.  `TokenType` is the field `Type` of the source, `Value`
is the block that the field `Value` points to, one `char` per element, and `VariableType` is the
value of the pointer of that name (0 is `NULL`). -/
structure SCRIPT_ENGINE_TOKEN where
  TokenType : SCRIPT_ENGINE_TOKEN_TYPE
  Value : List Int
  Len : Nat
  MaxLen : Nat
  VariableType : Nat
  deriving DecidableEq, Repr

/-- A pointer to a token; `none` is `NULL`. -/
abbrev PSCRIPT_ENGINE_TOKEN := Option SCRIPT_ENGINE_TOKEN

/-- The block returned by a successful `calloc(Count, sizeof(char))`: `Count` zero bytes. -/
def calloc (Count : Nat) : List Int := List.replicate Count 0

/-- The block returned by a successful `malloc` of `Count` elements, whose content before the
first store is whatever `Fill` says. -/
def malloc {α : Type} (Fill : Nat → α) (Count : Nat) : List α := (List.range Count).map Fill

/-- The store `Block[Index] = Value`; `none` when the index is outside the block. -/
def storeAt {α : Type} (Block : List α) (Index : Nat) (Value : α) : Option (List α) :=
  if Index < Block.length then some (Block.set Index Value) else none

/-- The C library routine `memcpy(Dest, Src, Count)` on blocks of elements of one size; `none`
when one of the blocks has fewer than `Count` elements. -/
def memcpy {α : Type} (Dest Src : List α) (Count : Nat) : Option (List α) :=
  if Count ≤ Dest.length ∧ Count ≤ Src.length then some (Src.take Count ++ Dest.drop Count)
  else none

/-- The string held by a block: the characters before the first NUL; `none` when the block
holds no NUL, so that reading it as a string runs off the block. -/
def stringOf : List Int → Option (List Int)
  | [] => none
  | c :: Block => if c = 0 then some [] else (stringOf Block).map fun s => c :: s

/-- The C library routine `strcpy(Dest, Src)` for a source string with the characters `Src`:
the characters and the terminating NUL are stored at the start of `Dest`; `none` when the block
`Dest` is too short for them. -/
def strcpy (Dest Src : List Int) : Option (List Int) :=
  if Src.length + 1 ≤ Dest.length then some (Src ++ [0] ++ Dest.drop (Src.length + 1)) else none

/-- The comparison made by the C library routine `strcmp` on the characters of two strings:
0 when they are equal, otherwise -1 or 1 by the first pair of characters that differ, compared
as `unsigned char`. -/
def compareStrings : List Int → List Int → Int
  | [], [] => 0
  | [], _ :: _ => -1
  | _ :: _, [] => 1
  | a :: s, b :: t =>
    if a = b then compareStrings s t else if a % 256 < b % 256 then -1 else 1

/-- The C library routine `strcmp(Block1, Block2)` on two blocks; `none` when one of them does
not hold a string. -/
def strcmp (Block1 Block2 : List Int) : Option Int :=
  match stringOf Block1, stringOf Block2 with
  | some s, some t => some (compareStrings s t)
  | _, _ => none

/-- `NewUnknownToken()`. -/
def NewUnknownToken (C : ScriptEngineConstants) (MallocSucceeds CallocSucceeds : Bool) :
    Option PSCRIPT_ENGINE_TOKEN :=
  if MallocSucceeds = false then some none
  else if CallocSucceeds = false then some none
  else
    let Value := calloc (C.TOKEN_VALUE_MAX_LEN + 1)
    -- strcpy(Token->Value, "")
    (strcpy Value []).map fun Value =>
      some
        { TokenType := .UNKNOWN
          Value := Value
          Len := 0
          MaxLen := C.TOKEN_VALUE_MAX_LEN
          VariableType := 0 }

/-- `NewToken(Type, Value)`; the argument `Value` is a C string. -/
def NewToken (MallocSucceeds CallocSucceeds : Bool) (TokenType : SCRIPT_ENGINE_TOKEN_TYPE)
    (Value : List Int) : Option PSCRIPT_ENGINE_TOKEN :=
  if MallocSucceeds = false then some none
  else
    -- unsigned int Len = (unsigned int)strlen(Value)
    let Len := toUINT32 Value.length
    let MaxLen := Len
    if CallocSucceeds = false then some none
    else
      let Block := calloc (toUINT32 (MaxLen + 1))
      (strcpy Block Value).map fun Block =>
        some
          { TokenType := TokenType
            Value := Block
            Len := Len
            MaxLen := MaxLen
            VariableType := 0 }

/-- The last two statements of `AppendByte`: `Token->Value[Token->Len] = c; Token->Len++;`. -/
def AppendByteStore (Token : SCRIPT_ENGINE_TOKEN) (c : Int) : Option SCRIPT_ENGINE_TOKEN :=
  (storeAt Token.Value Token.Len c).map fun Value =>
    { Token with Value := Value, Len := toUINT32 (Token.Len + 1) }

/-- `AppendByte(Token, c)`: the token after the call.  When the allocation fails the routine
returns after it has doubled `MaxLen`. -/
def AppendByte (CallocSucceeds : Bool) (Token : SCRIPT_ENGINE_TOKEN) (c : Int) :
    Option SCRIPT_ENGINE_TOKEN :=
  -- if (Token->Len >= Token->MaxLen - 1), in `unsigned int`
  if Token.Len ≥ toUINT32 (Token.MaxLen + (2 ^ 32 - 1)) then
    let Token := { Token with MaxLen := toUINT32 (Token.MaxLen * 2) }
    if CallocSucceeds = false then some Token
    else
      let NewValue := calloc (toUINT32 (Token.MaxLen + 1))
      (memcpy NewValue Token.Value Token.Len).bind fun NewValue =>
        AppendByteStore { Token with Value := NewValue } c
  else AppendByteStore Token c

/-- The last two statements of `AppendWchar`:
`*((wchar_t *)(Token->Value) + Token->Len / 2) = c; Token->Len += 2;`.  A `wchar_t` is two
bytes, the low byte first. -/
def AppendWcharStore (Token : SCRIPT_ENGINE_TOKEN) (c : Nat) : Option SCRIPT_ENGINE_TOKEN :=
  (storeAt Token.Value (2 * (Token.Len / 2)) (toCHAR (c % 256))).bind fun Value =>
    (storeAt Value (2 * (Token.Len / 2) + 1) (toCHAR (c / 256 % 256))).map fun Value =>
      { Token with Value := Value, Len := toUINT32 (Token.Len + 2) }

/-- `AppendWchar(Token, c)`: the token after the call. -/
def AppendWchar (CallocSucceeds : Bool) (Token : SCRIPT_ENGINE_TOKEN) (c : Nat) :
    Option SCRIPT_ENGINE_TOKEN :=
  -- if (Token->Len >= Token->MaxLen - 2), in `unsigned int`
  if Token.Len ≥ toUINT32 (Token.MaxLen + (2 ^ 32 - 2)) then
    let Token := { Token with MaxLen := toUINT32 (Token.MaxLen * 2) }
    if CallocSucceeds = false then some Token
    else
      let NewValue := calloc (toUINT32 (Token.MaxLen + 2))
      (memcpy NewValue Token.Value Token.Len).bind fun NewValue =>
        AppendWcharStore { Token with Value := NewValue } c
  else AppendWcharStore Token c

/-- `CopyToken(Token)`. -/
def CopyToken (MallocSucceeds CallocSucceeds : Bool) (Token : SCRIPT_ENGINE_TOKEN) :
    Option PSCRIPT_ENGINE_TOKEN :=
  if MallocSucceeds = false then some none
  else
    -- calloc(strlen(Token->Value) + 1, sizeof(char))
    (stringOf Token.Value).bind fun s =>
      if CallocSucceeds = false then some none
      else
        let Block := calloc (s.length + 1)
        -- strcpy(TokenCopy->Value, Token->Value)
        (strcpy Block s).map fun Block =>
          some
            { TokenType := Token.TokenType
              Value := Block
              Len := Token.Len
              MaxLen := Token.MaxLen
              VariableType := Token.VariableType }

/-- `IsEqual(Token1, Token2)`. -/
def IsEqual (Token1 Token2 : SCRIPT_ENGINE_TOKEN) : Option Int :=
  let Rest : Int :=
    if Token1.TokenType = .GLOBAL_ID ∧ Token2.TokenType = .GLOBAL_UNRESOLVED_ID then 1
    else if Token1.TokenType = .GLOBAL_UNRESOLVED_ID ∧ Token2.TokenType = .GLOBAL_ID then 1
    else if Token1.TokenType = .LOCAL_ID ∧ Token2.TokenType = .LOCAL_UNRESOLVED_ID then 1
    else if Token1.TokenType = .LOCAL_UNRESOLVED_ID ∧ Token2.TokenType = .LOCAL_ID then 1
    else 0
  if Token1.TokenType = Token2.TokenType then
    if Token1.TokenType = .SPECIAL_TOKEN then
      (strcmp Token1.Value Token2.Value).map fun r => if r = 0 then 1 else Rest
    else some 1
  else some Rest

/-- The structure `SCRIPT_ENGINE_TOKEN_LIST`.  `Head` is the block of token pointers that the
field `Head` points to. -/
structure SCRIPT_ENGINE_TOKEN_LIST where
  Head : List PSCRIPT_ENGINE_TOKEN
  Pointer : Nat
  Size : Nat
  deriving DecidableEq, Repr

/-- `NewTokenList()`: `none` is `NULL`.  `NewHead` is the outcome of the second `malloc`, which
the routine does not check: `none` leaves `Head` equal to `NULL`, a block without elements. -/
def NewTokenList (C : ScriptEngineConstants) (MallocSucceeds : Bool)
    (NewHead : Option (Nat → PSCRIPT_ENGINE_TOKEN)) : Option SCRIPT_ENGINE_TOKEN_LIST :=
  if MallocSucceeds = false then none
  else
    let Size := toUINT32 C.TOKEN_LIST_INIT_SIZE
    some
      { Pointer := 0
        Size := Size
        Head :=
          match NewHead with
          | some Fill => malloc Fill Size
          | none => [] }

/-- `Push(TokenList, Token)`: the result is `TRUE` when the routine returns `TokenList` and
`FALSE` when it returns `NULL`, together with the list after the call.  `NewHead` is the outcome
of the `malloc` of the doubled buffer. -/
def Push (NewHead : Option (Nat → PSCRIPT_ENGINE_TOKEN)) (TokenList : SCRIPT_ENGINE_TOKEN_LIST)
    (Token : PSCRIPT_ENGINE_TOKEN) : Option (Bool × SCRIPT_ENGINE_TOKEN_LIST) :=
  let Pointer := TokenList.Pointer
  -- *WriteAddr = Token
  (storeAt TokenList.Head Pointer Token).bind fun Head =>
    -- TokenList->Pointer++
    let TokenList := { TokenList with Head := Head, Pointer := toUINT32 (TokenList.Pointer + 1) }
    -- if (Pointer == TokenList->Size - 1), the right side in `unsigned int`
    if Pointer = toUINT32 (TokenList.Size + (2 ^ 32 - 1)) then
      match NewHead with
      | none => some (false, TokenList)
      | some Fill =>
        -- malloc(2 * TokenList->Size * sizeof(PSCRIPT_ENGINE_TOKEN))
        let Block := malloc Fill (toUINT32 (2 * TokenList.Size))
        -- memcpy(NewHead, TokenList->Head, TokenList->Size * sizeof(PSCRIPT_ENGINE_TOKEN))
        (memcpy Block TokenList.Head TokenList.Size).map fun Block =>
          (true, { TokenList with Size := toUINT32 (TokenList.Size * 2), Head := Block })
    else some (true, TokenList)

/-- `Pop(TokenList)`: the token pointer that is returned and the list after the call. -/
def Pop (TokenList : SCRIPT_ENGINE_TOKEN_LIST) :
    Option (PSCRIPT_ENGINE_TOKEN × SCRIPT_ENGINE_TOKEN_LIST) :=
  let TokenList :=
    if TokenList.Pointer > 0 then { TokenList with Pointer := TokenList.Pointer - 1 }
    else TokenList
  -- return *ReadAddr
  TokenList.Head[TokenList.Pointer]?.map fun Token => (Token, TokenList)

/-- A token list of the script engine: `Pointer` is below `Size`, `Size` is a value of its
`unsigned int` field, and the block `Head` has room for `Size` pointers. -/
def SCRIPT_ENGINE_TOKEN_LIST.wellFormed (TokenList : SCRIPT_ENGINE_TOKEN_LIST) : Prop :=
  TokenList.Pointer < TokenList.Size ∧ TokenList.Size < 2 ^ 32 ∧
    TokenList.Size ≤ TokenList.Head.length

/-- One concrete choice of the macros: token values start with room for 8 characters and token
lists with room for 4 pointers. -/
def sampleScriptEngineConstants : ScriptEngineConstants where
  TOKEN_VALUE_MAX_LEN := 8
  TOKEN_LIST_INIT_SIZE := 4

/-- A token of type `DECIMAL` with the value `"7"`. -/
def decimalSeven : SCRIPT_ENGINE_TOKEN where
  TokenType := .DECIMAL
  Value := [charCode '7', 0]
  Len := 1
  MaxLen := 1
  VariableType := 0

/-- A token of type `DECIMAL` with the value `"12"`. -/
def decimalTwelve : SCRIPT_ENGINE_TOKEN where
  TokenType := .DECIMAL
  Value := [charCode '1', charCode '2', 0]
  Len := 2
  MaxLen := 2
  VariableType := 0

/-- The token that `NewToken(STRING, "")` returns when its allocations succeed. -/
def emptyStringToken : SCRIPT_ENGINE_TOKEN where
  TokenType := .STRING
  Value := [0]
  Len := 0
  MaxLen := 0
  VariableType := 0

/-- The wide-string token built from `NewUnknownToken()` (with `TOKEN_VALUE_MAX_LEN = 8`) by
setting its type to `WSTRING` and calling `AppendWchar` with `L'a'` and then with `L'b'`. -/
def wideStringToken : SCRIPT_ENGINE_TOKEN where
  TokenType := .WSTRING
  Value := [charCode 'a', 0, charCode 'b', 0, 0, 0, 0, 0, 0]
  Len := 4
  MaxLen := 8
  VariableType := 0

/-- A token list with room for four pointers of which three are in use. -/
def fullSampleTokenList : SCRIPT_ENGINE_TOKEN_LIST where
  Head := [some decimalSeven, some decimalTwelve, some decimalSeven, none]
  Pointer := 3
  Size := 4

/-- The list `fullSampleTokenList` after `Push` of a pointer to `decimalTwelve`, when the new
buffer is allocated with `NULL` in every slot: the buffer has room for eight pointers. -/
def pushedSampleTokenList : SCRIPT_ENGINE_TOKEN_LIST where
  Head := [some decimalSeven, some decimalTwelve, some decimalSeven, some decimalTwelve,
    none, none, none, none]
  Pointer := 4
  Size := 8

/-! ## Bit-level facts shared by the theorems -/

theorem testBit_toUINT32 (n i : Nat) :
    (toUINT32 n).testBit i = (decide (i < 32) && n.testBit i) := by
  unfold toUINT32
  rw [Nat.testBit_mod_two_pow]

theorem testBit_not32 (x i : Nat) :
    (not32 x).testBit i = (decide (i < 32) && !x.testBit i) := by
  unfold not32
  rw [Nat.testBit_xor, Nat.testBit_two_pow_sub_one, Nat.testBit_mod_two_pow]
  by_cases h : i < 32 <;> simp [h]

theorem testBit_one_shiftLeft (n i : Nat) : (1 <<< n).testBit i = decide (n = i) := by
  rw [Nat.one_shiftLeft, Nat.testBit_two_pow]

theorem toUINT32_lt (n : Nat) : toUINT32 n < 2 ^ 32 :=
  Nat.mod_lt _ (by decide)

theorem toUINT32_of_lt {n : Nat} (h : n < 2 ^ 32) : toUINT32 n = n :=
  Nat.mod_eq_of_lt h

theorem toUINT32_toUINT32 (n : Nat) : toUINT32 (toUINT32 n) = toUINT32 n :=
  toUINT32_of_lt (toUINT32_lt n)

theorem toUINT32_or_left (a b : Nat) : toUINT32 (toUINT32 a ||| b) = toUINT32 (a ||| b) := by
  apply Nat.eq_of_testBit_eq
  intro i
  simp only [testBit_toUINT32, Nat.testBit_or]
  cases decide (i < 32) <;> simp

theorem toUINT32_ite_or (c : Prop) [Decidable c] (M X Y : Nat) :
    toUINT32 ((if c then toUINT32 (M ||| X) else M) ||| Y) =
      toUINT32 (M ||| ((if c then X else 0) ||| Y)) := by
  split_ifs
  · rw [toUINT32_or_left, Nat.or_assoc]
  · rw [Nat.zero_or]

/-- The mask that `ProtectedHvChangeExceptionBitmapWithIntegrityCheck` hands to
`HvWriteExceptionBitmap`, as one expression. -/
theorem changeExceptionBitmap_eq (K : HvConstants) (D : DebuggerState)
    (VCpu : VIRTUAL_MACHINE_STATE) (m p : Nat) (s : HvState) :
    ProtectedHvChangeExceptionBitmapWithIntegrityCheck K D VCpu m p s =
      ((), __vmx_vmwrite .VMCS_CTRL_EXCEPTION_BITMAP
        (toUINT32
          (m
          ||| (if p &&& K.PASSING_OVER_EXCEPTION_EVENTS ≠ 0 then 0
                else D.DebuggerExceptionEventBitmapMask VCpu.CoreId)
          ||| (if (D.DebuggerEventListCountByCore .SyscallHooksEferSyscallEventsHead VCpu.CoreId ≠ 0
                    ∨ D.DebuggerEventListCountByCore .SyscallHooksEferSysretEventsHead
                        VCpu.CoreId ≠ 0)
                  ∧ p &&& K.PASSING_OVER_UD_EXCEPTIONS_FOR_SYSCALL_SYSRET_HOOK = 0
                then 1 <<< K.EXCEPTION_VECTOR_UNDEFINED_OPCODE else 0)
          ||| (if D.DebuggerQueryDebuggerStatus = true
                then 1 <<< K.EXCEPTION_VECTOR_BREAKPOINT ||| 1 <<< K.EXCEPTION_VECTOR_DEBUG_BREAKPOINT
                else 0)
          ||| (if D.KdQueryDebuggerQueryThreadOrProcessTracingDetailsByCoreId VCpu.CoreId
                    .DEBUGGER_THREAD_PROCESS_TRACING_INTERCEPT_CLOCK_DEBUG_REGISTER_INTERCEPTION
                    = true
                then 1 <<< K.EXCEPTION_VECTOR_DEBUG_BREAKPOINT else 0)
          ||| (if D.g_CheckPageFaultsAndMov2Cr3VmexitsWithUserDebugger = true
                then 1 <<< K.EXCEPTION_VECTOR_PAGE_FAULT else 0)
          ||| (if D.EptHookGetCountOfEpthooks false ≠ 0
                then 1 <<< K.EXCEPTION_VECTOR_BREAKPOINT else 0))) s) := by
  generalize hr : ProtectedHvChangeExceptionBitmapWithIntegrityCheck K D VCpu m p s = r
  unfold ProtectedHvChangeExceptionBitmapWithIntegrityCheck HvWriteExceptionBitmap at hr
  lift_lets at hr
  extract_lets M1 M2 B M3 M4 M5 M6 at hr
  have e6 : ∀ Y, toUINT32 (M6 ||| Y) = toUINT32 (M5 ||| (_ ||| Y)) :=
    fun Y => toUINT32_ite_or _ _ _ Y
  have e5 : ∀ Y, toUINT32 (M5 ||| Y) = toUINT32 (M4 ||| (_ ||| Y)) :=
    fun Y => toUINT32_ite_or _ _ _ Y
  have e4 : ∀ Y, toUINT32 (M4 ||| Y) = toUINT32 (M3 ||| (_ ||| Y)) :=
    fun Y => toUINT32_ite_or _ _ _ Y
  have e3 : ∀ Y, toUINT32 (M3 ||| Y) = toUINT32 (M2 |||
      ((if D.DebuggerQueryDebuggerStatus = true
        then 1 <<< K.EXCEPTION_VECTOR_BREAKPOINT ||| 1 <<< K.EXCEPTION_VECTOR_DEBUG_BREAKPOINT
        else 0) ||| Y)) := by
    intro Y
    have hM : M3 = if D.DebuggerQueryDebuggerStatus = true then
        toUINT32 (toUINT32 (M2 ||| 1 <<< K.EXCEPTION_VECTOR_BREAKPOINT)
          ||| 1 <<< K.EXCEPTION_VECTOR_DEBUG_BREAKPOINT) else M2 := rfl
    rw [hM]
    split_ifs
    · rw [toUINT32_or_left, Nat.or_assoc, toUINT32_or_left]
      simp only [Nat.or_assoc]
    · rw [Nat.zero_or]
  have e2 : ∀ Y, toUINT32 (M2 ||| Y) = toUINT32 (M1 |||
      ((if (D.DebuggerEventListCountByCore .SyscallHooksEferSyscallEventsHead VCpu.CoreId ≠ 0
              ∨ D.DebuggerEventListCountByCore .SyscallHooksEferSysretEventsHead VCpu.CoreId ≠ 0)
            ∧ p &&& K.PASSING_OVER_UD_EXCEPTIONS_FOR_SYSCALL_SYSRET_HOOK = 0
        then 1 <<< K.EXCEPTION_VECTOR_UNDEFINED_OPCODE else 0) ||| Y)) := by
    intro Y
    have hM : M2 = if p &&& K.PASSING_OVER_UD_EXCEPTIONS_FOR_SYSCALL_SYSRET_HOOK = 0 then
        if D.DebuggerEventListCountByCore .SyscallHooksEferSyscallEventsHead VCpu.CoreId ≠ 0 ∨
            D.DebuggerEventListCountByCore .SyscallHooksEferSysretEventsHead VCpu.CoreId ≠ 0 then
          toUINT32 (M1 ||| 1 <<< K.EXCEPTION_VECTOR_UNDEFINED_OPCODE)
        else M1
      else M1 := rfl
    rw [hM]
    by_cases hp : p &&& K.PASSING_OVER_UD_EXCEPTIONS_FOR_SYSCALL_SYSRET_HOOK = 0
    · simp only [hp, if_true, and_true]
      exact toUINT32_ite_or _ _ _ Y
    · simp only [hp, if_false, and_false, Nat.zero_or]
  have e1 : ∀ Y, toUINT32 (M1 ||| Y) = toUINT32 (m |||
      ((if p &&& K.PASSING_OVER_EXCEPTION_EVENTS ≠ 0 then 0
        else D.DebuggerExceptionEventBitmapMask VCpu.CoreId) ||| Y)) := by
    intro Y
    have hM : M1 = if p &&& K.PASSING_OVER_EXCEPTION_EVENTS = 0 then
        toUINT32 (m ||| D.DebuggerExceptionEventBitmapMask VCpu.CoreId) else m := rfl
    rw [hM]
    by_cases hp : p &&& K.PASSING_OVER_EXCEPTION_EVENTS = 0
    · simp only [hp, if_true, ne_eq, not_true_eq_false, if_false]
      rw [toUINT32_or_left, Nat.or_assoc]
    · simp only [hp, if_false, ne_eq, not_false_eq_true, if_true, Nat.zero_or]
  clear_value M1 M2 M3 M4 M5 M6
  subst hr
  have h := e6 0
  rw [e5, e4, e3, e2, e1] at h
  simp only [Nat.or_zero, ← Nat.or_assoc] at h
  rw [h]

theorem testBit_ite_bit (c : Prop) [Decidable c] (n i : Nat) :
    (if c then 1 <<< n else 0).testBit i = (decide c && decide (n = i)) := by
  split_ifs with h <;> simp only [h, testBit_one_shiftLeft, Nat.zero_testBit, decide_True,
    decide_False, Bool.true_and, Bool.false_and]

theorem testBit_ite_two_bits (c : Prop) [Decidable c] (a b i : Nat) :
    (if c then 1 <<< a ||| 1 <<< b else 0).testBit i =
      (decide c && (decide (a = i) || decide (b = i))) := by
  split_ifs with h <;> simp only [h, Nat.testBit_or, testBit_one_shiftLeft, Nat.zero_testBit,
    decide_True, decide_False, Bool.true_and, Bool.false_and]

theorem testBit_ite_mask (c : Prop) [Decidable c] (E i : Nat) :
    (if ¬c then 0 else E).testBit i = (decide c && E.testBit i) := by
  by_cases h : c <;> simp only [h, not_true_eq_false, not_false_eq_true, if_true, if_false,
    Nat.zero_testBit, decide_True, decide_False, Bool.true_and, Bool.false_and]

/-- Bit `i` of the exception bitmap left by
`ProtectedHvChangeExceptionBitmapWithIntegrityCheck`. -/
theorem testBit_changeExceptionBitmap (K : HvConstants) (D : DebuggerState)
    (VCpu : VIRTUAL_MACHINE_STATE) (m p : Nat) (s : HvState) (i : Nat) :
    (ProtectedHvChangeExceptionBitmapWithIntegrityCheck K D VCpu m p s).2.ExceptionBitmap.testBit i
      = (decide (i < 32) &&
          (m.testBit i
          || (decide (p &&& K.PASSING_OVER_EXCEPTION_EVENTS = 0)
                && (D.DebuggerExceptionEventBitmapMask VCpu.CoreId).testBit i)
          || (decide ((D.DebuggerEventListCountByCore .SyscallHooksEferSyscallEventsHead
                          VCpu.CoreId ≠ 0
                        ∨ D.DebuggerEventListCountByCore .SyscallHooksEferSysretEventsHead
                            VCpu.CoreId ≠ 0)
                      ∧ p &&& K.PASSING_OVER_UD_EXCEPTIONS_FOR_SYSCALL_SYSRET_HOOK = 0)
                && decide (K.EXCEPTION_VECTOR_UNDEFINED_OPCODE = i))
          || (D.DebuggerQueryDebuggerStatus
                && (decide (K.EXCEPTION_VECTOR_BREAKPOINT = i)
                    || decide (K.EXCEPTION_VECTOR_DEBUG_BREAKPOINT = i)))
          || (D.KdQueryDebuggerQueryThreadOrProcessTracingDetailsByCoreId VCpu.CoreId
                  .DEBUGGER_THREAD_PROCESS_TRACING_INTERCEPT_CLOCK_DEBUG_REGISTER_INTERCEPTION
                && decide (K.EXCEPTION_VECTOR_DEBUG_BREAKPOINT = i))
          || (D.g_CheckPageFaultsAndMov2Cr3VmexitsWithUserDebugger
                && decide (K.EXCEPTION_VECTOR_PAGE_FAULT = i))
          || (decide (D.EptHookGetCountOfEpthooks false ≠ 0)
                && decide (K.EXCEPTION_VECTOR_BREAKPOINT = i)))) := by
  rw [changeExceptionBitmap_eq]
  simp only [__vmx_vmwrite, testBit_toUINT32, Nat.testBit_or, testBit_ite_bit,
    testBit_ite_two_bits, ne_eq, testBit_ite_mask, Bool.decide_eq_true]

/-! ## Theorems about the exception bitmap -/

/-- C1: for every core, caller mask `m` and pass-over set `p`,
`ProtectedHvChangeExceptionBitmapWithIntegrityCheck` performs exactly one `vmwrite`, to the
exception-bitmap field, and the value written is the 32-bit value `m ||| E ||| U ||| D ||| T |||
P ||| H`: `E` is the core's `!exception` event mask unless `p` contains
`PASSING_OVER_EXCEPTION_EVENTS` (then `0`), `U` is the #UD bit if the core has a syscall or
sysret hook event and `p` lacks `PASSING_OVER_UD_EXCEPTIONS_FOR_SYSCALL_SYSRET_HOOK`, `D` is the
#BP and #DB bits if a debugger is active, `T` is the #DB bit if debug-register-interception
tracing is active on the core, `P` is the #PF bit if the user debugger's page-fault/CR3 tracing
is on, `H` is the #BP bit if there is an EPT hook. -/
theorem C1_exception_bitmap_written_value (K : HvConstants) (D : DebuggerState)
    (VCpu : VIRTUAL_MACHINE_STATE) (m p : Nat) (s : HvState) :
    ProtectedHvChangeExceptionBitmapWithIntegrityCheck K D VCpu m p s =
      ((), __vmx_vmwrite .VMCS_CTRL_EXCEPTION_BITMAP
        (toUINT32
          (m
          ||| (if p &&& K.PASSING_OVER_EXCEPTION_EVENTS ≠ 0 then 0
                else D.DebuggerExceptionEventBitmapMask VCpu.CoreId)
          ||| (if (D.DebuggerEventListCountByCore .SyscallHooksEferSyscallEventsHead VCpu.CoreId ≠ 0
                    ∨ D.DebuggerEventListCountByCore .SyscallHooksEferSysretEventsHead
                        VCpu.CoreId ≠ 0)
                  ∧ p &&& K.PASSING_OVER_UD_EXCEPTIONS_FOR_SYSCALL_SYSRET_HOOK = 0
                then 1 <<< K.EXCEPTION_VECTOR_UNDEFINED_OPCODE else 0)
          ||| (if D.DebuggerQueryDebuggerStatus = true
                then 1 <<< K.EXCEPTION_VECTOR_BREAKPOINT ||| 1 <<< K.EXCEPTION_VECTOR_DEBUG_BREAKPOINT
                else 0)
          ||| (if D.KdQueryDebuggerQueryThreadOrProcessTracingDetailsByCoreId VCpu.CoreId
                    .DEBUGGER_THREAD_PROCESS_TRACING_INTERCEPT_CLOCK_DEBUG_REGISTER_INTERCEPTION
                    = true
                then 1 <<< K.EXCEPTION_VECTOR_DEBUG_BREAKPOINT else 0)
          ||| (if D.g_CheckPageFaultsAndMov2Cr3VmexitsWithUserDebugger = true
                then 1 <<< K.EXCEPTION_VECTOR_PAGE_FAULT else 0)
          ||| (if D.EptHookGetCountOfEpthooks false ≠ 0
                then 1 <<< K.EXCEPTION_VECTOR_BREAKPOINT else 0))) s) :=
  changeExceptionBitmap_eq K D VCpu m p s

/-- C2: after `ProtectedHvUnsetExceptionBitmap(core, v)` with `v < 32`, bit `v` of the written
exception bitmap is clear if and only if no demand source requires vector `v`: the core's
`!exception` events do not ask for it, it is not #UD while the core has a syscall or sysret hook
event, it is not #BP or #DB while a debugger is active, it is not #DB while
debug-register-interception tracing is active, it is not #PF while the user debugger traces page
faults, and it is not #BP while an EPT hook exists.  (`PASSING_OVER_NONE` is the empty set.) -/
theorem C2_unset_bit_clear_iff_no_demand (K : HvConstants) (D : DebuggerState)
    (VCpu : VIRTUAL_MACHINE_STATE) (v : Nat) (s : HvState)
    (hNone : K.PASSING_OVER_NONE = 0) (hv : v < 32) :
    (ProtectedHvUnsetExceptionBitmap K D VCpu v s).2.ExceptionBitmap.testBit v = false ↔
      ¬ ((D.DebuggerExceptionEventBitmapMask VCpu.CoreId).testBit v = true
        ∨ ((D.DebuggerEventListCountByCore .SyscallHooksEferSyscallEventsHead VCpu.CoreId ≠ 0
              ∨ D.DebuggerEventListCountByCore .SyscallHooksEferSysretEventsHead VCpu.CoreId ≠ 0)
            ∧ v = K.EXCEPTION_VECTOR_UNDEFINED_OPCODE)
        ∨ (D.DebuggerQueryDebuggerStatus = true
            ∧ (v = K.EXCEPTION_VECTOR_BREAKPOINT ∨ v = K.EXCEPTION_VECTOR_DEBUG_BREAKPOINT))
        ∨ (D.KdQueryDebuggerQueryThreadOrProcessTracingDetailsByCoreId VCpu.CoreId
              .DEBUGGER_THREAD_PROCESS_TRACING_INTERCEPT_CLOCK_DEBUG_REGISTER_INTERCEPTION = true
            ∧ v = K.EXCEPTION_VECTOR_DEBUG_BREAKPOINT)
        ∨ (D.g_CheckPageFaultsAndMov2Cr3VmexitsWithUserDebugger = true
            ∧ v = K.EXCEPTION_VECTOR_PAGE_FAULT)
        ∨ (D.EptHookGetCountOfEpthooks false ≠ 0 ∧ v = K.EXCEPTION_VECTOR_BREAKPOINT)) := by
  have hm : (if v = K.DEBUGGER_EVENT_EXCEPTIONS_ALL_FIRST_32_ENTRIES then 0x0
      else toUINT32 (HvReadExceptionBitmap s &&& not32 (1 <<< v))).testBit v = false := by
    split_ifs
    · exact Nat.zero_testBit v
    · simp [testBit_toUINT32, testBit_not32, testBit_one_shiftLeft]
  unfold ProtectedHvUnsetExceptionBitmap
  simp only []
  rw [testBit_changeExceptionBitmap, hm, hNone]
  simp only [Nat.zero_and, decide_True, Bool.true_and, Bool.false_or, hv, and_true]
  simp only [eq_comm (a := v)]
  cases D.DebuggerQueryDebuggerStatus <;>
    cases D.KdQueryDebuggerQueryThreadOrProcessTracingDetailsByCoreId VCpu.CoreId
      .DEBUGGER_THREAD_PROCESS_TRACING_INTERCEPT_CLOCK_DEBUG_REGISTER_INTERCEPTION <;>
    cases D.g_CheckPageFaultsAndMov2Cr3VmexitsWithUserDebugger <;>
    simp [not_or, and_assoc]

/-- A concrete run of C2: with no demand source at all, unsetting #BP clears bit 3. -/
theorem C2_unset_bit_clear_iff_no_demand_witness :
    sdkConstants.PASSING_OVER_NONE = 0 ∧ 3 < 32 ∧
      (ProtectedHvUnsetExceptionBitmap sdkConstants idleDebugger { CoreId := 0 } 3
        { ExceptionBitmap := 0x4a }).2.ExceptionBitmap.testBit 3 = false :=
  ⟨rfl, by decide,
    (C2_unset_bit_clear_iff_no_demand sdkConstants idleDebugger { CoreId := 0 } 3
      { ExceptionBitmap := 0x4a } rfl (by decide)).mpr (by decide)⟩

/-- C3: `ProtectedHvSetExceptionBitmap(core, v)` never clears a bit.  For every previous state
and every state of the demand sources the written bitmap contains bit `v` (for a vector
`v < 32`) and every bit of the bitmap read before the call, and it is `0xffffffff` when `v` is
`DEBUGGER_EVENT_EXCEPTIONS_ALL_FIRST_32_ENTRIES`. -/
theorem C3_set_never_clears (K : HvConstants) (D : DebuggerState)
    (VCpu : VIRTUAL_MACHINE_STATE) (v : Nat) (s : HvState) :
    (v < 32 → (ProtectedHvSetExceptionBitmap K D VCpu v s).2.ExceptionBitmap.testBit v = true)
    ∧ (∀ i, (HvReadExceptionBitmap s).testBit i = true →
        (ProtectedHvSetExceptionBitmap K D VCpu v s).2.ExceptionBitmap.testBit i = true)
    ∧ (v = K.DEBUGGER_EVENT_EXCEPTIONS_ALL_FIRST_32_ENTRIES →
        (ProtectedHvSetExceptionBitmap K D VCpu v s).2.ExceptionBitmap = 0xffffffff) := by
  have hall : ∀ i, Nat.testBit 0xffffffff i = decide (i < 32) := fun i =>
    Nat.testBit_two_pow_sub_one 32 i
  have hread : ∀ i, (HvReadExceptionBitmap s).testBit i = true → i < 32 := by
    intro i hi
    unfold HvReadExceptionBitmap at hi
    rw [testBit_toUINT32] at hi
    exact of_decide_eq_true ((Bool.and_eq_true _ _).mp hi).1
  unfold ProtectedHvSetExceptionBitmap
  simp only []
  refine ⟨?_, ?_, ?_⟩
  · intro hv
    rw [testBit_changeExceptionBitmap]
    split_ifs
    · simp [hall, hv]
    · simp [testBit_toUINT32, testBit_one_shiftLeft, hv]
  · intro i hi
    have hi32 := hread i hi
    rw [testBit_changeExceptionBitmap]
    split_ifs
    · simp [hall, hi32]
    · simp [testBit_toUINT32, hi, hi32]
  · intro hv
    apply Nat.eq_of_testBit_eq
    intro i
    rw [testBit_changeExceptionBitmap, if_pos hv, hall]
    cases decide (i < 32) <;> simp

/-- A concrete run of C3: setting #PF on a bitmap that holds #BP keeps #BP and adds #PF. -/
theorem C3_set_never_clears_witness :
    14 < 32 ∧ (HvReadExceptionBitmap { ExceptionBitmap := 8 }).testBit 3 = true
      ∧ (ProtectedHvSetExceptionBitmap sdkConstants idleDebugger { CoreId := 0 } 14
            { ExceptionBitmap := 8 }).2.ExceptionBitmap.testBit 14 = true
      ∧ (ProtectedHvSetExceptionBitmap sdkConstants idleDebugger { CoreId := 0 } 14
            { ExceptionBitmap := 8 }).2.ExceptionBitmap.testBit 3 = true
      ∧ (ProtectedHvSetExceptionBitmap sdkConstants idleDebugger { CoreId := 0 }
            sdkConstants.DEBUGGER_EVENT_EXCEPTIONS_ALL_FIRST_32_ENTRIES
            { ExceptionBitmap := 8 }).2.ExceptionBitmap = 0xffffffff :=
  ⟨by decide, by decide,
    (C3_set_never_clears sdkConstants idleDebugger { CoreId := 0 } 14
      { ExceptionBitmap := 8 }).1 (by decide),
    (C3_set_never_clears sdkConstants idleDebugger { CoreId := 0 } 14
      { ExceptionBitmap := 8 }).2.1 3 (by decide),
    (C3_set_never_clears sdkConstants idleDebugger { CoreId := 0 }
      sdkConstants.DEBUGGER_EVENT_EXCEPTIONS_ALL_FIRST_32_ENTRIES
      { ExceptionBitmap := 8 }).2.2 rfl⟩

/-- C4 as stated fails.  With no debugger, no EPT hook and no page-fault tracing,
`ProtectedHvSetExceptionBitmap(core, 3)` writes a bitmap whose breakpoint bit is set, and
`ProtectedHvSetExceptionBitmap(core, 14)` writes one whose page-fault bit is set. -/
theorem C4_counterexample :
    ((ProtectedHvSetExceptionBitmap sdkConstants idleDebugger { CoreId := 0 } 3
          { ExceptionBitmap := 0 }).2.ExceptionBitmap.testBit
        sdkConstants.EXCEPTION_VECTOR_BREAKPOINT
      ≠ (idleDebugger.DebuggerQueryDebuggerStatus
          || decide (0 < idleDebugger.EptHookGetCountOfEpthooks false)))
    ∧ ((ProtectedHvSetExceptionBitmap sdkConstants idleDebugger { CoreId := 0 } 14
          { ExceptionBitmap := 0 }).2.ExceptionBitmap.testBit
        sdkConstants.EXCEPTION_VECTOR_PAGE_FAULT
      ≠ idleDebugger.g_CheckPageFaultsAndMov2Cr3VmexitsWithUserDebugger) := by
  decide

/-- C4, amended: for every combination of demand-source flags and every arbiter call that writes
the exception bitmap (caller mask `m`, pass-over `p`), the breakpoint bit of the written value
is the OR of the breakpoint bit of `m`, the breakpoint bit of the core's `!exception` event mask
(unless `p` passes over the exception events), `kernelOrUserDebuggerActive` and
`eptHookCount > 0`; the page-fault bit is the OR of the page-fault bit of `m`, the page-fault bit
of that event mask and `userDebuggerPageFaultTracingActive`.  The vectors #BP and #PF are below
32 and differ from each other and from #UD and #DB. -/
theorem C4_breakpoint_and_page_fault_bits (K : HvConstants) (D : DebuggerState)
    (VCpu : VIRTUAL_MACHINE_STATE) (m p : Nat) (s : HvState)
    (hBP : K.EXCEPTION_VECTOR_BREAKPOINT < 32) (hPF : K.EXCEPTION_VECTOR_PAGE_FAULT < 32)
    (hUDBP : K.EXCEPTION_VECTOR_UNDEFINED_OPCODE ≠ K.EXCEPTION_VECTOR_BREAKPOINT)
    (hDBBP : K.EXCEPTION_VECTOR_DEBUG_BREAKPOINT ≠ K.EXCEPTION_VECTOR_BREAKPOINT)
    (hPFBP : K.EXCEPTION_VECTOR_PAGE_FAULT ≠ K.EXCEPTION_VECTOR_BREAKPOINT)
    (hUDPF : K.EXCEPTION_VECTOR_UNDEFINED_OPCODE ≠ K.EXCEPTION_VECTOR_PAGE_FAULT)
    (hDBPF : K.EXCEPTION_VECTOR_DEBUG_BREAKPOINT ≠ K.EXCEPTION_VECTOR_PAGE_FAULT) :
    (ProtectedHvChangeExceptionBitmapWithIntegrityCheck K D VCpu m p s).2.ExceptionBitmap.testBit
        K.EXCEPTION_VECTOR_BREAKPOINT
      = (m.testBit K.EXCEPTION_VECTOR_BREAKPOINT
          || (decide (p &&& K.PASSING_OVER_EXCEPTION_EVENTS = 0)
              && (D.DebuggerExceptionEventBitmapMask VCpu.CoreId).testBit
                    K.EXCEPTION_VECTOR_BREAKPOINT)
          || D.DebuggerQueryDebuggerStatus
          || decide (0 < D.EptHookGetCountOfEpthooks false))
    ∧ (ProtectedHvChangeExceptionBitmapWithIntegrityCheck K D VCpu m p s).2.ExceptionBitmap.testBit
        K.EXCEPTION_VECTOR_PAGE_FAULT
      = (m.testBit K.EXCEPTION_VECTOR_PAGE_FAULT
          || (decide (p &&& K.PASSING_OVER_EXCEPTION_EVENTS = 0)
              && (D.DebuggerExceptionEventBitmapMask VCpu.CoreId).testBit
                    K.EXCEPTION_VECTOR_PAGE_FAULT)
          || D.g_CheckPageFaultsAndMov2Cr3VmexitsWithUserDebugger) := by
  have hpos : decide (0 < D.EptHookGetCountOfEpthooks false)
      = decide (D.EptHookGetCountOfEpthooks false ≠ 0) := by
    simp [Nat.pos_iff_ne_zero]
  constructor
  · rw [testBit_changeExceptionBitmap, hpos]
    simp [hBP, hUDBP, hDBBP, hPFBP]
  · rw [testBit_changeExceptionBitmap]
    simp [hPF, hUDPF, hDBPF, hPFBP.symm]

/-- A concrete run of the amended C4: a kernel debugger is attached, the caller asks for
nothing; the breakpoint bit is set and the page-fault bit is clear. -/
theorem C4_breakpoint_and_page_fault_bits_witness :
    (ProtectedHvChangeExceptionBitmapWithIntegrityCheck sdkConstants
        { idleDebugger with DebuggerQueryDebuggerStatus := true } { CoreId := 0 } 0 0
        { ExceptionBitmap := 0 }).2.ExceptionBitmap.testBit
          sdkConstants.EXCEPTION_VECTOR_BREAKPOINT = true
    ∧ (ProtectedHvChangeExceptionBitmapWithIntegrityCheck sdkConstants
        { idleDebugger with DebuggerQueryDebuggerStatus := true } { CoreId := 0 } 0 0
        { ExceptionBitmap := 0 }).2.ExceptionBitmap.testBit
          sdkConstants.EXCEPTION_VECTOR_PAGE_FAULT = false :=
  ⟨(C4_breakpoint_and_page_fault_bits sdkConstants
      { idleDebugger with DebuggerQueryDebuggerStatus := true } { CoreId := 0 } 0 0
      { ExceptionBitmap := 0 } (by decide) (by decide) (by decide) (by decide) (by decide)
      (by decide) (by decide)).1.trans (by decide),
   (C4_breakpoint_and_page_fault_bits sdkConstants
      { idleDebugger with DebuggerQueryDebuggerStatus := true } { CoreId := 0 } 0 0
      { ExceptionBitmap := 0 } (by decide) (by decide) (by decide) (by decide) (by decide)
      (by decide) (by decide)).2.trans (by decide)⟩

/-! ## Bit-level facts about control bits -/

theorem and_not32_and_self (x b : Nat) : toUINT32 (x &&& not32 b) &&& b = 0 := by
  apply Nat.eq_of_testBit_eq
  intro i
  simp only [Nat.testBit_and, testBit_toUINT32, testBit_not32, Nat.zero_testBit]
  cases decide (i < 32) <;> cases x.testBit i <;> cases b.testBit i <;> rfl

theorem or_and_self {b : Nat} (x : Nat) (hb : b < 2 ^ 32) : toUINT32 (x ||| b) &&& b = b := by
  apply Nat.eq_of_testBit_eq
  intro i
  simp only [Nat.testBit_and, testBit_toUINT32, Nat.testBit_or]
  by_cases hi : i < 32
  · cases x.testBit i <;> cases b.testBit i <;> simp [hi]
  · have : b.testBit i = false :=
      Nat.testBit_lt_two_pow (Nat.lt_of_lt_of_le hb (Nat.pow_le_pow_right (by decide)
        (Nat.le_of_not_lt hi)))
    simp [this]

theorem toUINT32_or_of_lt {x b : Nat} (hx : x < 2 ^ 32) (hb : b < 2 ^ 32) :
    toUINT32 (toUINT32 x ||| b) = x ||| b := by
  rw [toUINT32_of_lt hx]
  exact toUINT32_of_lt (Nat.or_lt_two_pow hx hb)

theorem toUINT32_and_not32_of_lt {x : Nat} (b : Nat) (hx : x < 2 ^ 32) :
    toUINT32 (toUINT32 x &&& not32 b) = x &&& not32 b := by
  rw [toUINT32_of_lt hx]
  exact toUINT32_of_lt (Nat.lt_of_le_of_lt Nat.and_le_left hx)

theorem testBit_or_of_not_bit (x b i : Nat) (hb : b.testBit i = false) :
    (x ||| b).testBit i = x.testBit i := by
  simp [hb]

theorem testBit_and_not32_of_not_bit {x : Nat} (b i : Nat) (hx : x < 2 ^ 32)
    (hb : b.testBit i = false) : (x &&& not32 b).testBit i = x.testBit i := by
  rw [Nat.testBit_and, testBit_not32, hb]
  by_cases hi : i < 32
  · simp [hi]
  · have : x.testBit i = false :=
      Nat.testBit_lt_two_pow (Nat.lt_of_lt_of_le hx (Nat.pow_le_pow_right (by decide)
        (Nat.le_of_not_lt hi)))
    simp [this]

/-! ## The control-bit routines, case by case -/

theorem setTsc_enable (K : HvConstants) (D : DebuggerState) (VCpu : VIRTUAL_MACHINE_STATE)
    (p : Nat) (s : HvState) :
    ProtectedHvSetTscVmexit K D VCpu true p s =
      ((), __vmx_vmwrite .VMCS_CTRL_PROCESSOR_BASED_VM_EXECUTION_CONTROLS
        (toUINT32 (toUINT32 s.ProcessorBasedVmExecutionControls ||| K.CPU_BASED_RDTSC_EXITING))
        s) := by
  simp [ProtectedHvSetTscVmexit, __vmx_vmread]

theorem setTsc_veto (K : HvConstants) (D : DebuggerState) (VCpu : VIRTUAL_MACHINE_STATE)
    (p : Nat) (s : HvState)
    (h : (p &&& K.PASSING_OVER_TSC_EVENTS = 0 ∧
          D.DebuggerEventListCountByCore .TscInstructionExecutionEventsHead VCpu.CoreId ≠ 0)
        ∨ D.g_TransparentMode = true) :
    ProtectedHvSetTscVmexit K D VCpu false p s = ((), s) := by
  unfold ProtectedHvSetTscVmexit
  rcases h with h | h
  · rw [if_pos ⟨rfl, h⟩]
  · split_ifs <;> first | rfl | simp_all

theorem setTsc_disable (K : HvConstants) (D : DebuggerState) (VCpu : VIRTUAL_MACHINE_STATE)
    (p : Nat) (s : HvState)
    (h : ¬ ((p &&& K.PASSING_OVER_TSC_EVENTS = 0 ∧
          D.DebuggerEventListCountByCore .TscInstructionExecutionEventsHead VCpu.CoreId ≠ 0)
        ∨ D.g_TransparentMode = true)) :
    ProtectedHvSetTscVmexit K D VCpu false p s =
      ((), __vmx_vmwrite .VMCS_CTRL_PROCESSOR_BASED_VM_EXECUTION_CONTROLS
        (toUINT32 (toUINT32 s.ProcessorBasedVmExecutionControls
          &&& not32 K.CPU_BASED_RDTSC_EXITING)) s) := by
  rw [not_or] at h
  unfold ProtectedHvSetTscVmexit
  rw [if_neg (fun hc => h.1 hc.2), if_neg (fun hc => h.2 hc.2)]
  simp [__vmx_vmread]

theorem setMovDr_enable (K : HvConstants) (D : DebuggerState) (VCpu : VIRTUAL_MACHINE_STATE)
    (p : Nat) (s : HvState) :
    ProtectedHvSetMovDebugRegsVmexit K D VCpu true p s =
      ((), __vmx_vmwrite .VMCS_CTRL_PROCESSOR_BASED_VM_EXECUTION_CONTROLS
        (toUINT32 (toUINT32 s.ProcessorBasedVmExecutionControls ||| K.CPU_BASED_MOV_DR_EXITING))
        s) := by
  simp [ProtectedHvSetMovDebugRegsVmexit, __vmx_vmread]

theorem setMovDr_veto (K : HvConstants) (D : DebuggerState) (VCpu : VIRTUAL_MACHINE_STATE)
    (p : Nat) (s : HvState)
    (h : (p &&& K.PASSING_OVER_MOV_TO_HW_DEBUG_REGS_EVENTS = 0 ∧
          D.DebuggerEventListCountByCore .DebugRegistersAccessedEventsHead VCpu.CoreId ≠ 0)
        ∨ D.KdQueryDebuggerQueryThreadOrProcessTracingDetailsByCoreId VCpu.CoreId
            .DEBUGGER_THREAD_PROCESS_TRACING_INTERCEPT_CLOCK_DEBUG_REGISTER_INTERCEPTION = true) :
    ProtectedHvSetMovDebugRegsVmexit K D VCpu false p s = ((), s) := by
  unfold ProtectedHvSetMovDebugRegsVmexit
  rcases h with h | h
  · rw [if_pos ⟨rfl, h⟩]
  · split_ifs <;> first | rfl | simp_all

theorem setMovDr_disable (K : HvConstants) (D : DebuggerState) (VCpu : VIRTUAL_MACHINE_STATE)
    (p : Nat) (s : HvState)
    (h : ¬ ((p &&& K.PASSING_OVER_MOV_TO_HW_DEBUG_REGS_EVENTS = 0 ∧
          D.DebuggerEventListCountByCore .DebugRegistersAccessedEventsHead VCpu.CoreId ≠ 0)
        ∨ D.KdQueryDebuggerQueryThreadOrProcessTracingDetailsByCoreId VCpu.CoreId
            .DEBUGGER_THREAD_PROCESS_TRACING_INTERCEPT_CLOCK_DEBUG_REGISTER_INTERCEPTION
              = true)) :
    ProtectedHvSetMovDebugRegsVmexit K D VCpu false p s =
      ((), __vmx_vmwrite .VMCS_CTRL_PROCESSOR_BASED_VM_EXECUTION_CONTROLS
        (toUINT32 (toUINT32 s.ProcessorBasedVmExecutionControls
          &&& not32 K.CPU_BASED_MOV_DR_EXITING)) s) := by
  rw [not_or] at h
  unfold ProtectedHvSetMovDebugRegsVmexit
  rw [if_neg (fun hc => h.1 hc.2), if_neg (fun hc => h.2 hc.2)]
  simp [__vmx_vmread]

theorem setMovCr3_enable (K : HvConstants) (D : DebuggerState) (VCpu : VIRTUAL_MACHINE_STATE)
    (p : Nat) (s : HvState) :
    ProtectedHvSetMovToCr3Vmexit K D VCpu true p s =
      ((), __vmx_vmwrite .VMCS_CTRL_PROCESSOR_BASED_VM_EXECUTION_CONTROLS
        (toUINT32 (toUINT32 s.ProcessorBasedVmExecutionControls
          ||| K.CPU_BASED_CR3_LOAD_EXITING)) s) := by
  simp [ProtectedHvSetMovToCr3Vmexit, __vmx_vmread]

theorem setMovCr3_veto (K : HvConstants) (D : DebuggerState) (VCpu : VIRTUAL_MACHINE_STATE)
    (p : Nat) (s : HvState)
    (h : D.KdQueryDebuggerQueryThreadOrProcessTracingDetailsByCoreId VCpu.CoreId
            .DEBUGGER_THREAD_PROCESS_TRACING_INTERCEPT_CLOCK_WAITING_FOR_MOV_CR3_VM_EXITS = true
        ∨ D.g_CheckPageFaultsAndMov2Cr3VmexitsWithUserDebugger = true) :
    ProtectedHvSetMovToCr3Vmexit K D VCpu false p s = ((), s) := by
  unfold ProtectedHvSetMovToCr3Vmexit
  rcases h with h | h
  · rw [if_pos ⟨rfl, h⟩]
  · split_ifs <;> first | rfl | simp_all

theorem setMovCr3_disable (K : HvConstants) (D : DebuggerState) (VCpu : VIRTUAL_MACHINE_STATE)
    (p : Nat) (s : HvState)
    (h : ¬ (D.KdQueryDebuggerQueryThreadOrProcessTracingDetailsByCoreId VCpu.CoreId
            .DEBUGGER_THREAD_PROCESS_TRACING_INTERCEPT_CLOCK_WAITING_FOR_MOV_CR3_VM_EXITS = true
        ∨ D.g_CheckPageFaultsAndMov2Cr3VmexitsWithUserDebugger = true)) :
    ProtectedHvSetMovToCr3Vmexit K D VCpu false p s =
      ((), __vmx_vmwrite .VMCS_CTRL_PROCESSOR_BASED_VM_EXECUTION_CONTROLS
        (toUINT32 (toUINT32 s.ProcessorBasedVmExecutionControls
          &&& not32 K.CPU_BASED_CR3_LOAD_EXITING)) s) := by
  rw [not_or] at h
  unfold ProtectedHvSetMovToCr3Vmexit
  rw [if_neg (fun hc => h.1 hc.2), if_neg (fun hc => h.2 hc.2)]
  simp [__vmx_vmread]

theorem setExtInt_enable (K : HvConstants) (D : DebuggerState) (VCpu : VIRTUAL_MACHINE_STATE)
    (p : Nat) (s : HvState) :
    ProtectedHvApplySetExternalInterruptExiting K D VCpu true p s =
      ((), __vmx_vmwrite .VMCS_CTRL_PRIMARY_VMEXIT_CONTROLS
        (toUINT32 (toUINT32 s.PrimaryVmexitControls ||| K.VM_EXIT_ACK_INTR_ON_EXIT))
        (__vmx_vmwrite .VMCS_CTRL_PIN_BASED_VM_EXECUTION_CONTROLS
          (toUINT32 (toUINT32 s.PinBasedVmExecutionControls
            ||| K.PIN_BASED_VM_EXECUTION_CONTROLS_EXTERNAL_INTERRUPT)) s)) := by
  simp [ProtectedHvApplySetExternalInterruptExiting, __vmx_vmread]

theorem setExtInt_veto (K : HvConstants) (D : DebuggerState) (VCpu : VIRTUAL_MACHINE_STATE)
    (p : Nat) (s : HvState)
    (h : (p &&& K.PASSING_OVER_INTERRUPT_EVENTS = 0 ∧
          D.DebuggerEventListCountByCore .ExternalInterruptOccurredEventsHead VCpu.CoreId ≠ 0)
        ∨ D.KdQueryDebuggerQueryThreadOrProcessTracingDetailsByCoreId VCpu.CoreId
            .DEBUGGER_THREAD_PROCESS_TRACING_INTERCEPT_CLOCK_INTERRUPTS_FOR_THREAD_CHANGE = true
        ∨ D.KdQueryDebuggerQueryThreadOrProcessTracingDetailsByCoreId VCpu.CoreId
            .DEBUGGER_THREAD_PROCESS_TRACING_INTERCEPT_CLOCK_INTERRUPTS_FOR_PROCESS_CHANGE
              = true) :
    ProtectedHvApplySetExternalInterruptExiting K D VCpu false p s = ((), s) := by
  unfold ProtectedHvApplySetExternalInterruptExiting
  rcases h with h | h
  · rw [if_pos ⟨rfl, h⟩]
  · split_ifs <;> first | rfl | simp_all

theorem setExtInt_disable (K : HvConstants) (D : DebuggerState) (VCpu : VIRTUAL_MACHINE_STATE)
    (p : Nat) (s : HvState)
    (h : ¬ ((p &&& K.PASSING_OVER_INTERRUPT_EVENTS = 0 ∧
          D.DebuggerEventListCountByCore .ExternalInterruptOccurredEventsHead VCpu.CoreId ≠ 0)
        ∨ D.KdQueryDebuggerQueryThreadOrProcessTracingDetailsByCoreId VCpu.CoreId
            .DEBUGGER_THREAD_PROCESS_TRACING_INTERCEPT_CLOCK_INTERRUPTS_FOR_THREAD_CHANGE = true
        ∨ D.KdQueryDebuggerQueryThreadOrProcessTracingDetailsByCoreId VCpu.CoreId
            .DEBUGGER_THREAD_PROCESS_TRACING_INTERCEPT_CLOCK_INTERRUPTS_FOR_PROCESS_CHANGE
              = true)) :
    ProtectedHvApplySetExternalInterruptExiting K D VCpu false p s =
      ((), __vmx_vmwrite .VMCS_CTRL_PRIMARY_VMEXIT_CONTROLS
        (toUINT32 (toUINT32 s.PrimaryVmexitControls &&& not32 K.VM_EXIT_ACK_INTR_ON_EXIT))
        (__vmx_vmwrite .VMCS_CTRL_PIN_BASED_VM_EXECUTION_CONTROLS
          (toUINT32 (toUINT32 s.PinBasedVmExecutionControls
            &&& not32 K.PIN_BASED_VM_EXECUTION_CONTROLS_EXTERNAL_INTERRUPT)) s)) := by
  rw [not_or] at h
  unfold ProtectedHvApplySetExternalInterruptExiting
  rw [if_neg (fun hc => h.1 hc.2), if_neg (fun hc => h.2 hc.2)]
  simp [__vmx_vmread]

theorem setMovCr_veto (K : HvConstants) (D : DebuggerState) (VCpu : VIRTUAL_MACHINE_STATE)
    (p ControlRegister MaskRegister : Nat) (s : HvState)
    (h : p &&& K.PASSING_OVER_MOV_TO_CONTROL_REGS_EVENTS = 0 ∧
          D.DebuggerEventListCountByCore .ControlRegisterModifiedEventsHead VCpu.CoreId ≠ 0) :
    ProtectedHvSetMovControlRegsVmexit K D VCpu false p ControlRegister MaskRegister s
      = ((), s) := by
  unfold ProtectedHvSetMovControlRegsVmexit
  rw [if_pos ⟨rfl, h⟩]

theorem setMovCr_apply (K : HvConstants) (D : DebuggerState) (VCpu : VIRTUAL_MACHINE_STATE)
    (Set : Bool) (p ControlRegister MaskRegister : Nat) (s : HvState)
    (h : ¬ (Set = false ∧ p &&& K.PASSING_OVER_MOV_TO_CONTROL_REGS_EVENTS = 0 ∧
          D.DebuggerEventListCountByCore .ControlRegisterModifiedEventsHead VCpu.CoreId ≠ 0)) :
    ProtectedHvSetMovControlRegsVmexit K D VCpu Set p ControlRegister MaskRegister s
      = ProtectedHvSetMovToCrVmexit K Set ControlRegister MaskRegister s := by
  unfold ProtectedHvSetMovControlRegsVmexit
  rw [if_neg h]

/-! ## Theorems about the control bits -/

/-- C5: `ProtectedHvSetRdtscExiting(core, FALSE)`.  When the core has no
`TscInstructionExecution` event and transparent mode is off, the processor-based controls are
rewritten with the RDTSC-exiting bit removed, so the bit is clear afterwards.  When the core has
such an event or transparent mode is on, the request is vetoed: nothing is written and the
state, hence the RDTSC-exiting bit, is left as it was (a bit that was set is still set). -/
theorem C5_rdtsc_disable (K : HvConstants) (D : DebuggerState) (VCpu : VIRTUAL_MACHINE_STATE)
    (s : HvState) (hNone : K.PASSING_OVER_NONE = 0) :
    (D.DebuggerEventListCountByCore .TscInstructionExecutionEventsHead VCpu.CoreId = 0
        ∧ D.g_TransparentMode = false →
      ProtectedHvSetRdtscExiting K D VCpu false s =
          ((), __vmx_vmwrite .VMCS_CTRL_PROCESSOR_BASED_VM_EXECUTION_CONTROLS
            (toUINT32 (toUINT32 s.ProcessorBasedVmExecutionControls
              &&& not32 K.CPU_BASED_RDTSC_EXITING)) s)
        ∧ (ProtectedHvSetRdtscExiting K D VCpu false s).2.ProcessorBasedVmExecutionControls
            &&& K.CPU_BASED_RDTSC_EXITING = 0)
    ∧ (D.DebuggerEventListCountByCore .TscInstructionExecutionEventsHead VCpu.CoreId ≠ 0
        ∨ D.g_TransparentMode = true →
      ProtectedHvSetRdtscExiting K D VCpu false s = ((), s)
        ∧ ((s.ProcessorBasedVmExecutionControls &&& K.CPU_BASED_RDTSC_EXITING ≠ 0) →
            (ProtectedHvSetRdtscExiting K D VCpu false s).2.ProcessorBasedVmExecutionControls
              &&& K.CPU_BASED_RDTSC_EXITING ≠ 0)) := by
  unfold ProtectedHvSetRdtscExiting
  rw [hNone]
  constructor
  · rintro ⟨hc, ht⟩
    have h := setTsc_disable K D VCpu 0 s (by simp [hc, ht])
    refine ⟨h, ?_⟩
    rw [h]
    exact and_not32_and_self _ _
  · intro hv
    have h := setTsc_veto K D VCpu 0 s (hv.imp (fun hc => ⟨Nat.zero_and _, hc⟩) id)
    refine ⟨h, ?_⟩
    rw [h]
    exact id

/-- A concrete run of C5: no `!tsc` event and no transparent mode clears bit 12; transparent
mode leaves the controls, and the set bit 12, untouched. -/
theorem C5_rdtsc_disable_witness :
    (ProtectedHvSetRdtscExiting sdkConstants idleDebugger { CoreId := 0 } false
        { ProcessorBasedVmExecutionControls := 0x1004 }).2.ProcessorBasedVmExecutionControls
          &&& sdkConstants.CPU_BASED_RDTSC_EXITING = 0
    ∧ ProtectedHvSetRdtscExiting sdkConstants { idleDebugger with g_TransparentMode := true }
        { CoreId := 0 } false { ProcessorBasedVmExecutionControls := 0x1004 }
      = ((), { ProcessorBasedVmExecutionControls := 0x1004 }) :=
  ⟨((C5_rdtsc_disable sdkConstants idleDebugger { CoreId := 0 }
      { ProcessorBasedVmExecutionControls := 0x1004 } rfl).1 ⟨rfl, rfl⟩).2,
   ((C5_rdtsc_disable sdkConstants { idleDebugger with g_TransparentMode := true }
      { CoreId := 0 } { ProcessorBasedVmExecutionControls := 0x1004 } rfl).2 (Or.inr rfl)).1⟩

/-- C6: for RDTSC, mov-DR and mov-CR3 exiting, on a 32-bit processor-based-controls field and
with 32-bit control-bit constants: an enable request succeeds for every state of the demand
sources and every pass-over and writes `old ||| bit` to the processor-based controls; a disable
request that no demand source vetoes writes `old &&& ~bit`; in both cases every bit of the field
that is not part of the control bit keeps its value. -/
theorem C6_enable_and_unvetoed_disable (K : HvConstants) (D : DebuggerState)
    (VCpu : VIRTUAL_MACHINE_STATE) (p : Nat) (s : HvState)
    (hs : s.ProcessorBasedVmExecutionControls < 2 ^ 32)
    (hTsc : K.CPU_BASED_RDTSC_EXITING < 2 ^ 32)
    (hDr : K.CPU_BASED_MOV_DR_EXITING < 2 ^ 32)
    (hCr3 : K.CPU_BASED_CR3_LOAD_EXITING < 2 ^ 32) :
    -- RDTSC exiting
    (ProtectedHvSetTscVmexit K D VCpu true p s =
        ((), __vmx_vmwrite .VMCS_CTRL_PROCESSOR_BASED_VM_EXECUTION_CONTROLS
          (s.ProcessorBasedVmExecutionControls ||| K.CPU_BASED_RDTSC_EXITING) s)
      ∧ (¬ ((p &&& K.PASSING_OVER_TSC_EVENTS = 0 ∧
              D.DebuggerEventListCountByCore .TscInstructionExecutionEventsHead VCpu.CoreId ≠ 0)
            ∨ D.g_TransparentMode = true) →
          ProtectedHvSetTscVmexit K D VCpu false p s =
            ((), __vmx_vmwrite .VMCS_CTRL_PROCESSOR_BASED_VM_EXECUTION_CONTROLS
              (s.ProcessorBasedVmExecutionControls &&& not32 K.CPU_BASED_RDTSC_EXITING) s))
      ∧ ∀ i, K.CPU_BASED_RDTSC_EXITING.testBit i = false →
          (s.ProcessorBasedVmExecutionControls ||| K.CPU_BASED_RDTSC_EXITING).testBit i
              = s.ProcessorBasedVmExecutionControls.testBit i
            ∧ (s.ProcessorBasedVmExecutionControls &&& not32 K.CPU_BASED_RDTSC_EXITING).testBit i
              = s.ProcessorBasedVmExecutionControls.testBit i)
    -- mov-DR exiting
    ∧ (ProtectedHvSetMovDebugRegsVmexit K D VCpu true p s =
        ((), __vmx_vmwrite .VMCS_CTRL_PROCESSOR_BASED_VM_EXECUTION_CONTROLS
          (s.ProcessorBasedVmExecutionControls ||| K.CPU_BASED_MOV_DR_EXITING) s)
      ∧ (¬ ((p &&& K.PASSING_OVER_MOV_TO_HW_DEBUG_REGS_EVENTS = 0 ∧
              D.DebuggerEventListCountByCore .DebugRegistersAccessedEventsHead VCpu.CoreId ≠ 0)
            ∨ D.KdQueryDebuggerQueryThreadOrProcessTracingDetailsByCoreId VCpu.CoreId
                .DEBUGGER_THREAD_PROCESS_TRACING_INTERCEPT_CLOCK_DEBUG_REGISTER_INTERCEPTION
                  = true) →
          ProtectedHvSetMovDebugRegsVmexit K D VCpu false p s =
            ((), __vmx_vmwrite .VMCS_CTRL_PROCESSOR_BASED_VM_EXECUTION_CONTROLS
              (s.ProcessorBasedVmExecutionControls &&& not32 K.CPU_BASED_MOV_DR_EXITING) s))
      ∧ ∀ i, K.CPU_BASED_MOV_DR_EXITING.testBit i = false →
          (s.ProcessorBasedVmExecutionControls ||| K.CPU_BASED_MOV_DR_EXITING).testBit i
              = s.ProcessorBasedVmExecutionControls.testBit i
            ∧ (s.ProcessorBasedVmExecutionControls &&& not32 K.CPU_BASED_MOV_DR_EXITING).testBit i
              = s.ProcessorBasedVmExecutionControls.testBit i)
    -- mov-CR3 exiting
    ∧ (ProtectedHvSetMovToCr3Vmexit K D VCpu true p s =
        ((), __vmx_vmwrite .VMCS_CTRL_PROCESSOR_BASED_VM_EXECUTION_CONTROLS
          (s.ProcessorBasedVmExecutionControls ||| K.CPU_BASED_CR3_LOAD_EXITING) s)
      ∧ (¬ (D.KdQueryDebuggerQueryThreadOrProcessTracingDetailsByCoreId VCpu.CoreId
                .DEBUGGER_THREAD_PROCESS_TRACING_INTERCEPT_CLOCK_WAITING_FOR_MOV_CR3_VM_EXITS
                  = true
            ∨ D.g_CheckPageFaultsAndMov2Cr3VmexitsWithUserDebugger = true) →
          ProtectedHvSetMovToCr3Vmexit K D VCpu false p s =
            ((), __vmx_vmwrite .VMCS_CTRL_PROCESSOR_BASED_VM_EXECUTION_CONTROLS
              (s.ProcessorBasedVmExecutionControls &&& not32 K.CPU_BASED_CR3_LOAD_EXITING) s))
      ∧ ∀ i, K.CPU_BASED_CR3_LOAD_EXITING.testBit i = false →
          (s.ProcessorBasedVmExecutionControls ||| K.CPU_BASED_CR3_LOAD_EXITING).testBit i
              = s.ProcessorBasedVmExecutionControls.testBit i
            ∧ (s.ProcessorBasedVmExecutionControls
                &&& not32 K.CPU_BASED_CR3_LOAD_EXITING).testBit i
              = s.ProcessorBasedVmExecutionControls.testBit i) := by
  refine ⟨⟨?_, ?_, ?_⟩, ⟨?_, ?_, ?_⟩, ⟨?_, ?_, ?_⟩⟩
  · rw [setTsc_enable, toUINT32_or_of_lt hs hTsc]
  · intro h
    rw [setTsc_disable K D VCpu p s h, toUINT32_and_not32_of_lt _ hs]
  · exact fun i hi => ⟨testBit_or_of_not_bit _ _ i hi, testBit_and_not32_of_not_bit _ i hs hi⟩
  · rw [setMovDr_enable, toUINT32_or_of_lt hs hDr]
  · intro h
    rw [setMovDr_disable K D VCpu p s h, toUINT32_and_not32_of_lt _ hs]
  · exact fun i hi => ⟨testBit_or_of_not_bit _ _ i hi, testBit_and_not32_of_not_bit _ i hs hi⟩
  · rw [setMovCr3_enable, toUINT32_or_of_lt hs hCr3]
  · intro h
    rw [setMovCr3_disable K D VCpu p s h, toUINT32_and_not32_of_lt _ hs]
  · exact fun i hi => ⟨testBit_or_of_not_bit _ _ i hi, testBit_and_not32_of_not_bit _ i hs hi⟩

/-- A concrete run of C6: enabling RDTSC exiting on controls `0x8004` while a `!tsc` event
exists writes `0x9004`; an unvetoed disable of mov-CR3 exiting on the same controls writes
`0x4`. -/
theorem C6_enable_and_unvetoed_disable_witness :
    ProtectedHvSetTscVmexit sdkConstants
        (idleDebugger.withEventCount .TscInstructionExecutionEventsHead 0 2)
        { CoreId := 0 } true 0 { ProcessorBasedVmExecutionControls := 0x8004 }
      = ((), { ProcessorBasedVmExecutionControls := 0x9004,
               VmwriteLog := [(.VMCS_CTRL_PROCESSOR_BASED_VM_EXECUTION_CONTROLS, 0x9004)] })
    ∧ ProtectedHvSetMovToCr3Vmexit sdkConstants
        (idleDebugger.withEventCount .TscInstructionExecutionEventsHead 0 2)
        { CoreId := 0 } false 0 { ProcessorBasedVmExecutionControls := 0x8004 }
      = ((), { ProcessorBasedVmExecutionControls := 0x4,
               VmwriteLog := [(.VMCS_CTRL_PROCESSOR_BASED_VM_EXECUTION_CONTROLS, 0x4)] }) :=
  ⟨(C6_enable_and_unvetoed_disable sdkConstants
      (idleDebugger.withEventCount .TscInstructionExecutionEventsHead 0 2) { CoreId := 0 } 0
      { ProcessorBasedVmExecutionControls := 0x8004 } (by decide) (by decide) (by decide)
      (by decide)).1.1.trans (by decide),
   ((C6_enable_and_unvetoed_disable sdkConstants
      (idleDebugger.withEventCount .TscInstructionExecutionEventsHead 0 2) { CoreId := 0 } 0
      { ProcessorBasedVmExecutionControls := 0x8004 } (by decide) (by decide) (by decide)
      (by decide)).2.2.2.1 (by decide)).trans (by decide)⟩

/-- C7: for each of external-interrupt, RDTSC, mov-DR, mov-CR0/CR4 and mov-CR3 exiting, a
disable request that a demand source vetoes performs no VMCS write: the whole hardware state
(every VMCS field and the list of executed `vmwrite`s) after the call is the state before it.
The routines are `VOID`: the value they return is the same whether the request was vetoed or
applied (compared here with a call under any other debugger state `D'`, pass-over `p'` and
hardware state `s'`). -/
theorem C7_vetoed_disable_writes_nothing (K : HvConstants) (D : DebuggerState)
    (VCpu : VIRTUAL_MACHINE_STATE) (p ControlRegister MaskRegister : Nat) (s : HvState) :
    -- external-interrupt exiting
    (((p &&& K.PASSING_OVER_INTERRUPT_EVENTS = 0 ∧
          D.DebuggerEventListCountByCore .ExternalInterruptOccurredEventsHead VCpu.CoreId ≠ 0)
        ∨ D.KdQueryDebuggerQueryThreadOrProcessTracingDetailsByCoreId VCpu.CoreId
            .DEBUGGER_THREAD_PROCESS_TRACING_INTERCEPT_CLOCK_INTERRUPTS_FOR_THREAD_CHANGE = true
        ∨ D.KdQueryDebuggerQueryThreadOrProcessTracingDetailsByCoreId VCpu.CoreId
            .DEBUGGER_THREAD_PROCESS_TRACING_INTERCEPT_CLOCK_INTERRUPTS_FOR_PROCESS_CHANGE
              = true) →
      (ProtectedHvApplySetExternalInterruptExiting K D VCpu false p s).2 = s)
    -- RDTSC exiting
    ∧ (((p &&& K.PASSING_OVER_TSC_EVENTS = 0 ∧
          D.DebuggerEventListCountByCore .TscInstructionExecutionEventsHead VCpu.CoreId ≠ 0)
        ∨ D.g_TransparentMode = true) →
      (ProtectedHvSetTscVmexit K D VCpu false p s).2 = s)
    -- mov-DR exiting
    ∧ (((p &&& K.PASSING_OVER_MOV_TO_HW_DEBUG_REGS_EVENTS = 0 ∧
          D.DebuggerEventListCountByCore .DebugRegistersAccessedEventsHead VCpu.CoreId ≠ 0)
        ∨ D.KdQueryDebuggerQueryThreadOrProcessTracingDetailsByCoreId VCpu.CoreId
            .DEBUGGER_THREAD_PROCESS_TRACING_INTERCEPT_CLOCK_DEBUG_REGISTER_INTERCEPTION
              = true) →
      (ProtectedHvSetMovDebugRegsVmexit K D VCpu false p s).2 = s)
    -- mov-CR0/CR4 exiting
    ∧ ((p &&& K.PASSING_OVER_MOV_TO_CONTROL_REGS_EVENTS = 0 ∧
          D.DebuggerEventListCountByCore .ControlRegisterModifiedEventsHead VCpu.CoreId ≠ 0) →
      (ProtectedHvSetMovControlRegsVmexit K D VCpu false p ControlRegister MaskRegister s).2
        = s)
    -- mov-CR3 exiting
    ∧ ((D.KdQueryDebuggerQueryThreadOrProcessTracingDetailsByCoreId VCpu.CoreId
            .DEBUGGER_THREAD_PROCESS_TRACING_INTERCEPT_CLOCK_WAITING_FOR_MOV_CR3_VM_EXITS = true
        ∨ D.g_CheckPageFaultsAndMov2Cr3VmexitsWithUserDebugger = true) →
      (ProtectedHvSetMovToCr3Vmexit K D VCpu false p s).2 = s)
    -- nothing returned tells a vetoed call from an applied one
    ∧ (∀ (D' : DebuggerState) (p' : Nat) (s' : HvState),
        (ProtectedHvApplySetExternalInterruptExiting K D VCpu false p s).1
            = (ProtectedHvApplySetExternalInterruptExiting K D' VCpu false p' s').1
        ∧ (ProtectedHvSetTscVmexit K D VCpu false p s).1
            = (ProtectedHvSetTscVmexit K D' VCpu false p' s').1
        ∧ (ProtectedHvSetMovDebugRegsVmexit K D VCpu false p s).1
            = (ProtectedHvSetMovDebugRegsVmexit K D' VCpu false p' s').1
        ∧ (ProtectedHvSetMovControlRegsVmexit K D VCpu false p ControlRegister MaskRegister s).1
            = (ProtectedHvSetMovControlRegsVmexit K D' VCpu false p' ControlRegister
                MaskRegister s').1
        ∧ (ProtectedHvSetMovToCr3Vmexit K D VCpu false p s).1
            = (ProtectedHvSetMovToCr3Vmexit K D' VCpu false p' s').1) := by
  refine ⟨?_, ?_, ?_, ?_, ?_, ?_⟩
  · intro h
    rw [setExtInt_veto K D VCpu p s h]
  · intro h
    rw [setTsc_veto K D VCpu p s h]
  · intro h
    rw [setMovDr_veto K D VCpu p s h]
  · intro h
    rw [setMovCr_veto K D VCpu p ControlRegister MaskRegister s h]
  · intro h
    rw [setMovCr3_veto K D VCpu p s h]
  · intro D' p' s'
    exact ⟨rfl, rfl, rfl, rfl, rfl⟩

/-- A concrete run of C7: with every demand source active on core 0, each of the five disable
requests leaves the state, with every exiting bit set, as it was. -/
theorem C7_vetoed_disable_writes_nothing_witness :
    (ProtectedHvApplySetExternalInterruptExiting sdkConstants busyDebugger { CoreId := 0 } false
        0 armedState).2 = armedState
    ∧ (ProtectedHvSetTscVmexit sdkConstants busyDebugger { CoreId := 0 } false 0 armedState).2
        = armedState
    ∧ (ProtectedHvSetMovDebugRegsVmexit sdkConstants busyDebugger { CoreId := 0 } false 0
        armedState).2 = armedState
    ∧ (ProtectedHvSetMovControlRegsVmexit sdkConstants busyDebugger { CoreId := 0 } false 0 0
        0x10000 armedState).2 = armedState
    ∧ (ProtectedHvSetMovToCr3Vmexit sdkConstants busyDebugger { CoreId := 0 } false 0
        armedState).2 = armedState :=
  have h := C7_vetoed_disable_writes_nothing sdkConstants busyDebugger { CoreId := 0 } 0 0
    0x10000 armedState
  ⟨h.1 (by decide), h.2.1 (by decide), h.2.2.1 (by decide), h.2.2.2.1 (by decide),
    h.2.2.2.2.1 (by decide)⟩

/-! ## The "for disabling <feature> commands" variants -/

theorem resetToClearEvents_eq (K : HvConstants) (D : DebuggerState)
    (VCpu : VIRTUAL_MACHINE_STATE) (s : HvState)
    (hExc : K.PASSING_OVER_EXCEPTION_EVENTS ≠ 0)
    (hDisj : K.PASSING_OVER_EXCEPTION_EVENTS
      &&& K.PASSING_OVER_UD_EXCEPTIONS_FOR_SYSCALL_SYSRET_HOOK = 0) :
    ProtectedHvResetExceptionBitmapToClearEvents K D VCpu s =
      ((), __vmx_vmwrite .VMCS_CTRL_EXCEPTION_BITMAP
        (toUINT32
          ((if D.DebuggerEventListCountByCore .SyscallHooksEferSyscallEventsHead VCpu.CoreId ≠ 0
                ∨ D.DebuggerEventListCountByCore .SyscallHooksEferSysretEventsHead
                    VCpu.CoreId ≠ 0
              then 1 <<< K.EXCEPTION_VECTOR_UNDEFINED_OPCODE else 0)
          ||| (if D.DebuggerQueryDebuggerStatus = true
                then 1 <<< K.EXCEPTION_VECTOR_BREAKPOINT ||| 1 <<< K.EXCEPTION_VECTOR_DEBUG_BREAKPOINT
                else 0)
          ||| (if D.KdQueryDebuggerQueryThreadOrProcessTracingDetailsByCoreId VCpu.CoreId
                    .DEBUGGER_THREAD_PROCESS_TRACING_INTERCEPT_CLOCK_DEBUG_REGISTER_INTERCEPTION
                    = true
                then 1 <<< K.EXCEPTION_VECTOR_DEBUG_BREAKPOINT else 0)
          ||| (if D.g_CheckPageFaultsAndMov2Cr3VmexitsWithUserDebugger = true
                then 1 <<< K.EXCEPTION_VECTOR_PAGE_FAULT else 0)
          ||| (if D.EptHookGetCountOfEpthooks false ≠ 0
                then 1 <<< K.EXCEPTION_VECTOR_BREAKPOINT else 0))) s) := by
  unfold ProtectedHvResetExceptionBitmapToClearEvents
  simp only []
  rw [changeExceptionBitmap_eq]
  simp only [Nat.and_self, ne_eq, hExc, not_false_eq_true, if_true, hDisj, and_true,
    Nat.zero_or]

theorem removeUndefinedInstruction_eq (K : HvConstants) (D : DebuggerState)
    (VCpu : VIRTUAL_MACHINE_STATE) (s : HvState)
    (hUd : K.PASSING_OVER_UD_EXCEPTIONS_FOR_SYSCALL_SYSRET_HOOK ≠ 0)
    (hDisj : K.PASSING_OVER_UD_EXCEPTIONS_FOR_SYSCALL_SYSRET_HOOK
      &&& K.PASSING_OVER_EXCEPTION_EVENTS = 0) :
    ProtectedHvRemoveUndefinedInstructionForDisablingSyscallSysretCommands K D VCpu s =
      ((), __vmx_vmwrite .VMCS_CTRL_EXCEPTION_BITMAP
        (toUINT32
          (toUINT32 (HvReadExceptionBitmap s
              &&& not32 (1 <<< K.EXCEPTION_VECTOR_UNDEFINED_OPCODE))
          ||| D.DebuggerExceptionEventBitmapMask VCpu.CoreId
          ||| (if D.DebuggerQueryDebuggerStatus = true
                then 1 <<< K.EXCEPTION_VECTOR_BREAKPOINT ||| 1 <<< K.EXCEPTION_VECTOR_DEBUG_BREAKPOINT
                else 0)
          ||| (if D.KdQueryDebuggerQueryThreadOrProcessTracingDetailsByCoreId VCpu.CoreId
                    .DEBUGGER_THREAD_PROCESS_TRACING_INTERCEPT_CLOCK_DEBUG_REGISTER_INTERCEPTION
                    = true
                then 1 <<< K.EXCEPTION_VECTOR_DEBUG_BREAKPOINT else 0)
          ||| (if D.g_CheckPageFaultsAndMov2Cr3VmexitsWithUserDebugger = true
                then 1 <<< K.EXCEPTION_VECTOR_PAGE_FAULT else 0)
          ||| (if D.EptHookGetCountOfEpthooks false ≠ 0
                then 1 <<< K.EXCEPTION_VECTOR_BREAKPOINT else 0))) s) := by
  unfold ProtectedHvRemoveUndefinedInstructionForDisablingSyscallSysretCommands
  simp only []
  rw [changeExceptionBitmap_eq]
  simp only [Nat.and_self, ne_eq, hUd, hDisj, not_true_eq_false, if_false, and_false,
    Nat.or_zero]

theorem extIntForDisabling_eq (K : HvConstants) (D : DebuggerState)
    (VCpu : VIRTUAL_MACHINE_STATE) (s : HvState) (hInt : K.PASSING_OVER_INTERRUPT_EVENTS ≠ 0) :
    ProtectedHvExternalInterruptExitingForDisablingInterruptCommands K D VCpu s =
      if D.KdQueryDebuggerQueryThreadOrProcessTracingDetailsByCoreId VCpu.CoreId
            .DEBUGGER_THREAD_PROCESS_TRACING_INTERCEPT_CLOCK_INTERRUPTS_FOR_THREAD_CHANGE = true
          ∨ D.KdQueryDebuggerQueryThreadOrProcessTracingDetailsByCoreId VCpu.CoreId
            .DEBUGGER_THREAD_PROCESS_TRACING_INTERCEPT_CLOCK_INTERRUPTS_FOR_PROCESS_CHANGE = true
      then ((), s)
      else ((), __vmx_vmwrite .VMCS_CTRL_PRIMARY_VMEXIT_CONTROLS
        (toUINT32 (toUINT32 s.PrimaryVmexitControls &&& not32 K.VM_EXIT_ACK_INTR_ON_EXIT))
        (__vmx_vmwrite .VMCS_CTRL_PIN_BASED_VM_EXECUTION_CONTROLS
          (toUINT32 (toUINT32 s.PinBasedVmExecutionControls
            &&& not32 K.PIN_BASED_VM_EXECUTION_CONTROLS_EXTERNAL_INTERRUPT)) s)) := by
  unfold ProtectedHvExternalInterruptExitingForDisablingInterruptCommands
  split_ifs with h
  · exact setExtInt_veto K D VCpu _ s (Or.inr h)
  · apply setExtInt_disable
    rintro (⟨h0, -⟩ | h')
    · exact hInt (by rwa [Nat.and_self] at h0)
    · exact h h'

theorem rdtscForDisabling_eq (K : HvConstants) (D : DebuggerState)
    (VCpu : VIRTUAL_MACHINE_STATE) (s : HvState) (hTsc : K.PASSING_OVER_TSC_EVENTS ≠ 0) :
    ProtectedHvDisableRdtscExitingForDisablingTscCommands K D VCpu s =
      if D.g_TransparentMode = true then ((), s)
      else ((), __vmx_vmwrite .VMCS_CTRL_PROCESSOR_BASED_VM_EXECUTION_CONTROLS
        (toUINT32 (toUINT32 s.ProcessorBasedVmExecutionControls
          &&& not32 K.CPU_BASED_RDTSC_EXITING)) s) := by
  unfold ProtectedHvDisableRdtscExitingForDisablingTscCommands
  split_ifs with h
  · exact setTsc_veto K D VCpu _ s (Or.inr h)
  · apply setTsc_disable
    rintro (⟨h0, -⟩ | h')
    · exact hTsc (by rwa [Nat.and_self] at h0)
    · exact h h'

theorem movDrForDisabling_eq (K : HvConstants) (D : DebuggerState)
    (VCpu : VIRTUAL_MACHINE_STATE) (s : HvState)
    (hDr : K.PASSING_OVER_MOV_TO_HW_DEBUG_REGS_EVENTS ≠ 0) :
    ProtectedHvDisableMovDebugRegsExitingForDisablingDrCommands K D VCpu s =
      if D.KdQueryDebuggerQueryThreadOrProcessTracingDetailsByCoreId VCpu.CoreId
            .DEBUGGER_THREAD_PROCESS_TRACING_INTERCEPT_CLOCK_DEBUG_REGISTER_INTERCEPTION = true
      then ((), s)
      else ((), __vmx_vmwrite .VMCS_CTRL_PROCESSOR_BASED_VM_EXECUTION_CONTROLS
        (toUINT32 (toUINT32 s.ProcessorBasedVmExecutionControls
          &&& not32 K.CPU_BASED_MOV_DR_EXITING)) s) := by
  unfold ProtectedHvDisableMovDebugRegsExitingForDisablingDrCommands
  split_ifs with h
  · exact setMovDr_veto K D VCpu _ s (Or.inr h)
  · apply setMovDr_disable
    rintro (⟨h0, -⟩ | h')
    · exact hDr (by rwa [Nat.and_self] at h0)
    · exact h h'

theorem movCrForDisabling_eq (K : HvConstants) (D : DebuggerState)
    (VCpu : VIRTUAL_MACHINE_STATE) (ControlRegister MaskRegister : Nat) (s : HvState)
    (hCr : K.PASSING_OVER_MOV_TO_CONTROL_REGS_EVENTS ≠ 0) :
    ProtectedHvDisableMovControlRegsExitingForDisablingCrCommands K D VCpu ControlRegister
        MaskRegister s =
      ProtectedHvSetMovToCrVmexit K false ControlRegister MaskRegister s := by
  unfold ProtectedHvDisableMovControlRegsExitingForDisablingCrCommands
  apply setMovCr_apply
  rintro ⟨-, h0, -⟩
  exact hCr (by rwa [Nat.and_self] at h0)

theorem withEventCount_count_of_ne (D : DebuggerState) (Head Head' : EventListHead)
    (CoreId c n : Nat) (h : Head' ≠ Head) :
    (D.withEventCount Head CoreId n).DebuggerEventListCountByCore Head' c
      = D.DebuggerEventListCountByCore Head' c := by
  simp [DebuggerState.withEventCount, h]

/-- C8: each "for disabling <feature> commands" variant skips exactly one check, the one on its
own feature's events.  With pass-over enumerators that are non-zero, and the two exception-bitmap
enumerators without a common bit: for each of the six variants, a run in which the feature's own
events on the core are replaced by anything else (`n`, `n'`, `M`) leaves the same state as the
original run, and the result is the one dictated by the remaining demand sources alone: for the
exception bitmap the written value still contains the contribution of every other source; for
the control bits every other source still vetoes the request. -/
theorem C8_for_disabling_variants_skip_own_check (K : HvConstants) (D : DebuggerState)
    (VCpu : VIRTUAL_MACHINE_STATE) (n n' M ControlRegister MaskRegister : Nat) (s : HvState)
    (hExc : K.PASSING_OVER_EXCEPTION_EVENTS ≠ 0)
    (hUd : K.PASSING_OVER_UD_EXCEPTIONS_FOR_SYSCALL_SYSRET_HOOK ≠ 0)
    (hDisj : K.PASSING_OVER_EXCEPTION_EVENTS
      &&& K.PASSING_OVER_UD_EXCEPTIONS_FOR_SYSCALL_SYSRET_HOOK = 0)
    (hInt : K.PASSING_OVER_INTERRUPT_EVENTS ≠ 0)
    (hTsc : K.PASSING_OVER_TSC_EVENTS ≠ 0)
    (hDr : K.PASSING_OVER_MOV_TO_HW_DEBUG_REGS_EVENTS ≠ 0)
    (hCr : K.PASSING_OVER_MOV_TO_CONTROL_REGS_EVENTS ≠ 0) :
    -- ProtectedHvResetExceptionBitmapToClearEvents: the `!exception` events are skipped
    (ProtectedHvResetExceptionBitmapToClearEvents K
          (D.withExceptionEventMask VCpu.CoreId M) VCpu s
        = ProtectedHvResetExceptionBitmapToClearEvents K D VCpu s
      ∧ ProtectedHvResetExceptionBitmapToClearEvents K D VCpu s =
        ((), __vmx_vmwrite .VMCS_CTRL_EXCEPTION_BITMAP
          (toUINT32
            ((if D.DebuggerEventListCountByCore .SyscallHooksEferSyscallEventsHead
                      VCpu.CoreId ≠ 0
                  ∨ D.DebuggerEventListCountByCore .SyscallHooksEferSysretEventsHead
                      VCpu.CoreId ≠ 0
                then 1 <<< K.EXCEPTION_VECTOR_UNDEFINED_OPCODE else 0)
            ||| (if D.DebuggerQueryDebuggerStatus = true
                  then 1 <<< K.EXCEPTION_VECTOR_BREAKPOINT
                    ||| 1 <<< K.EXCEPTION_VECTOR_DEBUG_BREAKPOINT
                  else 0)
            ||| (if D.KdQueryDebuggerQueryThreadOrProcessTracingDetailsByCoreId VCpu.CoreId
                    .DEBUGGER_THREAD_PROCESS_TRACING_INTERCEPT_CLOCK_DEBUG_REGISTER_INTERCEPTION
                    = true
                  then 1 <<< K.EXCEPTION_VECTOR_DEBUG_BREAKPOINT else 0)
            ||| (if D.g_CheckPageFaultsAndMov2Cr3VmexitsWithUserDebugger = true
                  then 1 <<< K.EXCEPTION_VECTOR_PAGE_FAULT else 0)
            ||| (if D.EptHookGetCountOfEpthooks false ≠ 0
                  then 1 <<< K.EXCEPTION_VECTOR_BREAKPOINT else 0))) s))
    -- ProtectedHvRemoveUndefinedInstructionForDisablingSyscallSysretCommands: the syscall and
    -- sysret hook events are skipped
    ∧ (ProtectedHvRemoveUndefinedInstructionForDisablingSyscallSysretCommands K
          ((D.withEventCount .SyscallHooksEferSyscallEventsHead VCpu.CoreId n).withEventCount
            .SyscallHooksEferSysretEventsHead VCpu.CoreId n') VCpu s
        = ProtectedHvRemoveUndefinedInstructionForDisablingSyscallSysretCommands K D VCpu s
      ∧ ProtectedHvRemoveUndefinedInstructionForDisablingSyscallSysretCommands K D VCpu s =
        ((), __vmx_vmwrite .VMCS_CTRL_EXCEPTION_BITMAP
          (toUINT32
            (toUINT32 (HvReadExceptionBitmap s
                &&& not32 (1 <<< K.EXCEPTION_VECTOR_UNDEFINED_OPCODE))
            ||| D.DebuggerExceptionEventBitmapMask VCpu.CoreId
            ||| (if D.DebuggerQueryDebuggerStatus = true
                  then 1 <<< K.EXCEPTION_VECTOR_BREAKPOINT
                    ||| 1 <<< K.EXCEPTION_VECTOR_DEBUG_BREAKPOINT
                  else 0)
            ||| (if D.KdQueryDebuggerQueryThreadOrProcessTracingDetailsByCoreId VCpu.CoreId
                    .DEBUGGER_THREAD_PROCESS_TRACING_INTERCEPT_CLOCK_DEBUG_REGISTER_INTERCEPTION
                    = true
                  then 1 <<< K.EXCEPTION_VECTOR_DEBUG_BREAKPOINT else 0)
            ||| (if D.g_CheckPageFaultsAndMov2Cr3VmexitsWithUserDebugger = true
                  then 1 <<< K.EXCEPTION_VECTOR_PAGE_FAULT else 0)
            ||| (if D.EptHookGetCountOfEpthooks false ≠ 0
                  then 1 <<< K.EXCEPTION_VECTOR_BREAKPOINT else 0))) s))
    -- ProtectedHvExternalInterruptExitingForDisablingInterruptCommands: the `!interrupt` events
    -- are skipped, clock-interrupt interception still vetoes
    ∧ (ProtectedHvExternalInterruptExitingForDisablingInterruptCommands K
          (D.withEventCount .ExternalInterruptOccurredEventsHead VCpu.CoreId n) VCpu s
        = ProtectedHvExternalInterruptExitingForDisablingInterruptCommands K D VCpu s
      ∧ ProtectedHvExternalInterruptExitingForDisablingInterruptCommands K D VCpu s =
        if D.KdQueryDebuggerQueryThreadOrProcessTracingDetailsByCoreId VCpu.CoreId
              .DEBUGGER_THREAD_PROCESS_TRACING_INTERCEPT_CLOCK_INTERRUPTS_FOR_THREAD_CHANGE
                = true
            ∨ D.KdQueryDebuggerQueryThreadOrProcessTracingDetailsByCoreId VCpu.CoreId
              .DEBUGGER_THREAD_PROCESS_TRACING_INTERCEPT_CLOCK_INTERRUPTS_FOR_PROCESS_CHANGE
                = true
        then ((), s)
        else ((), __vmx_vmwrite .VMCS_CTRL_PRIMARY_VMEXIT_CONTROLS
          (toUINT32 (toUINT32 s.PrimaryVmexitControls &&& not32 K.VM_EXIT_ACK_INTR_ON_EXIT))
          (__vmx_vmwrite .VMCS_CTRL_PIN_BASED_VM_EXECUTION_CONTROLS
            (toUINT32 (toUINT32 s.PinBasedVmExecutionControls
              &&& not32 K.PIN_BASED_VM_EXECUTION_CONTROLS_EXTERNAL_INTERRUPT)) s)))
    -- ProtectedHvDisableRdtscExitingForDisablingTscCommands: the `!tsc` events are skipped,
    -- transparent mode still vetoes
    ∧ (ProtectedHvDisableRdtscExitingForDisablingTscCommands K
          (D.withEventCount .TscInstructionExecutionEventsHead VCpu.CoreId n) VCpu s
        = ProtectedHvDisableRdtscExitingForDisablingTscCommands K D VCpu s
      ∧ ProtectedHvDisableRdtscExitingForDisablingTscCommands K D VCpu s =
        if D.g_TransparentMode = true then ((), s)
        else ((), __vmx_vmwrite .VMCS_CTRL_PROCESSOR_BASED_VM_EXECUTION_CONTROLS
          (toUINT32 (toUINT32 s.ProcessorBasedVmExecutionControls
            &&& not32 K.CPU_BASED_RDTSC_EXITING)) s))
    -- ProtectedHvDisableMovDebugRegsExitingForDisablingDrCommands: the `!dr` events are
    -- skipped, debug-register interception for thread switching still vetoes
    ∧ (ProtectedHvDisableMovDebugRegsExitingForDisablingDrCommands K
          (D.withEventCount .DebugRegistersAccessedEventsHead VCpu.CoreId n) VCpu s
        = ProtectedHvDisableMovDebugRegsExitingForDisablingDrCommands K D VCpu s
      ∧ ProtectedHvDisableMovDebugRegsExitingForDisablingDrCommands K D VCpu s =
        if D.KdQueryDebuggerQueryThreadOrProcessTracingDetailsByCoreId VCpu.CoreId
              .DEBUGGER_THREAD_PROCESS_TRACING_INTERCEPT_CLOCK_DEBUG_REGISTER_INTERCEPTION = true
        then ((), s)
        else ((), __vmx_vmwrite .VMCS_CTRL_PROCESSOR_BASED_VM_EXECUTION_CONTROLS
          (toUINT32 (toUINT32 s.ProcessorBasedVmExecutionControls
            &&& not32 K.CPU_BASED_MOV_DR_EXITING)) s))
    -- ProtectedHvDisableMovControlRegsExitingForDisablingCrCommands: the `!crwrite` events are
    -- skipped; the control has no other demand source
    ∧ (ProtectedHvDisableMovControlRegsExitingForDisablingCrCommands K
          (D.withEventCount .ControlRegisterModifiedEventsHead VCpu.CoreId n) VCpu
          ControlRegister MaskRegister s
        = ProtectedHvDisableMovControlRegsExitingForDisablingCrCommands K D VCpu
            ControlRegister MaskRegister s
      ∧ ProtectedHvDisableMovControlRegsExitingForDisablingCrCommands K D VCpu
            ControlRegister MaskRegister s
        = ProtectedHvSetMovToCrVmexit K false ControlRegister MaskRegister s) := by
  have hDisj' : K.PASSING_OVER_UD_EXCEPTIONS_FOR_SYSCALL_SYSRET_HOOK
      &&& K.PASSING_OVER_EXCEPTION_EVENTS = 0 := by rw [Nat.and_comm]; exact hDisj
  refine ⟨⟨?_, resetToClearEvents_eq K D VCpu s hExc hDisj⟩,
    ⟨?_, removeUndefinedInstruction_eq K D VCpu s hUd hDisj'⟩,
    ⟨?_, extIntForDisabling_eq K D VCpu s hInt⟩,
    ⟨?_, rdtscForDisabling_eq K D VCpu s hTsc⟩,
    ⟨?_, movDrForDisabling_eq K D VCpu s hDr⟩,
    ⟨?_, movCrForDisabling_eq K D VCpu ControlRegister MaskRegister s hCr⟩⟩
  · rw [resetToClearEvents_eq K _ VCpu s hExc hDisj, resetToClearEvents_eq K D VCpu s hExc hDisj]
    rfl
  · rw [removeUndefinedInstruction_eq K _ VCpu s hUd hDisj',
      removeUndefinedInstruction_eq K D VCpu s hUd hDisj']
    rfl
  · rw [extIntForDisabling_eq K _ VCpu s hInt, extIntForDisabling_eq K D VCpu s hInt]
    rfl
  · rw [rdtscForDisabling_eq K _ VCpu s hTsc, rdtscForDisabling_eq K D VCpu s hTsc]
    rfl
  · rw [movDrForDisabling_eq K _ VCpu s hDr, movDrForDisabling_eq K D VCpu s hDr]
    rfl
  · rw [movCrForDisabling_eq K _ VCpu ControlRegister MaskRegister s hCr,
      movCrForDisabling_eq K D VCpu ControlRegister MaskRegister s hCr]

/-- A concrete run of C8 on core 0: whatever the number of `!tsc` events, the "for disabling
`!tsc`" variant clears RDTSC exiting when transparent mode is off; and the "clear `!exception`
events" variant writes the same bitmap whatever the `!exception` events ask for. -/
theorem C8_for_disabling_variants_skip_own_check_witness :
    ProtectedHvDisableRdtscExitingForDisablingTscCommands sdkConstants
        (idleDebugger.withEventCount .TscInstructionExecutionEventsHead 0 5) { CoreId := 0 }
        armedState
      = ProtectedHvDisableRdtscExitingForDisablingTscCommands sdkConstants idleDebugger
          { CoreId := 0 } armedState
    ∧ ProtectedHvResetExceptionBitmapToClearEvents sdkConstants
        (idleDebugger.withExceptionEventMask 0 5) { CoreId := 0 } armedState
      = ProtectedHvResetExceptionBitmapToClearEvents sdkConstants idleDebugger { CoreId := 0 }
          armedState :=
  have h := C8_for_disabling_variants_skip_own_check sdkConstants idleDebugger { CoreId := 0 }
    5 5 5 0 0 armedState (by decide) (by decide) (by decide) (by decide) (by decide) (by decide)
    (by decide)
  ⟨h.2.2.2.1.1, h.1.1⟩

/-- C9: `ProtectedHvSetExternalInterruptExiting(core, FALSE)` is ignored (no `vmwrite` is
executed and the state is unchanged) if and only if the core has an external-interrupt event or
clock-interrupt interception for thread change or for process change is active on the core;
otherwise it clears both the pin-based external-interrupt-exiting bit and the VM-exit
acknowledge-interrupt-on-exit bit; an enable request sets both; so every call either leaves the
state alone or puts both bits in the requested position.  (`PASSING_OVER_NONE` is the empty set
and both control-bit constants are 32-bit values.) -/
theorem C9_external_interrupt_exiting (K : HvConstants) (D : DebuggerState)
    (VCpu : VIRTUAL_MACHINE_STATE) (s : HvState)
    (hNone : K.PASSING_OVER_NONE = 0)
    (hPin : K.PIN_BASED_VM_EXECUTION_CONTROLS_EXTERNAL_INTERRUPT < 2 ^ 32)
    (hAck : K.VM_EXIT_ACK_INTR_ON_EXIT < 2 ^ 32) :
    -- ignored if and only if a demand source is active
    ((ProtectedHvSetExternalInterruptExiting K D VCpu false s).2.VmwriteLog = s.VmwriteLog ↔
        (D.DebuggerEventListCountByCore .ExternalInterruptOccurredEventsHead VCpu.CoreId ≠ 0
          ∨ D.KdQueryDebuggerQueryThreadOrProcessTracingDetailsByCoreId VCpu.CoreId
              .DEBUGGER_THREAD_PROCESS_TRACING_INTERCEPT_CLOCK_INTERRUPTS_FOR_THREAD_CHANGE
                = true
          ∨ D.KdQueryDebuggerQueryThreadOrProcessTracingDetailsByCoreId VCpu.CoreId
              .DEBUGGER_THREAD_PROCESS_TRACING_INTERCEPT_CLOCK_INTERRUPTS_FOR_PROCESS_CHANGE
                = true))
    ∧ ((D.DebuggerEventListCountByCore .ExternalInterruptOccurredEventsHead VCpu.CoreId ≠ 0
          ∨ D.KdQueryDebuggerQueryThreadOrProcessTracingDetailsByCoreId VCpu.CoreId
              .DEBUGGER_THREAD_PROCESS_TRACING_INTERCEPT_CLOCK_INTERRUPTS_FOR_THREAD_CHANGE
                = true
          ∨ D.KdQueryDebuggerQueryThreadOrProcessTracingDetailsByCoreId VCpu.CoreId
              .DEBUGGER_THREAD_PROCESS_TRACING_INTERCEPT_CLOCK_INTERRUPTS_FOR_PROCESS_CHANGE
                = true) →
        ProtectedHvSetExternalInterruptExiting K D VCpu false s = ((), s))
    -- otherwise both bits are cleared
    ∧ (¬ (D.DebuggerEventListCountByCore .ExternalInterruptOccurredEventsHead VCpu.CoreId ≠ 0
          ∨ D.KdQueryDebuggerQueryThreadOrProcessTracingDetailsByCoreId VCpu.CoreId
              .DEBUGGER_THREAD_PROCESS_TRACING_INTERCEPT_CLOCK_INTERRUPTS_FOR_THREAD_CHANGE
                = true
          ∨ D.KdQueryDebuggerQueryThreadOrProcessTracingDetailsByCoreId VCpu.CoreId
              .DEBUGGER_THREAD_PROCESS_TRACING_INTERCEPT_CLOCK_INTERRUPTS_FOR_PROCESS_CHANGE
                = true) →
        (ProtectedHvSetExternalInterruptExiting K D VCpu false s).2.PinBasedVmExecutionControls
            &&& K.PIN_BASED_VM_EXECUTION_CONTROLS_EXTERNAL_INTERRUPT = 0
          ∧ (ProtectedHvSetExternalInterruptExiting K D VCpu false s).2.PrimaryVmexitControls
            &&& K.VM_EXIT_ACK_INTR_ON_EXIT = 0)
    -- an enable request sets both bits
    ∧ ((ProtectedHvSetExternalInterruptExiting K D VCpu true s).2.PinBasedVmExecutionControls
            &&& K.PIN_BASED_VM_EXECUTION_CONTROLS_EXTERNAL_INTERRUPT
          = K.PIN_BASED_VM_EXECUTION_CONTROLS_EXTERNAL_INTERRUPT
        ∧ (ProtectedHvSetExternalInterruptExiting K D VCpu true s).2.PrimaryVmexitControls
            &&& K.VM_EXIT_ACK_INTR_ON_EXIT
          = K.VM_EXIT_ACK_INTR_ON_EXIT)
    -- the two bits change together
    ∧ (∀ Set : Bool,
        (ProtectedHvSetExternalInterruptExiting K D VCpu Set s).2 = s
        ∨ ((ProtectedHvSetExternalInterruptExiting K D VCpu Set s).2.PinBasedVmExecutionControls
              &&& K.PIN_BASED_VM_EXECUTION_CONTROLS_EXTERNAL_INTERRUPT
            = (if Set = true then K.PIN_BASED_VM_EXECUTION_CONTROLS_EXTERNAL_INTERRUPT else 0)
          ∧ (ProtectedHvSetExternalInterruptExiting K D VCpu Set s).2.PrimaryVmexitControls
              &&& K.VM_EXIT_ACK_INTR_ON_EXIT
            = (if Set = true then K.VM_EXIT_ACK_INTR_ON_EXIT else 0))) := by
  have hveto : ∀ (h : D.DebuggerEventListCountByCore .ExternalInterruptOccurredEventsHead
        VCpu.CoreId ≠ 0
      ∨ D.KdQueryDebuggerQueryThreadOrProcessTracingDetailsByCoreId VCpu.CoreId
          .DEBUGGER_THREAD_PROCESS_TRACING_INTERCEPT_CLOCK_INTERRUPTS_FOR_THREAD_CHANGE = true
      ∨ D.KdQueryDebuggerQueryThreadOrProcessTracingDetailsByCoreId VCpu.CoreId
          .DEBUGGER_THREAD_PROCESS_TRACING_INTERCEPT_CLOCK_INTERRUPTS_FOR_PROCESS_CHANGE = true),
      ProtectedHvSetExternalInterruptExiting K D VCpu false s = ((), s) := by
    intro h
    unfold ProtectedHvSetExternalInterruptExiting
    rw [hNone]
    exact setExtInt_veto K D VCpu 0 s (h.imp (fun hc => ⟨Nat.zero_and _, hc⟩) id)
  have hdis : ∀ (h : ¬ (D.DebuggerEventListCountByCore .ExternalInterruptOccurredEventsHead
        VCpu.CoreId ≠ 0
      ∨ D.KdQueryDebuggerQueryThreadOrProcessTracingDetailsByCoreId VCpu.CoreId
          .DEBUGGER_THREAD_PROCESS_TRACING_INTERCEPT_CLOCK_INTERRUPTS_FOR_THREAD_CHANGE = true
      ∨ D.KdQueryDebuggerQueryThreadOrProcessTracingDetailsByCoreId VCpu.CoreId
          .DEBUGGER_THREAD_PROCESS_TRACING_INTERCEPT_CLOCK_INTERRUPTS_FOR_PROCESS_CHANGE = true)),
      ProtectedHvSetExternalInterruptExiting K D VCpu false s =
        ((), __vmx_vmwrite .VMCS_CTRL_PRIMARY_VMEXIT_CONTROLS
          (toUINT32 (toUINT32 s.PrimaryVmexitControls &&& not32 K.VM_EXIT_ACK_INTR_ON_EXIT))
          (__vmx_vmwrite .VMCS_CTRL_PIN_BASED_VM_EXECUTION_CONTROLS
            (toUINT32 (toUINT32 s.PinBasedVmExecutionControls
              &&& not32 K.PIN_BASED_VM_EXECUTION_CONTROLS_EXTERNAL_INTERRUPT)) s)) := by
    intro h
    unfold ProtectedHvSetExternalInterruptExiting
    apply setExtInt_disable
    rintro (⟨-, hc⟩ | h')
    · exact h (Or.inl hc)
    · exact h (Or.inr h')
  have hen : ProtectedHvSetExternalInterruptExiting K D VCpu true s =
      ((), __vmx_vmwrite .VMCS_CTRL_PRIMARY_VMEXIT_CONTROLS
        (toUINT32 (toUINT32 s.PrimaryVmexitControls ||| K.VM_EXIT_ACK_INTR_ON_EXIT))
        (__vmx_vmwrite .VMCS_CTRL_PIN_BASED_VM_EXECUTION_CONTROLS
          (toUINT32 (toUINT32 s.PinBasedVmExecutionControls
            ||| K.PIN_BASED_VM_EXECUTION_CONTROLS_EXTERNAL_INTERRUPT)) s)) :=
    setExtInt_enable K D VCpu _ s
  refine ⟨⟨?_, ?_⟩, hveto, ?_, ?_, ?_⟩
  · intro hlog
    by_contra h
    rw [hdis h] at hlog
    simp [__vmx_vmwrite] at hlog
  · intro h
    rw [hveto h]
  · intro h
    rw [hdis h]
    exact ⟨and_not32_and_self _ _, and_not32_and_self _ _⟩
  · rw [hen]
    exact ⟨or_and_self _ hPin, or_and_self _ hAck⟩
  · intro Set
    cases Set
    · by_cases h : (D.DebuggerEventListCountByCore .ExternalInterruptOccurredEventsHead
            VCpu.CoreId ≠ 0
          ∨ D.KdQueryDebuggerQueryThreadOrProcessTracingDetailsByCoreId VCpu.CoreId
              .DEBUGGER_THREAD_PROCESS_TRACING_INTERCEPT_CLOCK_INTERRUPTS_FOR_THREAD_CHANGE
                = true
          ∨ D.KdQueryDebuggerQueryThreadOrProcessTracingDetailsByCoreId VCpu.CoreId
              .DEBUGGER_THREAD_PROCESS_TRACING_INTERCEPT_CLOCK_INTERRUPTS_FOR_PROCESS_CHANGE
                = true)
      · left
        rw [hveto h]
      · right
        rw [hdis h]
        exact ⟨and_not32_and_self _ _, and_not32_and_self _ _⟩
    · right
      rw [hen]
      exact ⟨or_and_self _ hPin, or_and_self _ hAck⟩

/-- A concrete run of C9 on core 0: thread-change interception alone makes the disable request
a no-op on `armedState`; with no demand source both bits are cleared by two `vmwrite`s. -/
theorem C9_external_interrupt_exiting_witness :
    ProtectedHvSetExternalInterruptExiting sdkConstants
        { idleDebugger with
          KdQueryDebuggerQueryThreadOrProcessTracingDetailsByCoreId := fun c t => decide (c = 0
            ∧ t = .DEBUGGER_THREAD_PROCESS_TRACING_INTERCEPT_CLOCK_INTERRUPTS_FOR_THREAD_CHANGE) }
        { CoreId := 0 } false armedState = ((), armedState)
    ∧ (ProtectedHvSetExternalInterruptExiting sdkConstants idleDebugger { CoreId := 0 } false
        armedState).2.PinBasedVmExecutionControls
          &&& sdkConstants.PIN_BASED_VM_EXECUTION_CONTROLS_EXTERNAL_INTERRUPT = 0
    ∧ (ProtectedHvSetExternalInterruptExiting sdkConstants idleDebugger { CoreId := 0 } false
        armedState).2.PrimaryVmexitControls &&& sdkConstants.VM_EXIT_ACK_INTR_ON_EXIT = 0 :=
  ⟨(C9_external_interrupt_exiting sdkConstants
      { idleDebugger with
        KdQueryDebuggerQueryThreadOrProcessTracingDetailsByCoreId := fun c t => decide (c = 0
          ∧ t = .DEBUGGER_THREAD_PROCESS_TRACING_INTERCEPT_CLOCK_INTERRUPTS_FOR_THREAD_CHANGE) }
      { CoreId := 0 } armedState rfl (by decide) (by decide)).2.1 (by decide),
   ((C9_external_interrupt_exiting sdkConstants idleDebugger { CoreId := 0 } armedState rfl
      (by decide) (by decide)).2.2.1 (by decide)).1,
   ((C9_external_interrupt_exiting sdkConstants idleDebugger { CoreId := 0 } armedState rfl
      (by decide) (by decide)).2.2.1 (by decide)).2⟩

/-- C10: `ProtectedHvSetMov2Cr3Exiting(core, FALSE)` clears the CR3-load-exiting bit if and only
if neither waiting-for-mov-CR3 process tracing is active for the core nor the user debugger's
page-fault/CR3 interception flag is set: in that case it executes one `vmwrite`, of the old
controls without the bit, to the processor-based controls; in the other cases it executes no
`vmwrite` and leaves the state unchanged. -/
theorem C10_mov_cr3_exiting_disable (K : HvConstants) (D : DebuggerState)
    (VCpu : VIRTUAL_MACHINE_STATE) (s : HvState) :
    ((ProtectedHvSetMov2Cr3Exiting K D VCpu false s).2.VmwriteLog ≠ s.VmwriteLog ↔
        (D.KdQueryDebuggerQueryThreadOrProcessTracingDetailsByCoreId VCpu.CoreId
            .DEBUGGER_THREAD_PROCESS_TRACING_INTERCEPT_CLOCK_WAITING_FOR_MOV_CR3_VM_EXITS = false
          ∧ D.g_CheckPageFaultsAndMov2Cr3VmexitsWithUserDebugger = false))
    ∧ (D.KdQueryDebuggerQueryThreadOrProcessTracingDetailsByCoreId VCpu.CoreId
            .DEBUGGER_THREAD_PROCESS_TRACING_INTERCEPT_CLOCK_WAITING_FOR_MOV_CR3_VM_EXITS = false
          ∧ D.g_CheckPageFaultsAndMov2Cr3VmexitsWithUserDebugger = false →
        ProtectedHvSetMov2Cr3Exiting K D VCpu false s =
            ((), __vmx_vmwrite .VMCS_CTRL_PROCESSOR_BASED_VM_EXECUTION_CONTROLS
              (toUINT32 (toUINT32 s.ProcessorBasedVmExecutionControls
                &&& not32 K.CPU_BASED_CR3_LOAD_EXITING)) s)
          ∧ (ProtectedHvSetMov2Cr3Exiting K D VCpu false s).2.ProcessorBasedVmExecutionControls
              &&& K.CPU_BASED_CR3_LOAD_EXITING = 0)
    ∧ (¬ (D.KdQueryDebuggerQueryThreadOrProcessTracingDetailsByCoreId VCpu.CoreId
            .DEBUGGER_THREAD_PROCESS_TRACING_INTERCEPT_CLOCK_WAITING_FOR_MOV_CR3_VM_EXITS = false
          ∧ D.g_CheckPageFaultsAndMov2Cr3VmexitsWithUserDebugger = false) →
        ProtectedHvSetMov2Cr3Exiting K D VCpu false s = ((), s)) := by
  have hdis : D.KdQueryDebuggerQueryThreadOrProcessTracingDetailsByCoreId VCpu.CoreId
        .DEBUGGER_THREAD_PROCESS_TRACING_INTERCEPT_CLOCK_WAITING_FOR_MOV_CR3_VM_EXITS = false
      ∧ D.g_CheckPageFaultsAndMov2Cr3VmexitsWithUserDebugger = false →
      ProtectedHvSetMov2Cr3Exiting K D VCpu false s =
        ((), __vmx_vmwrite .VMCS_CTRL_PROCESSOR_BASED_VM_EXECUTION_CONTROLS
          (toUINT32 (toUINT32 s.ProcessorBasedVmExecutionControls
            &&& not32 K.CPU_BASED_CR3_LOAD_EXITING)) s) := by
    rintro ⟨h1, h2⟩
    unfold ProtectedHvSetMov2Cr3Exiting
    apply setMovCr3_disable
    simp [h1, h2]
  have hveto : ¬ (D.KdQueryDebuggerQueryThreadOrProcessTracingDetailsByCoreId VCpu.CoreId
        .DEBUGGER_THREAD_PROCESS_TRACING_INTERCEPT_CLOCK_WAITING_FOR_MOV_CR3_VM_EXITS = false
      ∧ D.g_CheckPageFaultsAndMov2Cr3VmexitsWithUserDebugger = false) →
      ProtectedHvSetMov2Cr3Exiting K D VCpu false s = ((), s) := by
    intro h
    unfold ProtectedHvSetMov2Cr3Exiting
    apply setMovCr3_veto
    by_contra hc
    rw [not_or] at hc
    exact h ⟨by simpa using hc.1, by simpa using hc.2⟩
  refine ⟨⟨?_, ?_⟩, ?_, hveto⟩
  · intro hlog
    by_contra h
    rw [hveto h] at hlog
    exact hlog rfl
  · intro h
    rw [hdis h]
    simp [__vmx_vmwrite]
  · intro h
    refine ⟨hdis h, ?_⟩
    rw [hdis h]
    exact and_not32_and_self _ _

/-- A concrete run of C10 on core 0: with no demand source the disable request rewrites the
controls `0x809004` as `0x801004`; with the user debugger intercepting CR3 loads nothing is
written. -/
theorem C10_mov_cr3_exiting_disable_witness :
    ProtectedHvSetMov2Cr3Exiting sdkConstants idleDebugger { CoreId := 0 } false armedState
      = ((), { armedState with
                ProcessorBasedVmExecutionControls := 0x801004,
                VmwriteLog := [(.VMCS_CTRL_PROCESSOR_BASED_VM_EXECUTION_CONTROLS, 0x801004)] })
    ∧ ProtectedHvSetMov2Cr3Exiting sdkConstants
        { idleDebugger with g_CheckPageFaultsAndMov2Cr3VmexitsWithUserDebugger := true }
        { CoreId := 0 } false armedState = ((), armedState) :=
  ⟨((C10_mov_cr3_exiting_disable sdkConstants idleDebugger { CoreId := 0 } armedState).2.1
      ⟨rfl, rfl⟩).1.trans (by decide),
   (C10_mov_cr3_exiting_disable sdkConstants
      { idleDebugger with g_CheckPageFaultsAndMov2Cr3VmexitsWithUserDebugger := true }
      { CoreId := 0 } armedState).2.2 (by decide)⟩

/-! ## Theorems about the control-register masks -/

/-- C11: `ProtectedHvSetMovControlRegsVmexit` called with `Set = FALSE` and a pass-over that
lacks `PASSING_OVER_MOV_TO_CONTROL_REGS_EVENTS`.  When the core has a control-register-modified
event the request is ignored: no `vmwrite` is executed and the state is the one before the call.
When the core has no such event: for `ControlRegister = CR0` the routine writes 0 to the CR0
guest/host mask and then 0 to the CR0 read shadow, for `ControlRegister = CR4` it writes 0 to
the CR4 guest/host mask and then 0 to the CR4 read shadow, and for every other register number
it executes no `vmwrite` and leaves the state as it was. -/
theorem C11_mov_cr_disable_request (K : HvConstants) (D : DebuggerState)
    (VCpu : VIRTUAL_MACHINE_STATE) (p ControlRegister MaskRegister : Nat) (s : HvState)
    (hK : K.VMX_EXIT_QUALIFICATION_REGISTER_CR0 ≠ K.VMX_EXIT_QUALIFICATION_REGISTER_CR4)
    (hp : p &&& K.PASSING_OVER_MOV_TO_CONTROL_REGS_EVENTS = 0) :
    (D.DebuggerEventListCountByCore .ControlRegisterModifiedEventsHead VCpu.CoreId ≠ 0 →
      ProtectedHvSetMovControlRegsVmexit K D VCpu false p ControlRegister MaskRegister s
        = ((), s)) ∧
    (D.DebuggerEventListCountByCore .ControlRegisterModifiedEventsHead VCpu.CoreId = 0 →
      (ControlRegister = K.VMX_EXIT_QUALIFICATION_REGISTER_CR0 →
        ProtectedHvSetMovControlRegsVmexit K D VCpu false p ControlRegister MaskRegister s
          = ((), { s with
                    Cr0GuestHostMask := 0,
                    Cr0ReadShadow := 0,
                    VmwriteLog := s.VmwriteLog ++ [(.VMCS_CTRL_CR0_GUEST_HOST_MASK, 0),
                                                   (.VMCS_CTRL_CR0_READ_SHADOW, 0)] })) ∧
      (ControlRegister = K.VMX_EXIT_QUALIFICATION_REGISTER_CR4 →
        ProtectedHvSetMovControlRegsVmexit K D VCpu false p ControlRegister MaskRegister s
          = ((), { s with
                    Cr4GuestHostMask := 0,
                    Cr4ReadShadow := 0,
                    VmwriteLog := s.VmwriteLog ++ [(.VMCS_CTRL_CR4_GUEST_HOST_MASK, 0),
                                                   (.VMCS_CTRL_CR4_READ_SHADOW, 0)] })) ∧
      (ControlRegister ≠ K.VMX_EXIT_QUALIFICATION_REGISTER_CR0 →
        ControlRegister ≠ K.VMX_EXIT_QUALIFICATION_REGISTER_CR4 →
        ProtectedHvSetMovControlRegsVmexit K D VCpu false p ControlRegister MaskRegister s
          = ((), s))) := by
  refine ⟨fun hc => setMovCr_veto K D VCpu p ControlRegister MaskRegister s ⟨hp, hc⟩,
    fun hc => ?_⟩
  have happly := setMovCr_apply K D VCpu false p ControlRegister MaskRegister s
    (fun h => h.2.2 hc)
  rw [happly]
  refine ⟨fun h0 => ?_, fun h4 => ?_, fun h0 h4 => ?_⟩
  · unfold ProtectedHvSetMovToCrVmexit
    rw [if_pos h0]
    simp [__vmx_vmwrite]
  · have h0 : ControlRegister ≠ K.VMX_EXIT_QUALIFICATION_REGISTER_CR0 := fun h => hK (h ▸ h4)
    unfold ProtectedHvSetMovToCrVmexit
    rw [if_neg h0, if_pos h4]
    simp [__vmx_vmwrite]
  · unfold ProtectedHvSetMovToCrVmexit
    rw [if_neg h0, if_neg h4]

/-- A concrete run of C11 on core 0 with the SDK register numbers (CR0 is 0, CR4 is 4) and an
empty pass-over.  With a control-register-modified event on the core nothing is written; with no
event a request for CR0 zeroes the installed CR0 mask `0x10000` and shadow `0x80050033`, a
request for CR4 writes the two CR4 fields, and a request for register 3 writes nothing. -/
theorem C11_mov_cr_disable_request_witness :
    ProtectedHvSetMovControlRegsVmexit sdkConstants busyDebugger { CoreId := 0 } false 0 0 0
        armedState = ((), armedState)
    ∧ ProtectedHvSetMovControlRegsVmexit sdkConstants idleDebugger { CoreId := 0 } false 0 0 0
        armedState
      = ((), { armedState with
                Cr0GuestHostMask := 0,
                Cr0ReadShadow := 0,
                VmwriteLog := [(.VMCS_CTRL_CR0_GUEST_HOST_MASK, 0),
                               (.VMCS_CTRL_CR0_READ_SHADOW, 0)] })
    ∧ (ProtectedHvSetMovControlRegsVmexit sdkConstants idleDebugger { CoreId := 0 } false 0 4 0
        armedState).2.VmwriteLog
      = [(.VMCS_CTRL_CR4_GUEST_HOST_MASK, 0), (.VMCS_CTRL_CR4_READ_SHADOW, 0)]
    ∧ ProtectedHvSetMovControlRegsVmexit sdkConstants idleDebugger { CoreId := 0 } false 0 3 0
        armedState = ((), armedState) :=
  ⟨(C11_mov_cr_disable_request sdkConstants busyDebugger { CoreId := 0 } 0 0 0 armedState
      (by decide) (by decide)).1 (by decide),
   (((C11_mov_cr_disable_request sdkConstants idleDebugger { CoreId := 0 } 0 0 0 armedState
      (by decide) (by decide)).2 rfl).1 rfl).trans (by decide),
   (congrArg (fun r => r.2.VmwriteLog)
      (((C11_mov_cr_disable_request sdkConstants idleDebugger { CoreId := 0 } 0 4 0 armedState
        (by decide) (by decide)).2 rfl).2.1 rfl)).trans (by decide),
   ((C11_mov_cr_disable_request sdkConstants idleDebugger { CoreId := 0 } 0 3 0 armedState
      (by decide) (by decide)).2 rfl).2.2 (by decide) (by decide)⟩

/-! ## Theorems about the EPTP state machine -/

/-- C16: `ExecTrapHandleMoveToAdjustedTrapState`.  From every starting state, the call with
`DEBUGGER_EVENT_MODE_TYPE_USER_MODE` leaves `PML4[0].ExecuteAccess = 0`,
`PML4[0].UserModeExecute = 1` and `NotNormalEptp = TRUE` (kernel execute disabled); the call with
`DEBUGGER_EVENT_MODE_TYPE_KERNEL_MODE` leaves `PML4[0].ExecuteAccess = 1`,
`PML4[0].UserModeExecute = 0` and `NotNormalEptp = TRUE` (user execute disabled); for every other
mode value the core's `VIRTUAL_MACHINE_STATE`, the EPT hierarchy, the VMCS and the initialized
flag are unchanged and the only call made is `LogError`.  The two mode constants are assumed
distinct. -/
theorem C16_move_to_adjusted_trap_state (C : ExecTrapConstants) (m : ExecTrapCore)
    (hC : C.DEBUGGER_EVENT_MODE_TYPE_USER_MODE ≠ C.DEBUGGER_EVENT_MODE_TYPE_KERNEL_MODE) :
    ((ExecTrapHandleMoveToAdjustedTrapState C C.DEBUGGER_EVENT_MODE_TYPE_USER_MODE
          m).EptPageTable.PML4 0).ExecuteAccess = false ∧
    ((ExecTrapHandleMoveToAdjustedTrapState C C.DEBUGGER_EVENT_MODE_TYPE_USER_MODE
          m).EptPageTable.PML4 0).UserModeExecute = true ∧
    (ExecTrapHandleMoveToAdjustedTrapState C C.DEBUGGER_EVENT_MODE_TYPE_USER_MODE
          m).VCpu.NotNormalEptp = true ∧
    ((ExecTrapHandleMoveToAdjustedTrapState C C.DEBUGGER_EVENT_MODE_TYPE_KERNEL_MODE
          m).EptPageTable.PML4 0).ExecuteAccess = true ∧
    ((ExecTrapHandleMoveToAdjustedTrapState C C.DEBUGGER_EVENT_MODE_TYPE_KERNEL_MODE
          m).EptPageTable.PML4 0).UserModeExecute = false ∧
    (ExecTrapHandleMoveToAdjustedTrapState C C.DEBUGGER_EVENT_MODE_TYPE_KERNEL_MODE
          m).VCpu.NotNormalEptp = true ∧
    (∀ TargetMode : Nat, TargetMode ≠ C.DEBUGGER_EVENT_MODE_TYPE_USER_MODE →
      TargetMode ≠ C.DEBUGGER_EVENT_MODE_TYPE_KERNEL_MODE →
      ExecTrapHandleMoveToAdjustedTrapState C TargetMode m
        = { m with Calls := m.Calls ++ [.LogError] }) := by
  have hK : C.DEBUGGER_EVENT_MODE_TYPE_KERNEL_MODE ≠ C.DEBUGGER_EVENT_MODE_TYPE_USER_MODE :=
    fun h => hC h.symm
  refine ⟨?_, ?_, ?_, ?_, ?_, ?_, ?_⟩
  · simp [ExecTrapHandleMoveToAdjustedTrapState, ExecTrapChangeToKernelDisabledMbecEptp,
      setPml4UserModeExecute, setPml4ExecuteAccess, EptInveptSingleContext, setNotNormalEptp]
  · simp [ExecTrapHandleMoveToAdjustedTrapState, ExecTrapChangeToKernelDisabledMbecEptp,
      setPml4UserModeExecute, setPml4ExecuteAccess, EptInveptSingleContext, setNotNormalEptp]
  · simp [ExecTrapHandleMoveToAdjustedTrapState, ExecTrapChangeToKernelDisabledMbecEptp,
      setPml4UserModeExecute, setPml4ExecuteAccess, EptInveptSingleContext, setNotNormalEptp]
  · simp [ExecTrapHandleMoveToAdjustedTrapState, ExecTrapChangeToUserDisabledMbecEptp, hK,
      setPml4UserModeExecute, setPml4ExecuteAccess, EptInveptSingleContext, setNotNormalEptp]
  · simp [ExecTrapHandleMoveToAdjustedTrapState, ExecTrapChangeToUserDisabledMbecEptp, hK,
      setPml4UserModeExecute, setPml4ExecuteAccess, EptInveptSingleContext, setNotNormalEptp]
  · simp [ExecTrapHandleMoveToAdjustedTrapState, ExecTrapChangeToUserDisabledMbecEptp, hK,
      setPml4UserModeExecute, setPml4ExecuteAccess, EptInveptSingleContext, setNotNormalEptp]
  · intro TargetMode hu hk
    simp [ExecTrapHandleMoveToAdjustedTrapState, hu, hk, LogError]

/-- A concrete run of C16 on the sample core (user mode is 3, kernel mode is 0): mode 3 gives
kernel execute disabled, mode 0 gives user execute disabled, and mode 1 only logs an error. -/
theorem C16_move_to_adjusted_trap_state_witness :
    ((ExecTrapHandleMoveToAdjustedTrapState sampleExecTrapConstants 3
          sampleCore).EptPageTable.PML4 0).ExecuteAccess = false ∧
    ((ExecTrapHandleMoveToAdjustedTrapState sampleExecTrapConstants 0
          sampleCore).EptPageTable.PML4 0).UserModeExecute = false ∧
    (ExecTrapHandleMoveToAdjustedTrapState sampleExecTrapConstants 1 sampleCore).Calls
      = [.LogError] :=
  ⟨(C16_move_to_adjusted_trap_state sampleExecTrapConstants sampleCore (by decide)).1,
   (C16_move_to_adjusted_trap_state sampleExecTrapConstants sampleCore (by decide)).2.2.2.2.1,
   (congrArg ExecTrapCore.Calls
      ((C16_move_to_adjusted_trap_state sampleExecTrapConstants sampleCore
        (by decide)).2.2.2.2.2.2 1 (by decide) (by decide))).trans (by decide)⟩

/-- C17, the claim as stated fails for `ExecTrapRestoreToNormalEptp`: on the sample core it calls
`EptInveptSingleContext` zero times (it makes no call at all), not once; what it does is one
`vmwrite` of the core's EPT pointer. -/
theorem C17_counterexample :
    (ExecTrapRestoreToNormalEptp sampleCore).Calls = sampleCore.Calls ∧
    (ExecTrapRestoreToNormalEptp sampleCore).Calls.count
        (.EptInveptSingleContext sampleCore.VCpu.EptPointer) = 0 ∧
    (ExecTrapRestoreToNormalEptp sampleCore).Vmcs.VmwriteLog
      = [(.VMCS_CTRL_EPT_POINTER, 0x10005e)] := by
  decide

/-- C17 (amended): each of the three transitions `ExecTrapChangeToKernelDisabledMbecEptp`,
`ExecTrapChangeToUserDisabledMbecEptp` and `ExecTrapChangeToNormalMbecEptp` changes no EPT entry
other than `PML4[0]`, changes in `PML4[0]` only the `UserModeExecute` and `ExecuteAccess` bits,
and makes exactly one call to routines defined elsewhere: `EptInveptSingleContext` with the
core's EPT pointer.  `ExecTrapRestoreToNormalEptp` changes no EPT entry at all and performs no
invalidation: it writes the core's EPT pointer to the VMCS EPT-pointer field and clears
`NotNormalEptp`. -/
theorem C17_eptp_transitions_frame (m : ExecTrapCore) :
    (∀ f ∈ [ExecTrapChangeToKernelDisabledMbecEptp, ExecTrapChangeToUserDisabledMbecEptp,
            ExecTrapChangeToNormalMbecEptp],
      (∀ i : Nat, i ≠ 0 → (f m).EptPageTable.PML4 i = m.EptPageTable.PML4 i) ∧
      (f m).EptPageTable.PML3 = m.EptPageTable.PML3 ∧
      (f m).EptPageTable.PML2 = m.EptPageTable.PML2 ∧
      ((f m).EptPageTable.PML4 0).ReadAccess = (m.EptPageTable.PML4 0).ReadAccess ∧
      ((f m).EptPageTable.PML4 0).WriteAccess = (m.EptPageTable.PML4 0).WriteAccess ∧
      ((f m).EptPageTable.PML4 0).PageFrameNumber = (m.EptPageTable.PML4 0).PageFrameNumber ∧
      ((f m).EptPageTable.PML4 0).OtherBits = (m.EptPageTable.PML4 0).OtherBits ∧
      (f m).Calls = m.Calls ++ [.EptInveptSingleContext m.VCpu.EptPointer]) ∧
    ((ExecTrapRestoreToNormalEptp m).EptPageTable = m.EptPageTable ∧
      (ExecTrapRestoreToNormalEptp m).Calls = m.Calls ∧
      (ExecTrapRestoreToNormalEptp m).Vmcs
        = __vmx_vmwrite .VMCS_CTRL_EPT_POINTER m.VCpu.EptPointer m.Vmcs ∧
      (ExecTrapRestoreToNormalEptp m).VCpu = { m.VCpu with NotNormalEptp := false }) := by
  refine ⟨?_, rfl, rfl, rfl, rfl⟩
  intro f hf
  simp only [List.mem_cons, List.mem_singleton, List.not_mem_nil, or_false] at hf
  rcases hf with rfl | rfl | rfl
  · refine ⟨fun i hi => ?_, rfl, rfl, ?_, ?_, ?_, ?_, rfl⟩ <;>
      simp [ExecTrapChangeToKernelDisabledMbecEptp, setPml4UserModeExecute,
        setPml4ExecuteAccess, EptInveptSingleContext, setNotNormalEptp, *]
  · refine ⟨fun i hi => ?_, rfl, rfl, ?_, ?_, ?_, ?_, rfl⟩ <;>
      simp [ExecTrapChangeToUserDisabledMbecEptp, setPml4UserModeExecute,
        setPml4ExecuteAccess, EptInveptSingleContext, setNotNormalEptp, *]
  · refine ⟨fun i hi => ?_, rfl, rfl, ?_, ?_, ?_, ?_, rfl⟩ <;>
      simp [ExecTrapChangeToNormalMbecEptp, setPml4UserModeExecute,
        setPml4ExecuteAccess, EptInveptSingleContext, setNotNormalEptp, *]

/-- A concrete run of C17 on the sample core: the transition to user execute disabled leaves
`PML4[1]` and the read bit of `PML4[0]` as they were and calls `EptInveptSingleContext` once with
the pointer `0x10005e`. -/
theorem C17_eptp_transitions_frame_witness :
    (ExecTrapChangeToUserDisabledMbecEptp sampleCore).EptPageTable.PML4 1
      = sampleCore.EptPageTable.PML4 1 ∧
    ((ExecTrapChangeToUserDisabledMbecEptp sampleCore).EptPageTable.PML4 0).ReadAccess = true ∧
    (ExecTrapChangeToUserDisabledMbecEptp sampleCore).Calls
      = [.EptInveptSingleContext 0x10005e] :=
  ⟨((C17_eptp_transitions_frame sampleCore).1 ExecTrapChangeToUserDisabledMbecEptp
      (by simp)).1 1 (by decide),
   (((C17_eptp_transitions_frame sampleCore).1 ExecTrapChangeToUserDisabledMbecEptp
      (by simp)).2.2.2.1).trans (by decide),
   (((C17_eptp_transitions_frame sampleCore).1 ExecTrapChangeToUserDisabledMbecEptp
      (by simp)).2.2.2.2.2.2.2).trans (by decide)⟩

/-! ## Theorems about the EPT-violation handler -/

/-- C18: `ExecTrapHandleEptViolationVmexit` returns `TRUE` if and only if the exec-trap mechanism
is initialized, the qualification reports an execute access, and the address is not
user-mode-executable or not executable.  Whenever it returns `FALSE` the core is exactly as
before the call: no event is dispatched and the RIP increment is not suppressed (no call is
recorded and the dispatcher does not run). -/
theorem C18_ept_violation_handled_iff (C : ExecTrapConstants) (Dispatch : EventDispatcher)
    (q : VMX_EXIT_QUALIFICATION_EPT_VIOLATION) (m : ExecTrapCore) :
    ((ExecTrapHandleEptViolationVmexit C Dispatch q m).1 = true ↔
      m.g_ExecTrapInitialized = true ∧ q.ExecuteAccess = true ∧
        (q.EptExecutableForUserMode = false ∨ q.EptExecutable = false)) ∧
    ((ExecTrapHandleEptViolationVmexit C Dispatch q m).1 = false →
      (ExecTrapHandleEptViolationVmexit C Dispatch q m).2 = m) := by
  unfold ExecTrapHandleEptViolationVmexit
  cases hi : m.g_ExecTrapInitialized <;> cases hx : q.ExecuteAccess <;>
    cases hu : q.EptExecutableForUserMode <;> cases he : q.EptExecutable <;> simp

/-- A concrete run of C18 on the sample core with the adjusting dispatcher: a read access is not
handled and leaves the calls and the top-level entry as they were; an execute access to an
address that is not user-mode-executable is handled. -/
theorem C18_ept_violation_handled_iff_witness :
    (ExecTrapHandleEptViolationVmexit sampleExecTrapConstants
        (adjustingDispatcher sampleExecTrapConstants)
        { ExecuteAccess := false, EptExecutable := false, EptExecutableForUserMode := false }
        sampleCore).2.Calls = [] ∧
    (ExecTrapHandleEptViolationVmexit sampleExecTrapConstants
        (adjustingDispatcher sampleExecTrapConstants) userModeExecuteFault sampleCore).1
      = true :=
  ⟨(congrArg ExecTrapCore.Calls
      ((C18_ept_violation_handled_iff sampleExecTrapConstants
        (adjustingDispatcher sampleExecTrapConstants)
        { ExecuteAccess := false, EptExecutable := false, EptExecutableForUserMode := false }
        sampleCore).2 (by decide))).trans (by decide),
   (C18_ept_violation_handled_iff sampleExecTrapConstants
      (adjustingDispatcher sampleExecTrapConstants) userModeExecuteFault sampleCore).1.2
      (by decide)⟩

/-- C19: whenever `ExecTrapHandleEptViolationVmexit` returns `TRUE` it has called
`HvSuppressRipIncrement` once and then `DispatchEventMode` once, and that is all it did: the
resulting core is what the dispatcher makes of the core with these two calls recorded.  The
dispatched mode is user mode when the address is not user-mode-executable (whether or not it is
executable), and kernel mode when the address is user-mode-executable, in which case it is not
executable. -/
theorem C19_ept_violation_dispatch (C : ExecTrapConstants) (Dispatch : EventDispatcher)
    (q : VMX_EXIT_QUALIFICATION_EPT_VIOLATION) (m : ExecTrapCore)
    (h : (ExecTrapHandleEptViolationVmexit C Dispatch q m).1 = true) :
    (q.EptExecutableForUserMode = false →
      (ExecTrapHandleEptViolationVmexit C Dispatch q m).2
        = Dispatch C.DEBUGGER_EVENT_MODE_TYPE_USER_MODE
            { m with Calls := m.Calls ++
                [.HvSuppressRipIncrement m.VCpu.CoreId,
                 .DispatchEventMode m.VCpu.CoreId C.DEBUGGER_EVENT_MODE_TYPE_USER_MODE] }) ∧
    (q.EptExecutableForUserMode = true →
      q.EptExecutable = false ∧
      (ExecTrapHandleEptViolationVmexit C Dispatch q m).2
        = Dispatch C.DEBUGGER_EVENT_MODE_TYPE_KERNEL_MODE
            { m with Calls := m.Calls ++
                [.HvSuppressRipIncrement m.VCpu.CoreId,
                 .DispatchEventMode m.VCpu.CoreId C.DEBUGGER_EVENT_MODE_TYPE_KERNEL_MODE] }) := by
  obtain ⟨Initialized, VCpu, EptPageTable, Vmcs, Calls, WatchList⟩ := m
  obtain ⟨ExecuteAccess, EptExecutable, EptExecutableForUserMode⟩ := q
  unfold ExecTrapHandleEptViolationVmexit at h ⊢
  cases Initialized <;> cases ExecuteAccess <;> cases EptExecutableForUserMode <;>
    cases EptExecutable <;> simp at h ⊢ <;>
    simp [HvSuppressRipIncrement, DispatchEventMode]

/-- A concrete run of C19 on the sample core with a dispatcher that leaves the core alone: an
execute access to an address that is neither user-mode-executable nor executable records one
suppression and one user-mode event (mode 3); an execute access to an address that is
user-mode-executable but not executable records one suppression and one kernel-mode event
(mode 0). -/
theorem C19_ept_violation_dispatch_witness :
    (ExecTrapHandleEptViolationVmexit sampleExecTrapConstants idleDispatcher
        { ExecuteAccess := true, EptExecutable := false, EptExecutableForUserMode := false }
        sampleCore).2.Calls = [.HvSuppressRipIncrement 0, .DispatchEventMode 0 3] ∧
    (ExecTrapHandleEptViolationVmexit sampleExecTrapConstants idleDispatcher
        kernelModeExecuteFault sampleCore).2.Calls
      = [.HvSuppressRipIncrement 0, .DispatchEventMode 0 0] :=
  ⟨(congrArg ExecTrapCore.Calls
      ((C19_ept_violation_dispatch sampleExecTrapConstants idleDispatcher
        { ExecuteAccess := true, EptExecutable := false, EptExecutableForUserMode := false }
        sampleCore (by decide)).1 rfl)).trans (by decide),
   (congrArg ExecTrapCore.Calls
      ((C19_ept_violation_dispatch sampleExecTrapConstants idleDispatcher
        kernelModeExecuteFault sampleCore (by decide)).2 rfl).2).trans (by decide)⟩

/-! ## Theorems about the handler together with the adjusting dispatcher -/

theorem handleEptViolation_eq (C : ExecTrapConstants) (Dispatch : EventDispatcher)
    (q : VMX_EXIT_QUALIFICATION_EPT_VIOLATION) (m : ExecTrapCore)
    (hi : m.g_ExecTrapInitialized = true) (hx : q.ExecuteAccess = true)
    (hq : q.EptExecutableForUserMode = false ∨ q.EptExecutable = false) :
    ExecTrapHandleEptViolationVmexit C Dispatch q m
      = (true,
          Dispatch
            (if q.EptExecutableForUserMode = false then C.DEBUGGER_EVENT_MODE_TYPE_USER_MODE
              else C.DEBUGGER_EVENT_MODE_TYPE_KERNEL_MODE)
            { m with Calls := m.Calls ++
                [.HvSuppressRipIncrement m.VCpu.CoreId,
                 .DispatchEventMode m.VCpu.CoreId
                    (if q.EptExecutableForUserMode = false then
                      C.DEBUGGER_EVENT_MODE_TYPE_USER_MODE
                     else C.DEBUGGER_EVENT_MODE_TYPE_KERNEL_MODE)] }) := by
  obtain ⟨Initialized, VCpu, EptPageTable, Vmcs, Calls, WatchList⟩ := m
  obtain ⟨ExecuteAccess, EptExecutable, EptExecutableForUserMode⟩ := q
  unfold ExecTrapHandleEptViolationVmexit
  cases Initialized <;> cases ExecuteAccess <;> cases EptExecutableForUserMode <;>
    cases EptExecutable <;> simp at hi hx hq ⊢ <;>
    simp [HvSuppressRipIncrement, DispatchEventMode]

theorem moveToAdjusted_initialized (C : ExecTrapConstants) (TargetMode : Nat)
    (m : ExecTrapCore) :
    (ExecTrapHandleMoveToAdjustedTrapState C TargetMode m).g_ExecTrapInitialized
      = m.g_ExecTrapInitialized := by
  unfold ExecTrapHandleMoveToAdjustedTrapState
  split_ifs <;> rfl

theorem moveToAdjusted_dispatchedModes (C : ExecTrapConstants) (TargetMode : Nat)
    (m : ExecTrapCore) :
    (ExecTrapHandleMoveToAdjustedTrapState C TargetMode m).dispatchedModes
      = m.dispatchedModes := by
  unfold ExecTrapHandleMoveToAdjustedTrapState
  split_ifs <;>
    simp [ExecTrapCore.dispatchedModes, ExecTrapChangeToKernelDisabledMbecEptp,
      ExecTrapChangeToUserDisabledMbecEptp, setPml4UserModeExecute, setPml4ExecuteAccess,
      EptInveptSingleContext, setNotNormalEptp, LogError, List.filterMap_append]

theorem dispatchedModes_append_calls (m : ExecTrapCore) (CoreId TargetMode : Nat) :
    ExecTrapCore.dispatchedModes
        { m with Calls := m.Calls ++
            [.HvSuppressRipIncrement CoreId, .DispatchEventMode CoreId TargetMode] }
      = m.dispatchedModes ++ [TargetMode] := by
  simp [ExecTrapCore.dispatchedModes, List.filterMap_append]

theorem runEptViolations_adjusting (C : ExecTrapConstants)
    (qs : List VMX_EXIT_QUALIFICATION_EPT_VIOLATION) :
    ∀ m : ExecTrapCore, m.g_ExecTrapInitialized = true →
      (∀ q ∈ qs, q.ExecuteAccess = true ∧
        (q.EptExecutableForUserMode = false ∨ q.EptExecutable = false)) →
      (runEptViolations C (adjustingDispatcher C) qs m).dispatchedModes
        = m.dispatchedModes ++ qs.map fun q =>
            if q.EptExecutableForUserMode = false then C.DEBUGGER_EVENT_MODE_TYPE_USER_MODE
            else C.DEBUGGER_EVENT_MODE_TYPE_KERNEL_MODE := by
  induction qs with
  | nil => intro m _ _; simp [runEptViolations]
  | cons q qs ih =>
    intro m hi hqs
    have hq := hqs q (List.mem_cons_self _ _)
    have hstep := handleEptViolation_eq C (adjustingDispatcher C) q m hi hq.1 hq.2
    unfold runEptViolations
    rw [hstep]
    simp only [adjustingDispatcher]
    rw [ih _ (by rw [moveToAdjusted_initialized]; exact hi)
      (fun q' hq' => hqs q' (List.mem_cons_of_mem _ hq'))]
    rw [moveToAdjusted_dispatchedModes, dispatchedModes_append_calls]
    simp
/-- C20, the claim as stated fails: with the adjusting dispatcher, a core in kernel execute
disabled (`PML4[0].ExecuteAccess = 0`, `PML4[0].UserModeExecute = 1`) that handles a user-mode
execute fault dispatches one user-mode event (mode 3) and is afterwards again in kernel execute
disabled, not in user execute disabled. -/
theorem C20_counterexample :
    ((ExecTrapChangeToKernelDisabledMbecEptp sampleCore).EptPageTable.PML4 0).ExecuteAccess
      = false ∧
    ((ExecTrapChangeToKernelDisabledMbecEptp sampleCore).EptPageTable.PML4 0).UserModeExecute
      = true ∧
    (ExecTrapHandleEptViolationVmexit sampleExecTrapConstants
        (adjustingDispatcher sampleExecTrapConstants) userModeExecuteFault
        (ExecTrapChangeToKernelDisabledMbecEptp sampleCore)).1 = true ∧
    (ExecTrapHandleEptViolationVmexit sampleExecTrapConstants
        (adjustingDispatcher sampleExecTrapConstants) userModeExecuteFault
        (ExecTrapChangeToKernelDisabledMbecEptp sampleCore)).2.dispatchedModes = [3] ∧
    ((ExecTrapHandleEptViolationVmexit sampleExecTrapConstants
        (adjustingDispatcher sampleExecTrapConstants) userModeExecuteFault
        (ExecTrapChangeToKernelDisabledMbecEptp sampleCore)).2.EptPageTable.PML4 0).ExecuteAccess
      = false ∧
    ((ExecTrapHandleEptViolationVmexit sampleExecTrapConstants
        (adjustingDispatcher sampleExecTrapConstants) userModeExecuteFault
        (ExecTrapChangeToKernelDisabledMbecEptp sampleCore)).2.EptPageTable.PML4
          0).UserModeExecute = true := by
  decide

/-- C20 (amended): with the dispatcher applying the adjusted trap state for the dispatched mode
and the exec-trap mechanism initialized, from every starting state (in particular from user
execute disabled): an EPT violation reporting a user-mode execute fault is handled, dispatches
exactly one user-mode event and moves the core to kernel execute disabled
(`PML4[0].ExecuteAccess = 0`, `PML4[0].UserModeExecute = 1`, `NotNormalEptp = TRUE`); a following
kernel-mode execute fault is handled, dispatches exactly one kernel-mode event and moves the core
to user execute disabled (`ExecuteAccess = 1`, `UserModeExecute = 0`, `NotNormalEptp = TRUE`).
For every stream of such faults the dispatched modes are, in order, one per fault and of the
fault's kind; so when the faults alternate, neighbouring dispatched modes differ.  The two mode
constants are assumed distinct. -/
theorem C20_fault_stream_with_adjusting_dispatcher (C : ExecTrapConstants) (m : ExecTrapCore)
    (q₁ q₂ : VMX_EXIT_QUALIFICATION_EPT_VIOLATION)
    (hC : C.DEBUGGER_EVENT_MODE_TYPE_USER_MODE ≠ C.DEBUGGER_EVENT_MODE_TYPE_KERNEL_MODE)
    (hi : m.g_ExecTrapInitialized = true)
    (h₁ : q₁.ExecuteAccess = true ∧ q₁.EptExecutableForUserMode = false)
    (h₂ : q₂.ExecuteAccess = true ∧ q₂.EptExecutableForUserMode = true ∧
      q₂.EptExecutable = false) :
    ((ExecTrapHandleEptViolationVmexit C (adjustingDispatcher C) q₁ m).1 = true ∧
      (runEptViolations C (adjustingDispatcher C) [q₁] m).Calls
        = m.Calls ++
            [.HvSuppressRipIncrement m.VCpu.CoreId,
             .DispatchEventMode m.VCpu.CoreId C.DEBUGGER_EVENT_MODE_TYPE_USER_MODE,
             .EptInveptSingleContext m.VCpu.EptPointer] ∧
      ((runEptViolations C (adjustingDispatcher C) [q₁] m).EptPageTable.PML4 0).ExecuteAccess
        = false ∧
      ((runEptViolations C (adjustingDispatcher C) [q₁] m).EptPageTable.PML4 0).UserModeExecute
        = true ∧
      (runEptViolations C (adjustingDispatcher C) [q₁] m).VCpu.NotNormalEptp = true) ∧
    ((ExecTrapHandleEptViolationVmexit C (adjustingDispatcher C) q₂
        (runEptViolations C (adjustingDispatcher C) [q₁] m)).1 = true ∧
      (runEptViolations C (adjustingDispatcher C) [q₁, q₂] m).Calls
        = (runEptViolations C (adjustingDispatcher C) [q₁] m).Calls ++
            [.HvSuppressRipIncrement m.VCpu.CoreId,
             .DispatchEventMode m.VCpu.CoreId C.DEBUGGER_EVENT_MODE_TYPE_KERNEL_MODE,
             .EptInveptSingleContext m.VCpu.EptPointer] ∧
      ((runEptViolations C (adjustingDispatcher C) [q₁, q₂] m).EptPageTable.PML4
          0).ExecuteAccess = true ∧
      ((runEptViolations C (adjustingDispatcher C) [q₁, q₂] m).EptPageTable.PML4
          0).UserModeExecute = false ∧
      (runEptViolations C (adjustingDispatcher C) [q₁, q₂] m).VCpu.NotNormalEptp = true) ∧
    (∀ qs : List VMX_EXIT_QUALIFICATION_EPT_VIOLATION,
      (∀ q ∈ qs, q.ExecuteAccess = true ∧
        (q.EptExecutableForUserMode = false ∨ q.EptExecutable = false)) →
      (runEptViolations C (adjustingDispatcher C) qs m).dispatchedModes
        = m.dispatchedModes ++ qs.map (fun q =>
            if q.EptExecutableForUserMode = false then C.DEBUGGER_EVENT_MODE_TYPE_USER_MODE
            else C.DEBUGGER_EVENT_MODE_TYPE_KERNEL_MODE) ∧
      (List.Chain' (fun a b => a.EptExecutableForUserMode ≠ b.EptExecutableForUserMode) qs →
        List.Chain' (· ≠ ·) (qs.map (fun q =>
            if q.EptExecutableForUserMode = false then C.DEBUGGER_EVENT_MODE_TYPE_USER_MODE
            else C.DEBUGGER_EVENT_MODE_TYPE_KERNEL_MODE)))) := by
  have hK : C.DEBUGGER_EVENT_MODE_TYPE_KERNEL_MODE ≠ C.DEBUGGER_EVENT_MODE_TYPE_USER_MODE :=
    fun h => hC h.symm
  have e₁ := handleEptViolation_eq C (adjustingDispatcher C) q₁ m hi h₁.1 (Or.inl h₁.2)
  have hi₁ : (runEptViolations C (adjustingDispatcher C) [q₁] m).g_ExecTrapInitialized
      = true := by
    simp only [runEptViolations, e₁, adjustingDispatcher, moveToAdjusted_initialized]
    exact hi
  have e₂ := handleEptViolation_eq C (adjustingDispatcher C) q₂
    (runEptViolations C (adjustingDispatcher C) [q₁] m) hi₁ h₂.1 (Or.inr h₂.2.2)
  have r₁ : runEptViolations C (adjustingDispatcher C) [q₁] m
      = ExecTrapChangeToKernelDisabledMbecEptp
          { m with Calls := m.Calls ++
              [.HvSuppressRipIncrement m.VCpu.CoreId,
               .DispatchEventMode m.VCpu.CoreId C.DEBUGGER_EVENT_MODE_TYPE_USER_MODE] } := by
    simp [runEptViolations, e₁, adjustingDispatcher, ExecTrapHandleMoveToAdjustedTrapState,
      h₁.2]
  have r₂ : runEptViolations C (adjustingDispatcher C) [q₁, q₂] m
      = ExecTrapChangeToUserDisabledMbecEptp
          { runEptViolations C (adjustingDispatcher C) [q₁] m with
            Calls := (runEptViolations C (adjustingDispatcher C) [q₁] m).Calls ++
              [.HvSuppressRipIncrement
                  (runEptViolations C (adjustingDispatcher C) [q₁] m).VCpu.CoreId,
               .DispatchEventMode
                  (runEptViolations C (adjustingDispatcher C) [q₁] m).VCpu.CoreId
                  C.DEBUGGER_EVENT_MODE_TYPE_KERNEL_MODE] } := by
    have hrun : runEptViolations C (adjustingDispatcher C) [q₁, q₂] m
        = (ExecTrapHandleEptViolationVmexit C (adjustingDispatcher C) q₂
            (runEptViolations C (adjustingDispatcher C) [q₁] m)).2 := rfl
    rw [hrun, e₂]
    simp [adjustingDispatcher, ExecTrapHandleMoveToAdjustedTrapState, h₂.2.1, hK]
  refine ⟨⟨by rw [e₁], ?_, ?_, ?_, ?_⟩, ⟨by rw [e₂], ?_, ?_, ?_, ?_⟩, fun qs hqs => ⟨?_, ?_⟩⟩
  · rw [r₁]
    simp [ExecTrapChangeToKernelDisabledMbecEptp, setPml4UserModeExecute, setPml4ExecuteAccess,
      EptInveptSingleContext, setNotNormalEptp]
  · rw [r₁]
    simp [ExecTrapChangeToKernelDisabledMbecEptp, setPml4UserModeExecute, setPml4ExecuteAccess,
      EptInveptSingleContext, setNotNormalEptp]
  · rw [r₁]
    simp [ExecTrapChangeToKernelDisabledMbecEptp, setPml4UserModeExecute, setPml4ExecuteAccess,
      EptInveptSingleContext, setNotNormalEptp]
  · rw [r₁]
    simp [ExecTrapChangeToKernelDisabledMbecEptp, setPml4UserModeExecute, setPml4ExecuteAccess,
      EptInveptSingleContext, setNotNormalEptp]
  · rw [r₂, r₁]
    simp [ExecTrapChangeToKernelDisabledMbecEptp, ExecTrapChangeToUserDisabledMbecEptp,
      setPml4UserModeExecute, setPml4ExecuteAccess, EptInveptSingleContext, setNotNormalEptp]
  · rw [r₂]
    simp [ExecTrapChangeToUserDisabledMbecEptp, setPml4UserModeExecute, setPml4ExecuteAccess,
      EptInveptSingleContext, setNotNormalEptp]
  · rw [r₂]
    simp [ExecTrapChangeToUserDisabledMbecEptp, setPml4UserModeExecute, setPml4ExecuteAccess,
      EptInveptSingleContext, setNotNormalEptp]
  · rw [r₂]
    simp [ExecTrapChangeToUserDisabledMbecEptp, setPml4UserModeExecute, setPml4ExecuteAccess,
      EptInveptSingleContext, setNotNormalEptp]
  · exact runEptViolations_adjusting C qs m hi hqs
  · intro hch
    rw [List.chain'_map]
    refine hch.imp ?_
    intro a b hab
    cases ha : a.EptExecutableForUserMode <;> cases hb : b.EptExecutableForUserMode <;>
      simp_all

/-- A concrete run of C20 (user mode is 3, kernel mode is 0), starting from the sample core moved
to user execute disabled: after a user-mode execute fault the core is in kernel execute disabled,
after a following kernel-mode execute fault it is in user execute disabled, and the stream user,
kernel, user, kernel dispatches the modes 3, 0, 3, 0. -/
theorem C20_fault_stream_with_adjusting_dispatcher_witness :
    ((ExecTrapChangeToUserDisabledMbecEptp sampleCore).EptPageTable.PML4 0).UserModeExecute
      = false ∧
    ((runEptViolations sampleExecTrapConstants (adjustingDispatcher sampleExecTrapConstants)
        [userModeExecuteFault]
        (ExecTrapChangeToUserDisabledMbecEptp sampleCore)).EptPageTable.PML4 0).ExecuteAccess
      = false ∧
    ((runEptViolations sampleExecTrapConstants (adjustingDispatcher sampleExecTrapConstants)
        [userModeExecuteFault, kernelModeExecuteFault]
        (ExecTrapChangeToUserDisabledMbecEptp sampleCore)).EptPageTable.PML4 0).UserModeExecute
      = false ∧
    (runEptViolations sampleExecTrapConstants (adjustingDispatcher sampleExecTrapConstants)
        [userModeExecuteFault, kernelModeExecuteFault, userModeExecuteFault,
          kernelModeExecuteFault]
        (ExecTrapChangeToUserDisabledMbecEptp sampleCore)).dispatchedModes = [3, 0, 3, 0] :=
  ⟨by decide,
   (C20_fault_stream_with_adjusting_dispatcher sampleExecTrapConstants
      (ExecTrapChangeToUserDisabledMbecEptp sampleCore) userModeExecuteFault
      kernelModeExecuteFault (by decide) rfl ⟨rfl, rfl⟩ ⟨rfl, rfl, rfl⟩).1.2.2.1,
   (C20_fault_stream_with_adjusting_dispatcher sampleExecTrapConstants
      (ExecTrapChangeToUserDisabledMbecEptp sampleCore) userModeExecuteFault
      kernelModeExecuteFault (by decide) rfl ⟨rfl, rfl⟩ ⟨rfl, rfl, rfl⟩).2.1.2.2.2.1,
   (((C20_fault_stream_with_adjusting_dispatcher sampleExecTrapConstants
      (ExecTrapChangeToUserDisabledMbecEptp sampleCore) userModeExecuteFault
      kernelModeExecuteFault (by decide) rfl ⟨rfl, rfl⟩ ⟨rfl, rfl, rfl⟩).2.2
      [userModeExecuteFault, kernelModeExecuteFault, userModeExecuteFault,
        kernelModeExecuteFault] (by decide)).1).trans (by decide)⟩

/-! ## Facts about the watch-list routines -/

theorem getElem?_map_range (a : Nat → Nat) (n i : Nat) :
    ((List.range n).map a)[i]? = if i < n then some (a i) else none := by
  rw [List.getElem?_map]
  split_ifs with h
  · rw [List.getElem?_range h]; rfl
  · rw [List.getElem?_eq_none (by simpa using h)]; rfl

theorem pairwise_map_range_iff (r : Nat → Nat → Prop) (a : Nat → Nat) (n : Nat) :
    List.Pairwise r ((List.range n).map a) ↔ ∀ i j, i < j → j < n → r (a i) (a j) := by
  rw [List.pairwise_iff_getElem]
  constructor
  · intro h i j hij hj
    have := h i j (by simpa using hij.trans hj) (by simpa using hj) hij
    simpa using this
  · intro h i j hi hj hij
    have hj' : j < n := by simpa using hj
    simpa using h i j hij hj'

theorem mem_map_range_iff (a : Nat → Nat) (n p : Nat) :
    p ∈ (List.range n).map a ↔ ∃ i, i < n ∧ a i = p := by
  simp [List.mem_map]

theorem shiftRight_spec (Key : Nat) : ∀ (n : Nat) (a : Nat → Nat),
    (InsertionSortShiftRight Key n a).2 ≤ n ∧
    (∀ i, (InsertionSortShiftRight Key n a).2 ≤ i → i < n → Key < a i) ∧
    ((InsertionSortShiftRight Key n a).2 = 0 ∨
      a ((InsertionSortShiftRight Key n a).2 - 1) ≤ Key) ∧
    (∀ i, (InsertionSortShiftRight Key n a).1 i =
      if (InsertionSortShiftRight Key n a).2 < i ∧ i ≤ n then a (i - 1) else a i) := by
  intro n
  induction n with
  | zero =>
    intro a
    refine ⟨le_refl _, fun i _ hi => absurd hi (Nat.not_lt_zero _), Or.inl rfl, fun i => ?_⟩
    have hc : ¬ ((InsertionSortShiftRight Key 0 a).2 < i ∧ i ≤ 0) := fun h => by
      have h0 : (InsertionSortShiftRight Key 0 a).2 = 0 := rfl
      omega
    rw [if_neg hc]
    rfl
  | succ n ih =>
    intro a
    by_cases hgt : a n > Key
    · have hdef : InsertionSortShiftRight Key (n + 1) a
          = InsertionSortShiftRight Key n (Function.update a (n + 1) (a n)) := by
        simp [InsertionSortShiftRight, hgt]
      rw [hdef]
      obtain ⟨h1, h2, h3, h4⟩ := ih (Function.update a (n + 1) (a n))
      generalize InsertionSortShiftRight Key n (Function.update a (n + 1) (a n)) = r at h1 h2 h3 h4
      refine ⟨Nat.le_succ_of_le h1, fun i hki hi => ?_, ?_, fun i => ?_⟩
      · by_cases hin : i < n
        · have := h2 i hki hin
          rwa [Function.update_noteq (by omega)] at this
        · have : i = n := by omega
          subst this; exact hgt
      · rcases h3 with h3 | h3
        · exact Or.inl h3
        · right
          rwa [Function.update_noteq (by omega)] at h3
      · rw [h4 i]
        by_cases hi1 : i = n + 1
        · subst hi1
          have hk : r.2 < n + 1 := by omega
          have hc : ¬ (r.2 < n + 1 ∧ n + 1 ≤ n) := fun h => by omega
          rw [if_neg hc, if_pos ⟨hk, le_refl _⟩, Function.update_same]
          rfl
        · by_cases hc : r.2 < i ∧ i ≤ n
          · have hc' : r.2 < i ∧ i ≤ n + 1 := ⟨hc.1, by omega⟩
            rw [if_pos hc, if_pos hc', Function.update_noteq (by omega)]
          · have hc' : ¬ (r.2 < i ∧ i ≤ n + 1) := fun h => hc ⟨h.1, by omega⟩
            rw [if_neg hc, if_neg hc', Function.update_noteq hi1]
    · have hdef : InsertionSortShiftRight Key (n + 1) a = (a, n + 1) := by
        simp [InsertionSortShiftRight, hgt]
      rw [hdef]
      refine ⟨le_refl _, fun i hki hi => by omega, Or.inr (by simpa using Nat.le_of_not_gt hgt),
        fun i => ?_⟩
      have hc : ¬ (n + 1 < i ∧ i ≤ n + 1) := fun h => by omega
      rw [if_neg hc]

theorem map_range_insert (a b : Nat → Nat) (n k Key : Nat) (hk : k ≤ n)
    (hb : ∀ i, b i = if i < k then a i else if i = k then Key
      else if i ≤ n then a (i - 1) else a i) :
    (List.range (n + 1)).map b
      = ((List.range n).map a).take k ++ Key :: ((List.range n).map a).drop k := by
  apply List.ext_getElem?
  intro i
  have hlen : (((List.range n).map a).take k).length = k := by simp [hk]
  rw [getElem?_map_range, List.getElem?_append, hlen, hb i, List.getElem?_take,
    List.getElem?_cons, List.getElem?_drop, getElem?_map_range, getElem?_map_range]
  by_cases h1 : i < k
  · simp only [h1, if_true]
    rw [if_pos (by omega), if_pos (by omega)]
  · by_cases h2 : i = k
    · subst h2
      simp only [lt_irrefl, if_false, Nat.sub_self, if_true]
      rw [if_pos (by omega)]
    · have h3 : ¬ (i - k = 0) := by omega
      simp only [h1, h2, h3, if_false]
      by_cases h4 : i ≤ n
      · have e : k + (i - k - 1) = i - 1 := by omega
        rw [if_pos (by omega), if_pos h4, e, if_pos (by omega)]
      · have e : k + (i - k - 1) = i - 1 := by omega
        rw [if_neg (by omega), e, if_neg (by omega)]

theorem insertItem_of_full (a : Nat → Nat) (n Max Key : Nat) (h : Max ≤ n) :
    InsertionSortInsertItem a n Max Key = (false, a, n, 0) := by
  unfold InsertionSortInsertItem
  rw [if_pos h]

theorem insertItem_of_room (a : Nat → Nat) (n Max Key : Nat) (h : n < Max) :
    ∃ (b : Nat → Nat) (k : Nat),
      InsertionSortInsertItem a n Max Key = (true, b, n + 1, k) ∧ k ≤ n ∧
      (∀ i, b i = if i < k then a i else if i = k then Key
        else if i ≤ n then a (i - 1) else a i) ∧
      (∀ i, k ≤ i → i < n → Key < a i) ∧ (k = 0 ∨ a (k - 1) ≤ Key) := by
  obtain ⟨h1, h2, h3, h4⟩ := shiftRight_spec Key n a
  refine ⟨Function.update (InsertionSortShiftRight Key n a).1
      (InsertionSortShiftRight Key n a).2 Key, (InsertionSortShiftRight Key n a).2, ?_, h1,
    fun i => ?_, h2, h3⟩
  · unfold InsertionSortInsertItem
    rw [if_neg (by omega)]
  · generalize InsertionSortShiftRight Key n a = r at h1 h2 h3 h4
    by_cases e : i = r.2
    · subst e
      rw [Function.update_same, if_neg (lt_irrefl _), if_pos rfl]
    · rw [Function.update_noteq e, h4 i]
      by_cases hlt : i < r.2
      · rw [if_pos hlt, if_neg (by omega)]
      · rw [if_neg hlt, if_neg e]
        by_cases hle : i ≤ n
        · rw [if_pos hle, if_pos ⟨by omega, hle⟩]
        · rw [if_neg hle, if_neg (fun hh => hle hh.2)]

/-- What a successful insertion does to the entries in use: the key is placed at a position
`k`, after entries that are at most the key and before entries that are greater. -/
theorem insertItem_entries (a : Nat → Nat) (n Max Key : Nat) (h : n < Max) :
    ∃ (b : Nat → Nat) (k : Nat),
      InsertionSortInsertItem a n Max Key = (true, b, n + 1, k) ∧ k ≤ n ∧
      (List.range (n + 1)).map b
        = ((List.range n).map a).take k ++ Key :: ((List.range n).map a).drop k ∧
      (∀ x ∈ ((List.range n).map a).drop k, Key < x) ∧
      (k = 0 ∨ a (k - 1) ≤ Key) := by
  obtain ⟨b, k, he, hk, hb, hgt, hle⟩ := insertItem_of_room a n Max Key h
  refine ⟨b, k, he, hk, map_range_insert a b n k Key hk hb, fun x hx => ?_, hle⟩
  rw [← List.map_drop, List.mem_map] at hx
  obtain ⟨i, hi, rfl⟩ := hx
  have hi' := List.mem_of_mem_drop hi
  rw [List.mem_range] at hi'
  refine hgt i ?_ hi'
  by_contra hcon
  have hlt : i < k := by omega
  have : i ∈ (List.range n).take k := by
    rw [List.take_range]
    exact List.mem_range.mpr (by omega)
  have hnd : (List.range n).Nodup := List.nodup_range n
  rw [← List.take_append_drop k (List.range n)] at hnd
  exact (List.disjoint_of_nodup_append hnd) this hi

theorem insertItem_sorted (a : Nat → Nat) (n Max Key : Nat) (h : n < Max)
    (hs : ∀ i j, i < j → j < n → a i ≤ a j) :
    ∀ i j, i < j → j < n + 1 →
      (InsertionSortInsertItem a n Max Key).2.1 i
        ≤ (InsertionSortInsertItem a n Max Key).2.1 j := by
  obtain ⟨b, k, he, hk, hb, hgt, hle⟩ := insertItem_of_room a n Max Key h
  rw [he]
  intro i j hij hj
  show b i ≤ b j
  have hkey : ∀ i, i < k → a i ≤ Key := by
    intro i hi
    rcases hle with h0 | h1
    · omega
    · by_cases e : i = k - 1
      · rw [e]; exact h1
      · exact le_trans (hs i (k - 1) (by omega) (by omega)) h1
  rw [hb i, hb j]
  by_cases hik : i < k
  · rw [if_pos hik]
    by_cases hjk : j < k
    · rw [if_pos hjk]; exact hs i j hij (by omega)
    · rw [if_neg hjk]
      by_cases hje : j = k
      · rw [if_pos hje]; exact hkey i hik
      · have hj3 : j ≤ n := by omega
        rw [if_neg hje, if_pos hj3]
        exact hs i (j - 1) (by omega) (by omega)
  · have hj1 : ¬ j < k := by omega
    have hj2 : ¬ j = k := by omega
    have hj3 : j ≤ n := by omega
    rw [if_neg hik, if_neg hj1, if_neg hj2, if_pos hj3]
    by_cases hie : i = k
    · rw [if_pos hie]
      exact Nat.le_of_lt (hgt (j - 1) (by omega) (by omega))
    · have hi3 : i ≤ n := by omega
      rw [if_neg hie, if_pos hi3]
      exact hs (i - 1) (j - 1) (by omega) (by omega)

theorem add_of_full (C : ExecTrapConstants) (p : Nat) (g : ExecTrapState)
    (h : C.MAXIMUM_NUMBER_OF_PROCESSES_FOR_USER_KERNEL_EXEC_THREAD ≤ g.NumberOfItems) :
    ExecTrapAddProcessToWatchingList C p g = (false, g) := by
  unfold ExecTrapAddProcessToWatchingList
  rw [insertItem_of_full _ _ _ _ h]

theorem add_of_room (C : ExecTrapConstants) (p : Nat) (g : ExecTrapState)
    (h : g.NumberOfItems < C.MAXIMUM_NUMBER_OF_PROCESSES_FOR_USER_KERNEL_EXEC_THREAD) :
    (ExecTrapAddProcessToWatchingList C p g).1 = true ∧
    (ExecTrapAddProcessToWatchingList C p g).2.NumberOfItems = g.NumberOfItems + 1 ∧
    (∃ k, k ≤ g.NumberOfItems ∧
      (ExecTrapAddProcessToWatchingList C p g).2.entries
        = g.entries.take k ++ p :: g.entries.drop k) ∧
    (g.entries.Sorted (· ≤ ·) →
      (ExecTrapAddProcessToWatchingList C p g).2.entries.Sorted (· ≤ ·)) := by
  obtain ⟨b, k, he, hk, hl, -, -⟩ := insertItem_entries g.InterceptionProcessIds
    g.NumberOfItems C.MAXIMUM_NUMBER_OF_PROCESSES_FOR_USER_KERNEL_EXEC_THREAD p h
  have hsort := insertItem_sorted g.InterceptionProcessIds
    g.NumberOfItems C.MAXIMUM_NUMBER_OF_PROCESSES_FOR_USER_KERNEL_EXEC_THREAD p h
  unfold ExecTrapAddProcessToWatchingList
  rw [he] at hsort ⊢
  refine ⟨rfl, rfl, ⟨k, hk, hl⟩, fun hs => ?_⟩
  exact (pairwise_map_range_iff _ _ _).mpr
    (hsort ((pairwise_map_range_iff _ _ _).mp hs))

theorem add_perm (C : ExecTrapConstants) (p : Nat) (g : ExecTrapState)
    (h : g.NumberOfItems < C.MAXIMUM_NUMBER_OF_PROCESSES_FOR_USER_KERNEL_EXEC_THREAD) :
    (ExecTrapAddProcessToWatchingList C p g).2.entries.Perm (p :: g.entries) := by
  obtain ⟨k, -, hl⟩ := (add_of_room C p g h).2.2.1
  rw [hl]
  refine List.perm_middle.trans ?_
  rw [List.take_append_drop]

theorem add_strict (C : ExecTrapConstants) (p : Nat) (g : ExecTrapState)
    (h : g.NumberOfItems < C.MAXIMUM_NUMBER_OF_PROCESSES_FOR_USER_KERNEL_EXEC_THREAD)
    (hs : g.entries.Sorted (· < ·)) (hp : p ∉ g.entries) :
    (ExecTrapAddProcessToWatchingList C p g).2.entries.Sorted (· < ·) := by
  have hle : g.entries.Sorted (· ≤ ·) := hs.imp (fun h => Nat.le_of_lt h)
  refine ((add_of_room C p g h).2.2.2 hle).lt_of_le ?_
  rw [(add_perm C p g h).nodup_iff, List.nodup_cons]
  exact ⟨hp, hs.nodup⟩

theorem binarySearchLoop_spec (a : Nat → Nat) (Key n : Nat)
    (hs : ∀ i j, i < j → j < n → a i ≤ a j) :
    ∀ (Fuel Position Limit : Nat), Limit - Position ≤ Fuel → Position ≤ Limit → Limit ≤ n →
      (∀ i, i < Position → a i < Key) → (∀ i, Limit ≤ i → i < n → Key ≤ a i) →
      BinarySearchLoop a Key Fuel Position Limit ≤ n ∧
      (∀ i, i < BinarySearchLoop a Key Fuel Position Limit → a i < Key) ∧
      (∀ i, BinarySearchLoop a Key Fuel Position Limit ≤ i → i < n → Key ≤ a i) := by
  intro Fuel
  induction Fuel with
  | zero =>
    intro Position Limit hf hpl hln hlo hhi
    have e : Position = Limit := by omega
    subst e
    exact ⟨hln, hlo, hhi⟩
  | succ Fuel ih =>
    intro Position Limit hf hpl hln hlo hhi
    by_cases hlt : Position < Limit
    · have hmid1 : Position ≤ (Position + Limit) / 2 := by omega
      have hmid2 : (Position + Limit) / 2 < Limit := by omega
      by_cases hc : a ((Position + Limit) / 2) < Key
      · have hdef : BinarySearchLoop a Key (Fuel + 1) Position Limit
            = BinarySearchLoop a Key Fuel ((Position + Limit) / 2 + 1) Limit := by
          simp [BinarySearchLoop, hlt, hc]
        rw [hdef]
        refine ih _ _ (by omega) (by omega) hln (fun i hi => ?_) hhi
        by_cases e : i = (Position + Limit) / 2
        · rw [e]; exact hc
        · exact lt_of_le_of_lt (hs i ((Position + Limit) / 2) (by omega) (by omega)) hc
      · have hdef : BinarySearchLoop a Key (Fuel + 1) Position Limit
            = BinarySearchLoop a Key Fuel Position ((Position + Limit) / 2) := by
          simp [BinarySearchLoop, hlt, hc]
        rw [hdef]
        refine ih _ _ (by omega) hmid1 (by omega) hlo (fun i hi hin => ?_)
        by_cases e : i = (Position + Limit) / 2
        · rw [e]; exact Nat.le_of_not_lt hc
        · exact le_trans (Nat.le_of_not_lt hc)
            (hs ((Position + Limit) / 2) i (by omega) hin)
    · have hdef : BinarySearchLoop a Key (Fuel + 1) Position Limit = Position := by
        simp [BinarySearchLoop, hlt]
      rw [hdef]
      have e : Position = Limit := by omega
      subst e
      exact ⟨hln, hlo, hhi⟩

/-- On an ascending array the search succeeds exactly when the key is among the first
`NumberOfItems` entries, and the index it reports is that of the first entry equal to the key. -/
theorem binarySearch_spec (a : Nat → Nat) (n Key : Nat)
    (hs : ∀ i j, i < j → j < n → a i ≤ a j) :
    ((BinarySearchPerformSearchItem a n Key).1 = true ↔ ∃ i, i < n ∧ a i = Key) ∧
    ((BinarySearchPerformSearchItem a n Key).1 = true →
      (BinarySearchPerformSearchItem a n Key).2 < n ∧
      a (BinarySearchPerformSearchItem a n Key).2 = Key ∧
      ∀ j, j < (BinarySearchPerformSearchItem a n Key).2 → a j < Key) ∧
    ((BinarySearchPerformSearchItem a n Key).1 = false →
      BinarySearchPerformSearchItem a n Key = (false, 0)) := by
  obtain ⟨h1, h2, h3⟩ := binarySearchLoop_spec a Key n hs n 0 n (by omega) (Nat.zero_le _)
    (le_refl _) (fun i hi => absurd hi (Nat.not_lt_zero _)) (fun i hi hin => by omega)
  unfold BinarySearchPerformSearchItem
  generalize BinarySearchLoop a Key n 0 n = pos at h1 h2 h3
  by_cases hc : pos < n ∧ a pos = Key
  · rw [if_pos hc]
    exact ⟨⟨fun _ => ⟨pos, hc.1, hc.2⟩, fun _ => rfl⟩, fun _ => ⟨hc.1, hc.2, h2⟩,
      fun h => by simp at h⟩
  · rw [if_neg hc]
    refine ⟨⟨fun h => by simp at h, fun ⟨i, hi, hai⟩ => ?_⟩, fun h => by simp at h,
      fun _ => rfl⟩
    exfalso
    have hpi : pos ≤ i := by
      by_contra hcon
      have := h2 i (by omega)
      omega
    have hposn : pos < n := by omega
    apply hc
    refine ⟨hposn, ?_⟩
    have hk1 : Key ≤ a pos := h3 pos (le_refl _) hposn
    have hk2 : a pos ≤ a i := by
      by_cases e : pos = i
      · rw [e]
      · exact hs pos i (by omega) hi
    omega

theorem shiftLeft_spec : ∀ (Count i : Nat) (a : Nat → Nat), 1 ≤ i →
    ∀ j, InsertionSortShiftLeft Count i a j
      = if i - 1 ≤ j ∧ j < i - 1 + Count then a (j + 1) else a j := by
  intro Count
  induction Count with
  | zero =>
    intro i a _ j
    have hc : ¬ (i - 1 ≤ j ∧ j < i - 1 + 0) := fun h => by omega
    rw [if_neg hc]
    rfl
  | succ Count ih =>
    intro i a hi j
    have hdef : InsertionSortShiftLeft (Count + 1) i a
        = InsertionSortShiftLeft Count (i + 1) (Function.update a (i - 1) (a i)) := rfl
    rw [hdef, ih (i + 1) _ (by omega) j]
    by_cases e : j = i - 1
    · subst e
      have hc1 : ¬ (i + 1 - 1 ≤ i - 1 ∧ i - 1 < i + 1 - 1 + Count) := fun h => by omega
      have hc2 : i - 1 ≤ i - 1 ∧ i - 1 < i - 1 + (Count + 1) := ⟨le_refl _, by omega⟩
      have e1 : i - 1 + 1 = i := by omega
      rw [if_neg hc1, if_pos hc2, Function.update_same, e1]
    · by_cases hc : i + 1 - 1 ≤ j ∧ j < i + 1 - 1 + Count
      · have hc2 : i - 1 ≤ j ∧ j < i - 1 + (Count + 1) := ⟨by omega, by omega⟩
        rw [if_pos hc, if_pos hc2, Function.update_noteq (by omega)]
      · have hc2 : ¬ (i - 1 ≤ j ∧ j < i - 1 + (Count + 1)) := fun h => hc ⟨by omega, by omega⟩
        rw [if_neg hc, if_neg hc2, Function.update_noteq e]

theorem deleteItem_of_lt (a : Nat → Nat) (n Index : Nat) (h : Index < n) :
    (InsertionSortDeleteItem a n Index).1 = true ∧
    (InsertionSortDeleteItem a n Index).2.2 = n - 1 ∧
    (List.range (n - 1)).map (InsertionSortDeleteItem a n Index).2.1
      = ((List.range n).map a).eraseIdx Index := by
  have hdef : InsertionSortDeleteItem a n Index
      = (true, InsertionSortShiftLeft (n - (Index + 1)) (Index + 1) a, n - 1) := by
    unfold InsertionSortDeleteItem
    rw [if_neg (by omega)]
  rw [hdef]
  refine ⟨rfl, rfl, ?_⟩
  apply List.ext_getElem?
  intro j
  show ((List.range (n - 1)).map (InsertionSortShiftLeft (n - (Index + 1)) (Index + 1) a))[j]?
    = _
  rw [getElem?_map_range, List.getElem?_eraseIdx, getElem?_map_range, getElem?_map_range,
    shiftLeft_spec _ _ _ (by omega)]
  by_cases h1 : j < Index
  · have hc : ¬ (Index + 1 - 1 ≤ j ∧ j < Index + 1 - 1 + (n - (Index + 1))) :=
      fun hh => by omega
    have h2 : j < n - 1 := by omega
    have h3 : j < n := by omega
    rw [if_pos h1, if_neg hc, if_pos h2, if_pos h3]
  · rw [if_neg h1]
    by_cases h2 : j < n - 1
    · have hc : Index + 1 - 1 ≤ j ∧ j < Index + 1 - 1 + (n - (Index + 1)) :=
        ⟨by omega, by omega⟩
      have h3 : j + 1 < n := by omega
      rw [if_pos h2, if_pos hc, if_pos h3]
    · have h3 : ¬ j + 1 < n := by omega
      rw [if_neg h2, if_neg h3]

theorem eraseIdx_eq_erase_of_first (p : Nat) : ∀ (l : List Nat) (i : Nat),
    l[i]? = some p → (∀ j, j < i → l[j]? ≠ some p) → l.eraseIdx i = l.erase p := by
  intro l
  induction l with
  | nil => intro i h _; simp at h
  | cons x xs ih =>
    intro i h hfirst
    cases i with
    | zero =>
      have hx : x = p := by simpa using h
      subst hx
      simp
    | succ i =>
      have hx : x ≠ p := by
        have := hfirst 0 (Nat.succ_pos _)
        simpa using this
      have hxs : xs[i]? = some p := by simpa using h
      have hf : ∀ j, j < i → xs[j]? ≠ some p := by
        intro j hj
        have := hfirst (j + 1) (by omega)
        simpa using this
      rw [List.eraseIdx_cons_succ, ih i hxs hf, List.erase_cons_tail (by simpa using hx)]

/-- What removal does on an ascending watch-list. -/
theorem remove_spec (p : Nat) (g : ExecTrapState) (hs : g.entries.Sorted (· ≤ ·)) :
    ((ExecTrapRemoveProcessFromWatchingList p g).1 = true ↔ p ∈ g.entries) ∧
    ((ExecTrapRemoveProcessFromWatchingList p g).1 = true →
      (ExecTrapRemoveProcessFromWatchingList p g).2.entries = g.entries.erase p ∧
      (ExecTrapRemoveProcessFromWatchingList p g).2.NumberOfItems + 1 = g.NumberOfItems) ∧
    ((ExecTrapRemoveProcessFromWatchingList p g).1 = false →
      (ExecTrapRemoveProcessFromWatchingList p g).2 = g) := by
  have hs' := (pairwise_map_range_iff _ _ _).mp hs
  obtain ⟨hiff, htrue, hfalse⟩ :=
    binarySearch_spec g.InterceptionProcessIds g.NumberOfItems p hs'
  have hmem : p ∈ g.entries ↔ ∃ i, i < g.NumberOfItems ∧ g.InterceptionProcessIds i = p :=
    mem_map_range_iff _ _ _
  unfold ExecTrapRemoveProcessFromWatchingList
  by_cases hr : (BinarySearchPerformSearchItem g.InterceptionProcessIds g.NumberOfItems p).1
      = true
  · obtain ⟨hlt, hval, hfirst⟩ := htrue hr
    obtain ⟨d1, d2, d3⟩ := deleteItem_of_lt g.InterceptionProcessIds g.NumberOfItems _ hlt
    simp only [hr, if_true]
    refine ⟨⟨fun _ => hmem.mpr (hiff.mp hr), fun _ => d1⟩, fun _ => ⟨?_, ?_⟩, fun h => ?_⟩
    · show (List.range _).map _ = _
      simp only [d2]
      rw [d3]
      refine eraseIdx_eq_erase_of_first p _ _ ?_ ?_
      · rw [getElem?_map_range, if_pos hlt, hval]
      · intro j hj
        rw [getElem?_map_range, if_pos (by omega)]
        intro hcon
        have := hfirst j hj
        have e : g.InterceptionProcessIds j = p := by simpa using hcon
        omega
    · show (InsertionSortDeleteItem _ _ _).2.2 + 1 = _
      rw [d2]; omega
    · rw [d1] at h; simp at h
  · have hr' : (BinarySearchPerformSearchItem g.InterceptionProcessIds g.NumberOfItems p).1
        = false := by simpa using hr
    simp only [hr', Bool.false_eq_true, if_false]
    refine ⟨⟨fun h => by simp at h, fun h => ?_⟩, fun h => by simp at h, fun _ => trivial⟩
    exact absurd (hiff.mpr (hmem.mp h)) hr

theorem add_entries_eq_orderedInsert (C : ExecTrapConstants) (p : Nat) (g : ExecTrapState)
    (hs : g.entries.Sorted (· ≤ ·))
    (h : g.NumberOfItems < C.MAXIMUM_NUMBER_OF_PROCESSES_FOR_USER_KERNEL_EXEC_THREAD) :
    (ExecTrapAddProcessToWatchingList C p g).2.entries
      = List.orderedInsert (· ≤ ·) p g.entries := by
  refine List.eq_of_perm_of_sorted ?_ ((add_of_room C p g h).2.2.2 hs)
    (hs.orderedInsert p g.entries)
  exact (add_perm C p g h).trans (List.perm_orderedInsert _ p g.entries).symm

theorem add_invariant (C : ExecTrapConstants) (p : Nat) (g : ExecTrapState)
    (hs : g.entries.Sorted (· ≤ ·))
    (hn : g.NumberOfItems ≤ C.MAXIMUM_NUMBER_OF_PROCESSES_FOR_USER_KERNEL_EXEC_THREAD) :
    (ExecTrapAddProcessToWatchingList C p g).2.entries.Sorted (· ≤ ·) ∧
    (ExecTrapAddProcessToWatchingList C p g).2.NumberOfItems
      ≤ C.MAXIMUM_NUMBER_OF_PROCESSES_FOR_USER_KERNEL_EXEC_THREAD := by
  by_cases h : g.NumberOfItems < C.MAXIMUM_NUMBER_OF_PROCESSES_FOR_USER_KERNEL_EXEC_THREAD
  · obtain ⟨-, h2, -, h4⟩ := add_of_room C p g h
    exact ⟨h4 hs, by omega⟩
  · rw [add_of_full C p g (by omega)]
    exact ⟨hs, hn⟩

theorem remove_invariant (C : ExecTrapConstants) (p : Nat) (g : ExecTrapState)
    (hs : g.entries.Sorted (· ≤ ·))
    (hn : g.NumberOfItems ≤ C.MAXIMUM_NUMBER_OF_PROCESSES_FOR_USER_KERNEL_EXEC_THREAD) :
    (ExecTrapRemoveProcessFromWatchingList p g).2.entries.Sorted (· ≤ ·) ∧
    (ExecTrapRemoveProcessFromWatchingList p g).2.NumberOfItems
      ≤ C.MAXIMUM_NUMBER_OF_PROCESSES_FOR_USER_KERNEL_EXEC_THREAD := by
  obtain ⟨-, ht, hf⟩ := remove_spec p g hs
  cases hr : (ExecTrapRemoveProcessFromWatchingList p g).1
  · rw [hf hr]; exact ⟨hs, hn⟩
  · obtain ⟨he, hc⟩ := ht hr
    rw [he]
    exact ⟨hs.sublist (List.erase_sublist p _), by omega⟩

theorem remove_strict (p : Nat) (g : ExecTrapState) (hs : g.entries.Sorted (· < ·)) :
    (ExecTrapRemoveProcessFromWatchingList p g).2.entries.Sorted (· < ·) := by
  have hle : g.entries.Sorted (· ≤ ·) := hs.imp (fun h => Nat.le_of_lt h)
  obtain ⟨-, ht, hf⟩ := remove_spec p g hle
  cases hr : (ExecTrapRemoveProcessFromWatchingList p g).1
  · rw [hf hr]; exact hs
  · rw [(ht hr).1]
    exact hs.sublist (List.erase_sublist p _)

theorem run_invariant (C : ExecTrapConstants) : ∀ (calls : List WatchListCall)
    (g : ExecTrapState), g.entries.Sorted (· ≤ ·) →
    g.NumberOfItems ≤ C.MAXIMUM_NUMBER_OF_PROCESSES_FOR_USER_KERNEL_EXEC_THREAD →
    (runWatchListCalls C calls g).entries.Sorted (· ≤ ·) ∧
    (runWatchListCalls C calls g).NumberOfItems
      ≤ C.MAXIMUM_NUMBER_OF_PROCESSES_FOR_USER_KERNEL_EXEC_THREAD := by
  intro calls
  induction calls with
  | nil => intro g hs hn; exact ⟨hs, hn⟩
  | cons c cs ih =>
    intro g hs hn
    cases c with
    | Add p =>
      obtain ⟨h1, h2⟩ := add_invariant C p g hs hn
      exact ih _ h1 h2
    | Remove p =>
      obtain ⟨h1, h2⟩ := remove_invariant C p g hs hn
      exact ih _ h1 h2

theorem run_strict (C : ExecTrapConstants) : ∀ (calls : List WatchListCall)
    (g : ExecTrapState), g.entries.Sorted (· < ·) → addsOnlyUnlisted C calls g = true →
    (runWatchListCalls C calls g).entries.Sorted (· < ·) := by
  intro calls
  induction calls with
  | nil => intro g hs _; exact hs
  | cons c cs ih =>
    intro g hs hu
    cases c with
    | Add p =>
      simp only [addsOnlyUnlisted, Bool.and_eq_true, decide_eq_true_eq] at hu
      refine ih _ ?_ hu.2
      by_cases h : g.NumberOfItems
          < C.MAXIMUM_NUMBER_OF_PROCESSES_FOR_USER_KERNEL_EXEC_THREAD
      · exact add_strict C p g h hs hu.1
      · show (ExecTrapAddProcessToWatchingList C p g).2.entries.Sorted (· < ·)
        rw [add_of_full C p g (by omega)]
        exact hs
    | Remove p =>
      simp only [addsOnlyUnlisted] at hu
      exact ih _ (remove_strict p g hs) hu

theorem emptyWatchList_entries : emptyWatchList.entries = [] := rfl

/-! ## Theorems about the process watch-list -/

/-- C13: for every ascending watch-list with fewer entries than the capacity and every process
ID `p`, `ExecTrapAddProcessToWatchingList(p)` returns `TRUE`, the count goes up by one, and the
new entries are the ascending arrangement of the old entries plus `p`: they are a permutation of
`p` and the old entries, they are ascending, and they are the old entries with `p` inserted in
order.  A binary-search lookup of `p` on the new list succeeds.  With a capacity of at least
three, adding 50, 10 and 30 to the empty list gives `[10, 30, 50]`. -/
theorem C13_add_to_sorted_watch_list (C : ExecTrapConstants) (p : Nat) (g : ExecTrapState)
    (hs : g.entries.Sorted (· ≤ ·))
    (hroom : g.NumberOfItems < C.MAXIMUM_NUMBER_OF_PROCESSES_FOR_USER_KERNEL_EXEC_THREAD) :
    (ExecTrapAddProcessToWatchingList C p g).1 = true ∧
    (ExecTrapAddProcessToWatchingList C p g).2.NumberOfItems = g.NumberOfItems + 1 ∧
    (ExecTrapAddProcessToWatchingList C p g).2.entries.Perm (p :: g.entries) ∧
    (ExecTrapAddProcessToWatchingList C p g).2.entries.Sorted (· ≤ ·) ∧
    (ExecTrapAddProcessToWatchingList C p g).2.entries
      = List.orderedInsert (· ≤ ·) p g.entries ∧
    (BinarySearchPerformSearchItem
        (ExecTrapAddProcessToWatchingList C p g).2.InterceptionProcessIds
        (ExecTrapAddProcessToWatchingList C p g).2.NumberOfItems p).1 = true ∧
    (3 ≤ C.MAXIMUM_NUMBER_OF_PROCESSES_FOR_USER_KERNEL_EXEC_THREAD →
      (runWatchListCalls C [.Add 50, .Add 10, .Add 30] emptyWatchList).entries
        = [10, 30, 50]) := by
  obtain ⟨h1, h2, -, h4⟩ := add_of_room C p g hroom
  have hperm := add_perm C p g hroom
  have hsorted := h4 hs
  refine ⟨h1, h2, hperm, hsorted, add_entries_eq_orderedInsert C p g hs hroom, ?_, ?_⟩
  · refine (binarySearch_spec _ _ p ((pairwise_map_range_iff _ _ _).mp hsorted)).1.mpr ?_
    refine (mem_map_range_iff _ _ _).mp ?_
    exact hperm.symm.subset (List.mem_cons_self _ _)
  · intro h3
    have e0 : emptyWatchList.entries.Sorted (· ≤ ·) := by
      rw [emptyWatchList_entries]; exact List.sorted_nil
    have r0 : emptyWatchList.NumberOfItems
        < C.MAXIMUM_NUMBER_OF_PROCESSES_FOR_USER_KERNEL_EXEC_THREAD :=
      Nat.lt_of_lt_of_le (by decide) h3
    have a1 := add_entries_eq_orderedInsert C 50 emptyWatchList e0 r0
    have n1 := (add_of_room C 50 emptyWatchList r0).2.1
    have s1 := (add_of_room C 50 emptyWatchList r0).2.2.2 e0
    rw [emptyWatchList_entries] at a1
    have r1 : (ExecTrapAddProcessToWatchingList C 50 emptyWatchList).2.NumberOfItems
        < C.MAXIMUM_NUMBER_OF_PROCESSES_FOR_USER_KERNEL_EXEC_THREAD := by
      rw [n1]; exact Nat.lt_of_lt_of_le (by decide) h3
    have a2 := add_entries_eq_orderedInsert C 10 _ s1 r1
    have n2 := (add_of_room C 10 _ r1).2.1
    have s2 := (add_of_room C 10 _ r1).2.2.2 s1
    rw [a1] at a2
    have r2 : (ExecTrapAddProcessToWatchingList C 10
        (ExecTrapAddProcessToWatchingList C 50 emptyWatchList).2).2.NumberOfItems
        < C.MAXIMUM_NUMBER_OF_PROCESSES_FOR_USER_KERNEL_EXEC_THREAD := by
      rw [n2, n1]; exact Nat.lt_of_lt_of_le (by decide) h3
    have a3 := add_entries_eq_orderedInsert C 30 _ s2 r2
    rw [a2] at a3
    exact a3.trans (by decide)

/-- A concrete run of C13 with capacity 4: adding 30 to the list holding 10 and 50 succeeds,
gives `[10, 30, 50]`, and the lookup of 30 then succeeds. -/
theorem C13_add_to_sorted_watch_list_witness :
    (ExecTrapAddProcessToWatchingList sampleExecTrapConstants 30
      (runWatchListCalls sampleExecTrapConstants [.Add 50, .Add 10] emptyWatchList)).1 = true ∧
    (ExecTrapAddProcessToWatchingList sampleExecTrapConstants 30
      (runWatchListCalls sampleExecTrapConstants [.Add 50, .Add 10] emptyWatchList)).2.entries
      = [10, 30, 50] ∧
    (BinarySearchPerformSearchItem
      (ExecTrapAddProcessToWatchingList sampleExecTrapConstants 30
        (runWatchListCalls sampleExecTrapConstants [.Add 50, .Add 10]
          emptyWatchList)).2.InterceptionProcessIds 3 30).1 = true ∧
    (runWatchListCalls sampleExecTrapConstants [.Add 50, .Add 10, .Add 30]
      emptyWatchList).entries = [10, 30, 50] :=
  ⟨(C13_add_to_sorted_watch_list sampleExecTrapConstants 30
      (runWatchListCalls sampleExecTrapConstants [.Add 50, .Add 10] emptyWatchList)
      (by decide) (by decide)).1,
   (C13_add_to_sorted_watch_list sampleExecTrapConstants 30
      (runWatchListCalls sampleExecTrapConstants [.Add 50, .Add 10] emptyWatchList)
      (by decide) (by decide)).2.2.2.2.1.trans (by decide),
   (C13_add_to_sorted_watch_list sampleExecTrapConstants 30
      (runWatchListCalls sampleExecTrapConstants [.Add 50, .Add 10] emptyWatchList)
      (by decide) (by decide)).2.2.2.2.2.1,
   (C13_add_to_sorted_watch_list sampleExecTrapConstants 30
      (runWatchListCalls sampleExecTrapConstants [.Add 50, .Add 10] emptyWatchList)
      (by decide) (by decide)).2.2.2.2.2.2 (by decide)⟩

/-- Removal from an ascending watch-list (each entry at most the next): the call returns `TRUE`
if and only if `p` is among the entries; when it returns `TRUE` one entry equal to `p` is erased,
the count is one lower, and the lookup of `p` on the new list fails if and only if `p` was listed
once; when it returns `FALSE` the array and the count are unchanged. -/
theorem remove_of_ascending (p : Nat) (g : ExecTrapState)
    (hs : g.entries.Sorted (· ≤ ·)) :
    ((ExecTrapRemoveProcessFromWatchingList p g).1 = true ↔ p ∈ g.entries) ∧
    ((ExecTrapRemoveProcessFromWatchingList p g).1 = true →
      (ExecTrapRemoveProcessFromWatchingList p g).2.entries = g.entries.erase p ∧
      (ExecTrapRemoveProcessFromWatchingList p g).2.NumberOfItems + 1 = g.NumberOfItems ∧
      ((BinarySearchPerformSearchItem
          (ExecTrapRemoveProcessFromWatchingList p g).2.InterceptionProcessIds
          (ExecTrapRemoveProcessFromWatchingList p g).2.NumberOfItems p).1 = false
        ↔ g.entries.count p = 1) ∧
      (g.entries.Sorted (· < ·) →
        (BinarySearchPerformSearchItem
          (ExecTrapRemoveProcessFromWatchingList p g).2.InterceptionProcessIds
          (ExecTrapRemoveProcessFromWatchingList p g).2.NumberOfItems p).1 = false)) ∧
    ((ExecTrapRemoveProcessFromWatchingList p g).1 = false →
      ExecTrapRemoveProcessFromWatchingList p g = (false, g)) := by
  obtain ⟨hiff, ht, hf⟩ := remove_spec p g hs
  refine ⟨hiff, fun hr => ?_, fun hr => Prod.ext hr (hf hr)⟩
  obtain ⟨he, hc⟩ := ht hr
  have hmem : p ∈ g.entries := hiff.mp hr
  have hpos : 0 < g.entries.count p := List.count_pos_iff.mpr hmem
  have hsorted' : (ExecTrapRemoveProcessFromWatchingList p g).2.entries.Sorted (· ≤ ·) := by
    rw [he]; exact hs.sublist (List.erase_sublist p _)
  have hlook : (BinarySearchPerformSearchItem
        (ExecTrapRemoveProcessFromWatchingList p g).2.InterceptionProcessIds
        (ExecTrapRemoveProcessFromWatchingList p g).2.NumberOfItems p).1 = true
      ↔ 2 ≤ g.entries.count p := by
    rw [(binarySearch_spec _ _ p ((pairwise_map_range_iff _ _ _).mp hsorted')).1,
      ← mem_map_range_iff]
    show p ∈ (ExecTrapRemoveProcessFromWatchingList p g).2.entries ↔ _
    rw [he, ← List.count_pos_iff, List.count_erase_self]
    omega
  have hfail : (BinarySearchPerformSearchItem
        (ExecTrapRemoveProcessFromWatchingList p g).2.InterceptionProcessIds
        (ExecTrapRemoveProcessFromWatchingList p g).2.NumberOfItems p).1 = false
      ↔ g.entries.count p = 1 := by
    rw [← Bool.not_eq_true, hlook]
    omega
  refine ⟨he, hc, hfail, fun hstrict => hfail.mpr ?_⟩
  have := List.nodup_iff_count_le_one.mp hstrict.nodup p
  omega

/-- C14: for every sorted watch-list, that is one whose entries are strictly ascending (sorted
and free of duplicates, the invariant of the watch-list), and every process ID `p`,
`ExecTrapRemoveProcessFromWatchingList(p)` returns `TRUE` if and only if `p` was in the list.
When it returns `TRUE` the new list is the old one with the entry of `p` removed and the other
entries in the same order, the count is one lower, `p` is no longer among the entries and a
binary-search lookup of `p` fails.  When it returns `FALSE` the array and the count are
unchanged. -/
theorem C14_remove_from_sorted_watch_list (p : Nat) (g : ExecTrapState)
    (hs : g.entries.Sorted (· < ·)) :
    ((ExecTrapRemoveProcessFromWatchingList p g).1 = true ↔ p ∈ g.entries) ∧
    ((ExecTrapRemoveProcessFromWatchingList p g).1 = true →
      (ExecTrapRemoveProcessFromWatchingList p g).2.entries = g.entries.erase p ∧
      (ExecTrapRemoveProcessFromWatchingList p g).2.entries = g.entries.filter (· ≠ p) ∧
      (ExecTrapRemoveProcessFromWatchingList p g).2.NumberOfItems + 1 = g.NumberOfItems ∧
      p ∉ (ExecTrapRemoveProcessFromWatchingList p g).2.entries ∧
      (BinarySearchPerformSearchItem
        (ExecTrapRemoveProcessFromWatchingList p g).2.InterceptionProcessIds
        (ExecTrapRemoveProcessFromWatchingList p g).2.NumberOfItems p).1 = false) ∧
    ((ExecTrapRemoveProcessFromWatchingList p g).1 = false →
      ExecTrapRemoveProcessFromWatchingList p g = (false, g)) := by
  have hle : g.entries.Sorted (· ≤ ·) := List.Pairwise.imp (fun h => Nat.le_of_lt h) hs
  obtain ⟨hiff, ht, hf⟩ := remove_of_ascending p g hle
  refine ⟨hiff, fun hr => ?_, hf⟩
  obtain ⟨he, hc, -, hlook⟩ := ht hr
  have hfilter : g.entries.erase p = g.entries.filter (· ≠ p) := by
    rw [List.Nodup.erase_eq_filter hs.nodup p]
    exact List.filter_congr fun x _ => by by_cases h : x = p <;> simp [h]
  refine ⟨he, he.trans hfilter, hc, ?_, hlook hs⟩
  rw [he, hfilter]
  simp

/-- A concrete run of C14: removing 30 from `[10, 30, 50]` succeeds, leaves `[10, 50]`, and the
lookup of 30 then fails; removing 20 fails and leaves `[10, 30, 50]`. -/
theorem C14_remove_from_sorted_watch_list_witness :
    (ExecTrapRemoveProcessFromWatchingList 30
      (runWatchListCalls sampleExecTrapConstants [.Add 50, .Add 10, .Add 30]
        emptyWatchList)).2.entries = [10, 50] ∧
    (BinarySearchPerformSearchItem
      (ExecTrapRemoveProcessFromWatchingList 30
        (runWatchListCalls sampleExecTrapConstants [.Add 50, .Add 10, .Add 30]
          emptyWatchList)).2.InterceptionProcessIds
      (ExecTrapRemoveProcessFromWatchingList 30
        (runWatchListCalls sampleExecTrapConstants [.Add 50, .Add 10, .Add 30]
          emptyWatchList)).2.NumberOfItems 30).1 = false ∧
    (ExecTrapRemoveProcessFromWatchingList 20
      (runWatchListCalls sampleExecTrapConstants [.Add 50, .Add 10, .Add 30]
        emptyWatchList)).2.entries = [10, 30, 50] :=
  ⟨(((C14_remove_from_sorted_watch_list 30
      (runWatchListCalls sampleExecTrapConstants [.Add 50, .Add 10, .Add 30] emptyWatchList)
      (by decide)).2.1 (by decide)).1).trans (by decide),
   ((C14_remove_from_sorted_watch_list 30
      (runWatchListCalls sampleExecTrapConstants [.Add 50, .Add 10, .Add 30] emptyWatchList)
      (by decide)).2.1 (by decide)).2.2.2.2,
   (congrArg (fun r => r.2.entries)
      ((C14_remove_from_sorted_watch_list 20
        (runWatchListCalls sampleExecTrapConstants [.Add 50, .Add 10, .Add 30] emptyWatchList)
        (by decide)).2.2 (by decide))).trans (by decide)⟩

/-- C15: when the watch-list already holds
`MAXIMUM_NUMBER_OF_PROCESSES_FOR_USER_KERNEL_EXEC_THREAD` entries,
`ExecTrapAddProcessToWatchingList` returns `FALSE` for every process ID and gives back the
watch-list it was given: the array contents and `NumberOfItems` are unchanged. -/
theorem C15_add_to_full_watch_list (C : ExecTrapConstants) (p : Nat) (g : ExecTrapState)
    (hfull : g.NumberOfItems = C.MAXIMUM_NUMBER_OF_PROCESSES_FOR_USER_KERNEL_EXEC_THREAD) :
    ExecTrapAddProcessToWatchingList C p g = (false, g) :=
  add_of_full C p g (Nat.le_of_eq hfull.symm)

/-- A concrete run of C15 with capacity 4: on the full list `[1, 2, 3, 4]` adding 9 returns
`FALSE` and the entries stay `[1, 2, 3, 4]`. -/
theorem C15_add_to_full_watch_list_witness :
    (ExecTrapAddProcessToWatchingList sampleExecTrapConstants 9
      (runWatchListCalls sampleExecTrapConstants [.Add 1, .Add 2, .Add 3, .Add 4]
        emptyWatchList)).1 = false ∧
    (ExecTrapAddProcessToWatchingList sampleExecTrapConstants 9
      (runWatchListCalls sampleExecTrapConstants [.Add 1, .Add 2, .Add 3, .Add 4]
        emptyWatchList)).2.entries = [1, 2, 3, 4] :=
  ⟨congrArg Prod.fst
      (C15_add_to_full_watch_list sampleExecTrapConstants 9
        (runWatchListCalls sampleExecTrapConstants [.Add 1, .Add 2, .Add 3, .Add 4]
          emptyWatchList) (by decide)),
   (congrArg (fun r => r.2.entries)
      (C15_add_to_full_watch_list sampleExecTrapConstants 9
        (runWatchListCalls sampleExecTrapConstants [.Add 1, .Add 2, .Add 3, .Add 4]
          emptyWatchList) (by decide))).trans (by decide)⟩

/-! ## Theorems about the mov-to-CR3 exit -/

theorem applyMbec_search_iff (p : Nat) (m : ExecTrapCore)
    (hs : m.g_ExecTrapState.entries.Sorted (· ≤ ·)) :
    (BinarySearchPerformSearchItem m.g_ExecTrapState.InterceptionProcessIds
        m.g_ExecTrapState.NumberOfItems p).1 = true ↔ p ∈ m.g_ExecTrapState.entries := by
  rw [(binarySearch_spec _ _ p ((pairwise_map_range_iff _ _ _).mp hs)).1]
  exact (mem_map_range_iff _ _ _).symm

theorem applyMbec_listed (C : ExecTrapConstants) (Dispatch : EventDispatcher) (p : Nat)
    (m : ExecTrapCore) (hs : m.g_ExecTrapState.entries.Sorted (· ≤ ·))
    (hp : p ∈ m.g_ExecTrapState.entries) :
    ExecTrapHandleCr3Vmexit C Dispatch p m
      = Dispatch C.DEBUGGER_EVENT_MODE_TYPE_KERNEL_MODE
          { m with
            VCpu := { m.VCpu with MbecEnabled := true },
            Calls := m.Calls ++
              [.HvSetModeBasedExecutionEnableFlag true,
               .DispatchEventMode m.VCpu.CoreId C.DEBUGGER_EVENT_MODE_TYPE_KERNEL_MODE] } := by
  have h := (applyMbec_search_iff p m hs).mpr hp
  unfold ExecTrapHandleCr3Vmexit ExecTrapApplyMbecConfiguratinFromKernelSide
  rw [if_pos h]
  simp [HvSetModeBasedExecutionEnableFlag, setMbecEnabled, DispatchEventMode]

theorem applyMbec_unlisted (C : ExecTrapConstants) (Dispatch : EventDispatcher) (p : Nat)
    (m : ExecTrapCore) (hs : m.g_ExecTrapState.entries.Sorted (· ≤ ·))
    (hp : p ∉ m.g_ExecTrapState.entries) :
    ExecTrapHandleCr3Vmexit C Dispatch p m
      = if m.VCpu.MbecEnabled = true then
          { m with
            VCpu := { m.VCpu with MbecEnabled := false },
            Calls := m.Calls ++ [.HvSetModeBasedExecutionEnableFlag false] }
        else m := by
  have h : ¬ (BinarySearchPerformSearchItem m.g_ExecTrapState.InterceptionProcessIds
      m.g_ExecTrapState.NumberOfItems p).1 = true :=
    fun h => hp ((applyMbec_search_iff p m hs).mp h)
  unfold ExecTrapHandleCr3Vmexit ExecTrapApplyMbecConfiguratinFromKernelSide
  rw [if_neg h]
  by_cases he : m.VCpu.MbecEnabled = true
  · rw [if_pos he, if_pos he]
    simp [HvSetModeBasedExecutionEnableFlag, setMbecEnabled]
  · rw [if_neg he, if_neg he]

/-- C21: `ExecTrapHandleCr3Vmexit` on an ascending watch-list.  If the current process ID is in
the watch-list, `HvSetModeBasedExecutionEnableFlag(TRUE)` is called and `MbecEnabled` is set to
`TRUE` (after which the event dispatcher is called for kernel mode; a dispatcher that leaves
`MbecEnabled` alone leaves it `TRUE`).  If it is not in the list and `MbecEnabled` was `TRUE`,
`HvSetModeBasedExecutionEnableFlag(FALSE)` is called and `MbecEnabled` is set to `FALSE`, and
nothing else changes.  If it is not in the list and `MbecEnabled` was `FALSE`, the core is
exactly as before.  The handler never writes the watch-list: it is unchanged whenever the
dispatcher leaves it alone. -/
theorem C21_cr3_exit_mbec_configuration (C : ExecTrapConstants) (Dispatch : EventDispatcher)
    (p : Nat) (m : ExecTrapCore) (hs : m.g_ExecTrapState.entries.Sorted (· ≤ ·)) :
    (p ∈ m.g_ExecTrapState.entries →
      ExecTrapHandleCr3Vmexit C Dispatch p m
        = Dispatch C.DEBUGGER_EVENT_MODE_TYPE_KERNEL_MODE
            { m with
              VCpu := { m.VCpu with MbecEnabled := true },
              Calls := m.Calls ++
                [.HvSetModeBasedExecutionEnableFlag true,
                 .DispatchEventMode m.VCpu.CoreId C.DEBUGGER_EVENT_MODE_TYPE_KERNEL_MODE] } ∧
      ((∀ mode x, (Dispatch mode x).VCpu.MbecEnabled = x.VCpu.MbecEnabled) →
        (ExecTrapHandleCr3Vmexit C Dispatch p m).VCpu.MbecEnabled = true)) ∧
    (p ∉ m.g_ExecTrapState.entries → m.VCpu.MbecEnabled = true →
      ExecTrapHandleCr3Vmexit C Dispatch p m
        = { m with
            VCpu := { m.VCpu with MbecEnabled := false },
            Calls := m.Calls ++ [.HvSetModeBasedExecutionEnableFlag false] }) ∧
    (p ∉ m.g_ExecTrapState.entries → m.VCpu.MbecEnabled = false →
      ExecTrapHandleCr3Vmexit C Dispatch p m = m) ∧
    ((∀ mode x, (Dispatch mode x).g_ExecTrapState = x.g_ExecTrapState) →
      (ExecTrapHandleCr3Vmexit C Dispatch p m).g_ExecTrapState = m.g_ExecTrapState) := by
  refine ⟨fun hp => ⟨applyMbec_listed C Dispatch p m hs hp, fun hd => ?_⟩, fun hp he => ?_,
    fun hp he => ?_, fun hd => ?_⟩
  · rw [applyMbec_listed C Dispatch p m hs hp, hd]
  · rw [applyMbec_unlisted C Dispatch p m hs hp, if_pos he]
  · rw [applyMbec_unlisted C Dispatch p m hs hp, if_neg (by simp [he])]
  · by_cases hp : p ∈ m.g_ExecTrapState.entries
    · rw [applyMbec_listed C Dispatch p m hs hp, hd]
    · rw [applyMbec_unlisted C Dispatch p m hs hp]
      split_ifs <;> rfl

/-- A concrete run of C21 with the adjusting dispatcher on the core that watches the processes 5
and 9: a CR3 exit of process 5 enables MBEC; on the core so obtained a CR3 exit of process 7
disables it again; on the original core a CR3 exit of process 7 changes no call record; the
watch-list stays `[5, 9]`. -/
theorem C21_cr3_exit_mbec_configuration_witness :
    (ExecTrapHandleCr3Vmexit sampleExecTrapConstants
        (adjustingDispatcher sampleExecTrapConstants) 5 watchingCore).VCpu.MbecEnabled = true ∧
    (ExecTrapHandleCr3Vmexit sampleExecTrapConstants
        (adjustingDispatcher sampleExecTrapConstants) 7
        { watchingCore with VCpu := { watchingCore.VCpu with MbecEnabled := true } }).Calls
      = [.HvSetModeBasedExecutionEnableFlag false] ∧
    (ExecTrapHandleCr3Vmexit sampleExecTrapConstants
        (adjustingDispatcher sampleExecTrapConstants) 7 watchingCore).Calls = [] ∧
    (ExecTrapHandleCr3Vmexit sampleExecTrapConstants
        (adjustingDispatcher sampleExecTrapConstants) 5
        watchingCore).g_ExecTrapState.entries = [5, 9] :=
  ⟨((C21_cr3_exit_mbec_configuration sampleExecTrapConstants
        (adjustingDispatcher sampleExecTrapConstants) 5 watchingCore (by decide)).1
        (by decide)).2 (fun mode x => by
          simp only [adjustingDispatcher, ExecTrapHandleMoveToAdjustedTrapState]
          split_ifs <;> rfl),
   (congrArg ExecTrapCore.Calls
      ((C21_cr3_exit_mbec_configuration sampleExecTrapConstants
        (adjustingDispatcher sampleExecTrapConstants) 7
        { watchingCore with VCpu := { watchingCore.VCpu with MbecEnabled := true } }
        (by decide)).2.1 (by decide) rfl)).trans (by decide),
   (congrArg ExecTrapCore.Calls
      ((C21_cr3_exit_mbec_configuration sampleExecTrapConstants
        (adjustingDispatcher sampleExecTrapConstants) 7 watchingCore
        (by decide)).2.2.1 (by decide) rfl)).trans (by decide),
   (congrArg ExecTrapState.entries
      ((C21_cr3_exit_mbec_configuration sampleExecTrapConstants
        (adjustingDispatcher sampleExecTrapConstants) 5 watchingCore
        (by decide)).2.2.2 (fun mode x => by
          simp only [adjustingDispatcher, ExecTrapHandleMoveToAdjustedTrapState]
          split_ifs <;> rfl))).trans (by decide)⟩

/-- C22, the claim as stated fails: on the core that watches the processes 5 and 9, a CR3 exit of
process 5 calls `DispatchEventMode` once, for kernel mode (mode 0), although no EPT violation is
being handled. -/
theorem C22_counterexample :
    watchingCore.g_ExecTrapState.entries = [5, 9] ∧
    watchingCore.dispatchedModes = [] ∧
    (ExecTrapHandleCr3Vmexit sampleExecTrapConstants idleDispatcher 5 watchingCore).Calls
      = [.HvSetModeBasedExecutionEnableFlag true, .DispatchEventMode 0 0] ∧
    (ExecTrapHandleCr3Vmexit sampleExecTrapConstants idleDispatcher 5
      watchingCore).dispatchedModes = [0] := by
  decide

/-- C22 (amended): for every ascending watch-list and every current process,
`ExecTrapHandleCr3Vmexit` dispatches no mode event when the current process is not in the
watch-list; when it is in the watch-list it dispatches exactly one event, for kernel mode, and
never a user-mode event: the resulting core is what the dispatcher makes, when called for kernel
mode, of a core whose dispatched modes are the earlier ones followed by kernel mode. -/
theorem C22_cr3_exit_mode_events (C : ExecTrapConstants) (Dispatch : EventDispatcher)
    (p : Nat) (m : ExecTrapCore) (hs : m.g_ExecTrapState.entries.Sorted (· ≤ ·)) :
    (p ∉ m.g_ExecTrapState.entries →
      (ExecTrapHandleCr3Vmexit C Dispatch p m).dispatchedModes = m.dispatchedModes) ∧
    (p ∈ m.g_ExecTrapState.entries →
      ∃ m₁ : ExecTrapCore,
        m₁.dispatchedModes = m.dispatchedModes ++ [C.DEBUGGER_EVENT_MODE_TYPE_KERNEL_MODE] ∧
        ExecTrapHandleCr3Vmexit C Dispatch p m
          = Dispatch C.DEBUGGER_EVENT_MODE_TYPE_KERNEL_MODE m₁) := by
  refine ⟨fun hp => ?_, fun hp => ⟨_, ?_, applyMbec_listed C Dispatch p m hs hp⟩⟩
  · rw [applyMbec_unlisted C Dispatch p m hs hp]
    split_ifs
    · simp [ExecTrapCore.dispatchedModes, List.filterMap_append]
    · rfl
  · simp [ExecTrapCore.dispatchedModes, List.filterMap_append]

/-- A concrete run of C22 on the core that watches the processes 5 and 9, with a dispatcher that
leaves the core alone: a CR3 exit of process 7 dispatches nothing, a CR3 exit of process 9
dispatches one kernel-mode event. -/
theorem C22_cr3_exit_mode_events_witness :
    (ExecTrapHandleCr3Vmexit sampleExecTrapConstants idleDispatcher 7
      watchingCore).dispatchedModes = [] ∧
    (∃ m₁ : ExecTrapCore, m₁.dispatchedModes = [0] ∧
      ExecTrapHandleCr3Vmexit sampleExecTrapConstants idleDispatcher 9 watchingCore
        = idleDispatcher 0 m₁) :=
  ⟨(C22_cr3_exit_mode_events sampleExecTrapConstants idleDispatcher 7 watchingCore
      (by decide)).1 (by decide),
   (C22_cr3_exit_mode_events sampleExecTrapConstants idleDispatcher 9 watchingCore
      (by decide)).2 (by decide)⟩

/-! ## Theorems about restoring the normal EPTP -/

/-- C23, the claim as stated fails for `ExecTrapRestoreToNormalEptp`: on the sample core moved
to user execute disabled, calling it twice leaves `NotNormalEptp = FALSE` and the VMCS EPT pointer
equal to the core's EPT pointer, but `PML4[0].UserModeExecute` is still 0, so the EPT is not in
the Normal state, in which both execute bits of `PML4[0]` are set.  Two calls of
`ExecTrapChangeToNormalMbecEptp` on the same core do set both bits. -/
theorem C23_counterexample :
    (ExecTrapRestoreToNormalEptp (ExecTrapRestoreToNormalEptp
      (ExecTrapChangeToUserDisabledMbecEptp sampleCore))).VCpu.NotNormalEptp = false ∧
    (ExecTrapRestoreToNormalEptp (ExecTrapRestoreToNormalEptp
      (ExecTrapChangeToUserDisabledMbecEptp sampleCore))).Vmcs.EptPointer
        = sampleCore.VCpu.EptPointer ∧
    ((ExecTrapRestoreToNormalEptp (ExecTrapRestoreToNormalEptp
      (ExecTrapChangeToUserDisabledMbecEptp sampleCore))).EptPageTable.PML4 0).UserModeExecute
        = false ∧
    ((ExecTrapChangeToNormalMbecEptp (ExecTrapChangeToNormalMbecEptp
      (ExecTrapChangeToUserDisabledMbecEptp sampleCore))).EptPageTable.PML4 0).UserModeExecute
        = true ∧
    ((ExecTrapChangeToNormalMbecEptp (ExecTrapChangeToNormalMbecEptp
      (ExecTrapChangeToUserDisabledMbecEptp sampleCore))).EptPageTable.PML4 0).ExecuteAccess
        = true := by
  decide

/-- C23 (amended): for every core state `s` and for both `ExecTrapRestoreToNormalEptp` and
`ExecTrapChangeToNormalMbecEptp`, the routine leaves `NotNormalEptp = FALSE`, and calling it a
second time gives the same `NotNormalEptp` flag, the same EPT entries and the same VMCS EPT
pointer as calling it once.  `ExecTrapChangeToNormalMbecEptp` also leaves both `ExecuteAccess`
and `UserModeExecute` of `PML4[0]` set, which is the Normal state; `ExecTrapRestoreToNormalEptp`
leaves every EPT entry, the execute bits of `PML4[0]` included, as it was before the first call
and the VMCS EPT pointer equal to the core's EPT pointer. -/
theorem C23_restore_normal_idempotent (s : ExecTrapCore) :
    (∀ f ∈ [ExecTrapRestoreToNormalEptp, ExecTrapChangeToNormalMbecEptp],
      (f s).VCpu.NotNormalEptp = false ∧
      (f (f s)).VCpu.NotNormalEptp = (f s).VCpu.NotNormalEptp ∧
      (f (f s)).EptPageTable = (f s).EptPageTable ∧
      (f (f s)).Vmcs.EptPointer = (f s).Vmcs.EptPointer) ∧
    ((ExecTrapChangeToNormalMbecEptp s).EptPageTable.PML4 0).ExecuteAccess = true ∧
    ((ExecTrapChangeToNormalMbecEptp s).EptPageTable.PML4 0).UserModeExecute = true ∧
    (ExecTrapRestoreToNormalEptp s).EptPageTable = s.EptPageTable ∧
    (ExecTrapRestoreToNormalEptp s).Vmcs.EptPointer = s.VCpu.EptPointer := by
  refine ⟨?_, ?_, ?_, rfl, ?_⟩
  · intro f hf
    simp only [List.mem_cons, List.mem_singleton, List.not_mem_nil, or_false] at hf
    rcases hf with rfl | rfl
    · refine ⟨rfl, rfl, rfl, ?_⟩
      simp [ExecTrapRestoreToNormalEptp, setNotNormalEptp, __vmx_vmwrite]
    · refine ⟨rfl, rfl, ?_, rfl⟩
      simp [ExecTrapChangeToNormalMbecEptp, setPml4UserModeExecute, setPml4ExecuteAccess,
        EptInveptSingleContext, setNotNormalEptp]
  · simp [ExecTrapChangeToNormalMbecEptp, setPml4UserModeExecute, setPml4ExecuteAccess,
      EptInveptSingleContext, setNotNormalEptp]
  · simp [ExecTrapChangeToNormalMbecEptp, setPml4UserModeExecute, setPml4ExecuteAccess,
      EptInveptSingleContext, setNotNormalEptp]
  · simp [ExecTrapRestoreToNormalEptp, setNotNormalEptp, __vmx_vmwrite]

/-- A concrete run of C23 on the sample core moved to kernel execute disabled: restoring twice
leaves `NotNormalEptp = FALSE` and the VMCS EPT pointer `0x10005e`, as restoring once does. -/
theorem C23_restore_normal_idempotent_witness :
    (ExecTrapRestoreToNormalEptp (ExecTrapRestoreToNormalEptp
      (ExecTrapChangeToKernelDisabledMbecEptp sampleCore))).VCpu.NotNormalEptp = false ∧
    (ExecTrapRestoreToNormalEptp (ExecTrapRestoreToNormalEptp
      (ExecTrapChangeToKernelDisabledMbecEptp sampleCore))).Vmcs.EptPointer = 0x10005e :=
  ⟨(((C23_restore_normal_idempotent (ExecTrapChangeToKernelDisabledMbecEptp sampleCore)).1
      ExecTrapRestoreToNormalEptp (by simp)).2.1).trans (by decide),
   (((C23_restore_normal_idempotent (ExecTrapChangeToKernelDisabledMbecEptp sampleCore)).1
      ExecTrapRestoreToNormalEptp (by simp)).2.2.2).trans (by decide)⟩

/-! ## Theorems about initialization and teardown -/

/-- C28: `ExecTrapInitialize`.  When the mechanism is not initialized and the processor lacks
mode-based execution control, the routine returns `FALSE`, the initialized flag stays `FALSE`
and the only call it makes is `LogInfo`: no broadcast is performed.  When the mechanism is
already initialized it returns `TRUE` and the globals and the record of calls are exactly as
before. -/
theorem C28_initialize_refusals (HookInitialized : Bool) (g : ExecTrapGlobals) :
    (g.g_ExecTrapInitialized = false → g.ModeBasedExecutionSupport = false →
      (ExecTrapInitialize HookInitialized g).1 = false ∧
      (ExecTrapInitialize HookInitialized g).2.g_ExecTrapInitialized = false ∧
      (ExecTrapInitialize HookInitialized g).2
        = { g with Calls := g.Calls ++
              [{ Routine := .LogInfo,
                 g_ExecTrapInitialized := false,
                 g_ExecTrapUnInitializationStarted :=
                   g.g_ExecTrapUnInitializationStarted }] }) ∧
    (g.g_ExecTrapInitialized = true → ExecTrapInitialize HookInitialized g = (true, g)) := by
  refine ⟨fun hi hm => ?_, fun hi => ?_⟩
  · simp [ExecTrapInitialize, callExternal, hi, hm]
  · simp [ExecTrapInitialize, hi]

/-- A concrete run of C28: on a machine without mode-based execution control the routine returns
`FALSE` and records only `LogInfo`; on globals that are already initialized it returns `TRUE` and
records nothing. -/
theorem C28_initialize_refusals_witness :
    ExecTrapInitialize true unsupportedGlobals
      = (false, { unsupportedGlobals with
                  Calls := [{ Routine := .LogInfo, g_ExecTrapInitialized := false,
                              g_ExecTrapUnInitializationStarted := false }] }) ∧
    ExecTrapInitialize true { supportedGlobals with g_ExecTrapInitialized := true }
      = (true, { supportedGlobals with g_ExecTrapInitialized := true }) :=
  ⟨Prod.ext
      ((C28_initialize_refusals true unsupportedGlobals).1 rfl rfl).1
      (((C28_initialize_refusals true unsupportedGlobals).1 rfl rfl).2.2.trans (by decide)),
   (C28_initialize_refusals true { supportedGlobals with g_ExecTrapInitialized := true }).2
      rfl⟩

/-- C29: `ExecTrapInitialize`.  A run that returns `TRUE` either found the mechanism initialized
and did nothing, or made exactly three calls, in this order: `ModeBasedExecHookInitialize` and
`BroadcastChangeToMbecSupportedEptpOnAllProcessors`, both while the initialized flag was still
`FALSE`, and then `BroadcastEnableMovToCr3ExitingOnAllProcessors` with the initialized flag
already `TRUE`; the flag is `TRUE` on return.  In every run, successful or not, each call of
`BroadcastEnableMovToCr3ExitingOnAllProcessors` that the routine makes is made with the
initialized flag `TRUE`. -/
theorem C29_initialize_order (HookInitialized : Bool) (g : ExecTrapGlobals) :
    ((ExecTrapInitialize HookInitialized g).1 = true →
      (g.g_ExecTrapInitialized = true ∧ (ExecTrapInitialize HookInitialized g).2 = g) ∨
      (g.g_ExecTrapInitialized = false ∧
        (ExecTrapInitialize HookInitialized g).2
          = { g with
              g_ExecTrapInitialized := true,
              Calls := g.Calls ++
                [{ Routine := .ModeBasedExecHookInitialize,
                   g_ExecTrapInitialized := false,
                   g_ExecTrapUnInitializationStarted := g.g_ExecTrapUnInitializationStarted },
                 { Routine := .BroadcastChangeToMbecSupportedEptpOnAllProcessors,
                   g_ExecTrapInitialized := false,
                   g_ExecTrapUnInitializationStarted := g.g_ExecTrapUnInitializationStarted },
                 { Routine := .BroadcastEnableMovToCr3ExitingOnAllProcessors,
                   g_ExecTrapInitialized := true,
                   g_ExecTrapUnInitializationStarted :=
                     g.g_ExecTrapUnInitializationStarted }] })) ∧
    (∃ added : List ExecTrapExternalCall,
      (ExecTrapInitialize HookInitialized g).2.Calls = g.Calls ++ added ∧
      ∀ c ∈ added, c.Routine = .BroadcastEnableMovToCr3ExitingOnAllProcessors →
        c.g_ExecTrapInitialized = true) := by
  obtain ⟨Initialized, Started, Support, Calls⟩ := g
  refine ⟨?_, ?_⟩
  · cases Initialized <;> cases Support <;> cases HookInitialized <;>
      simp [ExecTrapInitialize, callExternal]
  · cases Initialized
    · cases Support
      · refine ⟨[{ Routine := .LogInfo, g_ExecTrapInitialized := false,
                   g_ExecTrapUnInitializationStarted := Started }], ?_, ?_⟩
        · simp [ExecTrapInitialize, callExternal]
        · simp
      · cases HookInitialized
        · refine ⟨[{ Routine := .ModeBasedExecHookInitialize, g_ExecTrapInitialized := false,
                     g_ExecTrapUnInitializationStarted := Started }], ?_, ?_⟩
          · simp [ExecTrapInitialize, callExternal]
          · simp
        · refine ⟨[{ Routine := .ModeBasedExecHookInitialize, g_ExecTrapInitialized := false,
                     g_ExecTrapUnInitializationStarted := Started },
                   { Routine := .BroadcastChangeToMbecSupportedEptpOnAllProcessors,
                     g_ExecTrapInitialized := false,
                     g_ExecTrapUnInitializationStarted := Started },
                   { Routine := .BroadcastEnableMovToCr3ExitingOnAllProcessors,
                     g_ExecTrapInitialized := true,
                     g_ExecTrapUnInitializationStarted := Started }], ?_, ?_⟩
          · simp [ExecTrapInitialize, callExternal]
          · simp
    · exact ⟨[], by simp [ExecTrapInitialize], by simp⟩

/-- A concrete run of C29 on a machine with mode-based execution control: the routine returns
`TRUE`, sets the flag, and records the hook initialization and the EPTP broadcast with the flag
`FALSE` and then the CR3-exiting broadcast with the flag `TRUE`. -/
theorem C29_initialize_order_witness :
    (supportedGlobals.g_ExecTrapInitialized = true ∧
        (ExecTrapInitialize true supportedGlobals).2 = supportedGlobals) ∨
      (supportedGlobals.g_ExecTrapInitialized = false ∧
        (ExecTrapInitialize true supportedGlobals).2
          = { supportedGlobals with
              g_ExecTrapInitialized := true,
              Calls := supportedGlobals.Calls ++
                [{ Routine := .ModeBasedExecHookInitialize,
                   g_ExecTrapInitialized := false,
                   g_ExecTrapUnInitializationStarted := false },
                 { Routine := .BroadcastChangeToMbecSupportedEptpOnAllProcessors,
                   g_ExecTrapInitialized := false,
                   g_ExecTrapUnInitializationStarted := false },
                 { Routine := .BroadcastEnableMovToCr3ExitingOnAllProcessors,
                   g_ExecTrapInitialized := true,
                   g_ExecTrapUnInitializationStarted := false }] }) :=
  (C29_initialize_order true supportedGlobals).1 (by decide)

/-- C30: `ExecTrapUninitialize`.  On an initialized mechanism it makes exactly three calls, in
this order: `BroadcastDisableMovToCr3ExitingOnAllProcessors`,
`BroadcastRestoreToNormalEptpOnAllProcessors` and `ModeBasedExecHookUninitialize`, each of them
with the uninitialization-started flag already `TRUE` and the initialized flag still `TRUE`; on
return both flags are `FALSE`.  On a mechanism that is not initialized it changes nothing. -/
theorem C30_uninitialize_order (g : ExecTrapGlobals) :
    (g.g_ExecTrapInitialized = true →
      ExecTrapUninitialize g
        = { g with
            g_ExecTrapInitialized := false,
            g_ExecTrapUnInitializationStarted := false,
            Calls := g.Calls ++
              [{ Routine := .BroadcastDisableMovToCr3ExitingOnAllProcessors,
                 g_ExecTrapInitialized := true,
                 g_ExecTrapUnInitializationStarted := true },
               { Routine := .BroadcastRestoreToNormalEptpOnAllProcessors,
                 g_ExecTrapInitialized := true,
                 g_ExecTrapUnInitializationStarted := true },
               { Routine := ExecTrapExternalRoutine.ModeBasedExecHookUninitialize,
                 g_ExecTrapInitialized := true,
                 g_ExecTrapUnInitializationStarted := true }] }) ∧
    (g.g_ExecTrapInitialized = false → ExecTrapUninitialize g = g) := by
  refine ⟨fun hi => ?_, fun hi => ?_⟩
  · simp [ ExecTrapUninitialize, callExternal, hi]
  · simp [ ExecTrapUninitialize, hi]

/-- A concrete run of C30: after a successful initialization the teardown leaves both flags
`FALSE` and appends the three calls to the three calls of the initialization; a teardown of
globals that were never initialized returns them as they are. -/
theorem C30_uninitialize_order_witness :
    ( ExecTrapUninitialize (ExecTrapInitialize true supportedGlobals).2).g_ExecTrapInitialized
      = false ∧
    ( ExecTrapUninitialize
      (ExecTrapInitialize true supportedGlobals).2).g_ExecTrapUnInitializationStarted = false ∧
    (( ExecTrapUninitialize (ExecTrapInitialize true supportedGlobals).2).Calls.map
        (fun c => c.Routine))
      = [.ModeBasedExecHookInitialize, .BroadcastChangeToMbecSupportedEptpOnAllProcessors,
         .BroadcastEnableMovToCr3ExitingOnAllProcessors,
         .BroadcastDisableMovToCr3ExitingOnAllProcessors,
         .BroadcastRestoreToNormalEptpOnAllProcessors,
         ExecTrapExternalRoutine.ModeBasedExecHookUninitialize] ∧
    ExecTrapUninitialize supportedGlobals = supportedGlobals :=
  ⟨(congrArg ExecTrapGlobals.g_ExecTrapInitialized
      ((C30_uninitialize_order (ExecTrapInitialize true supportedGlobals).2).1
        (by decide))),
   (congrArg ExecTrapGlobals.g_ExecTrapUnInitializationStarted
      ((C30_uninitialize_order (ExecTrapInitialize true supportedGlobals).2).1
        (by decide))),
   (congrArg (fun x => x.Calls.map (fun c => c.Routine))
      ((C30_uninitialize_order (ExecTrapInitialize true supportedGlobals).2).1
        (by decide))).trans (by decide),
   (C30_uninitialize_order supportedGlobals).2 rfl⟩

/-! ## Facts about the execute-only EPT layout -/

theorem forLoop_succ {σ : Type} (n : Nat) (B : Nat → σ → σ) (s : σ) :
    forLoop (n + 1) B s = B n (forLoop n B s) := by
  simp [forLoop, List.range_succ, List.foldl_append]

theorem forLoop_invariant {σ : Type} (P : σ → Prop) (B : Nat → σ → σ)
    (hstep : ∀ i s, P s → P (B i s)) : ∀ (n : Nat) (s : σ), P s → P (forLoop n B s) := by
  intro n
  induction n with
  | zero => intro s h; simpa [forLoop] using h
  | succ n ih => intro s h; rw [forLoop_succ]; exact hstep _ _ (ih s h)

theorem forLoop_establish {σ : Type} (Q : Nat → σ → Prop) (B : Nat → σ → σ)
    (hpres : ∀ i j s, Q i s → Q i (B j s)) (hest : ∀ i s, Q i (B i s)) :
    ∀ (n : Nat) (s : σ) (i : Nat), i < n → Q i (forLoop n B s) := by
  intro n
  induction n with
  | zero => intro s i hi; exact absurd hi (Nat.not_lt_zero _)
  | succ n ih =>
    intro s i hi
    rw [forLoop_succ]
    by_cases e : i = n
    · subst e; exact hest _ _
    · exact hpres _ _ _ (ih s i (by omega))

theorem setPml4EntryUserModeExecute_get (i a : Nat) (T : VMM_EPT_PAGE_TABLE) :
    ((setPml4EntryUserModeExecute i T).PML4 a).UserModeExecute
      = (decide (a = i) || (T.PML4 a).UserModeExecute) := by
  unfold setPml4EntryUserModeExecute
  by_cases e : a = i
  · subst e; simp
  · simp [Function.update_noteq e, e]

theorem setPml3EntryUserModeExecute_get (i a : Nat) (T : VMM_EPT_PAGE_TABLE) :
    ((setPml3EntryUserModeExecute i T).PML3 a).UserModeExecute
      = (decide (a = i) || (T.PML3 a).UserModeExecute) := by
  unfold setPml3EntryUserModeExecute
  by_cases e : a = i
  · subst e; simp
  · simp [Function.update_noteq e, e]

theorem setPml2EntryUserModeExecute_get (i j a b : Nat) (T : VMM_EPT_PAGE_TABLE) :
    ((setPml2EntryUserModeExecute i j T).PML2 a b).UserModeExecute
        = (decide (a = i ∧ b = j) || (T.PML2 a b).UserModeExecute) ∧
    ((setPml2EntryUserModeExecute i j T).PML2 a b).WriteAccess = (T.PML2 a b).WriteAccess := by
  unfold setPml2EntryUserModeExecute
  by_cases e : a = i
  · subst e
    by_cases f : b = j
    · subst f; simp
    · simp [Function.update_noteq f, f]
  · simp [Function.update_noteq e, e]

theorem clearPml2EntryWriteAccess_get (Entry : Nat × Nat) (a b : Nat)
    (T : VMM_EPT_PAGE_TABLE) :
    ((clearPml2EntryWriteAccess Entry T).PML2 a b).UserModeExecute
        = (T.PML2 a b).UserModeExecute ∧
    ((clearPml2EntryWriteAccess Entry T).PML2 a b).WriteAccess
        = (!decide (Entry = (a, b)) && (T.PML2 a b).WriteAccess) ∧
    (clearPml2EntryWriteAccess Entry T).PML4 = T.PML4 ∧
    (clearPml2EntryWriteAccess Entry T).PML3 = T.PML3 := by
  obtain ⟨x, y⟩ := Entry
  unfold clearPml2EntryWriteAccess
  by_cases e : a = x
  · subst e
    by_cases f : b = y
    · subst f; simp
    · have f' : ¬ y = b := fun h => f h.symm
      simp [Function.update_noteq f, f']
  · have e' : ¬ x = a := fun h => e h.symm
    simp [Function.update_noteq e, e']

/-- The `while` loop comes to an end when it is given at least `RemainingSize` iterations, and
it changes nothing but the `WriteAccess` bit of PML2 entries. -/
theorem clearWriteAccessWhile_frame (E : EptConstants) :
    ∀ (Fuel : Nat) (R : Int) (A : Nat) (T : VMM_EPT_PAGE_TABLE), R ≤ Fuel →
      ∃ T₁, clearWriteAccessWhile E Fuel R A T = some T₁ ∧ T₁.PML4 = T.PML4 ∧
        T₁.PML3 = T.PML3 ∧
        ∀ a b, (T₁.PML2 a b).UserModeExecute = (T.PML2 a b).UserModeExecute := by
  intro Fuel
  induction Fuel with
  | zero =>
    intro R A T hR
    have h : ¬ R > 0 := by omega
    exact ⟨T, by simp [clearWriteAccessWhile, h], rfl, rfl, fun _ _ => rfl⟩
  | succ Fuel ih =>
    intro R A T hR
    by_cases h : R > 0
    · have hS : (SIZE_2_MB : Int) = 2097152 := by decide
      obtain ⟨T₁, h1, h2, h3, h4⟩ := ih (R - SIZE_2_MB) ((A + SIZE_2_MB) % 2 ^ 64)
        (clearPml2EntryWriteAccess (EptGetPml2Entry E A) T) (by push_cast at hR ⊢; omega)
      have hun : clearWriteAccessWhile E (Fuel + 1) R A T = some T₁ := by
        unfold clearWriteAccessWhile
        rw [if_pos h]
        exact h1
      refine ⟨T₁, hun, ?_, ?_, fun a b => ?_⟩
      · rw [h2, (clearPml2EntryWriteAccess_get _ 0 0 T).2.2.1]
      · rw [h3, (clearPml2EntryWriteAccess_get _ 0 0 T).2.2.2]
      · rw [h4, (clearPml2EntryWriteAccess_get _ a b T).1]
    · exact ⟨T, by simp [clearWriteAccessWhile, h], rfl, rfl, fun _ _ => rfl⟩

/-- Which `WriteAccess` bits the `while` loop clears: those of the entries that hold one of the
addresses `A + k * SIZE_2_MB` (as 64-bit values) with `k * SIZE_2_MB < RemainingSize`. -/
theorem clearWriteAccessWhile_writeAccess (E : EptConstants) :
    ∀ (Fuel : Nat) (R : Int) (A : Nat) (T T₁ : VMM_EPT_PAGE_TABLE), A < 2 ^ 64 →
      clearWriteAccessWhile E Fuel R A T = some T₁ → ∀ a b,
        ((∃ k : Nat, (k : Int) * SIZE_2_MB < R ∧
            EptGetPml2Entry E ((A + k * SIZE_2_MB) % 2 ^ 64) = (a, b)) →
          (T₁.PML2 a b).WriteAccess = false) ∧
        ((¬ ∃ k : Nat, (k : Int) * SIZE_2_MB < R ∧
            EptGetPml2Entry E ((A + k * SIZE_2_MB) % 2 ^ 64) = (a, b)) →
          (T₁.PML2 a b).WriteAccess = (T.PML2 a b).WriteAccess) := by
  have hS : (SIZE_2_MB : Int) = 2097152 := by decide
  have hend : ∀ (R : Int) (A : Nat) (T : VMM_EPT_PAGE_TABLE) (a b : Nat), ¬ R > 0 →
      ((∃ k : Nat, (k : Int) * SIZE_2_MB < R ∧
            EptGetPml2Entry E ((A + k * SIZE_2_MB) % 2 ^ 64) = (a, b)) →
          (T.PML2 a b).WriteAccess = false) ∧
        ((¬ ∃ k : Nat, (k : Int) * SIZE_2_MB < R ∧
            EptGetPml2Entry E ((A + k * SIZE_2_MB) % 2 ^ 64) = (a, b)) →
          (T.PML2 a b).WriteAccess = (T.PML2 a b).WriteAccess) := by
    intro R A T a b h
    refine ⟨fun ⟨k, hk, _⟩ => ?_, fun _ => rfl⟩
    exfalso
    have : (0 : Int) ≤ (k : Int) * SIZE_2_MB := by positivity
    omega
  intro Fuel
  induction Fuel with
  | zero =>
    intro R A T T₁ _ hrun a b
    by_cases h : R > 0
    · simp [clearWriteAccessWhile, h] at hrun
    · have e : T₁ = T := by simpa [clearWriteAccessWhile, h] using hrun.symm
      subst e
      exact hend R A _ a b h
  | succ Fuel ih =>
    intro R A T T₁ hA hrun a b
    by_cases h : R > 0
    · have hrun' : clearWriteAccessWhile E Fuel (R - SIZE_2_MB) ((A + SIZE_2_MB) % 2 ^ 64)
          (clearPml2EntryWriteAccess (EptGetPml2Entry E A) T) = some T₁ := by
        unfold clearWriteAccessWhile at hrun
        rw [if_pos h] at hrun
        exact hrun
      obtain ⟨ihit, imiss⟩ := ih (R - SIZE_2_MB) ((A + SIZE_2_MB) % 2 ^ 64) _ T₁
        (Nat.mod_lt _ (by norm_num)) hrun' a b
      have hget := (clearPml2EntryWriteAccess_get (EptGetPml2Entry E A) a b T).2.1
      have hshift : ∀ k : Nat, ((A + SIZE_2_MB) % 2 ^ 64 + k * SIZE_2_MB) % 2 ^ 64
          = (A + (k + 1) * SIZE_2_MB) % 2 ^ 64 := by
        intro k
        rw [Nat.mod_add_mod]
        congr 1
        ring
      by_cases hlater : ∃ k : Nat, (k : Int) * SIZE_2_MB < R - SIZE_2_MB ∧
          EptGetPml2Entry E (((A + SIZE_2_MB) % 2 ^ 64 + k * SIZE_2_MB) % 2 ^ 64) = (a, b)
      · have hfalse := ihit hlater
        refine ⟨fun _ => hfalse, fun hno => ?_⟩
        exfalso
        obtain ⟨k, hk, he⟩ := hlater
        refine hno ⟨k + 1, ?_, ?_⟩
        · push_cast; rw [hS] at hk ⊢; omega
        · rw [← hshift]; exact he
      · have hsame := imiss hlater
        refine ⟨fun ⟨k, hk, he⟩ => ?_, fun hno => ?_⟩
        · cases k with
          | zero =>
            have he' : EptGetPml2Entry E A = (a, b) := by
              rw [Nat.zero_mul, Nat.add_zero, Nat.mod_eq_of_lt hA] at he
              exact he
            rw [hsame, hget, he']
            simp
          | succ k =>
            exfalso
            refine hlater ⟨k, ?_, ?_⟩
            · push_cast at hk; rw [hS] at hk ⊢; omega
            · rw [hshift]; exact he
        · have hne : EptGetPml2Entry E A ≠ (a, b) := by
            intro he
            refine hno ⟨0, by simpa using h, ?_⟩
            rw [Nat.zero_mul, Nat.add_zero, Nat.mod_eq_of_lt hA]
            exact he
          rw [hsame, hget]
          simp [hne]
    · have e : T₁ = T := by simpa [clearWriteAccessWhile, h] using hrun.symm
      subst e
      exact hend R A _ a b h

theorem clearWriteAccessOfRegions_frame (E : EptConstants)
    (Regions : Nat → PhysicalRamRegion) :
    ∀ (n : Nat) (T : VMM_EPT_PAGE_TABLE),
      ∃ T₁, clearWriteAccessOfRegions E Regions n T = some T₁ ∧ T₁.PML4 = T.PML4 ∧
        T₁.PML3 = T.PML3 ∧
        ∀ a b, (T₁.PML2 a b).UserModeExecute = (T.PML2 a b).UserModeExecute := by
  intro n
  induction n with
  | zero => intro T; exact ⟨T, rfl, rfl, rfl, fun _ _ => rfl⟩
  | succ n ih =>
    intro T
    obtain ⟨T₀, h0, h1, h2, h3⟩ := ih T
    by_cases hb : (Regions n).RamPhysicalAddress ≠ NULL64_ZERO
    · obtain ⟨T₁, g0, g1, g2, g3⟩ := clearWriteAccessWhile_frame E
        (toINT64 (Regions n).RamSize).toNat (toINT64 (Regions n).RamSize)
        (Regions n).RamPhysicalAddress T₀ (Int.self_le_toNat _)
      refine ⟨T₁, ?_, g1.trans h1, g2.trans h2, fun a b => (g3 a b).trans (h3 a b)⟩
      simp only [clearWriteAccessOfRegions, h0, Option.some_bind, clearWriteAccessOfRegion]
      rw [if_pos hb]
      exact g0
    · refine ⟨T₀, ?_, h1, h2, h3⟩
      simp only [clearWriteAccessOfRegions, h0, Option.some_bind, clearWriteAccessOfRegion]
      rw [if_neg hb]

theorem clearWriteAccessOfRegions_writeAccess (E : EptConstants)
    (Regions : Nat → PhysicalRamRegion)
    (h64 : ∀ i, (Regions i).RamPhysicalAddress < 2 ^ 64) :
    ∀ (n : Nat) (T T₁ : VMM_EPT_PAGE_TABLE),
      clearWriteAccessOfRegions E Regions n T = some T₁ → ∀ a b,
        ((∃ i, i < n ∧ (Regions i).RamPhysicalAddress ≠ NULL64_ZERO ∧
            ∃ k : Nat, (k : Int) * SIZE_2_MB < toINT64 (Regions i).RamSize ∧
              EptGetPml2Entry E (((Regions i).RamPhysicalAddress + k * SIZE_2_MB) % 2 ^ 64)
                = (a, b)) →
          (T₁.PML2 a b).WriteAccess = false) ∧
        ((¬ ∃ i, i < n ∧ (Regions i).RamPhysicalAddress ≠ NULL64_ZERO ∧
            ∃ k : Nat, (k : Int) * SIZE_2_MB < toINT64 (Regions i).RamSize ∧
              EptGetPml2Entry E (((Regions i).RamPhysicalAddress + k * SIZE_2_MB) % 2 ^ 64)
                = (a, b)) →
          (T₁.PML2 a b).WriteAccess = (T.PML2 a b).WriteAccess) := by
  intro n
  induction n with
  | zero =>
    intro T T₁ hrun a b
    have e : T₁ = T := by
      simp only [clearWriteAccessOfRegions, Option.some.injEq] at hrun
      exact hrun.symm
    subst e
    exact ⟨fun ⟨i, hi, _⟩ => absurd hi (Nat.not_lt_zero _), fun _ => rfl⟩
  | succ n ih =>
    intro T T₁ hrun a b
    simp only [clearWriteAccessOfRegions] at hrun
    obtain ⟨T₀, h0, hreg⟩ := Option.bind_eq_some.mp hrun
    obtain ⟨ihit, imiss⟩ := ih T T₀ h0 a b
    have hlast : ((Regions n).RamPhysicalAddress ≠ NULL64_ZERO ∧
          ∃ k : Nat, (k : Int) * SIZE_2_MB < toINT64 (Regions n).RamSize ∧
            EptGetPml2Entry E (((Regions n).RamPhysicalAddress + k * SIZE_2_MB) % 2 ^ 64)
              = (a, b)) → (T₁.PML2 a b).WriteAccess = false := by
      intro ⟨hb, hk⟩
      unfold clearWriteAccessOfRegion at hreg
      rw [if_pos hb] at hreg
      exact ((clearWriteAccessWhile_writeAccess E _ _ _ T₀ T₁ (h64 n) hreg) a b).1 hk
    have hother : ¬ ((Regions n).RamPhysicalAddress ≠ NULL64_ZERO ∧
          ∃ k : Nat, (k : Int) * SIZE_2_MB < toINT64 (Regions n).RamSize ∧
            EptGetPml2Entry E (((Regions n).RamPhysicalAddress + k * SIZE_2_MB) % 2 ^ 64)
              = (a, b)) → (T₁.PML2 a b).WriteAccess = (T₀.PML2 a b).WriteAccess := by
      intro hno
      unfold clearWriteAccessOfRegion at hreg
      by_cases hb : (Regions n).RamPhysicalAddress ≠ NULL64_ZERO
      · rw [if_pos hb] at hreg
        exact ((clearWriteAccessWhile_writeAccess E _ _ _ T₀ T₁ (h64 n) hreg) a b).2
          (fun hk => hno ⟨hb, hk⟩)
      · rw [if_neg hb] at hreg
        have e : T₁ = T₀ := by
          simp only [Option.some.injEq] at hreg
          exact hreg.symm
        rw [e]
    refine ⟨fun ⟨i, hi, hv⟩ => ?_, fun hno => ?_⟩
    · by_cases hc : (Regions n).RamPhysicalAddress ≠ NULL64_ZERO ∧
          ∃ k : Nat, (k : Int) * SIZE_2_MB < toINT64 (Regions n).RamSize ∧
            EptGetPml2Entry E (((Regions n).RamPhysicalAddress + k * SIZE_2_MB) % 2 ^ 64)
              = (a, b)
      · exact hlast hc
      · rw [hother hc]
        refine ihit ⟨i, ?_, hv⟩
        by_contra hcon
        have e : i = n := by omega
        subst e
        exact hc hv
    · have hc : ¬ ((Regions n).RamPhysicalAddress ≠ NULL64_ZERO ∧
          ∃ k : Nat, (k : Int) * SIZE_2_MB < toINT64 (Regions n).RamSize ∧
            EptGetPml2Entry E (((Regions n).RamPhysicalAddress + k * SIZE_2_MB) % 2 ^ 64)
              = (a, b)) := fun hv => hno ⟨n, Nat.lt_succ_self _, hv⟩
      rw [hother hc]
      exact imiss (fun ⟨i, hi, hv⟩ => hno ⟨i, Nat.lt_succ_of_lt hi, hv⟩)

theorem setPml2RowUserModeExecute_invariant (E : EptConstants)
    (P : VMM_EPT_PAGE_TABLE → Prop)
    (hP : ∀ i j s, P s → P (setPml2EntryUserModeExecute i j s)) (i : Nat)
    (s : VMM_EPT_PAGE_TABLE) (hs : P s) : P (setPml2RowUserModeExecute E i s) :=
  forLoop_invariant P (fun j T => setPml2EntryUserModeExecute i j T)
    (fun j s hs => hP i j s hs) E.VMM_EPT_PML2E_COUNT s hs

/-- The EPT hierarchy after the three loops that set `UserModeExecute`. -/
theorem userModeExecuteLoops_spec (E : EptConstants) (T : VMM_EPT_PAGE_TABLE) :
    (∀ i, i < E.VMM_EPT_PML4E_COUNT →
      ((forLoop E.VMM_EPT_PML3E_COUNT (setPml2RowUserModeExecute E)
        (forLoop E.VMM_EPT_PML3E_COUNT setPml3EntryUserModeExecute
          (forLoop E.VMM_EPT_PML4E_COUNT setPml4EntryUserModeExecute T))).PML4
        i).UserModeExecute = true) ∧
    (∀ i, i < E.VMM_EPT_PML3E_COUNT →
      ((forLoop E.VMM_EPT_PML3E_COUNT (setPml2RowUserModeExecute E)
        (forLoop E.VMM_EPT_PML3E_COUNT setPml3EntryUserModeExecute
          (forLoop E.VMM_EPT_PML4E_COUNT setPml4EntryUserModeExecute T))).PML3
        i).UserModeExecute = true) ∧
    (∀ i j, i < E.VMM_EPT_PML3E_COUNT → j < E.VMM_EPT_PML2E_COUNT →
      ((forLoop E.VMM_EPT_PML3E_COUNT (setPml2RowUserModeExecute E)
        (forLoop E.VMM_EPT_PML3E_COUNT setPml3EntryUserModeExecute
          (forLoop E.VMM_EPT_PML4E_COUNT setPml4EntryUserModeExecute T))).PML2
        i j).UserModeExecute = true) ∧
    (∀ a b,
      ((forLoop E.VMM_EPT_PML3E_COUNT (setPml2RowUserModeExecute E)
        (forLoop E.VMM_EPT_PML3E_COUNT setPml3EntryUserModeExecute
          (forLoop E.VMM_EPT_PML4E_COUNT setPml4EntryUserModeExecute T))).PML2
        a b).WriteAccess = (T.PML2 a b).WriteAccess) := by
  refine ⟨fun i hi => ?_, fun i hi => ?_, fun i j hi hj => ?_, fun a b => ?_⟩
  · refine forLoop_invariant (fun s : VMM_EPT_PAGE_TABLE => (s.PML4 i).UserModeExecute = true)
      (setPml2RowUserModeExecute E)
      (fun k s hs => setPml2RowUserModeExecute_invariant E
        (fun s : VMM_EPT_PAGE_TABLE => (s.PML4 i).UserModeExecute = true) (fun _ _ _ h => h) k s hs) _ _ ?_
    refine forLoop_invariant (fun s : VMM_EPT_PAGE_TABLE => (s.PML4 i).UserModeExecute = true)
      setPml3EntryUserModeExecute (fun _ _ h => h) _ _ ?_
    exact forLoop_establish (fun (i : Nat) (s : VMM_EPT_PAGE_TABLE) => (s.PML4 i).UserModeExecute = true)
      setPml4EntryUserModeExecute
      (fun a j s h => by
        show ((setPml4EntryUserModeExecute j s).PML4 a).UserModeExecute = true
        rw [setPml4EntryUserModeExecute_get]
        simp only [show (s.PML4 a).UserModeExecute = true from h, Bool.or_true])
      (fun a s => by
        show ((setPml4EntryUserModeExecute a s).PML4 a).UserModeExecute = true
        rw [setPml4EntryUserModeExecute_get]
        simp) _ T i hi
  · refine forLoop_invariant (fun s : VMM_EPT_PAGE_TABLE => (s.PML3 i).UserModeExecute = true)
      (setPml2RowUserModeExecute E)
      (fun k s hs => setPml2RowUserModeExecute_invariant E
        (fun s : VMM_EPT_PAGE_TABLE => (s.PML3 i).UserModeExecute = true) (fun _ _ _ h => h) k s hs) _ _ ?_
    exact forLoop_establish (fun (i : Nat) (s : VMM_EPT_PAGE_TABLE) => (s.PML3 i).UserModeExecute = true)
      setPml3EntryUserModeExecute
      (fun a j s h => by
        show ((setPml3EntryUserModeExecute j s).PML3 a).UserModeExecute = true
        rw [setPml3EntryUserModeExecute_get]
        simp only [show (s.PML3 a).UserModeExecute = true from h, Bool.or_true])
      (fun a s => by
        show ((setPml3EntryUserModeExecute a s).PML3 a).UserModeExecute = true
        rw [setPml3EntryUserModeExecute_get]
        simp) _ _ i hi
  · refine forLoop_establish (fun (i : Nat) (s : VMM_EPT_PAGE_TABLE) => (s.PML2 i j).UserModeExecute = true)
      (setPml2RowUserModeExecute E)
      (fun a k s h => setPml2RowUserModeExecute_invariant E
        (fun s : VMM_EPT_PAGE_TABLE => (s.PML2 a j).UserModeExecute = true)
        (fun x y s h => by
          show ((setPml2EntryUserModeExecute x y s).PML2 a j).UserModeExecute = true
          rw [(setPml2EntryUserModeExecute_get x y a j s).1]
          simp only [show (s.PML2 a j).UserModeExecute = true from h, Bool.or_true]) k s h)
      (fun a s => ?_) _ _ i hi
    exact forLoop_establish (fun (j : Nat) (s : VMM_EPT_PAGE_TABLE) => (s.PML2 a j).UserModeExecute = true)
      (fun j T => setPml2EntryUserModeExecute a j T)
      (fun b y s h => by
        show ((setPml2EntryUserModeExecute a y s).PML2 a b).UserModeExecute = true
        rw [(setPml2EntryUserModeExecute_get a y a b s).1]
        simp only [show (s.PML2 a b).UserModeExecute = true from h, Bool.or_true])
      (fun b s => by
        show ((setPml2EntryUserModeExecute a b s).PML2 a b).UserModeExecute = true
        rw [(setPml2EntryUserModeExecute_get a b a b s).1]
        simp) _ s j hj
  · refine forLoop_invariant
      (fun s : VMM_EPT_PAGE_TABLE => (s.PML2 a b).WriteAccess = (T.PML2 a b).WriteAccess)
      (setPml2RowUserModeExecute E)
      (fun k s hs => setPml2RowUserModeExecute_invariant E
        (fun s : VMM_EPT_PAGE_TABLE => (s.PML2 a b).WriteAccess = (T.PML2 a b).WriteAccess)
        (fun x y s h => by
          show ((setPml2EntryUserModeExecute x y s).PML2 a b).WriteAccess = _
          rw [(setPml2EntryUserModeExecute_get x y a b s).2]
          exact h) k s hs) _ _ ?_
    refine forLoop_invariant
      (fun s : VMM_EPT_PAGE_TABLE => (s.PML2 a b).WriteAccess = (T.PML2 a b).WriteAccess)
      setPml3EntryUserModeExecute (fun _ _ h => h) _ _ ?_
    exact forLoop_invariant
      (fun s : VMM_EPT_PAGE_TABLE => (s.PML2 a b).WriteAccess = (T.PML2 a b).WriteAccess)
      setPml4EntryUserModeExecute (fun _ _ h => h) _ _ rfl

/-- What `ExecTrapEnableExecuteOnlyPages` returns and what it leaves in the EPT hierarchy. -/
theorem enableExecuteOnlyPages_spec (E : EptConstants) (Regions : Nat → PhysicalRamRegion)
    (T : VMM_EPT_PAGE_TABLE) :
    ∃ T₁, ExecTrapEnableExecuteOnlyPages E Regions T = some (true, T₁) ∧
      (∀ i, i < E.VMM_EPT_PML4E_COUNT → (T₁.PML4 i).UserModeExecute = true) ∧
      (∀ i, i < E.VMM_EPT_PML3E_COUNT → (T₁.PML3 i).UserModeExecute = true) ∧
      (∀ i j, i < E.VMM_EPT_PML3E_COUNT → j < E.VMM_EPT_PML2E_COUNT →
        (T₁.PML2 i j).UserModeExecute = true) ∧
      ((∀ i, (Regions i).RamPhysicalAddress < 2 ^ 64) → ∀ a b,
        ((∃ i, i < E.MAX_PHYSICAL_RAM_RANGE_COUNT ∧
            (Regions i).RamPhysicalAddress ≠ NULL64_ZERO ∧
            ∃ k : Nat, (k : Int) * SIZE_2_MB < toINT64 (Regions i).RamSize ∧
              EptGetPml2Entry E (((Regions i).RamPhysicalAddress + k * SIZE_2_MB) % 2 ^ 64)
                = (a, b)) →
          (T₁.PML2 a b).WriteAccess = false) ∧
        ((¬ ∃ i, i < E.MAX_PHYSICAL_RAM_RANGE_COUNT ∧
            (Regions i).RamPhysicalAddress ≠ NULL64_ZERO ∧
            ∃ k : Nat, (k : Int) * SIZE_2_MB < toINT64 (Regions i).RamSize ∧
              EptGetPml2Entry E (((Regions i).RamPhysicalAddress + k * SIZE_2_MB) % 2 ^ 64)
                = (a, b)) →
          (T₁.PML2 a b).WriteAccess = (T.PML2 a b).WriteAccess)) := by
  obtain ⟨u4, u3, u2, w⟩ := userModeExecuteLoops_spec E T
  obtain ⟨T₁, hrun, f4, f3, f2⟩ := clearWriteAccessOfRegions_frame E Regions
    E.MAX_PHYSICAL_RAM_RANGE_COUNT
    (forLoop E.VMM_EPT_PML3E_COUNT (setPml2RowUserModeExecute E)
      (forLoop E.VMM_EPT_PML3E_COUNT setPml3EntryUserModeExecute
        (forLoop E.VMM_EPT_PML4E_COUNT setPml4EntryUserModeExecute T)))
  refine ⟨T₁, ?_, fun i hi => ?_, fun i hi => ?_, fun i j hi hj => ?_, fun h64 a b => ?_⟩
  · unfold ExecTrapEnableExecuteOnlyPages
    simp only [hrun, Option.map_some']
  · rw [f4]; exact u4 i hi
  · rw [f3]; exact u3 i hi
  · rw [f2]; exact u2 i j hi hj
  · have hw := clearWriteAccessOfRegions_writeAccess E Regions h64 _ _ T₁ hrun a b
    rw [w a b] at hw
    exact hw

/-! ## Theorems about the execute-only EPT layout -/

theorem toINT64_of_lt (x : Nat) (h : x < 2 ^ 63) : toINT64 x = (x : Int) := by
  unfold toINT64
  have h1 : x % 2 ^ 64 = x := Nat.mod_eq_of_lt (by omega)
  rw [h1, if_pos h]

/-- C26, the claim as stated fails, with rows of 4 PML2 entries and a table of 3 regions.  The
region `[0x100000, 0x300000)`, stored by `ExecTrapReadRamPhysicalRegions` in element 1, holds the
address `0x200000`, whose 2 MB granule is `PML2[0][1]`; that entry still has `WriteAccess` set
after `ExecTrapEnableExecuteOnlyPages`, because the loop visits only the granule of `0x100000`.
The region `[0, 0x400000)`, stored in element 0 of the table, is skipped because its base is
`NULL64_ZERO`: `PML2[0][0]` and `PML2[0][1]` keep `WriteAccess` set. -/
theorem C26_counterexample :
    ((ExecTrapReadRamPhysicalRegions smallEptConstants sampleMemoryRanges zeroRamRegions 1
        = { RamPhysicalAddress := 0x100000, RamSize := 0x200000 } ∧
      EptGetPml2Entry smallEptConstants 0x200000 = (0, 1)) ∧
      (ExecTrapEnableExecuteOnlyPages smallEptConstants
        (ExecTrapReadRamPhysicalRegions smallEptConstants sampleMemoryRanges zeroRamRegions)
        freshEptPageTable).map (fun r => (r.1, (r.2.PML2 0 0).WriteAccess,
          (r.2.PML2 0 1).WriteAccess)) = some (true, false, true)) ∧
    (ExecTrapReadRamPhysicalRegions smallEptConstants zeroBasedMemoryRanges zeroRamRegions 0
        = { RamPhysicalAddress := 0, RamSize := 0x400000 } ∧
      (ExecTrapEnableExecuteOnlyPages smallEptConstants
        (ExecTrapReadRamPhysicalRegions smallEptConstants zeroBasedMemoryRanges zeroRamRegions)
        freshEptPageTable).map (fun r => (r.1, (r.2.PML2 0 0).WriteAccess,
          (r.2.PML2 0 1).WriteAccess)) = some (true, true, true)) := by
  decide

/-- C26 (amended): `ExecTrapEnableExecuteOnlyPages` returns `TRUE`, and afterwards, for every
element (base, size) of the RAM region table whose base is not `NULL64_ZERO` and for every `k`
with `k * SIZE_2_MB < (INT64)size`, the PML2 entry of the 2 MB granule that holds the 64-bit
address `base + k * SIZE_2_MB` has `WriteAccess` cleared; every PML2 entry that holds no such
address keeps the `WriteAccess` value it had before the call.  When the base is a multiple of
`SIZE_2_MB` (and the region ends below `2 ^ 64` and is shorter than `2 ^ 63` bytes), the cleared
entries include the granule of every address of `[base, base + size)`.  The base addresses of
the table are 64-bit values. -/
theorem C26_write_access_of_ram_granules (E : EptConstants)
    (Regions : Nat → PhysicalRamRegion) (EptTable : VMM_EPT_PAGE_TABLE)
    (h64 : ∀ i, (Regions i).RamPhysicalAddress < 2 ^ 64) :
    ∃ T₁, ExecTrapEnableExecuteOnlyPages E Regions EptTable = some (true, T₁) ∧
      (∀ (i k a b : Nat), i < E.MAX_PHYSICAL_RAM_RANGE_COUNT →
        (Regions i).RamPhysicalAddress ≠ NULL64_ZERO →
        (k : Int) * SIZE_2_MB < toINT64 (Regions i).RamSize →
        EptGetPml2Entry E (((Regions i).RamPhysicalAddress + k * SIZE_2_MB) % 2 ^ 64)
          = (a, b) →
        (T₁.PML2 a b).WriteAccess = false) ∧
      (∀ (a b : Nat),
        (∀ (i k : Nat), i < E.MAX_PHYSICAL_RAM_RANGE_COUNT →
          (Regions i).RamPhysicalAddress ≠ NULL64_ZERO →
          (k : Int) * SIZE_2_MB < toINT64 (Regions i).RamSize →
          EptGetPml2Entry E (((Regions i).RamPhysicalAddress + k * SIZE_2_MB) % 2 ^ 64)
            ≠ (a, b)) →
        (T₁.PML2 a b).WriteAccess = (EptTable.PML2 a b).WriteAccess) ∧
      (∀ (i x : Nat), i < E.MAX_PHYSICAL_RAM_RANGE_COUNT →
        (Regions i).RamPhysicalAddress ≠ NULL64_ZERO →
        (Regions i).RamPhysicalAddress % SIZE_2_MB = 0 →
        (Regions i).RamSize < 2 ^ 63 →
        (Regions i).RamPhysicalAddress + (Regions i).RamSize ≤ 2 ^ 64 →
        (Regions i).RamPhysicalAddress ≤ x →
        x < (Regions i).RamPhysicalAddress + (Regions i).RamSize →
        (T₁.PML2 (EptGetPml2Entry E x).1 (EptGetPml2Entry E x).2).WriteAccess = false) := by
  obtain ⟨T₁, hrun, -, -, -, hw⟩ := enableExecuteOnlyPages_spec E Regions EptTable
  have hA : ∀ (i k a b : Nat), i < E.MAX_PHYSICAL_RAM_RANGE_COUNT →
      (Regions i).RamPhysicalAddress ≠ NULL64_ZERO →
      (k : Int) * SIZE_2_MB < toINT64 (Regions i).RamSize →
      EptGetPml2Entry E (((Regions i).RamPhysicalAddress + k * SIZE_2_MB) % 2 ^ 64)
        = (a, b) →
      (T₁.PML2 a b).WriteAccess = false :=
    fun i k a b hi hb hk he => ((hw h64 a b).1 ⟨i, hi, hb, k, hk, he⟩)
  refine ⟨T₁, hrun, hA, fun a b hno => ?_, fun i x hi hb hal hsz hend hlo hhi => ?_⟩
  · exact (hw h64 a b).2 (fun ⟨i, hi, hb, k, hk, he⟩ => hno i k hi hb hk he)
  · have hS : SIZE_2_MB = 2097152 := by decide
    have hk : (((x - (Regions i).RamPhysicalAddress) / SIZE_2_MB : Nat) : Int) * SIZE_2_MB
        < toINT64 (Regions i).RamSize := by
      rw [toINT64_of_lt _ hsz]
      have : (x - (Regions i).RamPhysicalAddress) / SIZE_2_MB * SIZE_2_MB
          < (Regions i).RamSize := by
        rw [hS]; omega
      exact_mod_cast this
    refine hA i ((x - (Regions i).RamPhysicalAddress) / SIZE_2_MB) _ _ hi hb hk ?_
    have hmod : ((Regions i).RamPhysicalAddress
        + (x - (Regions i).RamPhysicalAddress) / SIZE_2_MB * SIZE_2_MB) % 2 ^ 64
        = (Regions i).RamPhysicalAddress
          + (x - (Regions i).RamPhysicalAddress) / SIZE_2_MB * SIZE_2_MB := by
      apply Nat.mod_eq_of_lt
      rw [hS]; omega
    have hdiv : ((Regions i).RamPhysicalAddress
        + (x - (Regions i).RamPhysicalAddress) / SIZE_2_MB * SIZE_2_MB) / SIZE_2_MB
        = x / SIZE_2_MB := by
      rw [hS] at hal ⊢; omega
    rw [hmod]
    unfold EptGetPml2Entry
    rw [hdiv]

/-- A concrete run of C26 with rows of 4 PML2 entries: for the region `[0x400000, 0x800000)`,
element 0 of the sample table, the entry `PML2[0][2]` of the granule of `0x400000` and the entry
`PML2[0][3]` of the granule of the address `0x7fffff` have `WriteAccess` cleared. -/
theorem C26_write_access_of_ram_granules_witness :
    ∃ T₁, ExecTrapEnableExecuteOnlyPages smallEptConstants sampleRamRegions freshEptPageTable
        = some (true, T₁) ∧
      (T₁.PML2 0 2).WriteAccess = false ∧ (T₁.PML2 0 3).WriteAccess = false :=
  (C26_write_access_of_ram_granules smallEptConstants sampleRamRegions freshEptPageTable
    (fun i => by
      unfold sampleRamRegions
      split_ifs <;> norm_num)).elim
    fun T₁ h => ⟨T₁, h.1, h.2.1 0 0 0 2 (by decide) (by decide) (by decide) (by decide),
      h.2.2.2 0 0x7fffff (by decide) (by decide) (by decide) (by decide) (by decide)
        (by decide) (by decide)⟩

/-- C27: for every RAM region table `ExecTrapEnableExecuteOnlyPages` comes to an end and returns
`TRUE`, and afterwards every PML4 entry, every PML3 entry and every PML2 entry of the EPT
hierarchy has `UserModeExecute` set. -/
theorem C27_user_mode_execute_everywhere (E : EptConstants)
    (Regions : Nat → PhysicalRamRegion) (EptTable : VMM_EPT_PAGE_TABLE) :
    ∃ T₁, ExecTrapEnableExecuteOnlyPages E Regions EptTable = some (true, T₁) ∧
      (∀ i, i < E.VMM_EPT_PML4E_COUNT → (T₁.PML4 i).UserModeExecute = true) ∧
      (∀ i, i < E.VMM_EPT_PML3E_COUNT → (T₁.PML3 i).UserModeExecute = true) ∧
      (∀ i j, i < E.VMM_EPT_PML3E_COUNT → j < E.VMM_EPT_PML2E_COUNT →
        (T₁.PML2 i j).UserModeExecute = true) := by
  obtain ⟨T₁, hrun, h4, h3, h2, -⟩ := enableExecuteOnlyPages_spec E Regions EptTable
  exact ⟨T₁, hrun, h4, h3, h2⟩

/-- A concrete run of C27 on the hierarchy in which no entry grants user-mode execute access:
the routine returns `TRUE` and `PML4[1]`, `PML3[0]` and `PML2[1][3]` have `UserModeExecute`
set. -/
theorem C27_user_mode_execute_everywhere_witness :
    ∃ T₁, ExecTrapEnableExecuteOnlyPages smallEptConstants sampleRamRegions freshEptPageTable
        = some (true, T₁) ∧
      (T₁.PML4 1).UserModeExecute = true ∧ (T₁.PML3 0).UserModeExecute = true ∧
      (T₁.PML2 1 3).UserModeExecute = true :=
  (C27_user_mode_execute_everywhere smallEptConstants sampleRamRegions freshEptPageTable).elim
    fun T₁ h => ⟨T₁, h.1, h.2.1 1 (by decide), h.2.2.1 0 (by decide),
      h.2.2.2 1 3 (by decide) (by decide)⟩

/-! ## Facts about the page-table walk -/

theorem forLoop_invariant_lt {σ : Type} (P : σ → Prop) (B : Nat → σ → σ) :
    ∀ (n : Nat), (∀ i s, i < n → P s → P (B i s)) → ∀ (s : σ), P s → P (forLoop n B s) := by
  intro n
  induction n with
  | zero => intro _ s h; simpa [forLoop] using h
  | succ n ih =>
    intro hstep s h
    rw [forLoop_succ]
    exact hstep n _ (Nat.lt_succ_self n)
      (ih (fun i s hi hs => hstep i s (Nat.lt_succ_of_lt hi) hs) s h)

theorem forLoop_establish_lt {σ : Type} (Q : σ → Prop) (B : Nat → σ → σ) (n i : Nat)
    (hi : i < n) (hpres : ∀ j s, Q s → Q (B j s)) (hest : ∀ s, Q (B i s)) (s : σ) :
    Q (forLoop n B s) := by
  induction n with
  | zero => exact absurd hi (Nat.not_lt_zero _)
  | succ n ih =>
    rw [forLoop_succ]
    by_cases e : i = n
    · subst e; exact hest _
    · exact hpres _ _ (ih (by omega))

theorem forLoop_id {σ : Type} (n : Nat) (s : σ) : forLoop n (fun _ s => s) s = s :=
  forLoop_invariant (fun x => x = s) (fun _ s => s) (fun _ _ h => h) n s rfl

theorem setLeafReadWriteAccess_leaf (Entry r : EptLeaf) (s : PageWalkState) :
    (setLeafReadWriteAccess Entry s).leaf r
      = if r = Entry then { (s.leaf r) with ReadAccess := true, WriteAccess := true }
        else s.leaf r := by
  cases Entry with
  | Pml2 i j =>
    cases r with
    | Pml2 a b =>
      by_cases e : a = i
      · subst e
        by_cases f : b = j
        · subst f; simp [setLeafReadWriteAccess, PageWalkState.leaf]
        · simp [setLeafReadWriteAccess, PageWalkState.leaf, Function.update_noteq f, f]
      · simp [setLeafReadWriteAccess, PageWalkState.leaf, Function.update_noteq e, e]
    | Pml1 a => simp [setLeafReadWriteAccess, PageWalkState.leaf]
  | Pml1 x =>
    cases r with
    | Pml2 a b => simp [setLeafReadWriteAccess, PageWalkState.leaf]
    | Pml1 a =>
      by_cases e : a = x
      · subst e; simp [setLeafReadWriteAccess, PageWalkState.leaf]
      · simp [setLeafReadWriteAccess, PageWalkState.leaf, Function.update_noteq e, e]

theorem allowReadWriteOfFrame_mono (O : PageWalkEnvironment) (pa : Nat) (r : EptLeaf)
    (s : PageWalkState) (h : s.readWrite r) : (allowReadWriteOfFrame O pa s).readWrite r := by
  unfold allowReadWriteOfFrame
  cases hl : O.EptGetPml1OrPml2Entry pa with
  | none => exact h
  | some e =>
    show ((setLeafReadWriteAccess e s).leaf r).ReadAccess = true ∧
      ((setLeafReadWriteAccess e s).leaf r).WriteAccess = true
    rw [setLeafReadWriteAccess_leaf]
    split_ifs
    · exact ⟨rfl, rfl⟩
    · exact h

theorem allowReadWriteOfFrame_establish (O : PageWalkEnvironment) (pa : Nat) (r : EptLeaf)
    (s : PageWalkState) (hl : O.EptGetPml1OrPml2Entry pa = some r) :
    (allowReadWriteOfFrame O pa s).readWrite r := by
  unfold allowReadWriteOfFrame
  rw [hl]
  show ((setLeafReadWriteAccess r s).leaf r).ReadAccess = true ∧
    ((setLeafReadWriteAccess r s).leaf r).WriteAccess = true
  rw [setLeafReadWriteAccess_leaf, if_pos rfl]
  exact ⟨rfl, rfl⟩

theorem allowReadWriteOfFrame_frame (O : PageWalkEnvironment) (pa : Nat) (r : EptLeaf)
    (s : PageWalkState) (hl : O.EptGetPml1OrPml2Entry pa ≠ some r) :
    (allowReadWriteOfFrame O pa s).leaf r = s.leaf r := by
  unfold allowReadWriteOfFrame
  cases he : O.EptGetPml1OrPml2Entry pa with
  | none => rfl
  | some e =>
    show (setLeafReadWriteAccess e s).leaf r = s.leaf r
    rw [setLeafReadWriteAccess_leaf, if_neg]
    intro hre
    exact hl (by rw [he, hre])

theorem walkPageDirectoryEntry_mono (O : PageWalkEnvironment) (PdVa k : Nat) (r : EptLeaf)
    (s : PageWalkState) (h : s.readWrite r) :
    (walkPageDirectoryEntry O PdVa k s).readWrite r := by
  unfold walkPageDirectoryEntry
  simp only [forLoop_id]
  split_ifs <;> first | exact h | exact allowReadWriteOfFrame_mono O _ r s h

theorem walkPageDirectoryEntry_establish (O : PageWalkEnvironment) (PdVa k : Nat)
    (r : EptLeaf) (s : PageWalkState) (hva : PdVa ≠ 0xfffffffffffffe00)
    (hp : (O.PageEntryAt PdVa k).Present = true)
    (hl : O.EptGetPml1OrPml2Entry ((O.PageEntryAt PdVa k).PageFrameNumber <<< 12) = some r) :
    (walkPageDirectoryEntry O PdVa k s).readWrite r := by
  unfold walkPageDirectoryEntry
  simp only [forLoop_id]
  rw [if_neg hva, if_pos hp]
  split_ifs <;> exact allowReadWriteOfFrame_establish O _ r s hl

theorem walkPageDirectoryEntry_frame (O : PageWalkEnvironment) (PdVa k : Nat) (r : EptLeaf)
    (s : PageWalkState)
    (hl : PdVa ≠ 0xfffffffffffffe00 → (O.PageEntryAt PdVa k).Present = true →
      O.EptGetPml1OrPml2Entry ((O.PageEntryAt PdVa k).PageFrameNumber <<< 12) ≠ some r) :
    (walkPageDirectoryEntry O PdVa k s).leaf r = s.leaf r := by
  unfold walkPageDirectoryEntry
  simp only [forLoop_id]
  by_cases hva : PdVa = 0xfffffffffffffe00
  · rw [if_pos hva]
  · rw [if_neg hva]
    by_cases hp : (O.PageEntryAt PdVa k).Present = true
    · rw [if_pos hp]
      split_ifs <;> exact allowReadWriteOfFrame_frame O _ r s (hl hva hp)
    · rw [if_neg hp]

theorem walkPdptEntry_eq (O : PageWalkEnvironment) (PdptVa j : Nat) (s : PageWalkState) :
    walkPdptEntry O PdptVa j s
      = if (O.PageEntryAt PdptVa j).Present = true then
          if (O.PageEntryAt PdptVa j).LargePage = true then
            allowReadWriteOfFrame O ((O.PageEntryAt PdptVa j).PageFrameNumber <<< 12) s
          else if O.PhysicalAddressToVirtualAddress
              ((O.PageEntryAt PdptVa j).PageFrameNumber <<< 12) ≠ 0 then
            forLoop 512
              (walkPageDirectoryEntry O (O.PhysicalAddressToVirtualAddress
                ((O.PageEntryAt PdptVa j).PageFrameNumber <<< 12)))
              (allowReadWriteOfFrame O ((O.PageEntryAt PdptVa j).PageFrameNumber <<< 12) s)
          else
            allowReadWriteOfFrame O ((O.PageEntryAt PdptVa j).PageFrameNumber <<< 12) s
        else s := rfl

theorem walkPdptEntry_mono (O : PageWalkEnvironment) (PdptVa j : Nat) (r : EptLeaf)
    (s : PageWalkState) (h : s.readWrite r) : (walkPdptEntry O PdptVa j s).readWrite r := by
  rw [walkPdptEntry_eq]
  have h1 := allowReadWriteOfFrame_mono O
    ((O.PageEntryAt PdptVa j).PageFrameNumber <<< 12) r s h
  split_ifs
  · exact h1
  · exact forLoop_invariant (fun x : PageWalkState => x.readWrite r) _
      (fun k x hx => walkPageDirectoryEntry_mono O _ k r x hx) 512 _ h1
  · exact h1
  · exact h

theorem walkPdptEntry_establish (O : PageWalkEnvironment) (PdptVa j : Nat) (r : EptLeaf)
    (s : PageWalkState) (hp : (O.PageEntryAt PdptVa j).Present = true)
    (hl : O.EptGetPml1OrPml2Entry ((O.PageEntryAt PdptVa j).PageFrameNumber <<< 12)
      = some r) :
    (walkPdptEntry O PdptVa j s).readWrite r := by
  rw [walkPdptEntry_eq]
  have h1 := allowReadWriteOfFrame_establish O
    ((O.PageEntryAt PdptVa j).PageFrameNumber <<< 12) r s hl
  rw [if_pos hp]
  split_ifs
  · exact h1
  · exact forLoop_invariant (fun x : PageWalkState => x.readWrite r) _
      (fun k x hx => walkPageDirectoryEntry_mono O _ k r x hx) 512 _ h1
  · exact h1

theorem walkPdptEntry_establish_child (O : PageWalkEnvironment) (PdptVa j k : Nat)
    (r : EptLeaf) (s : PageWalkState) (hp : (O.PageEntryAt PdptVa j).Present = true)
    (hlarge : (O.PageEntryAt PdptVa j).LargePage = false)
    (hva : O.PhysicalAddressToVirtualAddress
      ((O.PageEntryAt PdptVa j).PageFrameNumber <<< 12) ≠ 0)
    (hk : k < 512)
    (hfe : O.PhysicalAddressToVirtualAddress
      ((O.PageEntryAt PdptVa j).PageFrameNumber <<< 12) ≠ 0xfffffffffffffe00)
    (hpk : (O.PageEntryAt (O.PhysicalAddressToVirtualAddress
      ((O.PageEntryAt PdptVa j).PageFrameNumber <<< 12)) k).Present = true)
    (hl : O.EptGetPml1OrPml2Entry ((O.PageEntryAt (O.PhysicalAddressToVirtualAddress
      ((O.PageEntryAt PdptVa j).PageFrameNumber <<< 12)) k).PageFrameNumber <<< 12)
      = some r) :
    (walkPdptEntry O PdptVa j s).readWrite r := by
  rw [walkPdptEntry_eq]
  have hnl : ¬ (O.PageEntryAt PdptVa j).LargePage = true := by simp [hlarge]
  rw [if_pos hp, if_neg hnl, if_pos hva]
  exact forLoop_establish_lt (fun x : PageWalkState => x.readWrite r) _ 512 k hk
    (fun i x hx => walkPageDirectoryEntry_mono O _ i r x hx)
    (fun x => walkPageDirectoryEntry_establish O _ k r x hfe hpk hl) _

theorem walkPdptEntry_frame (O : PageWalkEnvironment) (PdptVa j : Nat) (r : EptLeaf)
    (s : PageWalkState)
    (hown : (O.PageEntryAt PdptVa j).Present = true →
      O.EptGetPml1OrPml2Entry ((O.PageEntryAt PdptVa j).PageFrameNumber <<< 12) ≠ some r)
    (hchild : (O.PageEntryAt PdptVa j).Present = true →
      (O.PageEntryAt PdptVa j).LargePage = false →
      O.PhysicalAddressToVirtualAddress
        ((O.PageEntryAt PdptVa j).PageFrameNumber <<< 12) ≠ 0 →
      ∀ k, k < 512 →
        O.PhysicalAddressToVirtualAddress
          ((O.PageEntryAt PdptVa j).PageFrameNumber <<< 12) ≠ 0xfffffffffffffe00 →
        (O.PageEntryAt (O.PhysicalAddressToVirtualAddress
          ((O.PageEntryAt PdptVa j).PageFrameNumber <<< 12)) k).Present = true →
        O.EptGetPml1OrPml2Entry ((O.PageEntryAt (O.PhysicalAddressToVirtualAddress
          ((O.PageEntryAt PdptVa j).PageFrameNumber <<< 12)) k).PageFrameNumber <<< 12)
          ≠ some r) :
    (walkPdptEntry O PdptVa j s).leaf r = s.leaf r := by
  rw [walkPdptEntry_eq]
  by_cases hp : (O.PageEntryAt PdptVa j).Present = true
  · have h1 := allowReadWriteOfFrame_frame O
      ((O.PageEntryAt PdptVa j).PageFrameNumber <<< 12) r s (hown hp)
    rw [if_pos hp]
    by_cases hlarge : (O.PageEntryAt PdptVa j).LargePage = true
    · rw [if_pos hlarge]; exact h1
    · rw [if_neg hlarge]
      by_cases hva : O.PhysicalAddressToVirtualAddress
          ((O.PageEntryAt PdptVa j).PageFrameNumber <<< 12) ≠ 0
      · rw [if_pos hva]
        exact forLoop_invariant_lt (fun x : PageWalkState => x.leaf r = s.leaf r) _ 512
          (fun k x hk hx => (walkPageDirectoryEntry_frame O _ k r x
            (hchild hp (by simpa using hlarge) hva k hk)).trans hx) _ h1
      · rw [if_neg hva]; exact h1
  · rw [if_neg hp]

theorem walkPml4Entry_eq (O : PageWalkEnvironment) (Cr3Va i : Nat) (s : PageWalkState) :
    walkPml4Entry O Cr3Va i s
      = if (O.PageEntryAt Cr3Va i).Present = true then
          if O.tableOf (O.PageEntryAt Cr3Va i) ≠ 0 then
            forLoop 512 (walkPdptEntry O (O.tableOf (O.PageEntryAt Cr3Va i)))
              (allowReadWriteOfFrame O ((O.PageEntryAt Cr3Va i).PageFrameNumber <<< 12) s)
          else
            allowReadWriteOfFrame O ((O.PageEntryAt Cr3Va i).PageFrameNumber <<< 12) s
        else s := rfl

theorem walkPml4Entry_mono (O : PageWalkEnvironment) (Cr3Va i : Nat) (r : EptLeaf)
    (s : PageWalkState) (h : s.readWrite r) : (walkPml4Entry O Cr3Va i s).readWrite r := by
  rw [walkPml4Entry_eq]
  have h1 := allowReadWriteOfFrame_mono O
    ((O.PageEntryAt Cr3Va i).PageFrameNumber <<< 12) r s h
  split_ifs
  · exact forLoop_invariant (fun x : PageWalkState => x.readWrite r) _
      (fun k x hx => walkPdptEntry_mono O _ k r x hx) 512 _ h1
  · exact h1
  · exact h

theorem walkPml4Entry_establish (O : PageWalkEnvironment) (Cr3Va i : Nat) (r : EptLeaf)
    (s : PageWalkState) (hp : (O.PageEntryAt Cr3Va i).Present = true)
    (hl : O.leafOf (O.PageEntryAt Cr3Va i) = some r) :
    (walkPml4Entry O Cr3Va i s).readWrite r := by
  rw [walkPml4Entry_eq]
  have h1 := allowReadWriteOfFrame_establish O
    ((O.PageEntryAt Cr3Va i).PageFrameNumber <<< 12) r s hl
  rw [if_pos hp]
  split_ifs
  · exact forLoop_invariant (fun x : PageWalkState => x.readWrite r) _
      (fun k x hx => walkPdptEntry_mono O _ k r x hx) 512 _ h1
  · exact h1

theorem walkPml4Entry_establish_child (O : PageWalkEnvironment) (Cr3Va i j : Nat)
    (r : EptLeaf) (s : PageWalkState) (hp : (O.PageEntryAt Cr3Va i).Present = true)
    (hva : O.tableOf (O.PageEntryAt Cr3Va i) ≠ 0) (hj : j < 512)
    (hpj : (O.PageEntryAt (O.tableOf (O.PageEntryAt Cr3Va i)) j).Present = true)
    (hl : O.leafOf (O.PageEntryAt (O.tableOf (O.PageEntryAt Cr3Va i)) j) = some r) :
    (walkPml4Entry O Cr3Va i s).readWrite r := by
  rw [walkPml4Entry_eq, if_pos hp, if_pos hva]
  exact forLoop_establish_lt (fun x : PageWalkState => x.readWrite r) _ 512 j hj
    (fun k x hx => walkPdptEntry_mono O _ k r x hx)
    (fun x => walkPdptEntry_establish O _ j r x hpj hl) _

theorem walkPml4Entry_establish_grandchild (O : PageWalkEnvironment) (Cr3Va i j k : Nat)
    (r : EptLeaf) (s : PageWalkState) (hp : (O.PageEntryAt Cr3Va i).Present = true)
    (hva : O.tableOf (O.PageEntryAt Cr3Va i) ≠ 0) (hj : j < 512)
    (hpj : (O.PageEntryAt (O.tableOf (O.PageEntryAt Cr3Va i)) j).Present = true)
    (hlarge : (O.PageEntryAt (O.tableOf (O.PageEntryAt Cr3Va i)) j).LargePage = false)
    (hvj : O.tableOf (O.PageEntryAt (O.tableOf (O.PageEntryAt Cr3Va i)) j) ≠ 0)
    (hfe : O.tableOf (O.PageEntryAt (O.tableOf (O.PageEntryAt Cr3Va i)) j)
      ≠ 0xfffffffffffffe00)
    (hk : k < 512)
    (hpk : (O.PageEntryAt
      (O.tableOf (O.PageEntryAt (O.tableOf (O.PageEntryAt Cr3Va i)) j)) k).Present = true)
    (hl : O.leafOf (O.PageEntryAt
      (O.tableOf (O.PageEntryAt (O.tableOf (O.PageEntryAt Cr3Va i)) j)) k) = some r) :
    (walkPml4Entry O Cr3Va i s).readWrite r := by
  rw [walkPml4Entry_eq, if_pos hp, if_pos hva]
  exact forLoop_establish_lt (fun x : PageWalkState => x.readWrite r) _ 512 j hj
    (fun k x hx => walkPdptEntry_mono O _ k r x hx)
    (fun x => walkPdptEntry_establish_child O _ j k r x hpj hlarge hvj hk hfe hpk hl) _

theorem walkPml4Entry_frame (O : PageWalkEnvironment) (Cr3Va i : Nat) (r : EptLeaf)
    (s : PageWalkState)
    (hown : (O.PageEntryAt Cr3Va i).Present = true →
      O.leafOf (O.PageEntryAt Cr3Va i) ≠ some r)
    (hchild : (O.PageEntryAt Cr3Va i).Present = true →
      O.tableOf (O.PageEntryAt Cr3Va i) ≠ 0 → ∀ j, j < 512 →
      (O.PageEntryAt (O.tableOf (O.PageEntryAt Cr3Va i)) j).Present = true →
      O.leafOf (O.PageEntryAt (O.tableOf (O.PageEntryAt Cr3Va i)) j) ≠ some r)
    (hgrand : (O.PageEntryAt Cr3Va i).Present = true →
      O.tableOf (O.PageEntryAt Cr3Va i) ≠ 0 → ∀ j, j < 512 →
      (O.PageEntryAt (O.tableOf (O.PageEntryAt Cr3Va i)) j).Present = true →
      (O.PageEntryAt (O.tableOf (O.PageEntryAt Cr3Va i)) j).LargePage = false →
      O.tableOf (O.PageEntryAt (O.tableOf (O.PageEntryAt Cr3Va i)) j) ≠ 0 →
      O.tableOf (O.PageEntryAt (O.tableOf (O.PageEntryAt Cr3Va i)) j)
        ≠ 0xfffffffffffffe00 →
      ∀ k, k < 512 →
      (O.PageEntryAt
        (O.tableOf (O.PageEntryAt (O.tableOf (O.PageEntryAt Cr3Va i)) j)) k).Present = true →
      O.leafOf (O.PageEntryAt
        (O.tableOf (O.PageEntryAt (O.tableOf (O.PageEntryAt Cr3Va i)) j)) k) ≠ some r) :
    (walkPml4Entry O Cr3Va i s).leaf r = s.leaf r := by
  rw [walkPml4Entry_eq]
  by_cases hp : (O.PageEntryAt Cr3Va i).Present = true
  · have h1 := allowReadWriteOfFrame_frame O
      ((O.PageEntryAt Cr3Va i).PageFrameNumber <<< 12) r s (hown hp)
    rw [if_pos hp]
    by_cases hva : O.tableOf (O.PageEntryAt Cr3Va i) ≠ 0
    · rw [if_pos hva]
      exact forLoop_invariant_lt (fun x : PageWalkState => x.leaf r = s.leaf r) _ 512
        (fun j x hj hx => (walkPdptEntry_frame O _ j r x
          (fun hpj => hchild hp hva j hj hpj)
          (fun hpj hlarge hvj k hk hfe hpk =>
            hgrand hp hva j hj hpj hlarge hvj hfe k hk hpk)).trans hx) _ h1
    · rw [if_neg hva]; exact h1
  · rw [if_neg hp]

theorem traverse_eq (O : PageWalkEnvironment) (TargetCr3 KernelCr3 : CR3_TYPE)
    (s : PageWalkState) :
    ExecTrapTraverseThroughOsPageTables O TargetCr3 KernelCr3 s
      = if O.PhysicalAddressToVirtualAddress (TargetCr3.PageFrameNumber <<< 12) = 0 then
          (false,
            SwitchToPreviousProcess s.Cr3
              (allowReadWriteOfFrame O (TargetCr3.PageFrameNumber <<< 12)
                { s with Cr3 := KernelCr3 }))
        else
          (true,
            SwitchToPreviousProcess s.Cr3
              (forLoop 512
                (walkPml4Entry O
                  (O.PhysicalAddressToVirtualAddress (TargetCr3.PageFrameNumber <<< 12)))
                (allowReadWriteOfFrame O (TargetCr3.PageFrameNumber <<< 12)
                  { s with Cr3 := KernelCr3 }))) := rfl

theorem switchToPreviousProcess_cr3 (c : CR3_TYPE) (x : PageWalkState) :
    (SwitchToPreviousProcess c x).Cr3 = c := rfl

theorem switchToPreviousProcess_leaf (c : CR3_TYPE) (x : PageWalkState) (r : EptLeaf) :
    (SwitchToPreviousProcess c x).leaf r = x.leaf r := by
  cases r <;> rfl

/-! ## Theorems about the page-table walk -/

/-- C24: `ExecTrapTraverseThroughOsPageTables` returns with the CR3 that was current on entry,
whether it returns `TRUE` or `FALSE`; it returns `FALSE` when the root table of `TargetCr3`
cannot be translated to a virtual address (`PhysicalAddressToVirtualAddress` gives `NULL`), and
`TRUE` otherwise. -/
theorem C24_walk_restores_cr3 (O : PageWalkEnvironment) (TargetCr3 KernelCr3 : CR3_TYPE)
    (s : PageWalkState) :
    (ExecTrapTraverseThroughOsPageTables O TargetCr3 KernelCr3 s).2.Cr3 = s.Cr3 ∧
    (O.PhysicalAddressToVirtualAddress (TargetCr3.PageFrameNumber <<< 12) = 0 →
      (ExecTrapTraverseThroughOsPageTables O TargetCr3 KernelCr3 s).1 = false) ∧
    (O.PhysicalAddressToVirtualAddress (TargetCr3.PageFrameNumber <<< 12) ≠ 0 →
      (ExecTrapTraverseThroughOsPageTables O TargetCr3 KernelCr3 s).1 = true) := by
  rw [traverse_eq]
  refine ⟨?_, fun h => ?_, fun h => ?_⟩
  · split_ifs <;> exact switchToPreviousProcess_cr3 _ _
  · rw [if_pos h]
  · rw [if_neg h]

/-- A concrete run of C24 from a state whose CR3 has page-frame number 7, walking the tables
rooted at frame 1 under the kernel CR3 with frame 9: with untranslatable addresses the walk
returns `FALSE`, with the chain of page tables it returns `TRUE`, and both times CR3 has
page-frame number 7 afterwards. -/
theorem C24_walk_restores_cr3_witness :
    ((ExecTrapTraverseThroughOsPageTables unmappedEnvironment { PageFrameNumber := 1 }
        { PageFrameNumber := 9 } closedWalkState).2.Cr3 = { PageFrameNumber := 7 } ∧
      (ExecTrapTraverseThroughOsPageTables unmappedEnvironment { PageFrameNumber := 1 }
        { PageFrameNumber := 9 } closedWalkState).1 = false) ∧
    ((ExecTrapTraverseThroughOsPageTables chainEnvironment { PageFrameNumber := 1 }
        { PageFrameNumber := 9 } closedWalkState).2.Cr3 = { PageFrameNumber := 7 } ∧
      (ExecTrapTraverseThroughOsPageTables chainEnvironment { PageFrameNumber := 1 }
        { PageFrameNumber := 9 } closedWalkState).1 = true) :=
  ⟨⟨(C24_walk_restores_cr3 unmappedEnvironment { PageFrameNumber := 1 }
        { PageFrameNumber := 9 } closedWalkState).1,
    (C24_walk_restores_cr3 unmappedEnvironment { PageFrameNumber := 1 }
        { PageFrameNumber := 9 } closedWalkState).2.1 rfl⟩,
   ⟨(C24_walk_restores_cr3 chainEnvironment { PageFrameNumber := 1 }
        { PageFrameNumber := 9 } closedWalkState).1,
    (C24_walk_restores_cr3 chainEnvironment { PageFrameNumber := 1 }
        { PageFrameNumber := 9 } closedWalkState).2.2 (by decide)⟩⟩

/-- C25, the claim as stated fails for the fourth level.  In the chain of page tables rooted at
frame 1 the page-table entry 0 (reached through present, translatable, non-large-page parents at
the three levels above) is present and names frame 5, whose EPT leaf is the PML1 entry at
`0x5000`; the walk returns `TRUE` and sets `ReadAccess` on the leaf of frame 4, named by the
page-directory entry, but the leaf of frame 5 still has `ReadAccess` clear. -/
theorem C25_counterexample :
    ((chainEnvironment.pml4Entry { PageFrameNumber := 1 } 0).Present = true ∧
      chainEnvironment.tableOf (chainEnvironment.pml4Entry { PageFrameNumber := 1 } 0) ≠ 0 ∧
      (chainEnvironment.pdptEntry { PageFrameNumber := 1 } 0 0).Present = true ∧
      (chainEnvironment.pdptEntry { PageFrameNumber := 1 } 0 0).LargePage = false ∧
      chainEnvironment.tableOf (chainEnvironment.pdptEntry { PageFrameNumber := 1 } 0 0) ≠ 0 ∧
      (chainEnvironment.pdEntry { PageFrameNumber := 1 } 0 0 0).Present = true ∧
      (chainEnvironment.pdEntry { PageFrameNumber := 1 } 0 0 0).LargePage = false ∧
      chainEnvironment.tableOf (chainEnvironment.pdEntry { PageFrameNumber := 1 } 0 0 0) ≠ 0 ∧
      (chainEnvironment.ptEntry { PageFrameNumber := 1 } 0 0 0 0).Present = true ∧
      chainEnvironment.leafOf (chainEnvironment.ptEntry { PageFrameNumber := 1 } 0 0 0 0)
        = some (.Pml1 0x5000)) ∧
    (ExecTrapTraverseThroughOsPageTables chainEnvironment { PageFrameNumber := 1 }
      { PageFrameNumber := 9 } closedWalkState).1 = true ∧
    ((ExecTrapTraverseThroughOsPageTables chainEnvironment { PageFrameNumber := 1 }
      { PageFrameNumber := 9 } closedWalkState).2.leaf (.Pml1 0x4000)).ReadAccess = true ∧
    ((ExecTrapTraverseThroughOsPageTables chainEnvironment { PageFrameNumber := 1 }
      { PageFrameNumber := 9 } closedWalkState).2.leaf (.Pml1 0x5000)).ReadAccess = false := by
  refine ⟨by decide, by decide, ?_, ?_⟩
  · set_option maxRecDepth 1000000 in decide
  · set_option maxRecDepth 1000000 in decide

/-- C25 (amended): after `ExecTrapTraverseThroughOsPageTables` has returned `TRUE` (the root
table of `TargetCr3` can be translated), the EPT leaf that `EptGetPml1OrPml2Entry` gives for
each of the following frames has `ReadAccess` and `WriteAccess` set: the root frame named by
`TargetCr3`; the frame named by every present PML4 entry; the frame named by every present
page-directory-pointer entry under a present PML4 entry whose table can be translated; the frame
named by every present page-directory entry under such a page-directory-pointer entry that is
not a large page and whose table can be translated and is not mapped at `0xfffffffffffffe00`.
Entries of the fourth level, the page tables, are not examined: an EPT leaf that belongs to none
of the frames listed is exactly as it was before the call. -/
theorem C25_walk_sets_read_write (O : PageWalkEnvironment) (TargetCr3 KernelCr3 : CR3_TYPE)
    (s : PageWalkState)
    (hroot : O.PhysicalAddressToVirtualAddress (TargetCr3.PageFrameNumber <<< 12) ≠ 0) :
    (ExecTrapTraverseThroughOsPageTables O TargetCr3 KernelCr3 s).1 = true ∧
    (∀ r, O.EptGetPml1OrPml2Entry (TargetCr3.PageFrameNumber <<< 12) = some r →
      ((ExecTrapTraverseThroughOsPageTables O TargetCr3 KernelCr3 s).2.leaf r).ReadAccess
          = true ∧
      ((ExecTrapTraverseThroughOsPageTables O TargetCr3 KernelCr3 s).2.leaf r).WriteAccess
          = true) ∧
    (∀ i r, i < 512 → (O.pml4Entry TargetCr3 i).Present = true →
      O.leafOf (O.pml4Entry TargetCr3 i) = some r →
      ((ExecTrapTraverseThroughOsPageTables O TargetCr3 KernelCr3 s).2.leaf r).ReadAccess
          = true ∧
      ((ExecTrapTraverseThroughOsPageTables O TargetCr3 KernelCr3 s).2.leaf r).WriteAccess
          = true) ∧
    (∀ i j r, i < 512 → (O.pml4Entry TargetCr3 i).Present = true →
      O.tableOf (O.pml4Entry TargetCr3 i) ≠ 0 →
      j < 512 → (O.pdptEntry TargetCr3 i j).Present = true →
      O.leafOf (O.pdptEntry TargetCr3 i j) = some r →
      ((ExecTrapTraverseThroughOsPageTables O TargetCr3 KernelCr3 s).2.leaf r).ReadAccess
          = true ∧
      ((ExecTrapTraverseThroughOsPageTables O TargetCr3 KernelCr3 s).2.leaf r).WriteAccess
          = true) ∧
    (∀ i j k r, i < 512 → (O.pml4Entry TargetCr3 i).Present = true →
      O.tableOf (O.pml4Entry TargetCr3 i) ≠ 0 →
      j < 512 → (O.pdptEntry TargetCr3 i j).Present = true →
      (O.pdptEntry TargetCr3 i j).LargePage = false →
      O.tableOf (O.pdptEntry TargetCr3 i j) ≠ 0 →
      O.tableOf (O.pdptEntry TargetCr3 i j) ≠ 0xfffffffffffffe00 →
      k < 512 → (O.pdEntry TargetCr3 i j k).Present = true →
      O.leafOf (O.pdEntry TargetCr3 i j k) = some r →
      ((ExecTrapTraverseThroughOsPageTables O TargetCr3 KernelCr3 s).2.leaf r).ReadAccess
          = true ∧
      ((ExecTrapTraverseThroughOsPageTables O TargetCr3 KernelCr3 s).2.leaf r).WriteAccess
          = true) ∧
    (∀ r, O.EptGetPml1OrPml2Entry (TargetCr3.PageFrameNumber <<< 12) ≠ some r →
      (∀ i, i < 512 → (O.pml4Entry TargetCr3 i).Present = true →
        O.leafOf (O.pml4Entry TargetCr3 i) ≠ some r) →
      (∀ i j, i < 512 → (O.pml4Entry TargetCr3 i).Present = true →
        O.tableOf (O.pml4Entry TargetCr3 i) ≠ 0 →
        j < 512 → (O.pdptEntry TargetCr3 i j).Present = true →
        O.leafOf (O.pdptEntry TargetCr3 i j) ≠ some r) →
      (∀ i j k, i < 512 → (O.pml4Entry TargetCr3 i).Present = true →
        O.tableOf (O.pml4Entry TargetCr3 i) ≠ 0 →
        j < 512 → (O.pdptEntry TargetCr3 i j).Present = true →
        (O.pdptEntry TargetCr3 i j).LargePage = false →
        O.tableOf (O.pdptEntry TargetCr3 i j) ≠ 0 →
        O.tableOf (O.pdptEntry TargetCr3 i j) ≠ 0xfffffffffffffe00 →
        k < 512 → (O.pdEntry TargetCr3 i j k).Present = true →
        O.leafOf (O.pdEntry TargetCr3 i j k) ≠ some r) →
      (ExecTrapTraverseThroughOsPageTables O TargetCr3 KernelCr3 s).2.leaf r = s.leaf r) := by
  rw [traverse_eq, if_neg hroot]
  have hmono : ∀ (r : EptLeaf) (x : PageWalkState), x.readWrite r →
      (forLoop 512 (walkPml4Entry O
        (O.PhysicalAddressToVirtualAddress (TargetCr3.PageFrameNumber <<< 12))) x).readWrite
        r :=
    fun r x hx => forLoop_invariant (fun y : PageWalkState => y.readWrite r) _
      (fun i y hy => walkPml4Entry_mono O _ i r y hy) 512 x hx
  have hfin : ∀ (r : EptLeaf) (x : PageWalkState), x.readWrite r →
      ((SwitchToPreviousProcess s.Cr3 x).leaf r).ReadAccess = true ∧
      ((SwitchToPreviousProcess s.Cr3 x).leaf r).WriteAccess = true := by
    intro r x hx
    rw [switchToPreviousProcess_leaf]
    exact hx
  refine ⟨rfl, fun r hl => ?_, fun i r hi hp hl => ?_, fun i j r hi hp hva hj hpj hl => ?_,
    fun i j k r hi hp hva hj hpj hlarge hvj hfe hk hpk hl => ?_,
    fun r h0 h1 h2 h3 => ?_⟩
  · exact hfin r _ (hmono r _ (allowReadWriteOfFrame_establish O _ r _ hl))
  · exact hfin r _ (forLoop_establish_lt (fun y : PageWalkState => y.readWrite r) _ 512 i hi
      (fun a y hy => walkPml4Entry_mono O _ a r y hy)
      (fun y => walkPml4Entry_establish O _ i r y hp hl) _)
  · exact hfin r _ (forLoop_establish_lt (fun y : PageWalkState => y.readWrite r) _ 512 i hi
      (fun a y hy => walkPml4Entry_mono O _ a r y hy)
      (fun y => walkPml4Entry_establish_child O _ i j r y hp hva hj hpj hl) _)
  · exact hfin r _ (forLoop_establish_lt (fun y : PageWalkState => y.readWrite r) _ 512 i hi
      (fun a y hy => walkPml4Entry_mono O _ a r y hy)
      (fun y => walkPml4Entry_establish_grandchild O _ i j k r y hp hva hj hpj hlarge hvj hfe
        hk hpk hl) _)
  · rw [switchToPreviousProcess_leaf]
    have hstart : (allowReadWriteOfFrame O (TargetCr3.PageFrameNumber <<< 12)
        { s with Cr3 := KernelCr3 }).leaf r = s.leaf r := by
      rw [allowReadWriteOfFrame_frame O _ r _ h0]
      cases r <;> rfl
    exact forLoop_invariant_lt (fun y : PageWalkState => y.leaf r = s.leaf r) _ 512
      (fun i y hi hy => (walkPml4Entry_frame O _ i r y
        (fun hp => h1 i hi hp)
        (fun hp hva j hj hpj => h2 i j hi hp hva hj hpj)
        (fun hp hva j hj hpj hlarge hvj hfe k hk hpk =>
          h3 i j k hi hp hva hj hpj hlarge hvj hfe hk hpk)).trans hy) _ hstart

/-- A concrete run of C25 on the chain of page tables rooted at frame 1: the walk returns `TRUE`
and the leaves of frame 1 (the root), frame 2 (named by PML4 entry 0), frame 3 (named by the
page-directory-pointer entry) and frame 4 (named by the page-directory entry) have `ReadAccess`
set. -/
theorem C25_walk_sets_read_write_witness :
    (ExecTrapTraverseThroughOsPageTables chainEnvironment { PageFrameNumber := 1 }
      { PageFrameNumber := 9 } closedWalkState).1 = true ∧
    ((ExecTrapTraverseThroughOsPageTables chainEnvironment { PageFrameNumber := 1 }
      { PageFrameNumber := 9 } closedWalkState).2.leaf (.Pml1 0x1000)).ReadAccess = true ∧
    ((ExecTrapTraverseThroughOsPageTables chainEnvironment { PageFrameNumber := 1 }
      { PageFrameNumber := 9 } closedWalkState).2.leaf (.Pml1 0x2000)).ReadAccess = true ∧
    ((ExecTrapTraverseThroughOsPageTables chainEnvironment { PageFrameNumber := 1 }
      { PageFrameNumber := 9 } closedWalkState).2.leaf (.Pml1 0x3000)).ReadAccess = true ∧
    ((ExecTrapTraverseThroughOsPageTables chainEnvironment { PageFrameNumber := 1 }
      { PageFrameNumber := 9 } closedWalkState).2.leaf (.Pml1 0x4000)).ReadAccess = true :=
  ⟨(C25_walk_sets_read_write chainEnvironment { PageFrameNumber := 1 }
      { PageFrameNumber := 9 } closedWalkState (by decide)).1,
   ((C25_walk_sets_read_write chainEnvironment { PageFrameNumber := 1 }
      { PageFrameNumber := 9 } closedWalkState (by decide)).2.1 (.Pml1 0x1000)
      (by decide)).1,
   ((C25_walk_sets_read_write chainEnvironment { PageFrameNumber := 1 }
      { PageFrameNumber := 9 } closedWalkState (by decide)).2.2.1 0 (.Pml1 0x2000)
      (by decide) (by decide) (by decide)).1,
   ((C25_walk_sets_read_write chainEnvironment { PageFrameNumber := 1 }
      { PageFrameNumber := 9 } closedWalkState (by decide)).2.2.2.1 0 0 (.Pml1 0x3000)
      (by decide) (by decide) (by decide) (by decide) (by decide) (by decide)).1,
   ((C25_walk_sets_read_write chainEnvironment { PageFrameNumber := 1 }
      { PageFrameNumber := 9 } closedWalkState (by decide)).2.2.2.2.1 0 0 0 (.Pml1 0x4000)
      (by decide) (by decide) (by decide) (by decide) (by decide) (by decide) (by decide)
      (by decide) (by decide) (by decide) (by decide)).1⟩

/-! ## Theorems about the unprotected mov-to-CR routine -/

/-- C36 fails on the code for CR4.  With register numbers for CR0 and CR4 that differ, enabling
mov-to-CR exiting through `ProtectedHvSetMovToCrVmexit` writes `MaskRegister` to the guest/host
mask of the named register, and for CR0 it loads the CR0 read shadow with the value of CR0; for
CR4 it loads the CR4 read shadow with the value of CR0 as well (the source passes `__readcr0()`
in both branches), not with the value of CR4. -/
theorem C36_enable_loads_read_shadow_from_cr0 (K : HvConstants) (MaskRegister : Nat)
    (s : HvState)
    (hK : K.VMX_EXIT_QUALIFICATION_REGISTER_CR0 ≠ K.VMX_EXIT_QUALIFICATION_REGISTER_CR4) :
    ProtectedHvSetMovToCrVmexit K true K.VMX_EXIT_QUALIFICATION_REGISTER_CR0 MaskRegister s
      = ((), { s with
                Cr0GuestHostMask := MaskRegister,
                Cr0ReadShadow := s.Cr0,
                VmwriteLog := s.VmwriteLog ++ [(.VMCS_CTRL_CR0_GUEST_HOST_MASK, MaskRegister),
                                               (.VMCS_CTRL_CR0_READ_SHADOW, s.Cr0)] }) ∧
    ProtectedHvSetMovToCrVmexit K true K.VMX_EXIT_QUALIFICATION_REGISTER_CR4 MaskRegister s
      = ((), { s with
                Cr4GuestHostMask := MaskRegister,
                Cr4ReadShadow := s.Cr0,
                VmwriteLog := s.VmwriteLog ++ [(.VMCS_CTRL_CR4_GUEST_HOST_MASK, MaskRegister),
                                               (.VMCS_CTRL_CR4_READ_SHADOW, s.Cr0)] }) := by
  constructor
  · unfold ProtectedHvSetMovToCrVmexit
    rw [if_pos rfl]
    simp [__vmx_vmwrite, __readcr0]
  · unfold ProtectedHvSetMovToCrVmexit
    rw [if_neg (Ne.symm hK), if_pos rfl]
    simp [__vmx_vmwrite, __readcr0]

/-- The failing input of C36: on a core whose CR0 holds `0x80050033` and whose CR4 holds
`0x370678`, enabling exiting for CR4 (register number 4) with mask `0x800` installs the mask and
leaves `0x80050033`, the value of CR0, in the CR4 read shadow; the value of CR4 is not written to
any field. -/
theorem C36_enable_loads_read_shadow_from_cr0_witness :
    (ProtectedHvSetMovToCrVmexit sdkConstants true 4 0x800 armedState).2.Cr4GuestHostMask = 0x800 ∧
    (ProtectedHvSetMovToCrVmexit sdkConstants true 4 0x800 armedState).2.Cr4ReadShadow
      = 0x80050033 ∧
    armedState.Cr4 = 0x370678 ∧
    (ProtectedHvSetMovToCrVmexit sdkConstants true 4 0x800 armedState).2.VmwriteLog
      = [(.VMCS_CTRL_CR4_GUEST_HOST_MASK, 0x800), (.VMCS_CTRL_CR4_READ_SHADOW, 0x80050033)] :=
  ⟨(congrArg (fun r => r.2.Cr4GuestHostMask)
      (C36_enable_loads_read_shadow_from_cr0 sdkConstants 0x800 armedState (by decide)).2).trans
      (by decide),
   (congrArg (fun r => r.2.Cr4ReadShadow)
      (C36_enable_loads_read_shadow_from_cr0 sdkConstants 0x800 armedState (by decide)).2).trans
      (by decide),
   by decide,
   (congrArg (fun r => r.2.VmwriteLog)
      (C36_enable_loads_read_shadow_from_cr0 sdkConstants 0x800 armedState (by decide)).2).trans
      (by decide)⟩

/-- C37: `ProtectedHvSetMov2CrExiting` is the unprotected operation.  It takes neither the core
nor any answer of the event subsystem, and for every input its result is the result of
`ProtectedHvSetMovToCrVmexit` on the same arguments.  A disable through it writes 0 to the CR0
guest/host mask when the register is CR0 and 0 to the CR4 guest/host mask when the register is
CR4, whatever the debugger state `D` is; in particular when the core has control-register-modified
events, in which case the protected routine `ProtectedHvSetMovControlRegsVmexit`, called with a
pass-over that lacks `PASSING_OVER_MOV_TO_CONTROL_REGS_EVENTS`, ignores the same request. -/
theorem C37_mov2cr_exiting_is_unprotected (K : HvConstants) (D : DebuggerState)
    (VCpu : VIRTUAL_MACHINE_STATE) (Set : Bool) (p ControlRegister MaskRegister : Nat)
    (s : HvState)
    (hK : K.VMX_EXIT_QUALIFICATION_REGISTER_CR0 ≠ K.VMX_EXIT_QUALIFICATION_REGISTER_CR4)
    (hp : p &&& K.PASSING_OVER_MOV_TO_CONTROL_REGS_EVENTS = 0)
    (hD : D.DebuggerEventListCountByCore .ControlRegisterModifiedEventsHead VCpu.CoreId ≠ 0) :
    ProtectedHvSetMov2CrExiting K Set ControlRegister MaskRegister s
      = ProtectedHvSetMovToCrVmexit K Set ControlRegister MaskRegister s ∧
    (ProtectedHvSetMov2CrExiting K false K.VMX_EXIT_QUALIFICATION_REGISTER_CR0 MaskRegister
        s).2.Cr0GuestHostMask = 0 ∧
    (ProtectedHvSetMov2CrExiting K false K.VMX_EXIT_QUALIFICATION_REGISTER_CR0 MaskRegister
        s).2.VmwriteLog
      = s.VmwriteLog ++ [(.VMCS_CTRL_CR0_GUEST_HOST_MASK, 0), (.VMCS_CTRL_CR0_READ_SHADOW, 0)] ∧
    (ProtectedHvSetMov2CrExiting K false K.VMX_EXIT_QUALIFICATION_REGISTER_CR4 MaskRegister
        s).2.Cr4GuestHostMask = 0 ∧
    (ProtectedHvSetMov2CrExiting K false K.VMX_EXIT_QUALIFICATION_REGISTER_CR4 MaskRegister
        s).2.VmwriteLog
      = s.VmwriteLog ++ [(.VMCS_CTRL_CR4_GUEST_HOST_MASK, 0), (.VMCS_CTRL_CR4_READ_SHADOW, 0)] ∧
    ProtectedHvSetMovControlRegsVmexit K D VCpu false p ControlRegister MaskRegister s
      = ((), s) := by
  refine ⟨rfl, ?_, ?_, ?_, ?_, setMovCr_veto K D VCpu p ControlRegister MaskRegister s ⟨hp, hD⟩⟩
  · unfold ProtectedHvSetMov2CrExiting ProtectedHvSetMovToCrVmexit
    rw [if_pos rfl]
    simp [__vmx_vmwrite]
  · unfold ProtectedHvSetMov2CrExiting ProtectedHvSetMovToCrVmexit
    rw [if_pos rfl]
    simp [__vmx_vmwrite]
  · unfold ProtectedHvSetMov2CrExiting ProtectedHvSetMovToCrVmexit
    rw [if_neg (Ne.symm hK), if_pos rfl]
    simp [__vmx_vmwrite]
  · unfold ProtectedHvSetMov2CrExiting ProtectedHvSetMovToCrVmexit
    rw [if_neg (Ne.symm hK), if_pos rfl]
    simp [__vmx_vmwrite]

/-- A concrete run of C37 on core 0, which has a control-register-modified event: the disable
through `ProtectedHvSetMov2CrExiting` zeroes the installed CR0 guest/host mask `0x10000`, while
the same request through the protected routine leaves the state untouched. -/
theorem C37_mov2cr_exiting_is_unprotected_witness :
    busyDebugger.DebuggerEventListCountByCore .ControlRegisterModifiedEventsHead 0 ≠ 0 ∧
    armedState.Cr0GuestHostMask = 0x10000 ∧
    (ProtectedHvSetMov2CrExiting sdkConstants false 0 0 armedState).2.Cr0GuestHostMask = 0 ∧
    ProtectedHvSetMovControlRegsVmexit sdkConstants busyDebugger { CoreId := 0 } false 0 0 0
      armedState = ((), armedState) :=
  ⟨by decide, by decide,
   (C37_mov2cr_exiting_is_unprotected sdkConstants busyDebugger { CoreId := 0 } false 0 0 0
      armedState (by decide) (by decide) (by decide)).2.1,
   (C37_mov2cr_exiting_is_unprotected sdkConstants busyDebugger { CoreId := 0 } false 0 0 0
      armedState (by decide) (by decide) (by decide)).2.2.2.2.2⟩

/-! ## Theorems about the `NotNormalEptp` flag -/

/-- C38, the claim as stated fails for `ExecTrapRestoreToNormalEptp`: called on the sample core
after `ExecTrapChangeToKernelDisabledMbecEptp`, it leaves `NotNormalEptp = FALSE` although
`PML4[0].ExecuteAccess` is still 0. -/
theorem C38_counterexample :
    (ExecTrapRestoreToNormalEptp
        (ExecTrapChangeToKernelDisabledMbecEptp sampleCore)).VCpu.NotNormalEptp = false ∧
    ((ExecTrapRestoreToNormalEptp
        (ExecTrapChangeToKernelDisabledMbecEptp sampleCore)).EptPageTable.PML4 0).ExecuteAccess
      = false ∧
    ¬ ((ExecTrapRestoreToNormalEptp
          (ExecTrapChangeToKernelDisabledMbecEptp sampleCore)).VCpu.NotNormalEptp = false ↔
        ((ExecTrapRestoreToNormalEptp
            (ExecTrapChangeToKernelDisabledMbecEptp sampleCore)).EptPageTable.PML4
              0).UserModeExecute = true ∧
          ((ExecTrapRestoreToNormalEptp
            (ExecTrapChangeToKernelDisabledMbecEptp sampleCore)).EptPageTable.PML4
              0).ExecuteAccess = true) := by
  decide

/-- C38 (amended): after each of `ExecTrapChangeToNormalMbecEptp`,
`ExecTrapChangeToKernelDisabledMbecEptp` and `ExecTrapChangeToUserDisabledMbecEptp`, called on
any core state, `NotNormalEptp` is `FALSE` exactly when both `UserModeExecute` and
`ExecuteAccess` of `PML4[0]` are set.  `ExecTrapRestoreToNormalEptp` clears `NotNormalEptp` and
leaves `PML4[0]` as it was, so after it the flag agrees with the entry exactly when both bits
were set before the call. -/
theorem C38_not_normal_eptp_agrees_with_pml4 (m : ExecTrapCore) :
    ((ExecTrapChangeToNormalMbecEptp m).VCpu.NotNormalEptp = false ↔
      ((ExecTrapChangeToNormalMbecEptp m).EptPageTable.PML4 0).UserModeExecute = true ∧
        ((ExecTrapChangeToNormalMbecEptp m).EptPageTable.PML4 0).ExecuteAccess = true) ∧
    ((ExecTrapChangeToKernelDisabledMbecEptp m).VCpu.NotNormalEptp = false ↔
      ((ExecTrapChangeToKernelDisabledMbecEptp m).EptPageTable.PML4 0).UserModeExecute = true ∧
        ((ExecTrapChangeToKernelDisabledMbecEptp m).EptPageTable.PML4 0).ExecuteAccess
          = true) ∧
    ((ExecTrapChangeToUserDisabledMbecEptp m).VCpu.NotNormalEptp = false ↔
      ((ExecTrapChangeToUserDisabledMbecEptp m).EptPageTable.PML4 0).UserModeExecute = true ∧
        ((ExecTrapChangeToUserDisabledMbecEptp m).EptPageTable.PML4 0).ExecuteAccess = true) ∧
    (ExecTrapRestoreToNormalEptp m).VCpu.NotNormalEptp = false ∧
    (ExecTrapRestoreToNormalEptp m).EptPageTable.PML4 0 = m.EptPageTable.PML4 0 ∧
    (((ExecTrapRestoreToNormalEptp m).VCpu.NotNormalEptp = false ↔
        ((ExecTrapRestoreToNormalEptp m).EptPageTable.PML4 0).UserModeExecute = true ∧
          ((ExecTrapRestoreToNormalEptp m).EptPageTable.PML4 0).ExecuteAccess = true) ↔
      ((m.EptPageTable.PML4 0).UserModeExecute = true ∧
        (m.EptPageTable.PML4 0).ExecuteAccess = true)) := by
  refine ⟨?_, ?_, ?_, rfl, rfl, ?_⟩
  · simp [ExecTrapChangeToNormalMbecEptp, setPml4UserModeExecute, setPml4ExecuteAccess,
      EptInveptSingleContext, setNotNormalEptp]
  · simp [ExecTrapChangeToKernelDisabledMbecEptp, setPml4UserModeExecute, setPml4ExecuteAccess,
      EptInveptSingleContext, setNotNormalEptp]
  · simp [ExecTrapChangeToUserDisabledMbecEptp, setPml4UserModeExecute, setPml4ExecuteAccess,
      EptInveptSingleContext, setNotNormalEptp]
  · simp [ExecTrapRestoreToNormalEptp, setNotNormalEptp]

/-! ## Theorems about the arbiter and the other cores -/

theorem changeExceptionBitmap_agreeOnCore (K : HvConstants) (D D' : DebuggerState)
    (VCpu : VIRTUAL_MACHINE_STATE) (CurrentMask PassOver : Nat) (s : HvState)
    (h : D.agreeOnCore VCpu.CoreId D') :
    ProtectedHvChangeExceptionBitmapWithIntegrityCheck K D VCpu CurrentMask PassOver s
      = ProtectedHvChangeExceptionBitmapWithIntegrityCheck K D' VCpu CurrentMask PassOver s := by
  obtain ⟨h1, h2, h3, h4, h5, h6, -⟩ := h
  unfold ProtectedHvChangeExceptionBitmapWithIntegrityCheck
  simp only [h1, h2, h3, h4, h5, h6]

theorem applySetExternalInterrupt_agreeOnCore (K : HvConstants) (D D' : DebuggerState)
    (VCpu : VIRTUAL_MACHINE_STATE) (Set : Bool) (PassOver : Nat) (s : HvState)
    (h : D.agreeOnCore VCpu.CoreId D') :
    ProtectedHvApplySetExternalInterruptExiting K D VCpu Set PassOver s
      = ProtectedHvApplySetExternalInterruptExiting K D' VCpu Set PassOver s := by
  obtain ⟨-, h2, -, h4, -, -, -⟩ := h
  unfold ProtectedHvApplySetExternalInterruptExiting
  simp only [h2, h4]

theorem setTscVmexit_agreeOnCore (K : HvConstants) (D D' : DebuggerState)
    (VCpu : VIRTUAL_MACHINE_STATE) (Set : Bool) (PassOver : Nat) (s : HvState)
    (h : D.agreeOnCore VCpu.CoreId D') :
    ProtectedHvSetTscVmexit K D VCpu Set PassOver s
      = ProtectedHvSetTscVmexit K D' VCpu Set PassOver s := by
  obtain ⟨-, h2, -, -, -, -, h7⟩ := h
  unfold ProtectedHvSetTscVmexit
  simp only [h2, h7]

theorem setMovDebugRegsVmexit_agreeOnCore (K : HvConstants) (D D' : DebuggerState)
    (VCpu : VIRTUAL_MACHINE_STATE) (Set : Bool) (PassOver : Nat) (s : HvState)
    (h : D.agreeOnCore VCpu.CoreId D') :
    ProtectedHvSetMovDebugRegsVmexit K D VCpu Set PassOver s
      = ProtectedHvSetMovDebugRegsVmexit K D' VCpu Set PassOver s := by
  obtain ⟨-, h2, -, h4, -, -, -⟩ := h
  unfold ProtectedHvSetMovDebugRegsVmexit
  simp only [h2, h4]

theorem setMovControlRegsVmexit_agreeOnCore (K : HvConstants) (D D' : DebuggerState)
    (VCpu : VIRTUAL_MACHINE_STATE) (Set : Bool) (PassOver ControlRegister MaskRegister : Nat)
    (s : HvState) (h : D.agreeOnCore VCpu.CoreId D') :
    ProtectedHvSetMovControlRegsVmexit K D VCpu Set PassOver ControlRegister MaskRegister s
      = ProtectedHvSetMovControlRegsVmexit K D' VCpu Set PassOver ControlRegister MaskRegister
          s := by
  obtain ⟨-, h2, -, -, -, -, -⟩ := h
  unfold ProtectedHvSetMovControlRegsVmexit
  simp only [h2]

theorem setMovToCr3Vmexit_agreeOnCore (K : HvConstants) (D D' : DebuggerState)
    (VCpu : VIRTUAL_MACHINE_STATE) (Set : Bool) (PassOver : Nat) (s : HvState)
    (h : D.agreeOnCore VCpu.CoreId D') :
    ProtectedHvSetMovToCr3Vmexit K D VCpu Set PassOver s
      = ProtectedHvSetMovToCr3Vmexit K D' VCpu Set PassOver s := by
  obtain ⟨-, -, -, h4, h5, -, -⟩ := h
  unfold ProtectedHvSetMovToCr3Vmexit
  simp only [h4, h5]

/-- C40: arbiter decisions are per core.  Let `D` and `D'` be two debugger states that give the
core of `VCpu` the same demand sources (`DebuggerState.agreeOnCore`: same per-core answers for
that core, same global flags and hook counts) and that may differ in every event count, event
mask and tracing flag of every other core.  Started from the same hardware state, every arbiter
operation called for that core ends in the same hardware state under `D` and under `D'`: the
same VMCS values and the same sequence of `vmwrite`s.  This holds for the six internal routines
with an arbitrary pass-over and for every entry point built on them. -/
theorem C40_arbiter_decisions_are_per_core (K : HvConstants) (D D' : DebuggerState)
    (VCpu : VIRTUAL_MACHINE_STATE) (s : HvState) (h : D.agreeOnCore VCpu.CoreId D') :
    (∀ CurrentMask PassOver : Nat,
      ProtectedHvChangeExceptionBitmapWithIntegrityCheck K D VCpu CurrentMask PassOver s
        = ProtectedHvChangeExceptionBitmapWithIntegrityCheck K D' VCpu CurrentMask PassOver s) ∧
    (∀ (Set : Bool) (PassOver : Nat),
      ProtectedHvApplySetExternalInterruptExiting K D VCpu Set PassOver s
        = ProtectedHvApplySetExternalInterruptExiting K D' VCpu Set PassOver s) ∧
    (∀ (Set : Bool) (PassOver : Nat),
      ProtectedHvSetTscVmexit K D VCpu Set PassOver s
        = ProtectedHvSetTscVmexit K D' VCpu Set PassOver s) ∧
    (∀ (Set : Bool) (PassOver : Nat),
      ProtectedHvSetMovDebugRegsVmexit K D VCpu Set PassOver s
        = ProtectedHvSetMovDebugRegsVmexit K D' VCpu Set PassOver s) ∧
    (∀ (Set : Bool) (PassOver ControlRegister MaskRegister : Nat),
      ProtectedHvSetMovControlRegsVmexit K D VCpu Set PassOver ControlRegister MaskRegister s
        = ProtectedHvSetMovControlRegsVmexit K D' VCpu Set PassOver ControlRegister
            MaskRegister s) ∧
    (∀ (Set : Bool) (PassOver : Nat),
      ProtectedHvSetMovToCr3Vmexit K D VCpu Set PassOver s
        = ProtectedHvSetMovToCr3Vmexit K D' VCpu Set PassOver s) ∧
    (∀ IdtIndex : Nat,
      ProtectedHvSetExceptionBitmap K D VCpu IdtIndex s
        = ProtectedHvSetExceptionBitmap K D' VCpu IdtIndex s) ∧
    (∀ IdtIndex : Nat,
      ProtectedHvUnsetExceptionBitmap K D VCpu IdtIndex s
        = ProtectedHvUnsetExceptionBitmap K D' VCpu IdtIndex s) ∧
    ProtectedHvResetExceptionBitmapToClearEvents K D VCpu s
      = ProtectedHvResetExceptionBitmapToClearEvents K D' VCpu s ∧
    ProtectedHvRemoveUndefinedInstructionForDisablingSyscallSysretCommands K D VCpu s
      = ProtectedHvRemoveUndefinedInstructionForDisablingSyscallSysretCommands K D' VCpu s ∧
    (∀ Set : Bool,
      ProtectedHvSetExternalInterruptExiting K D VCpu Set s
        = ProtectedHvSetExternalInterruptExiting K D' VCpu Set s) ∧
    ProtectedHvExternalInterruptExitingForDisablingInterruptCommands K D VCpu s
      = ProtectedHvExternalInterruptExitingForDisablingInterruptCommands K D' VCpu s ∧
    (∀ Set : Bool,
      ProtectedHvSetRdtscExiting K D VCpu Set s = ProtectedHvSetRdtscExiting K D' VCpu Set s) ∧
    ProtectedHvDisableRdtscExitingForDisablingTscCommands K D VCpu s
      = ProtectedHvDisableRdtscExitingForDisablingTscCommands K D' VCpu s ∧
    (∀ Set : Bool,
      ProtectedHvSetMovDebugRegsExiting K D VCpu Set s
        = ProtectedHvSetMovDebugRegsExiting K D' VCpu Set s) ∧
    ProtectedHvDisableMovDebugRegsExitingForDisablingDrCommands K D VCpu s
      = ProtectedHvDisableMovDebugRegsExitingForDisablingDrCommands K D' VCpu s ∧
    (∀ ControlRegister MaskRegister : Nat,
      ProtectedHvDisableMovControlRegsExitingForDisablingCrCommands K D VCpu ControlRegister
          MaskRegister s
        = ProtectedHvDisableMovControlRegsExitingForDisablingCrCommands K D' VCpu
            ControlRegister MaskRegister s) ∧
    (∀ Set : Bool,
      ProtectedHvSetMov2Cr3Exiting K D VCpu Set s
        = ProtectedHvSetMov2Cr3Exiting K D' VCpu Set s) := by
  refine ⟨?_, ?_, ?_, ?_, ?_, ?_, ?_, ?_, ?_, ?_, ?_, ?_, ?_, ?_, ?_, ?_, ?_, ?_⟩
  · exact fun m p => changeExceptionBitmap_agreeOnCore K D D' VCpu m p s h
  · exact fun b p => applySetExternalInterrupt_agreeOnCore K D D' VCpu b p s h
  · exact fun b p => setTscVmexit_agreeOnCore K D D' VCpu b p s h
  · exact fun b p => setMovDebugRegsVmexit_agreeOnCore K D D' VCpu b p s h
  · exact fun b p c m => setMovControlRegsVmexit_agreeOnCore K D D' VCpu b p c m s h
  · exact fun b p => setMovToCr3Vmexit_agreeOnCore K D D' VCpu b p s h
  · exact fun i => changeExceptionBitmap_agreeOnCore K D D' VCpu _ _ s h
  · exact fun i => changeExceptionBitmap_agreeOnCore K D D' VCpu _ _ s h
  · exact changeExceptionBitmap_agreeOnCore K D D' VCpu _ _ s h
  · exact changeExceptionBitmap_agreeOnCore K D D' VCpu _ _ s h
  · exact fun b => applySetExternalInterrupt_agreeOnCore K D D' VCpu b _ s h
  · exact applySetExternalInterrupt_agreeOnCore K D D' VCpu _ _ s h
  · exact fun b => setTscVmexit_agreeOnCore K D D' VCpu b _ s h
  · exact setTscVmexit_agreeOnCore K D D' VCpu _ _ s h
  · exact fun b => setMovDebugRegsVmexit_agreeOnCore K D D' VCpu b _ s h
  · exact setMovDebugRegsVmexit_agreeOnCore K D D' VCpu _ _ s h
  · exact fun c m => setMovControlRegsVmexit_agreeOnCore K D D' VCpu _ _ c m s h
  · exact fun b => setMovToCr3Vmexit_agreeOnCore K D D' VCpu b _ s h

/-- Two concrete runs of C40 on core 0.  With `busyDebugger` and with `busyElsewhereDebugger`,
which differ on every other core only, the request to disable RDTSC exiting is vetoed in both
runs and the state stays the armed one.  With `idleDebugger` and with `idleHereDebugger`, in
which the other cores have events and tracing flags, the request clears the RDTSC-exiting bit
(`0x809004` becomes `0x808004`) in both runs, and the exception bitmap written for vector 3 is
`0x4a` in both runs. -/
theorem C40_arbiter_decisions_are_per_core_witness :
    busyElsewhereDebugger.DebuggerEventListCountByCore .TscInstructionExecutionEventsHead 1 = 5 ∧
    busyDebugger.DebuggerEventListCountByCore .TscInstructionExecutionEventsHead 1 = 0 ∧
    ProtectedHvSetRdtscExiting sdkConstants busyElsewhereDebugger { CoreId := 0 } false
      armedState = ((), armedState) ∧
    (ProtectedHvSetRdtscExiting sdkConstants idleHereDebugger { CoreId := 0 } false
      armedState).2.ProcessorBasedVmExecutionControls = 0x808004 ∧
    (ProtectedHvSetExceptionBitmap sdkConstants idleHereDebugger { CoreId := 0 } 3
      armedState).2.ExceptionBitmap = 0x4a :=
  ⟨by decide, by decide,
   (((C40_arbiter_decisions_are_per_core sdkConstants busyDebugger busyElsewhereDebugger
      { CoreId := 0 } armedState
        ⟨rfl, fun _ => rfl, rfl, fun _ => rfl, rfl, fun _ => rfl, rfl⟩).2.2.2.2.2.2.2.2.2.2.2.2.1
        false).symm).trans (by decide),
   (congrArg (fun r => r.2.ProcessorBasedVmExecutionControls)
      ((C40_arbiter_decisions_are_per_core sdkConstants idleDebugger idleHereDebugger
        { CoreId := 0 } armedState
        ⟨rfl, fun _ => rfl, rfl, fun _ => rfl, rfl, fun _ => rfl, rfl⟩).2.2.2.2.2.2.2.2.2.2.2.2.1
          false).symm).trans (by decide),
   (congrArg (fun r => r.2.ExceptionBitmap)
      ((C40_arbiter_decisions_are_per_core sdkConstants idleDebugger idleHereDebugger
        { CoreId := 0 } armedState
        ⟨rfl, fun _ => rfl, rfl, fun _ => rfl, rfl, fun _ => rfl, rfl⟩).2.2.2.2.2.2.1 3).symm).trans
      (by decide)⟩

/-! ## Theorems about the character tests and the numerals of the script engine -/

/-- C31 fails on the code.  `IsUnderscore(c)` returns 1 for every character from `'_'` (95)
upwards, because the source compares with `>=`: it returns 1 if and only if `c >= '_'`.  For the
letter `'a'` and for the brace `'{'` it returns 1 although they are not the underscore; for the
underscore it returns 1 and for `'Z'` it returns 0. -/
theorem C31_is_underscore_accepts_every_later_character :
    (∀ c : Int, IsUnderscore c = 1 ↔ c ≥ charCode '_') ∧
    IsUnderscore (charCode 'a') = 1 ∧ charCode 'a' ≠ charCode '_' ∧
    IsUnderscore (charCode '{') = 1 ∧
    IsUnderscore (charCode '_') = 1 ∧
    IsUnderscore (charCode 'Z') = 0 := by
  refine ⟨fun c => ?_, by decide, by decide, by decide, by decide, by decide⟩
  unfold IsUnderscore
  split_ifs with h
  · simp [h]
  · simp [h]

theorem hexToIntStep_of_isHex (Acc : Nat) (c : Int) (h : IsHex c = 1) :
    HexToIntStep Acc c = (16 * Acc + hexDigitValue c) % 2 ^ 64 := by
  unfold IsHex at h
  unfold HexToIntStep hexDigitValue toUINT64 toCHAR
  simp only [charCode, Char.reduceToNat, Nat.shiftLeft_eq] at h ⊢
  split_ifs at h ⊢ <;> omega

theorem hexToInt_append (s : List Int) (c : Int) :
    HexToInt (s ++ [c]) = HexToIntStep (HexToInt s) c := by
  simp [HexToInt, List.foldl_append]

theorem base16Value_append (s : List Int) (c : Int) :
    base16Value (s ++ [c]) = hexDigitValue c + 16 * base16Value s := by
  simp [base16Value, Nat.ofDigits_cons]

theorem hexToInt_eq_base16Value_mod (s : List Int) (h : ∀ c ∈ s, IsHex c = 1) :
    HexToInt s = base16Value s % 2 ^ 64 := by
  induction s using List.reverseRecOn with
  | nil => rfl
  | append_singleton s c ih =>
    have hs : ∀ x ∈ s, IsHex x = 1 := fun x hx => h x (by simp [hx])
    have hc : IsHex c = 1 := h c (by simp)
    rw [hexToInt_append, hexToIntStep_of_isHex _ _ hc, ih hs, base16Value_append]
    omega
theorem lowerCase_of_isHex (c c' : Int) (h : IsHex c = 1) (hl : lowerCase c' = lowerCase c) :
    IsHex c' = 1 ∧ hexDigitValue c' = hexDigitValue c := by
  unfold IsHex at h
  unfold lowerCase at hl
  unfold IsHex hexDigitValue
  simp only [charCode, Char.reduceToNat] at h hl ⊢
  split_ifs at h hl ⊢ <;> omega

theorem map_lowerCase_of_isHex (s : List Int) (h : ∀ c ∈ s, IsHex c = 1) :
    ∀ s' : List Int, s'.map lowerCase = s.map lowerCase →
      (∀ c ∈ s', IsHex c = 1) ∧ s'.map hexDigitValue = s.map hexDigitValue := by
  induction s with
  | nil =>
    intro s' hl
    have : s' = [] := by simpa using hl
    subst this
    simp
  | cons c s ih =>
    intro s' hl
    cases s' with
    | nil => simp at hl
    | cons c' s' =>
      simp only [List.map_cons, List.cons.injEq] at hl
      have hc := lowerCase_of_isHex c c' (h c (by simp)) hl.1
      have hs := ih (fun x hx => h x (by simp [hx])) s' hl.2
      refine ⟨fun x hx => ?_, ?_⟩
      · rcases List.mem_cons.mp hx with rfl | hx
        · exact hc.1
        · exact hs.1 x hx
      · simp [hc.2, hs.2]

theorem base16Value_lt (s : List Int) (h : ∀ c ∈ s, IsHex c = 1) :
    base16Value s < 16 ^ s.length := by
  have hd : ∀ x ∈ (s.map hexDigitValue).reverse, x < 16 := by
    intro x hx
    simp only [List.mem_reverse, List.mem_map] at hx
    obtain ⟨c, hc, rfl⟩ := hx
    have := h c hc
    unfold IsHex at this
    unfold hexDigitValue
    simp only [charCode, Char.reduceToNat] at this ⊢
    split_ifs at this ⊢ <;> omega
  have := Nat.ofDigits_lt_base_pow_length (b := 16) (by norm_num) hd
  simpa [base16Value] using this

/-- C33: for every string `s` whose characters all satisfy `IsHex`, `HexToInt(s)` equals the
base-16 value of `s` modulo `2 ^ 64`; when `s` has at most 16 characters it equals the base-16
value itself; and it is independent of letter case: every string `s'` that differs from `s` only
in the case of its letters gives the same result. -/
theorem C33_hex_to_int_value (s : List Int) (h : ∀ c ∈ s, IsHex c = 1) :
    HexToInt s = base16Value s % 2 ^ 64 ∧
    (s.length ≤ 16 → HexToInt s = base16Value s) ∧
    (∀ s' : List Int, s'.map lowerCase = s.map lowerCase →
      HexToInt s' = HexToInt s ∧ base16Value s' = base16Value s) := by
  refine ⟨hexToInt_eq_base16Value_mod s h, fun hlen => ?_, fun s' hl => ?_⟩
  · rw [hexToInt_eq_base16Value_mod s h]
    apply Nat.mod_eq_of_lt
    calc base16Value s < 16 ^ s.length := base16Value_lt s h
      _ ≤ 16 ^ 16 := Nat.pow_le_pow_right (by norm_num) hlen
      _ = 2 ^ 64 := by norm_num
  · obtain ⟨h', hv⟩ := map_lowerCase_of_isHex s h s' hl
    have hb : base16Value s' = base16Value s := by
      unfold base16Value
      rw [hv]
    exact ⟨by rw [hexToInt_eq_base16Value_mod s' h', hexToInt_eq_base16Value_mod s h, hb], hb⟩

/-- Concrete runs of C33: `HexToInt("1aF")` is `0x1af`, and so is `HexToInt("1Af")`; on the
17-digit string `"10000000000000000"`, whose base-16 value is `2 ^ 64`, the result wraps around
to 0. -/
theorem C33_hex_to_int_value_witness :
    HexToInt [charCode '1', charCode 'a', charCode 'F'] = 0x1af ∧
    HexToInt [charCode '1', charCode 'A', charCode 'f']
      = HexToInt [charCode '1', charCode 'a', charCode 'F'] ∧
    base16Value (charCode '1' :: List.replicate 16 (charCode '0')) = 2 ^ 64 ∧
    HexToInt (charCode '1' :: List.replicate 16 (charCode '0')) = 0 :=
  ⟨((C33_hex_to_int_value [charCode '1', charCode 'a', charCode 'F'] (by decide)).2.1
      (by decide)).trans (by decide),
   ((C33_hex_to_int_value [charCode '1', charCode 'a', charCode 'F'] (by decide)).2.2
      [charCode '1', charCode 'A', charCode 'f'] (by decide)).1,
   by decide,
   ((C33_hex_to_int_value (charCode '1' :: List.replicate 16 (charCode '0')) (by decide)).1).trans
      (by decide)⟩

/-! ## Theorems about tokens -/

theorem compareStrings_eq_zero_iff (s t : List Int) : compareStrings s t = 0 ↔ s = t := by
  induction s generalizing t with
  | nil => cases t <;> simp [compareStrings]
  | cons a s ih =>
    cases t with
    | nil => simp [compareStrings]
    | cons b t =>
      unfold compareStrings
      by_cases hab : a = b
      · simp [hab, ih]
      · rw [if_neg hab]
        split_ifs <;> simp [hab]

/-- C32 fails on the code.  The doc comment of `IsEqual` says that it checks whether the value
and the type of the two tokens are the same, but the routine compares values for `SPECIAL_TOKEN`
only: for two `DECIMAL` tokens with the different values `"7"` and `"12"` it returns 1.  It also
returns 1 for a `GLOBAL_ID` token and a `GLOBAL_UNRESOLVED_ID` token, whose types differ. -/
theorem C32_is_equal_ignores_values :
    IsEqual decimalSeven decimalTwelve = some 1 ∧
    decimalSeven.TokenType = decimalTwelve.TokenType ∧
    stringOf decimalSeven.Value ≠ stringOf decimalTwelve.Value ∧
    IsEqual { decimalSeven with TokenType := .GLOBAL_ID }
      { decimalSeven with TokenType := .GLOBAL_UNRESOLVED_ID } = some 1 ∧
    (SCRIPT_ENGINE_TOKEN_TYPE.GLOBAL_ID ≠ SCRIPT_ENGINE_TOKEN_TYPE.GLOBAL_UNRESOLVED_ID) := by
  decide

/-- What `IsEqual(Token1, Token2)` computes: it returns 1 if and only if the two tokens have the
same type and, when that type is `SPECIAL_TOKEN`, the same string as value, or one of them is a
`GLOBAL_ID` and the other a `GLOBAL_UNRESOLVED_ID`, or one of them is a `LOCAL_ID` and the other
a `LOCAL_UNRESOLVED_ID`.  In every other case it returns 0, except that the comparison of two
`SPECIAL_TOKEN` tokens is undefined when one of the value blocks holds no string. -/
theorem isEqual_eq_one_iff (Token1 Token2 : SCRIPT_ENGINE_TOKEN) :
    (IsEqual Token1 Token2 = some 1 ↔
      (Token1.TokenType = Token2.TokenType ∧
        (Token1.TokenType = .SPECIAL_TOKEN →
          ∃ s, stringOf Token1.Value = some s ∧ stringOf Token2.Value = some s)) ∨
      (Token1.TokenType = .GLOBAL_ID ∧ Token2.TokenType = .GLOBAL_UNRESOLVED_ID) ∨
      (Token1.TokenType = .GLOBAL_UNRESOLVED_ID ∧ Token2.TokenType = .GLOBAL_ID) ∨
      (Token1.TokenType = .LOCAL_ID ∧ Token2.TokenType = .LOCAL_UNRESOLVED_ID) ∨
      (Token1.TokenType = .LOCAL_UNRESOLVED_ID ∧ Token2.TokenType = .LOCAL_ID)) ∧
    (IsEqual Token1 Token2 = none ↔
      Token1.TokenType = Token2.TokenType ∧ Token1.TokenType = .SPECIAL_TOKEN ∧
        (stringOf Token1.Value = none ∨ stringOf Token2.Value = none)) ∧
    (IsEqual Token1 Token2 = some 1 ∨ IsEqual Token1 Token2 = some 0 ∨
      IsEqual Token1 Token2 = none) := by
  obtain ⟨Type1, Value1, Len1, MaxLen1, VariableType1⟩ := Token1
  obtain ⟨Type2, Value2, Len2, MaxLen2, VariableType2⟩ := Token2
  by_cases hT : Type1 = Type2
  · subst hT
    by_cases hS : Type1 = .SPECIAL_TOKEN
    · subst hS
      cases h1 : stringOf Value1 with
      | none => simp [IsEqual, strcmp, h1]
      | some s =>
        cases h2 : stringOf Value2 with
        | none => simp [IsEqual, strcmp, h1, h2]
        | some t =>
          by_cases hst : s = t
          · simp [IsEqual, strcmp, h1, h2, hst, (compareStrings_eq_zero_iff t t).mpr rfl]
          · have hc : compareStrings s t ≠ 0 := fun h =>
              hst ((compareStrings_eq_zero_iff s t).mp h)
            have hts : ¬ t = s := fun h => hst h.symm
            simp [IsEqual, strcmp, h1, h2, hst, hts, hc]
    · cases Type1 <;> simp [IsEqual] at hS ⊢
  · simp only [IsEqual, if_neg hT]
    split_ifs with g1 g2 g3 g4
    · simp [g1, hT]
    · simp [g2, hT]
    · simp [g3, hT]
    · simp [g4, hT]
    · simp only [not_and] at g1 g2 g3 g4
      simp [hT]
      tauto

/-- C35 fails on the code for wide strings.  The token `wideStringToken` is what
`NewUnknownToken()` followed by two calls of `AppendWchar` (`L'a'`, then `L'b'`) builds: its value
is the four bytes `'a', 0, 'b', 0` and its `Len` is 4.  `CopyToken` measures the value with
`strlen`, which stops at the high byte of `L'a'`: the copy keeps `Type`, `Len = 4`, `MaxLen` and
`VariableType`, but its value block has two bytes only, `'a'` and NUL, so the byte at position 2
(`'b'`) is not in the copy. -/
theorem C35_copy_token_truncates_wide_strings :
    ((NewUnknownToken sampleScriptEngineConstants true true).bind fun Token =>
      Token.bind fun Token =>
        (AppendWchar true { Token with TokenType := .WSTRING } 'a'.toNat).bind fun Token =>
          AppendWchar true Token 'b'.toNat) = some wideStringToken ∧
    CopyToken true true wideStringToken
      = some (some { wideStringToken with Value := [charCode 'a', 0] }) ∧
    wideStringToken.Len = 4 ∧
    wideStringToken.Value[2]? = some (charCode 'b') ∧
    ([charCode 'a', 0] : List Int)[2]? = none := by
  decide

/-- C39 fails on the code for `NewToken` with the empty string.  `NewToken(STRING, "")` returns a
token with `Len = 0`, `MaxLen = 0` and a value block of one byte.  The first `AppendByte` does not
grow the block (`MaxLen - 1` wraps around in `unsigned int`, and doubling 0 would give 0 again):
it stores the character over the terminator and leaves `Len = 1` above `MaxLen = 0`.  The second
`AppendByte` stores at index 1 of the one-byte block, outside of it.  A token from
`NewUnknownToken()` takes the two characters and keeps `Len` below `MaxLen`. -/
theorem C39_append_byte_after_empty_new_token :
    NewToken true true .STRING [] = some (some emptyStringToken) ∧
    AppendByte true emptyStringToken (charCode 'a')
      = some { emptyStringToken with Value := [charCode 'a'], Len := 1 } ∧
    ¬ ((1 : Nat) ≤ emptyStringToken.MaxLen) ∧
    AppendByte true { emptyStringToken with Value := [charCode 'a'], Len := 1 } (charCode 'b')
      = none ∧
    ((NewUnknownToken sampleScriptEngineConstants true true).bind fun Token =>
      Token.bind fun Token =>
        (AppendByte true Token (charCode 'a')).bind fun Token =>
          AppendByte true Token (charCode 'b'))
      = some
          { TokenType := .UNKNOWN
            Value := [charCode 'a', charCode 'b', 0, 0, 0, 0, 0, 0, 0]
            Len := 2
            MaxLen := 8
            VariableType := 0 } := by
  decide

/-! ## Theorems about token lists -/

theorem malloc_length {α : Type} (Fill : Nat → α) (Count : Nat) :
    (malloc Fill Count).length = Count := by
  simp [malloc]

theorem storeAt_of_lt {α : Type} (Block : List α) (Index : Nat) (Value : α)
    (h : Index < Block.length) : storeAt Block Index Value = some (Block.set Index Value) := by
  unfold storeAt
  rw [if_pos h]

theorem push_of_room (NewHead : Option (Nat → PSCRIPT_ENGINE_TOKEN))
    (TokenList : SCRIPT_ENGINE_TOKEN_LIST) (Token : PSCRIPT_ENGINE_TOKEN)
    (h : TokenList.wellFormed) (hroom : TokenList.Pointer + 1 < TokenList.Size) :
    Push NewHead TokenList Token
      = some (true, { TokenList with
                      Head := TokenList.Head.set TokenList.Pointer Token,
                      Pointer := TokenList.Pointer + 1 }) := by
  obtain ⟨hP, hS, hH⟩ := h
  have hne : ¬ TokenList.Pointer = toUINT32 (TokenList.Size + (2 ^ 32 - 1)) := by
    unfold toUINT32
    omega
  unfold Push
  dsimp only
  rw [storeAt_of_lt _ _ _ (by omega)]
  simp only [Option.some_bind]
  rw [if_neg hne, toUINT32_of_lt (by omega)]

theorem push_of_full (NewHead : Option (Nat → PSCRIPT_ENGINE_TOKEN))
    (TokenList : SCRIPT_ENGINE_TOKEN_LIST) (Token : PSCRIPT_ENGINE_TOKEN)
    (h : TokenList.wellFormed) (hfull : TokenList.Pointer + 1 = TokenList.Size) :
    Push NewHead TokenList Token
      = match NewHead with
        | none =>
          some (false, { TokenList with
                          Head := TokenList.Head.set TokenList.Pointer Token,
                          Pointer := TokenList.Pointer + 1 })
        | some Fill =>
          (memcpy (malloc Fill (toUINT32 (2 * TokenList.Size)))
              (TokenList.Head.set TokenList.Pointer Token) TokenList.Size).map fun Block =>
            (true, { Head := Block,
                     Pointer := TokenList.Pointer + 1,
                     Size := toUINT32 (TokenList.Size * 2) }) := by
  obtain ⟨hP, hS, hH⟩ := h
  have heq : TokenList.Pointer = toUINT32 (TokenList.Size + (2 ^ 32 - 1)) := by
    unfold toUINT32
    omega
  unfold Push
  dsimp only
  rw [storeAt_of_lt _ _ _ (by omega)]
  simp only [Option.some_bind]
  rw [if_pos heq, toUINT32_of_lt (by omega)]

theorem pop_after_store (Head : List PSCRIPT_ENGINE_TOKEN) (Pointer Size : Nat)
    (Token : PSCRIPT_ENGINE_TOKEN) (h : Head[Pointer]? = some Token) :
    Pop { Head := Head, Pointer := Pointer + 1, Size := Size }
      = some (Token, { Head := Head, Pointer := Pointer, Size := Size }) := by
  unfold Pop
  simp [h]
/-- C34: let `TokenList` be a token list (`Pointer < Size`, with `Size` a value of its
`unsigned int` field and a block `Head` that has room for `Size` pointers) and `Token` any token
pointer.  Whenever `Push` returns, with or without a new buffer, the following `Pop` returns
`Token`, puts `Pointer` back to its value before the `Push`, and the elements below that position
are the ones from before the `Push`; after a `Push` that returns the list (not `NULL`) the list
is again a token list, so `Pointer < Size` still holds.  `Push` does return the list: without
doubling when `Pointer + 1 < Size`, and with `Size` doubled when `Pointer + 1 = Size`, the
allocation succeeds and `2 * Size` is a value of the `unsigned int` field. -/
theorem C34_push_then_pop (NewHead : Option (Nat → PSCRIPT_ENGINE_TOKEN))
    (TokenList : SCRIPT_ENGINE_TOKEN_LIST) (Token : PSCRIPT_ENGINE_TOKEN)
    (h : TokenList.wellFormed) :
    (∀ (Result : Bool) (Pushed : SCRIPT_ENGINE_TOKEN_LIST),
      Push NewHead TokenList Token = some (Result, Pushed) →
        Pop Pushed = some (Token, { Pushed with Pointer := TokenList.Pointer }) ∧
        (∀ i : Nat, i < TokenList.Pointer → Pushed.Head[i]? = TokenList.Head[i]?) ∧
        (Result = true → Pushed.wellFormed)) ∧
    (TokenList.Pointer + 1 < TokenList.Size →
      ∃ Pushed, Push NewHead TokenList Token = some (true, Pushed) ∧
        Pushed.Size = TokenList.Size) ∧
    (TokenList.Pointer + 1 = TokenList.Size → 2 * TokenList.Size < 2 ^ 32 →
      ∀ Fill, NewHead = some Fill →
        ∃ Pushed, Push NewHead TokenList Token = some (true, Pushed) ∧
          Pushed.Size = 2 * TokenList.Size) := by
  have hwf := h
  obtain ⟨hP, hS, hH⟩ := h
  have hstored : (TokenList.Head.set TokenList.Pointer Token)[TokenList.Pointer]? = some Token := by
    rw [List.getElem?_set_self (by omega)]
  have hbelow : ∀ i : Nat, i < TokenList.Pointer →
      (TokenList.Head.set TokenList.Pointer Token)[i]? = TokenList.Head[i]? := by
    intro i hi
    rw [List.getElem?_set_ne (by omega)]
  refine ⟨fun Result Pushed hpush => ?_, fun hroom => ?_, fun hfull h2 Fill hNew => ?_⟩
  · rcases Nat.lt_or_ge (TokenList.Pointer + 1) TokenList.Size with hroom | hge
    · rw [push_of_room NewHead TokenList Token hwf hroom] at hpush
      simp only [Option.some.injEq, Prod.mk.injEq] at hpush
      obtain ⟨rfl, rfl⟩ := hpush
      refine ⟨pop_after_store _ _ _ _ hstored, hbelow, fun _ => ⟨hroom, hS, ?_⟩⟩
      simpa using hH
    · have hfull : TokenList.Pointer + 1 = TokenList.Size := by omega
      rw [push_of_full NewHead TokenList Token hwf hfull] at hpush
      cases NewHead with
      | none =>
        simp only [Option.some.injEq, Prod.mk.injEq] at hpush
        obtain ⟨rfl, rfl⟩ := hpush
        exact ⟨pop_after_store _ _ _ _ hstored, hbelow, fun hr => by simp at hr⟩
      | some Fill =>
        simp only [memcpy, malloc_length, List.length_set] at hpush
        split_ifs at hpush with hfit
        · simp only [Option.map_some', Option.some.injEq, Prod.mk.injEq] at hpush
          obtain ⟨rfl, rfl⟩ := hpush
          have htake : ∀ i : Nat, i < TokenList.Size →
              (List.take TokenList.Size (TokenList.Head.set TokenList.Pointer Token) ++
                List.drop TokenList.Size (malloc Fill (toUINT32 (2 * TokenList.Size))))[i]?
                = (TokenList.Head.set TokenList.Pointer Token)[i]? := by
            intro i hi
            rw [List.getElem?_append_left (by simp; omega), List.getElem?_take_of_lt hi]
          have h2 : 2 * TokenList.Size < 2 ^ 32 := by
            have := hfit.1
            unfold toUINT32 at this
            omega
          refine ⟨pop_after_store _ _ _ _ ((htake _ hP).trans hstored),
            fun i hi => (htake i (by omega)).trans (hbelow i hi), fun _ => ⟨?_, ?_, ?_⟩⟩
          · show TokenList.Pointer + 1 < toUINT32 (TokenList.Size * 2)
            unfold toUINT32
            omega
          · show toUINT32 (TokenList.Size * 2) < 2 ^ 32
            unfold toUINT32
            omega
          · show toUINT32 (TokenList.Size * 2) ≤ _
            simp only [List.length_append, List.length_take, List.length_drop, List.length_set,
              malloc_length]
            unfold toUINT32
            omega
        · simp at hpush
  · exact ⟨_, push_of_room NewHead TokenList Token hwf hroom, rfl⟩
  · subst hNew
    rw [push_of_full (some Fill) TokenList Token hwf hfull]
    have hfit : TokenList.Size ≤ (malloc Fill (toUINT32 (2 * TokenList.Size))).length ∧
        TokenList.Size ≤ (TokenList.Head.set TokenList.Pointer Token).length := by
      rw [malloc_length, List.length_set, toUINT32_of_lt h2]
      omega
    simp only [memcpy, if_pos hfit, Option.map_some']
    exact ⟨_, rfl, by show toUINT32 (TokenList.Size * 2) = _; rw [toUINT32_of_lt (by omega)]; omega⟩

/-- A concrete run of C34: `NewTokenList` makes a list with four free slots; on the list
`fullSampleTokenList`, which uses three of its four slots, `Push` of a pointer to `decimalTwelve`
doubles the buffer to eight slots, and the following `Pop` returns that pointer and puts
`Pointer` back to 3. -/
theorem C34_push_then_pop_witness :
    NewTokenList sampleScriptEngineConstants true (some fun _ => none)
      = some { Head := [none, none, none, none], Pointer := 0, Size := 4 } ∧
    fullSampleTokenList.wellFormed ∧
    Push (some fun _ => none) fullSampleTokenList (some decimalTwelve)
      = some (true, pushedSampleTokenList) ∧
    Pop pushedSampleTokenList
      = some (some decimalTwelve, { pushedSampleTokenList with Pointer := 3 }) ∧
    pushedSampleTokenList.wellFormed :=
  ⟨by decide,
   ⟨by decide, by decide, by decide⟩,
   by decide,
   ((C34_push_then_pop (some fun _ => none) fullSampleTokenList (some decimalTwelve)
      ⟨by decide, by decide, by decide⟩).1 true pushedSampleTokenList (by decide)).1,
   ((C34_push_then_pop (some fun _ => none) fullSampleTokenList (some decimalTwelve)
      ⟨by decide, by decide, by decide⟩).1 true pushedSampleTokenList (by decide)).2.2 rfl⟩

end HyperDbg
